import Mathlib

/-! Recorder query engine (CarlaRecorderQuery.cpp).

A shallow embedding of `CarlaRecorderQuery::QueryInfo`, `QueryCollisions` and
`QueryBlocked`, of the helpers `ReadHeader`, `SkipPacket`, `CheckFileInfo`, and of the
parts of `std::ifstream` / `std::stringstream` those functions rely on.

Conventions.
* A byte is a natural number (read modulo 256); fixed-width integers are natural
  numbers obtained by little-endian decoding; a `float` / `double` is carried as its
  raw bit pattern and rendered through the `Platform`.
* A member or local that a failed read leaves untouched keeps its previous value.
* Behaviour the C++ standard leaves undefined (an index past the end of `Categories`,
  the use of the local `Total` before any read stored a value in it) is the result
  `Fault.undefinedBehaviour`.
-/

namespace CarlaRecorder

/-! ## std::ifstream -/

/-- The state of the member `File` (a `std::ifstream` opened in binary mode). -/
structure IfStream where
  data : List Nat
  pos : Nat
  isOpen : Bool
  eofbit : Bool
  failbit : Bool
deriving DecidableEq

/-- `good()`: no state flag is set. -/
def IfStream.good (f : IfStream) : Bool := !f.eofbit && !f.failbit

/-- `eof()`: the eofbit, which only a read that ran past the end sets. -/
def IfStream.eof (f : IfStream) : Bool := f.eofbit

/-- `operator bool`, that is `!fail()`. -/
def IfStream.toBool (f : IfStream) : Bool := !f.failbit

/-- The bytes from the read position to the end of the file. -/
def IfStream.rest (f : IfStream) : List Nat :=
  if f.isOpen then f.data.drop f.pos else []

/-- `read(buffer, n)`: on a stream that is not good only failbit is set; otherwise `n`
bytes are extracted, and when fewer than `n` remain the stream takes what is left and
sets eofbit and failbit.  The first component is the block read, when it is complete. -/
def IfStream.read (f : IfStream) (n : Nat) : Option (List Nat) × IfStream :=
  if f.good then
    if n ≤ f.rest.length then
      (some (f.rest.take n), { f with pos := f.pos + n })
    else
      (none, { f with pos := f.pos + f.rest.length, eofbit := true, failbit := true })
  else
    (none, { f with failbit := true })

/-- `seekg(off, std::ios::cur)` with `off ≥ 0`: eofbit is cleared first; a failed stream
is left where it is; on an open file the position moves (also past the end). -/
def IfStream.seekg (f : IfStream) (off : Nat) : IfStream :=
  if f.failbit then { f with eofbit := false }
  else if f.isOpen then { f with eofbit := false, pos := f.pos + off }
  else { f with eofbit := false, failbit := true }

/-- `open(name, std::ios::binary)`; `content` is the content of the named file, when it
exists.  Opening a stream that is already open fails and sets failbit; a successful open
clears the state flags. -/
def IfStream.open (f : IfStream) (content : Option (List Nat)) : IfStream :=
  if f.isOpen then { f with failbit := true }
  else
    match content with
    | some bytes => { data := bytes, pos := 0, isOpen := true, eofbit := false, failbit := false }
    | none => { f with failbit := true }

/-- `close()`. -/
def IfStream.close (f : IfStream) : IfStream :=
  if f.isOpen then { f with isOpen := false } else { f with failbit := true }

/-! ## std::stringstream used as the report buffer `Info` -/

/-- The report buffer with the sticky formatting state the queries change:
`std::fixed`, `std::setprecision`, `std::left` / `std::right`. -/
structure OStream where
  buf : String
  fixed : Bool
  precision : Nat
  leftAdjust : Bool
deriving DecidableEq

/-- A freshly constructed `std::stringstream`. -/
def OStream.init : OStream :=
  { buf := "", fixed := false, precision := 6, leftAdjust := false }

/-- Padding of one inserted item to the field width set by `std::setw`. -/
def padField (leftAdjust : Bool) (w : Nat) (s : String) : String :=
  if leftAdjust then s ++ String.mk (List.replicate (w - s.length) ' ')
  else String.mk (List.replicate (w - s.length) ' ') ++ s

/-- `Info << std::setw(w) << s` (the width applies to this one insertion). -/
def OStream.putW (o : OStream) (w : Nat) (s : String) : OStream :=
  { o with buf := o.buf ++ padField o.leftAdjust w s }

/-- `Info << s` with no field width. -/
def OStream.put (o : OStream) (s : String) : OStream := o.putW 0 s

/-- `Info << std::endl`. -/
def OStream.endl (o : OStream) : OStream := o.put "\n"

/-! ## What the sources under src/ leave to other files and to the platform -/

/-- The enumerators of `CarlaRecorderPacketId` that label a `case` of the three
`switch (Header.Id)` statements; `other` stands for the `default` label. -/
inductive PacketKind where
  | FrameStart | FrameEnd | EventAdd | EventDel | EventParent | Collision | Position
  | State | AnimVehicle | AnimWalker | VehicleDoor | VehicleLight | SceneLight
  | Kinematics | BoundingBox | TriggerVolume | PlatformTime | PhysicsControl
  | TrafficLightTime | WalkerBones | other
deriving DecidableEq

/-- Everything the three queries take from outside CarlaRecorderQuery.cpp and that the
specification does not pin down: it is a parameter of the embedding.
* `GetRecorderFilename`: the file name resolver (CarlaRecorderHelpers.h);
* `decodeText`: the decoding of the bytes of a length-prefixed text;
* `formatDate`: `localtime` followed by `strftime` with the pattern `%x %X`;
* `formatDouble fixed precision bits`, `formatFloat`: `operator<<` on a `double` and on a
  `float`, given the stream's floatfield and precision;
* `packetKind`: the numbering of the enum `CarlaRecorderPacketId` (CarlaRecorder.h), as
  the map from the byte `Header.Id` to the `case` label it selects. -/
structure Platform where
  GetRecorderFilename : String → String
  decodeText : List Nat → String
  formatDate : Nat → String
  formatDouble : Bool → Nat → Nat → String
  formatFloat : Bool → Nat → Nat → String
  packetKind : Nat → PacketKind

/-- `Info << std::setw(w) << x` for a `double` with bit pattern `x`. -/
def OStream.putDouble (P : Platform) (o : OStream) (w : Nat) (x : Nat) : OStream :=
  o.putW w (P.formatDouble o.fixed o.precision x)

/-- `Info << x` for a `float` with bit pattern `x`. -/
def OStream.putFloat (P : Platform) (o : OStream) (x : Nat) : OStream :=
  o.putW 0 (P.formatFloat o.fixed o.precision x)

/-- `Info << n` for an unsigned integer, with field width `w`. -/
def OStream.putNat (o : OStream) (w : Nat) (n : Nat) : OStream :=
  o.putW w (toString n)

/-! ## Byte reader (CarlaRecorderHelpers.h) -/

/-- Little-endian value of a block of bytes. -/
def leValue : List Nat → Nat
  | [] => 0
  | b :: bs => b % 256 + 256 * leValue bs

/-- Modelled from the spec: `ReadValue<T>` is declared in CarlaRecorderHelpers.h, which is
not under src/.  Section 4.1: a fixed-width little-endian read of `n` bytes that fails
when the source returns fewer bytes than requested.  The function returns `void` and
fills `OutValue` by reference, so a failed read leaves `OutValue` as it was and the
failure shows in the state of `File` only. -/
def ReadValue (n : Nat) (File : IfStream) (OutValue : Nat) : Nat × IfStream :=
  match File.read n with
  | (some bytes, f) => (leValue bytes, f)
  | (none, f) => (OutValue, f)

/-- Modelled from the spec: the length-prefixed text reader of CarlaRecorderHelpers.h
(section 4.1, `read_string`): a 16-bit length, then that many bytes of text. -/
def ReadFString (P : Platform) (File : IfStream) (OutValue : String) : String × IfStream :=
  match File.read 2 with
  | (some len, f) =>
    match f.read (leValue len) with
    | (some bytes, g) => (P.decodeText bytes, g)
    | (none, g) => (OutValue, g)
  | (none, f) => (OutValue, f)

/-- Three `float` components (`Location`, `Rotation`, velocities, box corners). -/
structure FVector where
  X : Nat
  Y : Nat
  Z : Nat
deriving DecidableEq

/-- Modelled from the spec: `read_vector3`, three consecutive 32-bit floats. -/
def ReadFVector (File : IfStream) (OutValue : FVector) : FVector × IfStream :=
  let x := ReadValue 4 File OutValue.X
  let y := ReadValue 4 x.2 OutValue.Y
  let z := ReadValue 4 y.2 OutValue.Z
  ({ X := x.1, Y := y.1, Z := z.1 }, z.2)

/-! ## Records and their codecs

The record classes and their `Read` members live in the Recorder headers that are not
under src/; their wire layouts are the ones of section 4.3 of the specification. -/

/-- The member `Header`: the packet header read by `ReadHeader`. -/
structure CarlaRecorderPacketHeader where
  Id : Nat
  Size : Nat
deriving DecidableEq

/-- The member `RecInfo`: the file header. -/
structure CarlaRecorderInfo where
  Magic : String
  Version : Nat
  Mapfile : String
  Date : Nat
deriving DecidableEq

/-- Modelled from the spec: `CarlaRecorderInfo::Read` is not under src/.  Section 6:
`FileHeader := u16 magicLen, bytes, u16 version, u16 mapLen, bytes, i64 date`. -/
def CarlaRecorderInfo.Read (P : Platform) (File : IfStream) (r : CarlaRecorderInfo) :
    CarlaRecorderInfo × IfStream :=
  let magic := ReadFString P File r.Magic
  let version := ReadValue 2 magic.2 r.Version
  let mapfile := ReadFString P version.2 r.Mapfile
  let date := ReadValue 8 mapfile.2 r.Date
  ({ Magic := magic.1, Version := version.1, Mapfile := mapfile.1, Date := date.1 }, date.2)

/-- The member `Frame`. -/
structure CarlaRecorderFrame where
  Id : Nat
  Elapsed : Nat
  DurationThis : Nat
deriving DecidableEq

/-- Modelled from the spec: `CarlaRecorderFrame::Read` is not under src/.  Section 4.3:
`Id:u64, Elapsed:f64, DurationThis:f64`. -/
def CarlaRecorderFrame.Read (File : IfStream) (r : CarlaRecorderFrame) :
    CarlaRecorderFrame × IfStream :=
  let id := ReadValue 8 File r.Id
  let elapsed := ReadValue 8 id.2 r.Elapsed
  let duration := ReadValue 8 elapsed.2 r.DurationThis
  ({ Id := id.1, Elapsed := elapsed.1, DurationThis := duration.1 }, duration.2)

/-- One attribute of an actor description. -/
structure CarlaRecorderActorAttribute where
  Type_ : Nat
  Id : String
  Value : String
deriving DecidableEq

/-- Modelled from the spec: one element `Type:u8, Id:string, Value:string` of the
attribute list of an `EventAdd` record. -/
def CarlaRecorderActorAttribute.Read (P : Platform) (File : IfStream)
    (r : CarlaRecorderActorAttribute) : CarlaRecorderActorAttribute × IfStream :=
  let type := ReadValue 1 File r.Type_
  let id := ReadFString P type.2 r.Id
  let value := ReadFString P id.2 r.Value
  ({ Type_ := type.1, Id := id.1, Value := value.1 }, value.2)

/-- Reads `n` consecutive elements with the element reader `readOne`, each into a fresh
element `fresh`. -/
def readElements {α : Type} (readOne : IfStream → α → α × IfStream) (fresh : α) :
    Nat → IfStream → List α × IfStream
  | 0, File => ([], File)
  | n + 1, File =>
    let head := readOne File fresh
    let tail := readElements readOne fresh n head.2
    (head.1 :: tail.1, tail.2)

/-- Modelled from the spec: a list field inside a record is written like a list-valued
packet, a 16-bit count and then that many elements.  When the count cannot be read the
list keeps its value. -/
def readCounted {α : Type} (readOne : IfStream → α → α × IfStream) (fresh : α)
    (File : IfStream) (OutValue : List α) : List α × IfStream :=
  match File.read 2 with
  | (some count, f) => readElements readOne fresh (leValue count) f
  | (none, f) => (OutValue, f)

/-- The description of a created actor. -/
structure CarlaRecorderActorDescription where
  Id : String
  Attributes : List CarlaRecorderActorAttribute
deriving DecidableEq

/-- The member `EventAdd`. -/
structure CarlaRecorderEventAdd where
  DatabaseId : Nat
  Type_ : Nat
  Location : FVector
  Rotation : FVector
  Description : CarlaRecorderActorDescription
deriving DecidableEq

/-- Modelled from the spec: `CarlaRecorderEventAdd::Read` is not under src/.  Section 4.3:
`DatabaseId:u32, Type:u8, Location:Vec3, Rotation:Vec3, Description.Id:string,
Attributes:[...]`. -/
def CarlaRecorderEventAdd.Read (P : Platform) (File : IfStream) (r : CarlaRecorderEventAdd) :
    CarlaRecorderEventAdd × IfStream :=
  let databaseId := ReadValue 4 File r.DatabaseId
  let type := ReadValue 1 databaseId.2 r.Type_
  let location := ReadFVector type.2 r.Location
  let rotation := ReadFVector location.2 r.Rotation
  let id := ReadFString P rotation.2 r.Description.Id
  let attributes := readCounted (CarlaRecorderActorAttribute.Read P)
    { Type_ := 0, Id := "", Value := "" } id.2 r.Description.Attributes
  ({ DatabaseId := databaseId.1, Type_ := type.1, Location := location.1,
     Rotation := rotation.1, Description := { Id := id.1, Attributes := attributes.1 } },
   attributes.2)

/-- The member `EventDel`. -/
structure CarlaRecorderEventDel where
  DatabaseId : Nat
deriving DecidableEq

/-- Modelled from the spec: `CarlaRecorderEventDel::Read`, `DatabaseId:u32`. -/
def CarlaRecorderEventDel.Read (File : IfStream) (r : CarlaRecorderEventDel) :
    CarlaRecorderEventDel × IfStream :=
  let databaseId := ReadValue 4 File r.DatabaseId
  ({ DatabaseId := databaseId.1 }, databaseId.2)

/-- The member `EventParent`. -/
structure CarlaRecorderEventParent where
  DatabaseId : Nat
  DatabaseIdParent : Nat
deriving DecidableEq

/-- Modelled from the spec: `CarlaRecorderEventParent::Read`,
`DatabaseId:u32, DatabaseIdParent:u32`. -/
def CarlaRecorderEventParent.Read (File : IfStream) (r : CarlaRecorderEventParent) :
    CarlaRecorderEventParent × IfStream :=
  let databaseId := ReadValue 4 File r.DatabaseId
  let parent := ReadValue 4 databaseId.2 r.DatabaseIdParent
  ({ DatabaseId := databaseId.1, DatabaseIdParent := parent.1 }, parent.2)

/-- The member `Collision`. -/
structure CarlaRecorderCollision where
  Id : Nat
  IsActor1Hero : Nat
  IsActor2Hero : Nat
  DatabaseId1 : Nat
  DatabaseId2 : Nat
deriving DecidableEq

/-- Modelled from the spec: `CarlaRecorderCollision::Read` is not under src/.  Section 4.3:
`Id:u32, IsActor1Hero:u8, IsActor2Hero:u8, DatabaseId1:u32, DatabaseId2:u32`. -/
def CarlaRecorderCollision.Read (File : IfStream) (r : CarlaRecorderCollision) :
    CarlaRecorderCollision × IfStream :=
  let id := ReadValue 4 File r.Id
  let hero1 := ReadValue 1 id.2 r.IsActor1Hero
  let hero2 := ReadValue 1 hero1.2 r.IsActor2Hero
  let databaseId1 := ReadValue 4 hero2.2 r.DatabaseId1
  let databaseId2 := ReadValue 4 databaseId1.2 r.DatabaseId2
  ({ Id := id.1, IsActor1Hero := hero1.1, IsActor2Hero := hero2.1,
     DatabaseId1 := databaseId1.1, DatabaseId2 := databaseId2.1 }, databaseId2.2)

/-- The member `Position`. -/
structure CarlaRecorderPosition where
  DatabaseId : Nat
  Location : FVector
  Rotation : FVector
deriving DecidableEq

/-- Modelled from the spec: `CarlaRecorderPosition::Read`,
`DatabaseId:u32, Location:Vec3, Rotation:Vec3`. -/
def CarlaRecorderPosition.Read (File : IfStream) (r : CarlaRecorderPosition) :
    CarlaRecorderPosition × IfStream :=
  let databaseId := ReadValue 4 File r.DatabaseId
  let location := ReadFVector databaseId.2 r.Location
  let rotation := ReadFVector location.2 r.Rotation
  ({ DatabaseId := databaseId.1, Location := location.1, Rotation := rotation.1 }, rotation.2)

/-- The member `StateTraffic`. -/
structure CarlaRecorderStateTrafficLight where
  DatabaseId : Nat
  State : Nat
  IsFrozen : Nat
  ElapsedTime : Nat
deriving DecidableEq

/-- Modelled from the spec: `DatabaseId:u32, State:u8, IsFrozen:u8, ElapsedTime:f32`. -/
def CarlaRecorderStateTrafficLight.Read (File : IfStream)
    (r : CarlaRecorderStateTrafficLight) : CarlaRecorderStateTrafficLight × IfStream :=
  let databaseId := ReadValue 4 File r.DatabaseId
  let state := ReadValue 1 databaseId.2 r.State
  let frozen := ReadValue 1 state.2 r.IsFrozen
  let elapsed := ReadValue 4 frozen.2 r.ElapsedTime
  ({ DatabaseId := databaseId.1, State := state.1, IsFrozen := frozen.1,
     ElapsedTime := elapsed.1 }, elapsed.2)

/-- The member `Vehicle`. -/
structure CarlaRecorderAnimVehicle where
  DatabaseId : Nat
  Steering : Nat
  Throttle : Nat
  Brake : Nat
  bHandbrake : Nat
  Gear : Nat
deriving DecidableEq

/-- Modelled from the spec:
`DatabaseId:u32, Steering,Throttle,Brake:f32, bHandbrake:u8, Gear:i32`. -/
def CarlaRecorderAnimVehicle.Read (File : IfStream) (r : CarlaRecorderAnimVehicle) :
    CarlaRecorderAnimVehicle × IfStream :=
  let databaseId := ReadValue 4 File r.DatabaseId
  let steering := ReadValue 4 databaseId.2 r.Steering
  let throttle := ReadValue 4 steering.2 r.Throttle
  let brake := ReadValue 4 throttle.2 r.Brake
  let handbrake := ReadValue 1 brake.2 r.bHandbrake
  let gear := ReadValue 4 handbrake.2 r.Gear
  ({ DatabaseId := databaseId.1, Steering := steering.1, Throttle := throttle.1,
     Brake := brake.1, bHandbrake := handbrake.1, Gear := gear.1 }, gear.2)

/-- The member `Walker`. -/
structure CarlaRecorderAnimWalker where
  DatabaseId : Nat
  Speed : Nat
deriving DecidableEq

/-- Modelled from the spec: `DatabaseId:u32, Speed:f32`. -/
def CarlaRecorderAnimWalker.Read (File : IfStream) (r : CarlaRecorderAnimWalker) :
    CarlaRecorderAnimWalker × IfStream :=
  let databaseId := ReadValue 4 File r.DatabaseId
  let speed := ReadValue 4 databaseId.2 r.Speed
  ({ DatabaseId := databaseId.1, Speed := speed.1 }, speed.2)

/-- The member `DoorVehicle`. -/
structure CarlaRecorderDoorVehicle where
  DatabaseId : Nat
  Doors : Nat
deriving DecidableEq

/-- Modelled from the spec: `DatabaseId:u32, Doors:bitmask(u8)`. -/
def CarlaRecorderDoorVehicle.Read (File : IfStream) (r : CarlaRecorderDoorVehicle) :
    CarlaRecorderDoorVehicle × IfStream :=
  let databaseId := ReadValue 4 File r.DatabaseId
  let doors := ReadValue 1 databaseId.2 r.Doors
  ({ DatabaseId := databaseId.1, Doors := doors.1 }, doors.2)

/-- The member `LightVehicle`. -/
structure CarlaRecorderLightVehicle where
  DatabaseId : Nat
  State : Nat
deriving DecidableEq

/-- Modelled from the spec: `DatabaseId:u32, State:u32 bitmask`. -/
def CarlaRecorderLightVehicle.Read (File : IfStream) (r : CarlaRecorderLightVehicle) :
    CarlaRecorderLightVehicle × IfStream :=
  let databaseId := ReadValue 4 File r.DatabaseId
  let state := ReadValue 4 databaseId.2 r.State
  ({ DatabaseId := databaseId.1, State := state.1 }, state.2)

/-- A colour of three 8-bit channels. -/
structure FColor where
  R : Nat
  G : Nat
  B : Nat
deriving DecidableEq

/-- The member `LightScene`. -/
structure CarlaRecorderLightScene where
  LightId : Nat
  bOn : Nat
  Intensity : Nat
  Color : FColor
deriving DecidableEq

/-- Modelled from the spec: `LightId:u32, bOn:u8, Intensity:f32, Color:(u8,u8,u8)`. -/
def CarlaRecorderLightScene.Read (File : IfStream) (r : CarlaRecorderLightScene) :
    CarlaRecorderLightScene × IfStream :=
  let lightId := ReadValue 4 File r.LightId
  let isOn := ReadValue 1 lightId.2 r.bOn
  let intensity := ReadValue 4 isOn.2 r.Intensity
  let red := ReadValue 1 intensity.2 r.Color.R
  let green := ReadValue 1 red.2 r.Color.G
  let blue := ReadValue 1 green.2 r.Color.B
  ({ LightId := lightId.1, bOn := isOn.1, Intensity := intensity.1,
     Color := { R := red.1, G := green.1, B := blue.1 } }, blue.2)

/-- The member `Kinematics`. -/
structure CarlaRecorderKinematics where
  DatabaseId : Nat
  LinearVelocity : FVector
  AngularVelocity : FVector
deriving DecidableEq

/-- Modelled from the spec: `DatabaseId:u32, LinearVelocity:Vec3, AngularVelocity:Vec3`. -/
def CarlaRecorderKinematics.Read (File : IfStream) (r : CarlaRecorderKinematics) :
    CarlaRecorderKinematics × IfStream :=
  let databaseId := ReadValue 4 File r.DatabaseId
  let linear := ReadFVector databaseId.2 r.LinearVelocity
  let angular := ReadFVector linear.2 r.AngularVelocity
  ({ DatabaseId := databaseId.1, LinearVelocity := linear.1, AngularVelocity := angular.1 },
   angular.2)

/-- The box of a `BoundingBox` or `TriggerVolume` record. -/
structure FBoundingBox where
  Origin : FVector
  Extension : FVector
deriving DecidableEq

/-- The member `ActorBoundingBox`, used for both `BoundingBox` and `TriggerVolume`. -/
structure CarlaRecorderActorBoundingBox where
  DatabaseId : Nat
  BoundingBox : FBoundingBox
deriving DecidableEq

/-- Modelled from the spec: `DatabaseId:u32, Origin:Vec3, Extension:Vec3`. -/
def CarlaRecorderActorBoundingBox.Read (File : IfStream)
    (r : CarlaRecorderActorBoundingBox) : CarlaRecorderActorBoundingBox × IfStream :=
  let databaseId := ReadValue 4 File r.DatabaseId
  let origin := ReadFVector databaseId.2 r.BoundingBox.Origin
  let extension := ReadFVector origin.2 r.BoundingBox.Extension
  ({ DatabaseId := databaseId.1,
     BoundingBox := { Origin := origin.1, Extension := extension.1 } }, extension.2)

/-- The member `PlatformTime`. -/
structure CarlaRecorderPlatformTime where
  Time : Nat
deriving DecidableEq

/-- Modelled from the spec: `Time:f64`, a singleton with no count in front. -/
def CarlaRecorderPlatformTime.Read (File : IfStream) (r : CarlaRecorderPlatformTime) :
    CarlaRecorderPlatformTime × IfStream :=
  let time := ReadValue 8 File r.Time
  ({ Time := time.1 }, time.2)

/-- The member `TrafficLightTime`. -/
structure CarlaRecorderTrafficLightTime where
  DatabaseId : Nat
  GreenTime : Nat
  YellowTime : Nat
  RedTime : Nat
deriving DecidableEq

/-- Modelled from the spec: `DatabaseId:u32, GreenTime,YellowTime,RedTime:f32`. -/
def CarlaRecorderTrafficLightTime.Read (File : IfStream)
    (r : CarlaRecorderTrafficLightTime) : CarlaRecorderTrafficLightTime × IfStream :=
  let databaseId := ReadValue 4 File r.DatabaseId
  let green := ReadValue 4 databaseId.2 r.GreenTime
  let yellow := ReadValue 4 green.2 r.YellowTime
  let red := ReadValue 4 yellow.2 r.RedTime
  ({ DatabaseId := databaseId.1, GreenTime := green.1, YellowTime := yellow.1,
     RedTime := red.1 }, red.2)

/-- One bone of a `WalkerBones` record. -/
structure CarlaRecorderWalkerBone where
  Name : String
  Location : FVector
  Rotation : FVector
deriving DecidableEq

/-- Modelled from the spec: `Name:string, Location:Vec3, Rotation:Vec3`. -/
def CarlaRecorderWalkerBone.Read (P : Platform) (File : IfStream)
    (r : CarlaRecorderWalkerBone) : CarlaRecorderWalkerBone × IfStream :=
  let name := ReadFString P File r.Name
  let location := ReadFVector name.2 r.Location
  let rotation := ReadFVector location.2 r.Rotation
  ({ Name := name.1, Location := location.1, Rotation := rotation.1 }, rotation.2)

/-- The member `WalkerBones`. -/
structure CarlaRecorderWalkerBones where
  DatabaseId : Nat
  Bones : List CarlaRecorderWalkerBone
deriving DecidableEq

/-- `WalkerBones.Clear()`. -/
def CarlaRecorderWalkerBones.Clear (r : CarlaRecorderWalkerBones) : CarlaRecorderWalkerBones :=
  { r with Bones := [] }

/-- Modelled from the spec: `DatabaseId:u32, Bones:[...]`. -/
def CarlaRecorderWalkerBones.Read (P : Platform) (File : IfStream)
    (r : CarlaRecorderWalkerBones) : CarlaRecorderWalkerBones × IfStream :=
  let databaseId := ReadValue 4 File r.DatabaseId
  let bones := readCounted (CarlaRecorderWalkerBone.Read P)
    { Name := "", Location := { X := 0, Y := 0, Z := 0 }, Rotation := { X := 0, Y := 0, Z := 0 } }
    databaseId.2 r.Bones
  ({ DatabaseId := databaseId.1, Bones := bones.1 }, bones.2)

/-- One wheel of `carla::rpc::VehiclePhysicsControl`.  The class is declared outside src/
and so are the types of its members: a scalar member is carried as the text that
`operator<<` gives it in the default format, a vector-like or curve-like member as the
texts `std::format` gives its components. -/
structure WheelPhysicsControl where
  axle_type : String
  offset : List String
  wheel_radius : String
  wheel_width : String
  wheel_mass : String
  cornering_stiffness : String
  friction_force_multiplier : String
  side_slip_modifier : String
  slip_threshold : String
  skid_threshold : String
  max_steer_angle : String
  affected_by_steering : String
  affected_by_brake : String
  affected_by_handbrake : String
  affected_by_engine : String
  abs_enabled : String
  traction_control_enabled : String
  max_wheelspin_rotation : String
  external_torque_combine_method : String
  lateral_slip_graph : List (String × String)
  suspension_axis : List String
  suspension_force_offset : List String
  suspension_max_raise : String
  suspension_max_drop : String
  suspension_damping_ratio : String
  wheel_load_ratio : String
  spring_rate : String
  spring_preload : String
  suspension_smoothing : String
  rollbar_scaling : String
  sweep_shape : String
  sweep_type : String
  max_brake_torque : String
  max_hand_brake_torque : String
  wheel_index : String
  location : List String
  old_location : List String
  velocity : List String
deriving DecidableEq

/-- The value `Control` that `FromFVehiclePhysicsControl` returns, as QueryInfo prints
it (see `WheelPhysicsControl` for the way members are carried). -/
structure VehiclePhysicsControl where
  max_torque : String
  max_rpm : String
  rev_up_moi : String
  rev_down_rate : String
  differential_type : String
  front_rear_split : String
  use_automatic_gears : Bool
  gear_change_time : String
  final_ratio : String
  change_up_rpm : String
  change_down_rpm : String
  transmission_efficiency : String
  mass : String
  drag_coefficient : String
  center_of_mass : String × String × String
  torque_curve : List (String × String)
  steering_curve : List (String × String)
  forward_gear_ratios : List String
  reverse_gear_ratios : List String
  wheels : List WheelPhysicsControl
deriving DecidableEq

/-- The member `PhysicsControl`. -/
structure CarlaRecorderPhysicsControl where
  DatabaseId : Nat
  VehiclePhysicsControl : VehiclePhysicsControl
deriving DecidableEq

/-- The codec of a `PhysicsControl` record (`CarlaRecorderPhysicsControl::Read` followed
by `FromFVehiclePhysicsControl`): neither is under src/ and the specification gives no
wire layout for the nested structure, so the codec is a parameter of `QueryInfo`. -/
structure PhysicsCodec where
  Read : IfStream → CarlaRecorderPhysicsControl → CarlaRecorderPhysicsControl × IfStream

/-! ## The query object -/

/-- The data members of `CarlaRecorderQuery` that CarlaRecorderQuery.cpp uses. -/
structure CarlaRecorderQuery where
  File : IfStream
  Header : CarlaRecorderPacketHeader
  RecInfo : CarlaRecorderInfo
  Frame : CarlaRecorderFrame
  EventAdd : CarlaRecorderEventAdd
  EventDel : CarlaRecorderEventDel
  EventParent : CarlaRecorderEventParent
  Collision : CarlaRecorderCollision
  Position : CarlaRecorderPosition
  StateTraffic : CarlaRecorderStateTrafficLight
  Vehicle : CarlaRecorderAnimVehicle
  Walker : CarlaRecorderAnimWalker
  DoorVehicle : CarlaRecorderDoorVehicle
  LightVehicle : CarlaRecorderLightVehicle
  LightScene : CarlaRecorderLightScene
  Kinematics : CarlaRecorderKinematics
  ActorBoundingBox : CarlaRecorderActorBoundingBox
  PlatformTime : CarlaRecorderPlatformTime
  PhysicsControl : CarlaRecorderPhysicsControl
  TrafficLightTime : CarlaRecorderTrafficLightTime
  WalkerBones : CarlaRecorderWalkerBones
deriving DecidableEq

/-- How a run of a query can fail to have a report. -/
inductive Fault where
  | undefinedBehaviour
  | outOfFuel
deriving DecidableEq

/-- `CarlaRecorderQuery::ReadHeader` (lines 59-70). -/
def ReadHeader (self : CarlaRecorderQuery) : Bool × CarlaRecorderQuery :=
  if self.File.eof then (false, self)
  else
    let id := ReadValue 1 self.File self.Header.Id
    let size := ReadValue 4 id.2 self.Header.Size
    (true, { self with File := size.2, Header := { Id := id.1, Size := size.1 } })

/-- `CarlaRecorderQuery::SkipPacket` (lines 72-75). -/
def SkipPacket (self : CarlaRecorderQuery) : CarlaRecorderQuery :=
  { self with File := self.File.seekg self.Header.Size }

/-- `CarlaRecorderQuery::CheckFileInfo` (lines 77-98). -/
def CheckFileInfo (P : Platform) (self : CarlaRecorderQuery) (Info : OStream) :
    Bool × CarlaRecorderQuery × OStream :=
  let rd := CarlaRecorderInfo.Read P self.File self.RecInfo
  let self1 := { self with File := rd.2, RecInfo := rd.1 }
  if rd.1.Magic ≠ "CARLA_RECORDER" then
    (false, self1, (Info.put "File is not a CARLA recorder").endl)
  else
    let i1 := ((Info.put "Version: ").putNat 0 rd.1.Version).endl
    let i2 := ((i1.put "Map: ").put rd.1.Mapfile).endl
    let i3 := (((i2.put "Date: ").put (P.formatDate rd.1.Date)).endl).endl
    (true, self1, i3)

/-- The trailer every query writes after its packet loop:
`Info << "\nFrames: " << Frame.Id << "\n"; Info << "Duration: " << Frame.Elapsed << " seconds\n";`. -/
def putTrailer (P : Platform) (Frame : CarlaRecorderFrame) (Info : OStream) : OStream :=
  let i1 := ((Info.put "\nFrames: ").putNat 0 Frame.Id).put "\n"
  ((i1.put "Duration: ").putDouble P 0 Frame.Elapsed).put " seconds\n"

/-- `ReadValue<uint16_t>(File, Total)` for the local `Total`, which holds no value until a
read stores one. -/
def ReadTotal (File : IfStream) (Total : Option Nat) : Option Nat × IfStream :=
  match File.read 2 with
  | (some bytes, f) => (some (leValue bytes), f)
  | (none, f) => (Total, f)

/-- `n` runs of a loop body. -/
def repeatBody {σ : Type} (body : σ → Except Fault σ) : Nat → σ → Except Fault σ
  | 0, s => .ok s
  | n + 1, s =>
    match body s with
    | .ok t => repeatBody body n t
    | .error e => .error e

/-- `for (i = 0; i < Total; ++i) body`. -/
def forTotal {σ : Type} (Total : Option Nat) (body : σ → Except Fault σ) (s : σ) :
    Except Fault σ :=
  match Total with
  | some n => repeatBody body n s
  | none => .error .undefinedBehaviour

/-! ## std::unordered_map and std::unordered_set, as lists -/

/-- `m.find(k)`. -/
def mapFind {α : Type} (m : List (Nat × α)) (k : Nat) : Option α :=
  (m.find? (fun e => e.1 == k)).map (fun e => e.2)

/-- `m[k]`: the mapped value, and the map, which gains a value-initialised entry when
the key was absent. -/
def mapIndex {α : Type} (dflt : α) (m : List (Nat × α)) (k : Nat) : α × List (Nat × α) :=
  match mapFind m k with
  | some v => (v, m)
  | none => (dflt, m ++ [(k, dflt)])

/-- `m[k] = v`. -/
def mapAssign {α : Type} (m : List (Nat × α)) (k : Nat) (v : α) : List (Nat × α) :=
  match mapFind m k with
  | some _ => m.map (fun e => if e.1 == k then (k, v) else e)
  | none => m ++ [(k, v)]

/-- `m.erase(k)`. -/
def mapErase {α : Type} (m : List (Nat × α)) (k : Nat) : List (Nat × α) :=
  m.filter (fun e => e.1 != k)

/-- `s.insert(p)` on a set of id pairs. -/
def setInsert (s : List (Nat × Nat)) (p : Nat × Nat) : List (Nat × Nat) :=
  if p ∈ s then s else s ++ [p]

/-! ## QueryCollisions (lines 717-895) -/

/-- The local struct `ReplayerActorInfo` of `QueryCollisions`. -/
structure ReplayerActorInfo where
  Type_ : Nat
  Id : String
deriving DecidableEq

/-- A value-initialised `ReplayerActorInfo`, as `Actors[key]` creates it. -/
def ReplayerActorInfo.init : ReplayerActorInfo := { Type_ := 0, Id := "" }

/-- The locals of `QueryCollisions` together with the query object. -/
structure CollisionsState where
  self : CarlaRecorderQuery
  Info : OStream
  Total : Option Nat
  Actors : List (Nat × ReplayerActorInfo)
  oldCollisions : List (Nat × Nat)
  newCollisions : List (Nat × Nat)
deriving DecidableEq

/-- `char Categories[] = { 'o', 'v', 'w', 't', 'h', 'a' }` (line 736). -/
def Categories : List Char := ['o', 'v', 'w', 't', 'h', 'a']

/-- Lines 823-826 (and 828-831): the category of one side of a collision,
`if (DatabaseId != uint32_t(-1)) Type = Categories[Actors[DatabaseId].Type]; else Type = 'o';`
with the actor table after the lookup. -/
def sideCategory (Actors : List (Nat × ReplayerActorInfo)) (DatabaseId : Nat) :
    Except Fault (Char × List (Nat × ReplayerActorInfo)) :=
  if DatabaseId ≠ 4294967295 then
    let entry := mapIndex ReplayerActorInfo.init Actors DatabaseId
    match Categories[entry.1.Type_]? with
    | some letter => .ok (letter, entry.2)
    | none => .error .undefinedBehaviour
  else
    .ok ('o', Actors)

/-- Lines 834-839 (and 842-847): what one side adds to `Valid`. -/
def filterActor (Category : Char) (Type_ : Char) (IsActorHero : Nat) : Nat :=
  if Category = 'a' then 1
  else if Category = Type_ then 1
  else if Category = 'h' ∧ IsActorHero ≠ 0 then 1
  else 0

/-- Lines 856-862: one row of the report. -/
def putCollisionRow (P : Platform) (Frame : CarlaRecorderFrame)
    (Collision : CarlaRecorderCollision) (Type1 Type2 : Char)
    (Info : OStream) (Actors : List (Nat × ReplayerActorInfo)) :
    OStream × List (Nat × ReplayerActorInfo) :=
  let i1 := OStream.putDouble P
    { Info with precision := 0, leftAdjust := false, fixed := true } 8 Frame.Elapsed
  let i2 := ((((i1.put " ").put "  ").put (String.singleton Type1)).put " ").put
    (String.singleton Type2) |>.put " "
  let i3 := OStream.putNat { (i2.put " ") with leftAdjust := false } 6 Collision.DatabaseId1
  let a1 := mapIndex ReplayerActorInfo.init Actors Collision.DatabaseId1
  let i4 := OStream.putW { (i3.put " ") with leftAdjust := true } 35 a1.1.Id
  let i5 := OStream.putNat { (i4.put " ") with leftAdjust := false } 6 Collision.DatabaseId2
  let a2 := mapIndex ReplayerActorInfo.init a1.2 Collision.DatabaseId2
  let i6 := OStream.putW { (i5.put " ") with leftAdjust := true } 35 a2.1.Id
  (i6.endl, a2.2)

/-- Lines 817-866: the body of the loop over the records of a `Collision` packet. -/
def collisionRecord (P : Platform) (Category1 Category2 : Char) (s : CollisionsState) :
    Except Fault CollisionsState :=
  let rd := CarlaRecorderCollision.Read s.self.File s.self.Collision
  let self1 := { s.self with File := rd.2, Collision := rd.1 }
  match sideCategory s.Actors rd.1.DatabaseId1 with
  | .error e => .error e
  | .ok (Type1, Actors1) =>
    match sideCategory Actors1 rd.1.DatabaseId2 with
    | .error e => .error e
    | .ok (Type2, Actors2) =>
      let Valid := filterActor Category1 Type1 rd.1.IsActor1Hero
        + filterActor Category2 Type2 rd.1.IsActor2Hero
      if Valid = 2 then
        let collisionPair := (rd.1.DatabaseId1, rd.1.DatabaseId2)
        let shown :=
          if collisionPair ∉ s.oldCollisions then
            putCollisionRow P self1.Frame rd.1 Type1 Type2 s.Info Actors2
          else (s.Info, Actors2)
        .ok { s with self := self1, Info := shown.1, Actors := shown.2,
                     newCollisions := setInsert s.newCollisions collisionPair }
      else
        .ok { s with self := self1, Actors := Actors2 }

/-- Lines 791-793: the body of the loop over the records of an `EventAdd` packet. -/
def collisionsEventAdd (P : Platform) (s : CollisionsState) : Except Fault CollisionsState :=
  let rd := CarlaRecorderEventAdd.Read P s.self.File s.self.EventAdd
  .ok { s with self := { s.self with File := rd.2, EventAdd := rd.1 },
               Actors := mapAssign s.Actors rd.1.DatabaseId
                 { Type_ := rd.1.Type_, Id := rd.1.Description.Id } }

/-- Lines 802-803: the body of the loop over the records of an `EventDel` packet,
`EventDel.Read(File); Actors.erase(EventAdd.DatabaseId);`. -/
def collisionsEventDel (s : CollisionsState) : Except Fault CollisionsState :=
  let rd := CarlaRecorderEventDel.Read s.self.File s.self.EventDel
  .ok { s with self := { s.self with File := rd.2, EventDel := rd.1 },
               Actors := mapErase s.Actors s.self.EventAdd.DatabaseId }

/-- `ReadValue<uint16_t>(File, Total)` on the state of `QueryCollisions`. -/
def CollisionsState.readTotal (s : CollisionsState) : CollisionsState :=
  let t := ReadTotal s.self.File s.Total
  { s with self := { s.self with File := t.2 }, Total := t.1 }

/-- Lines 776-886: the `switch (Header.Id)` of `QueryCollisions`. -/
def collisionsPacket (P : Platform) (Category1 Category2 : Char) (s : CollisionsState) :
    Except Fault CollisionsState :=
  match P.packetKind s.self.Header.Id with
  | .FrameStart =>
    let rd := CarlaRecorderFrame.Read s.self.File s.self.Frame
    .ok { s with self := { s.self with File := rd.2, Frame := rd.1 },
                 oldCollisions := s.newCollisions, newCollisions := [] }
  | .EventAdd => forTotal s.readTotal.Total (collisionsEventAdd P) s.readTotal
  | .EventDel => forTotal s.readTotal.Total collisionsEventDel s.readTotal
  | .EventParent => .ok { s with self := SkipPacket s.self }
  | .Collision =>
    forTotal s.readTotal.Total (collisionRecord P Category1 Category2) s.readTotal
  | .Position => .ok { s with self := SkipPacket s.self }
  | .State => .ok { s with self := SkipPacket s.self }
  | .FrameEnd => .ok s
  | _ => .ok { s with self := SkipPacket s.self }

/-- Lines 766-887: the packet loop `while (File)` of `QueryCollisions`, run for at most
`fuel` iterations. -/
def collisionsLoop (P : Platform) (Category1 Category2 : Char) :
    Nat → CollisionsState → Except Fault CollisionsState
  | 0, _ => .error .outOfFuel
  | fuel + 1, s =>
    if s.self.File.toBool then
      let h := ReadHeader s.self
      if h.1 then
        match collisionsPacket P Category1 Category2 { s with self := h.2 } with
        | .ok t => collisionsLoop P Category1 Category2 fuel t
        | .error e => .error e
      else .ok { s with self := h.2 }
    else .ok s

/-- Lines 757-763: the column header of the collisions report. -/
def putCollisionsHeader (Info : OStream) : OStream :=
  let i1 := Info.putW 8 "Time"
  let i2 := (i1.put " ").putW 6 "Types"
  let i3 := OStream.putW { (i2.put " ") with leftAdjust := false } 6 "Id"
  let i4 := OStream.putW { (i3.put " ") with leftAdjust := true } 35 "Actor 1"
  let i5 := OStream.putW { (i4.put " ") with leftAdjust := false } 6 "Id"
  let i6 := OStream.putW { (i5.put " ") with leftAdjust := true } 35 "Actor 2"
  i6.endl

/-- `CarlaRecorderQuery::QueryCollisions` (lines 717-895).  `fs` gives the content of the
file of a given name, when there is one; the result is the report and the query object
as the call leaves it. -/
def QueryCollisions (P : Platform) (fs : String → Option (List Nat))
    (self : CarlaRecorderQuery) (Filename : String) (Category1 Category2 : Char) :
    Except Fault (String × CarlaRecorderQuery) :=
  let Info := OStream.init
  let Filename2 := P.GetRecorderFilename Filename
  let self1 := { self with File := self.File.open (fs Filename2) }
  if !self1.File.isOpen then
    .ok ((Info.put ("File " ++ Filename2 ++ " not found on server\n")).buf, self1)
  else
    let chk := CheckFileInfo P self1 Info
    if !chk.1 then .ok (chk.2.2.buf, chk.2.1)
    else
      let s0 : CollisionsState :=
        { self := chk.2.1, Info := putCollisionsHeader chk.2.2, Total := none,
          Actors := [], oldCollisions := [], newCollisions := [] }
      match collisionsLoop P Category1 Category2 (chk.2.1.File.data.length + 2) s0 with
      | .error e => .error e
      | .ok s =>
        .ok ((putTrailer P s.self.Frame s.Info).buf,
             { s.self with File := s.self.File.close })

/-! ## QueryBlocked (lines 897-1063) -/

/-- Whether a bit pattern of a `double` is a NaN. -/
def doubleIsNaN (x : Nat) : Bool :=
  (x / 2 ^ 52) % 2048 = 2047 ∧ x % 2 ^ 52 ≠ 0

/-- An integer that orders the bit patterns of the doubles other than NaN as their
values are ordered (both zeros map to 0). -/
def doubleKey (x : Nat) : Int :=
  if (x / 2 ^ 63) % 2 = 1 then - ((x % 2 ^ 63 : Nat) : Int) else ((x % 2 ^ 63 : Nat) : Int)

/-- `x == y` on doubles. -/
def doubleEq (x y : Nat) : Bool :=
  !doubleIsNaN x && !doubleIsNaN y && decide (doubleKey x = doubleKey y)

/-- `x >= y` on doubles. -/
def doubleGe (x y : Nat) : Bool :=
  !doubleIsNaN x && !doubleIsNaN y && decide (doubleKey y ≤ doubleKey x)

/-- `x > y` on doubles, the ordering `std::greater<double>` of the multimap `Results`. -/
def doubleGt (x y : Nat) : Bool :=
  !doubleIsNaN x && !doubleIsNaN y && decide (doubleKey y < doubleKey x)

/-- The floating-point arithmetic `QueryBlocked` uses and that is not modelled bit by
bit: `add x y` is `x + y` on doubles and `distanceLess a b d` is
`FVector::Distance(a, b) < d`. -/
structure BlockedArith where
  add : Nat → Nat → Nat
  distanceLess : FVector → FVector → Nat → Bool

/-- The local struct `ReplayerActorInfo` of `QueryBlocked`. -/
structure BlockedActorInfo where
  Type_ : Nat
  Id : String
  LastPosition : FVector
  Time : Nat
  Duration : Nat
deriving DecidableEq

/-- A value-initialised entry, as `Actors[key]` creates it. -/
def BlockedActorInfo.init : BlockedActorInfo :=
  { Type_ := 0, Id := "", LastPosition := { X := 0, Y := 0, Z := 0 }, Time := 0, Duration := 0 }

/-- The locals of `QueryBlocked` together with the query object. -/
structure BlockedState where
  self : CarlaRecorderQuery
  Info : OStream
  Total : Option Nat
  Actors : List (Nat × BlockedActorInfo)
  Results : List (Nat × String)
deriving DecidableEq

/-- `Results.insert(std::make_pair(key, row))` on the multimap ordered by
`std::greater<double>`: the new element goes after the elements it does not precede. -/
def insertResult (Results : List (Nat × String)) (key : Nat) (row : String) :
    List (Nat × String) :=
  Results.takeWhile (fun e => !doubleGt key e.1) ++ (key, row)
    :: Results.dropWhile (fun e => !doubleGt key e.1)

/-- Lines 1005-1010 and 1042-1047: one row, built in a `std::stringstream` of its own. -/
def blockedRow (P : Platform) (DatabaseId : Nat) (actor : BlockedActorInfo) : String :=
  let r1 := OStream.putDouble P { OStream.init with precision := 0, fixed := true } 8 actor.Time
  let r2 := (r1.put " ").putNat 6 DatabaseId
  let r3 := OStream.putW { (r2.put " ") with leftAdjust := true } 35 actor.Id
  let r4 := OStream.putDouble P { (r3.put " ") with leftAdjust := false } 10 actor.Duration
  r4.endl.buf

/-- Lines 991-1016: the body of the loop over the records of a `Position` packet. -/
def blockedPosition (P : Platform) (A : BlockedArith) (MinTime MinDistance : Nat)
    (s : BlockedState) : Except Fault BlockedState :=
  let rd := CarlaRecorderPosition.Read s.self.File s.self.Position
  let self1 := { s.self with File := rd.2, Position := rd.1 }
  let entry := mapIndex BlockedActorInfo.init s.Actors rd.1.DatabaseId
  if A.distanceLess entry.1.LastPosition rd.1.Location MinDistance then
    let timed := if doubleEq entry.1.Duration 0 then { entry.1 with Time := self1.Frame.Elapsed }
      else entry.1
    .ok { s with self := self1,
                 Actors := mapAssign entry.2 rd.1.DatabaseId
                   { timed with Duration := A.add timed.Duration self1.Frame.DurationThis } }
  else
    .ok { s with self := self1,
                 Results := if doubleGe entry.1.Duration MinTime then
                     insertResult s.Results entry.1.Duration
                       (blockedRow P rd.1.DatabaseId entry.1)
                   else s.Results,
                 Actors := mapAssign entry.2 rd.1.DatabaseId
                   { entry.1 with Duration := 0, LastPosition := rd.1.Location } }

/-- Lines 959-961: the body of the loop over the records of an `EventAdd` packet. -/
def blockedEventAdd (P : Platform) (s : BlockedState) : Except Fault BlockedState :=
  let rd := CarlaRecorderEventAdd.Read P s.self.File s.self.EventAdd
  .ok { s with self := { s.self with File := rd.2, EventAdd := rd.1 },
               Actors := mapAssign s.Actors rd.1.DatabaseId
                 { Type_ := rd.1.Type_, Id := rd.1.Description.Id,
                   LastPosition := { X := 0, Y := 0, Z := 0 }, Time := 0, Duration := 0 } }

/-- Lines 970-971: the body of the loop over the records of an `EventDel` packet,
`EventDel.Read(File); Actors.erase(EventAdd.DatabaseId);`. -/
def blockedEventDel (s : BlockedState) : Except Fault BlockedState :=
  let rd := CarlaRecorderEventDel.Read s.self.File s.self.EventDel
  .ok { s with self := { s.self with File := rd.2, EventDel := rd.1 },
               Actors := mapErase s.Actors s.self.EventAdd.DatabaseId }

/-- `ReadValue<uint16_t>(File, Total)` on the state of `QueryBlocked`. -/
def BlockedState.readTotal (s : BlockedState) : BlockedState :=
  let t := ReadTotal s.self.File s.Total
  { s with self := { s.self with File := t.2 }, Total := t.1 }

/-- Lines 947-1033: the `switch (Header.Id)` of `QueryBlocked`. -/
def blockedPacket (P : Platform) (A : BlockedArith) (MinTime MinDistance : Nat)
    (s : BlockedState) : Except Fault BlockedState :=
  match P.packetKind s.self.Header.Id with
  | .FrameStart =>
    let rd := CarlaRecorderFrame.Read s.self.File s.self.Frame
    .ok { s with self := { s.self with File := rd.2, Frame := rd.1 } }
  | .EventAdd => forTotal s.readTotal.Total (blockedEventAdd P) s.readTotal
  | .EventDel => forTotal s.readTotal.Total blockedEventDel s.readTotal
  | .EventParent => .ok { s with self := SkipPacket s.self }
  | .Collision => .ok { s with self := SkipPacket s.self }
  | .Position =>
    forTotal s.readTotal.Total (blockedPosition P A MinTime MinDistance) s.readTotal
  | .State => .ok { s with self := SkipPacket s.self }
  | .FrameEnd => .ok s
  | _ => .ok { s with self := SkipPacket s.self }

/-- Lines 937-1034: the packet loop `while (File)` of `QueryBlocked`, run for at most
`fuel` iterations. -/
def blockedLoop (P : Platform) (A : BlockedArith) (MinTime MinDistance : Nat) :
    Nat → BlockedState → Except Fault BlockedState
  | 0, _ => .error .outOfFuel
  | fuel + 1, s =>
    if s.self.File.toBool then
      let h := ReadHeader s.self
      if h.1 then
        match blockedPacket P A MinTime MinDistance { s with self := h.2 } with
        | .ok t => blockedLoop P A MinTime MinDistance fuel t
        | .error e => .error e
      else .ok { s with self := h.2 }
    else .ok s

/-- Lines 1037-1050: the rows of the actors that were stopped when the stream ended.  The
iteration order of a `std::unordered_map` is unspecified; the entries are visited in the
order of the list. -/
def blockedFlush (P : Platform) (MinTime : Nat) :
    List (Nat × BlockedActorInfo) → List (Nat × String) → List (Nat × String)
  | [], Results => Results
  | Actor :: rest, Results =>
    blockedFlush P MinTime rest
      (if doubleGe Actor.2.Duration MinTime then
        insertResult Results Actor.2.Duration (blockedRow P Actor.1 Actor.2)
      else Results)

/-- Lines 930-934: the column header of the blocked report. -/
def putBlockedHeader (Info : OStream) : OStream :=
  let i1 := Info.putW 8 "Time"
  let i2 := (i1.put " ").putW 6 "Id"
  let i3 := OStream.putW { (i2.put " ") with leftAdjust := true } 35 "Actor"
  let i4 := OStream.putW { (i3.put " ") with leftAdjust := false } 10 "Duration"
  i4.endl

/-- Lines 1053-1056: `for (auto& Result : Results) Info << Result.second;`. -/
def putResults (Info : OStream) : List (Nat × String) → OStream
  | [] => Info
  | Result :: rest => putResults (Info.put Result.2) rest

/-- `CarlaRecorderQuery::QueryBlocked` (lines 897-1063); `MinTime` and `MinDistance` are
the bit patterns of the two `double` arguments. -/
def QueryBlocked (P : Platform) (A : BlockedArith) (fs : String → Option (List Nat))
    (self : CarlaRecorderQuery) (Filename : String) (MinTime MinDistance : Nat) :
    Except Fault (String × CarlaRecorderQuery) :=
  let Info := OStream.init
  let Filename2 := P.GetRecorderFilename Filename
  let self1 := { self with File := self.File.open (fs Filename2) }
  if !self1.File.isOpen then
    .ok ((Info.put ("File " ++ Filename2 ++ " not found on server\n")).buf, self1)
  else
    let chk := CheckFileInfo P self1 Info
    if !chk.1 then .ok (chk.2.2.buf, chk.2.1)
    else
      let s0 : BlockedState :=
        { self := chk.2.1, Info := putBlockedHeader chk.2.2, Total := none,
          Actors := [], Results := [] }
      match blockedLoop P A MinTime MinDistance (chk.2.1.File.data.length + 2) s0 with
      | .error e => .error e
      | .ok s =>
        let Results := blockedFlush P MinTime s.Actors s.Results
        .ok ((putTrailer P s.self.Frame (putResults s.Info Results)).buf,
             { s.self with File := s.self.File.close })

/-! ## QueryInfo (lines 100-715) -/

/-- `FormatVectorLike` (lines 24-45) on the rendered components of a vector of dimension
1, 2 or 3. -/
def FormatVectorLike (v : List String) : String :=
  match v with
  | [x] => "(" ++ x ++ ")"
  | [x, y] => "(" ++ x ++ ", " ++ y ++ ")"
  | [x, y, z] => "(" ++ x ++ ", " ++ y ++ ", " ++ z ++ ")"
  | _ => ""

/-- `FormatCurveLike` (lines 47-57) on the rendered points of a curve. -/
def FormatCurveLike (v : List (String × String)) : String :=
  "[" ++ String.join (v.map (fun p => "(" ++ p.1 ++ ", " ++ p.2 ++ "),")) ++ "]"

/-- The locals of `QueryInfo` together with the query object. -/
structure InfoState where
  self : CarlaRecorderQuery
  Info : OStream
  Total : Option Nat
  bFramePrinted : Bool
deriving DecidableEq

/-- The lambda `PrintFrame` (lines 119-122). -/
def PrintFrame (P : Platform) (Frame : CarlaRecorderFrame) (Info : OStream) : OStream :=
  ((((Info.put "Frame ").putNat 0 Frame.Id).put " at ").putDouble P 0 Frame.Elapsed).put
    " seconds\n"

/-- `ReadValue<uint16_t>(File, Total)` on the state of `QueryInfo`. -/
def InfoState.readTotal (s : InfoState) : InfoState :=
  let t := ReadTotal s.self.File s.Total
  { s with self := { s.self with File := t.2 }, Total := t.1 }

/-- The test every list-valued case starts with:
`if (Total > 0 && !bFramePrinted) { PrintFrame(Info); bFramePrinted = true; }`. -/
def InfoState.frameLine (P : Platform) (s : InfoState) : Except Fault InfoState :=
  match s.Total with
  | none => .error .undefinedBehaviour
  | some n =>
    if 0 < n ∧ s.bFramePrinted = false then
      .ok { s with Info := PrintFrame P s.self.Frame s.Info, bFramePrinted := true }
    else .ok s

/-- `Info << title << Total << std::endl` (or `'\n'` for the same effect on the text). -/
def InfoState.titleLine (title : String) (s : InfoState) : Except Fault InfoState :=
  match s.Total with
  | none => .error .undefinedBehaviour
  | some n => .ok { s with Info := ((s.Info.put title).putNat 0 n).endl }

/-- A `float` triple printed as `x, y, z`. -/
def putTriple (P : Platform) (v : FVector) (Info : OStream) : OStream :=
  ((((Info.putFloat P v.X).put ", ").putFloat P v.Y).put ", ").putFloat P v.Z

/-- `Info << b` for a `bool`. -/
def putBool (b : Nat) (Info : OStream) : OStream := Info.put (if b ≠ 0 then "1" else "0")

/-- `Info << c` for an 8-bit character type. -/
def putChar (c : Nat) (Info : OStream) : OStream :=
  Info.put (String.singleton (Char.ofNat (c % 256)))

/-- The value of a 32-bit two's complement pattern, printed for `Gear`. -/
def toInt32 (bits : Nat) : Int :=
  if bits % 2 ^ 32 < 2 ^ 31 then (bits % 2 ^ 32 : Nat) else (bits % 2 ^ 32 : Nat) - 2 ^ 32

/-- Lines 162-170: one `EventAdd` record. -/
def infoEventAdd (P : Platform) (s : InfoState) : Except Fault InfoState :=
  let rd := CarlaRecorderEventAdd.Read P s.self.File s.self.EventAdd
  let i1 := ((((s.Info.put " Create ").putNat 0 rd.1.DatabaseId).put ": ").put
    rd.1.Description.Id).put " ("
  let i2 := ((putTriple P rd.1.Location ((i1.putNat 0 rd.1.Type_).put ") at (")).put ")").endl
  let i3 := rd.1.Description.Attributes.foldl
    (fun (i : OStream) Att => ((((i.put "  ").put Att.Id).put " = ").put Att.Value).endl) i2
  .ok { s with self := { s.self with File := rd.2, EventAdd := rd.1 }, Info := i3 }

/-- Lines 184-185: one `EventDel` record. -/
def infoEventDel (s : InfoState) : Except Fault InfoState :=
  let rd := CarlaRecorderEventDel.Read s.self.File s.self.EventDel
  .ok { s with self := { s.self with File := rd.2, EventDel := rd.1 },
               Info := ((s.Info.put " Destroy ").putNat 0 rd.1.DatabaseId).put "\n" }

/-- Lines 199-201: one `EventParent` record. -/
def infoEventParent (s : InfoState) : Except Fault InfoState :=
  let rd := CarlaRecorderEventParent.Read s.self.File s.self.EventParent
  .ok { s with self := { s.self with File := rd.2, EventParent := rd.1 },
               Info := ((((s.Info.put " Parenting ").putNat 0 rd.1.DatabaseId).put
                 " with ").putNat 0 rd.1.DatabaseIdParent).put " (parent)\n" }

/-- Lines 215-222: one `Collision` record. -/
def infoCollision (s : InfoState) : Except Fault InfoState :=
  let rd := CarlaRecorderCollision.Read s.self.File s.self.Collision
  let i1 := (((s.Info.put " Collision id ").putNat 0 rd.1.Id).put " between ").putNat 0
    rd.1.DatabaseId1
  let i2 := if rd.1.IsActor1Hero ≠ 0 then i1.put " (hero) " else i1
  let i3 := (i2.put " with ").putNat 0 rd.1.DatabaseId2
  let i4 := if rd.1.IsActor2Hero ≠ 0 then i3.put " (hero) " else i3
  .ok { s with self := { s.self with File := rd.2, Collision := rd.1 }, Info := i4.endl }

/-- Lines 239-240: one `Position` record. -/
def infoPosition (P : Platform) (s : InfoState) : Except Fault InfoState :=
  let rd := CarlaRecorderPosition.Read s.self.File s.self.Position
  let i1 := putTriple P rd.1.Location
    (((s.Info.put "  Id: ").putNat 0 rd.1.DatabaseId).put " Location: (")
  let i2 := ((putTriple P rd.1.Rotation (i1.put ") Rotation: (")).put ")").endl
  .ok { s with self := { s.self with File := rd.2, Position := rd.1 }, Info := i2 }

/-- Lines 260-262: one traffic light `State` record. -/
def infoState (P : Platform) (s : InfoState) : Except Fault InfoState :=
  let rd := CarlaRecorderStateTrafficLight.Read s.self.File s.self.StateTraffic
  let i1 := putChar (48 + rd.1.State)
    (((s.Info.put "  Id: ").putNat 0 rd.1.DatabaseId).put " state: ")
  let i2 := (((putBool rd.1.IsFrozen (i1.put " frozen: ")).put " elapsedTime: ").putFloat P
    rd.1.ElapsedTime).endl
  .ok { s with self := { s.self with File := rd.2, StateTraffic := rd.1 }, Info := i2 }

/-- Lines 282-283: one `AnimVehicle` record. -/
def infoAnimVehicle (P : Platform) (s : InfoState) : Except Fault InfoState :=
  let rd := CarlaRecorderAnimVehicle.Read s.self.File s.self.Vehicle
  let i1 := ((((((s.Info.put "  Id: ").putNat 0 rd.1.DatabaseId).put " Steering: ").putFloat P
    rd.1.Steering).put " Throttle: ").putFloat P rd.1.Throttle).put " Brake: "
  let i2 := (((putBool rd.1.bHandbrake ((i1.putFloat P rd.1.Brake).put " Handbrake: ")).put
    " Gear: ").put (toString (toInt32 rd.1.Gear))).endl
  .ok { s with self := { s.self with File := rd.2, Vehicle := rd.1 }, Info := i2 }

/-- Lines 303-304: one `AnimWalker` record. -/
def infoAnimWalker (P : Platform) (s : InfoState) : Except Fault InfoState :=
  let rd := CarlaRecorderAnimWalker.Read s.self.File s.self.Walker
  .ok { s with self := { s.self with File := rd.2, Walker := rd.1 },
               Info := (((((s.Info.put "  Id: ").putNat 0 rd.1.DatabaseId).put " speed: ").putFloat
                 P rd.1.Speed).endl) }

/-- Lines 324-346: one `VehicleDoor` record; the enumerators of `EVehicleDoor` have the
values of section 4.3 (FL=1, FR=2, RL=4, RR=8, Hood=16, Trunk=32, All=0xFF). -/
def infoVehicleDoor (s : InfoState) : Except Fault InfoState :=
  let rd := CarlaRecorderDoorVehicle.Read s.self.File s.self.DoorVehicle
  let eDoorVehicle := rd.1.Doors
  let i0 := (((s.Info.put "  Id: ").putNat 0 rd.1.DatabaseId).endl).put "  Doors opened: "
  let i1 := if eDoorVehicle = 1 then (i0.put " Front Left ").endl else i0
  let i2 := if eDoorVehicle = 2 then (i1.put " Front Right ").endl else i1
  let i3 := if eDoorVehicle = 4 then (i2.put " Rear Left ").endl else i2
  let i4 := if eDoorVehicle = 8 then (i3.put " Rear Right ").endl else i3
  let i5 := if eDoorVehicle = 16 then (i4.put " Hood ").endl else i4
  let i6 := if eDoorVehicle = 32 then (i5.put " Trunk ").endl else i5
  let i7 := if eDoorVehicle = 255 then (i6.put " All ").endl else i6
  .ok { s with self := { s.self with File := rd.2, DoorVehicle := rd.1 }, Info := i7 }

/-- Modelled from the spec: the flags of `FVehicleLightState` are the bits of the 32-bit
`State` in the order section 4.3 lists them (Position is bit 0, Special2 bit 10); the
names are in the order lines 372-393 test them. -/
def lightNames : List String :=
  ["Position ", "LowBeam ", "HighBeam ", "Brake ", "RightBlinker ", "LeftBlinker ",
   "Reverse ", "Interior ", "Fog ", "Special1 ", "Special2 "]

/-- Lines 371-393: `enabled_lights_list`. -/
def enabledLightsList (State : Nat) : String :=
  String.join ((lightNames.enum.filter (fun e => State.testBit e.1)).map (fun e => e.2))

/-- Lines 367-403: one `VehicleLight` record. -/
def infoVehicleLight (s : InfoState) : Except Fault InfoState :=
  let rd := CarlaRecorderLightVehicle.Read s.self.File s.self.LightVehicle
  let enabled_lights_list := enabledLightsList rd.1.State
  let i1 := ((s.Info.put "  Id: ").putNat 0 rd.1.DatabaseId)
  let i2 :=
    if enabled_lights_list.length ≠ 0 then
      ((i1.put " ").put (String.mk (enabled_lights_list.toList.take
        (enabled_lights_list.length - 1)))).endl
    else (i1.put " None").endl
  .ok { s with self := { s.self with File := rd.2, LightVehicle := rd.1 }, Info := i2 }

/-- Lines 423-427: one `SceneLight` record. -/
def infoSceneLight (P : Platform) (s : InfoState) : Except Fault InfoState :=
  let rd := CarlaRecorderLightScene.Read s.self.File s.self.LightScene
  let i1 := ((((s.Info.put "  Id: ").putNat 0 rd.1.LightId).put " enabled: ").put
    (if rd.1.bOn ≠ 0 then "True" else "False")).put " intensity: "
  let i2 := putChar rd.1.Color.R ((i1.putFloat P rd.1.Intensity).put " RGB_color: (")
  let i3 := putChar rd.1.Color.B ((putChar rd.1.Color.G (i2.put ", ")).put ", ")
  .ok { s with self := { s.self with File := rd.2, LightScene := rd.1 },
               Info := (i3.put ")").endl }

/-- Lines 447-452: one `Kinematics` record. -/
def infoKinematics (P : Platform) (s : InfoState) : Except Fault InfoState :=
  let rd := CarlaRecorderKinematics.Read s.self.File s.self.Kinematics
  let i1 := putTriple P rd.1.LinearVelocity
    (((s.Info.put "  Id: ").putNat 0 rd.1.DatabaseId).put " linear_velocity: (")
  let i2 := ((putTriple P rd.1.AngularVelocity ((i1.put ")").put " angular_velocity: (")).put
    ")").endl
  .ok { s with self := { s.self with File := rd.2, Kinematics := rd.1 }, Info := i2 }

/-- Lines 472-481 and 501-510: one `BoundingBox` or `TriggerVolume` record. -/
def infoBoundingBox (P : Platform) (s : InfoState) : Except Fault InfoState :=
  let rd := CarlaRecorderActorBoundingBox.Read s.self.File s.self.ActorBoundingBox
  let i1 := putTriple P rd.1.BoundingBox.Origin
    (((s.Info.put "  Id: ").putNat 0 rd.1.DatabaseId).put " origin: (")
  let i2 := ((putTriple P rd.1.BoundingBox.Extension ((i1.put ")").put " extension: (")).put
    ")").endl
  .ok { s with self := { s.self with File := rd.2, ActorBoundingBox := rd.1 }, Info := i2 }

/-- Lines 657-662: one `TrafficLightTime` record. -/
def infoTrafficLightTime (P : Platform) (s : InfoState) : Except Fault InfoState :=
  let rd := CarlaRecorderTrafficLightTime.Read s.self.File s.self.TrafficLightTime
  let i1 := ((((s.Info.put "  Id: ").putNat 0 rd.1.DatabaseId).put " green_time: ").putFloat P
    rd.1.GreenTime).put " yellow_time: "
  let i2 := ((((i1.putFloat P rd.1.YellowTime).put " red_time: ").putFloat P rd.1.RedTime)).endl
  .ok { s with self := { s.self with File := rd.2, TrafficLightTime := rd.1 }, Info := i2 }

/-- Lines 682-690: one `WalkerBones` record. -/
def infoWalkerBones (P : Platform) (s : InfoState) : Except Fault InfoState :=
  let rd := CarlaRecorderWalkerBones.Read P s.self.File s.self.WalkerBones.Clear
  let i1 := ((s.Info.put "  Id: ").putNat 0 rd.1.DatabaseId).put "\n"
  let i2 := rd.1.Bones.foldl
    (fun (i : OStream) Bone =>
      (putTriple P Bone.Rotation ((putTriple P Bone.Location
        (((((i.put "     Bone: \"").put Bone.Name).put "\" relative: ").put "Loc("))).put
          ") Rot(")).put ")\n") i1
  .ok { s with self := { s.self with File := rd.2, WalkerBones := rd.1 }, Info := i2 }

/-- Lines 596-634: one wheel, `Index` being its position in `Control.wheels`. -/
def putWheel (Index : Nat) (Wheel : WheelPhysicsControl) (Info : OStream) : OStream :=
  (((Info.put "\nwheel #").putNat 0 Index).put ":\n").put
    (" axle_type: " ++ Wheel.axle_type
      ++ " offset: " ++ FormatVectorLike Wheel.offset
      ++ " wheel_radius: " ++ Wheel.wheel_radius
      ++ " wheel_width: " ++ Wheel.wheel_width
      ++ " wheel_mass: " ++ Wheel.wheel_mass
      ++ " cornering_stiffness: " ++ Wheel.cornering_stiffness
      ++ " friction_force_multiplier: " ++ Wheel.friction_force_multiplier
      ++ " side_slip_modifier: " ++ Wheel.side_slip_modifier
      ++ " slip_threshold: " ++ Wheel.slip_threshold
      ++ " skid_threshold: " ++ Wheel.skid_threshold
      ++ " max_steer_angle: " ++ Wheel.max_steer_angle
      ++ " affected_by_steering: " ++ Wheel.affected_by_steering
      ++ " affected_by_brake: " ++ Wheel.affected_by_brake
      ++ " affected_by_handbrake: " ++ Wheel.affected_by_handbrake
      ++ " affected_by_engine: " ++ Wheel.affected_by_engine
      ++ " abs_enabled: " ++ Wheel.abs_enabled
      ++ " traction_control_enabled: " ++ Wheel.traction_control_enabled
      ++ " max_wheelspin_rotation: " ++ Wheel.max_wheelspin_rotation
      ++ " external_torque_combine_method: " ++ Wheel.external_torque_combine_method
      ++ " lateral_slip_graph: " ++ FormatCurveLike Wheel.lateral_slip_graph
      ++ " suspension_axis: " ++ FormatVectorLike Wheel.suspension_axis
      ++ " suspension_force_offset: " ++ FormatVectorLike Wheel.suspension_force_offset
      ++ " suspension_max_raise: " ++ Wheel.suspension_max_raise
      ++ " suspension_max_drop: " ++ Wheel.suspension_max_drop
      ++ " suspension_damping_ratio: " ++ Wheel.suspension_damping_ratio
      ++ " wheel_load_ratio: " ++ Wheel.wheel_load_ratio
      ++ " spring_rate: " ++ Wheel.spring_rate
      ++ " spring_preload: " ++ Wheel.spring_preload
      ++ " suspension_smoothing: " ++ Wheel.suspension_smoothing
      ++ " rollbar_scaling: " ++ Wheel.rollbar_scaling
      ++ " sweep_shape: " ++ Wheel.sweep_shape
      ++ " sweep_type: " ++ Wheel.sweep_type
      ++ " max_brake_torque: " ++ Wheel.max_brake_torque
      ++ " max_hand_brake_torque: " ++ Wheel.max_hand_brake_torque
      ++ " wheel_index: " ++ Wheel.wheel_index
      ++ " location: " ++ FormatVectorLike Wheel.location
      ++ " old_location: " ++ FormatVectorLike Wheel.old_location
      ++ " velocity: " ++ FormatVectorLike Wheel.velocity)

/-- Lines 578-591: the numbered gear ratios, `"    gear " << count << ": ratio " << Gear`. -/
def putGears (Info : OStream) (ratios : List String) : OStream :=
  ratios.enum.foldl
    (fun (i : OStream) e => ((((i.put "    gear ").putNat 0 e.1).put ": ratio ").put e.2).put
      "\n") Info

/-- Lines 566-577: the points of a curve, each as ` (x, y)`. -/
def putCurve (Info : OStream) (curve : List (String × String)) : OStream :=
  curve.foldl (fun (i : OStream) vec => ((((i.put " (").put vec.1).put ", ").put vec.2).put ")")
    Info

/-- Lines 547-637: one `PhysicsControl` record. -/
def infoPhysicsControl (C : PhysicsCodec) (s : InfoState) : Except Fault InfoState :=
  let rd := C.Read s.self.File s.self.PhysicsControl
  let Control := rd.1.VehiclePhysicsControl
  let i1 := (((s.Info.put "  Id: ").putNat 0 rd.1.DatabaseId).put "\n").put
    ("   max_torque = " ++ Control.max_torque ++ "\n"
      ++ "   max_rpm = " ++ Control.max_rpm ++ "\n"
      ++ "   MOI = " ++ Control.rev_up_moi ++ "\n"
      ++ "   rev_down_rate = " ++ Control.rev_down_rate ++ "\n"
      ++ "   differential_type = " ++ Control.differential_type ++ "\n"
      ++ "   front_rear_split = " ++ Control.front_rear_split ++ "\n"
      ++ "   use_gear_auto_box = " ++ (if Control.use_automatic_gears then "true" else "false")
      ++ "\n"
      ++ "   gear_change_time = " ++ Control.gear_change_time ++ "\n"
      ++ "   final_ratio = " ++ Control.final_ratio ++ "\n"
      ++ "   change_up_rpm = " ++ Control.change_up_rpm ++ "\n"
      ++ "   change_down_rpm = " ++ Control.change_down_rpm ++ "\n"
      ++ "   transmission_efficiency = " ++ Control.transmission_efficiency ++ "\n"
      ++ "   mass = " ++ Control.mass ++ "\n"
      ++ "   drag_coefficient = " ++ Control.drag_coefficient ++ "\n"
      ++ "   center_of_mass = " ++ "(" ++ Control.center_of_mass.1 ++ ", "
      ++ Control.center_of_mass.2.1 ++ ", " ++ Control.center_of_mass.2.2 ++ ")" ++ "\n")
  let i2 := (putCurve (i1.put "   torque_curve =") Control.torque_curve).put "\n"
  let i3 := (putCurve (i2.put "   steering_curve =") Control.steering_curve).put "\n"
  let i4 := putGears (i3.put ("   forward_gear_ratios:" ++ "\n")) Control.forward_gear_ratios
  let i5 := putGears (i4.put ("   reverse_gear_ratios:" ++ "\n")) Control.reverse_gear_ratios
  let i6 := Control.wheels.enum.foldl (fun (i : OStream) e => putWheel e.1 e.2 i)
    (i5.put "   wheels:")
  .ok { s with self := { s.self with File := rd.2, PhysicsControl := rd.1 }, Info := i6.endl }

/-- The shape shared by the cases that print only when `bShowAll` is set:
`if (bShowAll) { read Total; frame line; title line; for each record ... } else SkipPacket();`. -/
def infoListCase (P : Platform) (bShowAll : Bool) (title : String)
    (record : InfoState → Except Fault InfoState) (s : InfoState) : Except Fault InfoState :=
  if bShowAll then
    match s.readTotal.frameLine P with
    | .error e => .error e
    | .ok s1 =>
      match s1.titleLine title with
      | .error e => .error e
      | .ok s2 => forTotal s2.Total record s2
  else .ok { s with self := SkipPacket s.self }

/-- The shape of the four cases that always print (`EventAdd`, `EventDel`, `EventParent`,
`Collision`): read `Total`, frame line, then the records. -/
def infoEventCase (P : Platform) (record : InfoState → Except Fault InfoState)
    (s : InfoState) : Except Fault InfoState :=
  match s.readTotal.frameLine P with
  | .error e => .error e
  | .ok s1 => forTotal s1.Total record s1

/-- Lines 137-706: the `switch (Header.Id)` of `QueryInfo`. -/
def infoPacket (P : Platform) (C : PhysicsCodec) (bShowAll : Bool) (s : InfoState) :
    Except Fault InfoState :=
  match P.packetKind s.self.Header.Id with
  | .FrameStart =>
    let rd := CarlaRecorderFrame.Read s.self.File s.self.Frame
    let s1 := { s with self := { s.self with File := rd.2, Frame := rd.1 } }
    if bShowAll then .ok { s1 with Info := PrintFrame P rd.1 s.Info, bFramePrinted := true }
    else .ok { s1 with bFramePrinted := false }
  | .EventAdd => infoEventCase P (infoEventAdd P) s
  | .EventDel => infoEventCase P infoEventDel s
  | .EventParent => infoEventCase P infoEventParent s
  | .Collision => infoEventCase P infoCollision s
  | .Position => infoListCase P bShowAll " Positions: " (infoPosition P) s
  | .State => infoListCase P bShowAll " State traffic lights: " (infoState P) s
  | .AnimVehicle => infoListCase P bShowAll " Vehicle animations: " (infoAnimVehicle P) s
  | .AnimWalker => infoListCase P bShowAll " Walker animations: " (infoAnimWalker P) s
  | .VehicleDoor => infoListCase P bShowAll " Vehicle door animations: " infoVehicleDoor s
  | .VehicleLight => infoListCase P bShowAll " Vehicle light animations: " infoVehicleLight s
  | .SceneLight => infoListCase P bShowAll " Scene light changes: " (infoSceneLight P) s
  | .Kinematics => infoListCase P bShowAll " Dynamic actors: " (infoKinematics P) s
  | .BoundingBox => infoListCase P bShowAll " Actor bounding boxes: " (infoBoundingBox P) s
  | .TriggerVolume => infoListCase P bShowAll " Actor trigger volumes: " (infoBoundingBox P) s
  | .PlatformTime =>
    if bShowAll then
      let s1 := if s.bFramePrinted = false then
          { s with Info := PrintFrame P s.self.Frame s.Info, bFramePrinted := true }
        else s
      let rd := CarlaRecorderPlatformTime.Read s1.self.File s1.self.PlatformTime
      .ok { s1 with self := { s1.self with File := rd.2, PlatformTime := rd.1 },
                    Info := (((s1.Info.put " Current platform time: ").putDouble P 0
                      rd.1.Time).endl) }
    else .ok { s with self := SkipPacket s.self }
  | .PhysicsControl =>
    infoListCase P bShowAll " Physics Control events: " (infoPhysicsControl C) s
  | .TrafficLightTime =>
    infoListCase P bShowAll " Traffic Light time events: " (infoTrafficLightTime P) s
  | .WalkerBones =>
    match infoListCase P bShowAll " Walkers Bones: " (infoWalkerBones P) s with
    | .error e => .error e
    | .ok t => if bShowAll then .ok { t with Info := t.Info.endl } else .ok t
  | .FrameEnd => .ok s
  | .other => .ok { s with self := SkipPacket s.self }

/-- Lines 128-707: the packet loop `while (File)` of `QueryInfo`, run for at most `fuel`
iterations. -/
def infoLoop (P : Platform) (C : PhysicsCodec) (bShowAll : Bool) :
    Nat → InfoState → Except Fault InfoState
  | 0, _ => .error .outOfFuel
  | fuel + 1, s =>
    if s.self.File.toBool then
      let h := ReadHeader s.self
      if h.1 then
        match infoPacket P C bShowAll { s with self := h.2 } with
        | .ok t => infoLoop P C bShowAll fuel t
        | .error e => .error e
      else .ok { s with self := h.2 }
    else .ok s

/-- `CarlaRecorderQuery::QueryInfo` (lines 100-715). -/
def QueryInfo (P : Platform) (C : PhysicsCodec) (fs : String → Option (List Nat))
    (self : CarlaRecorderQuery) (Filename : String) (bShowAll : Bool) :
    Except Fault (String × CarlaRecorderQuery) :=
  let Info := OStream.init
  let Filename2 := P.GetRecorderFilename Filename
  let self1 := { self with File := self.File.open (fs Filename2) }
  if !self1.File.isOpen then
    .ok ((Info.put ("File " ++ Filename2 ++ " not found on server\n")).buf, self1)
  else
    let chk := CheckFileInfo P self1 Info
    if !chk.1 then .ok (chk.2.2.buf, chk.2.1)
    else
      let s0 : InfoState :=
        { self := chk.2.1, Info := chk.2.2, Total := none, bFramePrinted := false }
      match infoLoop P C bShowAll (chk.2.1.File.data.length + 2) s0 with
      | .error e => .error e
      | .ok s =>
        .ok ((putTrailer P s.self.Frame s.Info).buf,
             { s.self with File := s.self.File.close })

/-! ## Vocabulary for the statements about QueryCollisions -/

/-- The record the body of the `Collision` loop works on in state `s`: the member
`Collision` after `Collision.Read(File)`. -/
def CollisionsState.record (s : CollisionsState) : CarlaRecorderCollision :=
  (CarlaRecorderCollision.Read s.self.File s.self.Collision).1

/-- The value of `Actors[DatabaseId].Type`: the type stored in the actor table, and 0
when the table has no entry for the id. -/
def storedType (Actors : List (Nat × ReplayerActorInfo)) (DatabaseId : Nat) : Nat :=
  (mapIndex ReplayerActorInfo.init Actors DatabaseId).1.Type_

/-- The condition of section 4.4.2 for one side of a collision. -/
def sidePasses (Category : Char) (letter : Char) (IsActorHero : Nat) : Prop :=
  Category = 'a' ∨ Category = letter ∨ (Category = 'h' ∧ IsActorHero ≠ 0)

/-- What the packet loop of `QueryCollisions` leaves alone when no record passes the
filter: the report buffer and the file header. -/
def CollisionsState.kept (s : CollisionsState) : OStream × CarlaRecorderInfo :=
  (s.Info, s.self.RecInfo)

/-- The file header block `CheckFileInfo` writes for a recording with header `RecInfo`. -/
def fileHeaderBlock (P : Platform) (RecInfo : CarlaRecorderInfo) : String :=
  "Version: " ++ toString RecInfo.Version ++ "\n" ++ "Map: " ++ RecInfo.Mapfile ++ "\n"
    ++ "Date: " ++ P.formatDate RecInfo.Date ++ "\n" ++ "\n"

/-- The column header of the collisions report. -/
def collisionsColumns : String :=
  "    Time  Types     Id Actor 1                                 Id Actor 2                            \n"

/-- The trailer for the last frame read, printed by a stream whose floatfield and
precision are `fixed` and `precision`. -/
def trailerText (P : Platform) (fixed : Bool) (precision : Nat) (Frame : CarlaRecorderFrame) :
    String :=
  "\nFrames: " ++ toString Frame.Id ++ "\n" ++ "Duration: "
    ++ P.formatDouble fixed precision Frame.Elapsed ++ " seconds\n"

/-! ## A reference platform

Closed statements about concrete files need concrete values for the parameters of
`Platform`.  The reference platform renders numbers the way the C and C++ standards
prescribe for `printf` with `%g` / `%f`, dates for the time zone UTC in the "C" locale,
and text as one character per byte. -/

/-- Division rounded to the nearest integer, ties to even. -/
def roundHalfEven (num den : Nat) : Nat :=
  let q := num / den
  let r := num % den
  if 2 * r < den then q
  else if den < 2 * r then q + 1
  else if q % 2 = 0 then q else q + 1

/-- A decimal numeral padded with zeros on the left to `w` digits. -/
def zeroPad (w : Nat) (n : Nat) : String :=
  String.mk (List.replicate (w - (toString n).length) '0') ++ toString n

/-- Removes the zeros a digit string ends with. -/
def stripZeros (digits : List Char) : List Char :=
  (digits.reverse.dropWhile (fun c => c = '0')).reverse

/-- `%.pf` of the non-negative rational `num / den`. -/
def formatFixed (num den p : Nat) : String :=
  let n := roundHalfEven (num * 10 ^ p) den
  if p = 0 then toString n
  else toString (n / 10 ^ p) ++ "." ++ zeroPad p (n % 10 ^ p)

/-- The least `k ≥ start` with `den ≤ num * 10 ^ k`, searched over `fuel` candidates. -/
def leastScale (num den : Nat) : Nat → Nat → Nat
  | 0, k => k
  | fuel + 1, k => if den ≤ num * 10 ^ k then k else leastScale num den fuel (k + 1)

/-- The decimal exponent `floor (log10 (num / den))` of a positive rational. -/
def decimalExponent (num den : Nat) : Int :=
  if den ≤ num then ((toString (num / den)).length : Int) - 1
  else - (leastScale num den 400 1 : Int)

/-- `%.pg` of the non-negative rational `num / den`: `p` significant digits, scientific
notation when the decimal exponent is below -4 or at least `p`, trailing zeros removed. -/
def formatGeneral (num den p : Nat) : String :=
  if num = 0 then "0"
  else
    let p1 := if p = 0 then 1 else p
    let x0 := decimalExponent num den
    let shift := (p1 : Int) - 1 - x0
    let n0 := if 0 ≤ shift then roundHalfEven (num * 10 ^ shift.toNat) den
      else roundHalfEven num (den * 10 ^ (-shift).toNat)
    let carry := decide (10 ^ p1 ≤ n0)
    let x := if carry then x0 + 1 else x0
    let digits := (toString (if carry then n0 / 10 else n0)).toList
    if x < -4 ∨ (p1 : Int) ≤ x then
      let frac := stripZeros (digits.drop 1)
      String.mk (digits.take 1) ++ (if frac = [] then "" else "." ++ String.mk frac)
        ++ "e" ++ (if x < 0 then "-" else "+") ++ zeroPad 2 x.natAbs
    else if 0 ≤ x then
      let frac := stripZeros (digits.drop (x.toNat + 1))
      String.mk (digits.take (x.toNat + 1))
        ++ (if frac = [] then "" else "." ++ String.mk frac)
    else
      "0." ++ String.mk (List.replicate ((-x).toNat - 1) '0') ++ String.mk (stripZeros digits)

/-- A binary floating-point datum with `mbits` fraction bits and `ebits` exponent bits,
rendered as `operator<<` does for the given floatfield and precision. -/
def formatBinary (mbits ebits : Nat) (fixed : Bool) (precision : Nat) (bits : Nat) : String :=
  let frac := bits % 2 ^ mbits
  let e := (bits / 2 ^ mbits) % 2 ^ ebits
  let sign := if (bits / 2 ^ (mbits + ebits)) % 2 = 1 then "-" else ""
  let bias := 2 ^ (ebits - 1) - 1 + mbits
  if e = 2 ^ ebits - 1 then sign ++ (if frac = 0 then "inf" else "nan")
  else
    let mant := if e = 0 then frac else 2 ^ mbits + frac
    let e1 := if e = 0 then 1 else e
    let num := mant * 2 ^ (e1 - bias)
    let den := 2 ^ (bias - e1)
    sign ++ (if fixed then formatFixed num den precision else formatGeneral num den precision)

/-- The value of a 64-bit two's complement pattern. -/
def toInt64 (bits : Nat) : Int :=
  if bits % 2 ^ 64 < 2 ^ 63 then (bits % 2 ^ 64 : Nat) else (bits % 2 ^ 64 : Nat) - 2 ^ 64

/-- `strftime` with `%x %X` in the "C" locale (`%m/%d/%y %H:%M:%S`) of the broken-down
UTC time of `seconds` since the epoch. -/
def formatDateUTC (seconds : Int) : String :=
  let days := seconds.fdiv 86400
  let rem := (seconds.fmod 86400).toNat
  let z := days + 719468
  let era := z.fdiv 146097
  let doe := (z - era * 146097).toNat
  let yoe := (doe - doe / 1460 + doe / 36524 - doe / 146096) / 365
  let doy := doe - (365 * yoe + yoe / 4 - yoe / 100)
  let mp := (5 * doy + 2) / 153
  let d := doy - (153 * mp + 2) / 5 + 1
  let m := if mp < 10 then mp + 3 else mp - 9
  let y := (yoe : Int) + era * 400 + (if m ≤ 2 then 1 else 0)
  zeroPad 2 m ++ "/" ++ zeroPad 2 d ++ "/" ++ zeroPad 2 (y.fmod 100).toNat ++ " "
    ++ zeroPad 2 (rem / 3600) ++ ":" ++ zeroPad 2 (rem / 60 % 60) ++ ":" ++ zeroPad 2 (rem % 60)

/-- The numbering of `CarlaRecorderPacketId` used by the reference platform: the
enumerators are numbered from 0 in the order FrameStart, FrameEnd, EventAdd, EventDel,
EventParent, Collision, Position, State, AnimVehicle, AnimWalker, VehicleLight,
SceneLight, Kinematics, BoundingBox, PlatformTime, PhysicsControl, TrafficLightTime,
TriggerVolume, (18), WalkerBones, (20), VehicleDoor. -/
def referencePacketKind (id : Nat) : PacketKind :=
  match id with
  | 0 => .FrameStart
  | 1 => .FrameEnd
  | 2 => .EventAdd
  | 3 => .EventDel
  | 4 => .EventParent
  | 5 => .Collision
  | 6 => .Position
  | 7 => .State
  | 8 => .AnimVehicle
  | 9 => .AnimWalker
  | 10 => .VehicleLight
  | 11 => .SceneLight
  | 12 => .Kinematics
  | 13 => .BoundingBox
  | 14 => .PlatformTime
  | 15 => .PhysicsControl
  | 16 => .TrafficLightTime
  | 17 => .TriggerVolume
  | 19 => .WalkerBones
  | 21 => .VehicleDoor
  | _ => .other

/-- Modelled from the spec: `GetRecorderFilename` is not under src/.  Section 4.6: append
`.log` when the name lacks an extension and resolve against the recordings directory
`dir`. -/
def resolveRecorderFilename (dir : String) (name : String) : String :=
  dir ++ (if '.' ∈ name.toList then name else name ++ ".log")

/-- The reference platform. -/
def referencePlatform : Platform :=
  { GetRecorderFilename := resolveRecorderFilename "Saved/"
    decodeText := fun bytes => String.mk (bytes.map Char.ofNat)
    formatDate := fun bits => formatDateUTC (toInt64 bits)
    formatDouble := formatBinary 52 11
    formatFloat := formatBinary 23 8
    packetKind := referencePacketKind }

/-! ## Building recordings (the producer's side of section 6) -/

/-- The `n` little-endian bytes of `v`. -/
def leBytes : Nat → Nat → List Nat
  | 0, _ => []
  | n + 1, v => v % 256 :: leBytes n (v / 256)

/-- A length-prefixed text: a 16-bit length, then one byte per character. -/
def encodeText (s : String) : List Nat :=
  leBytes 2 s.length ++ s.toList.map Char.toNat

/-- `Packet := u8 id, u32 size, bytes[size] payload`. -/
def encodePacket (id : Nat) (payload : List Nat) : List Nat :=
  id % 256 :: leBytes 4 payload.length ++ payload

/-- The payload of a list-valued packet: a 16-bit count, then the records. -/
def encodeList (records : List (List Nat)) : List Nat :=
  leBytes 2 records.length ++ records.flatten

/-- `FileHeader := text magic, u16 version, text mapName, i64 date`. -/
def encodeFileHeader (magic : String) (version : Nat) (map : String) (date : Nat) : List Nat :=
  encodeText magic ++ leBytes 2 version ++ encodeText map ++ leBytes 8 date

/-- The payload of a `FrameStart` packet. -/
def encodeFrame (id elapsed durationThis : Nat) : List Nat :=
  leBytes 8 id ++ leBytes 8 elapsed ++ leBytes 8 durationThis

/-- One `Collision` record in the layout of `CarlaRecorderCollision.Read`. -/
def encodeCollision (id hero1 hero2 databaseId1 databaseId2 : Nat) : List Nat :=
  leBytes 4 id ++ leBytes 1 hero1 ++ leBytes 1 hero2 ++ leBytes 4 databaseId1
    ++ leBytes 4 databaseId2

/-- One `EventAdd` record with no attributes and location and rotation zero. -/
def encodeEventAdd (databaseId type : Nat) (location : Nat × Nat × Nat) (description : String) :
    List Nat :=
  leBytes 4 databaseId ++ leBytes 1 type
    ++ leBytes 4 location.1 ++ leBytes 4 location.2.1 ++ leBytes 4 location.2.2
    ++ leBytes 12 0 ++ encodeText description ++ leBytes 2 0

/-- A query object whose members are all zero or empty and whose `File` is closed. -/
def CarlaRecorderQuery.zero : CarlaRecorderQuery :=
  { File := { data := [], pos := 0, isOpen := false, eofbit := false, failbit := false }
    Header := { Id := 0, Size := 0 }
    RecInfo := { Magic := "", Version := 0, Mapfile := "", Date := 0 }
    Frame := { Id := 0, Elapsed := 0, DurationThis := 0 }
    EventAdd := { DatabaseId := 0, Type_ := 0, Location := { X := 0, Y := 0, Z := 0 },
                  Rotation := { X := 0, Y := 0, Z := 0 },
                  Description := { Id := "", Attributes := [] } }
    EventDel := { DatabaseId := 0 }
    EventParent := { DatabaseId := 0, DatabaseIdParent := 0 }
    Collision := { Id := 0, IsActor1Hero := 0, IsActor2Hero := 0, DatabaseId1 := 0,
                   DatabaseId2 := 0 }
    Position := { DatabaseId := 0, Location := { X := 0, Y := 0, Z := 0 },
                  Rotation := { X := 0, Y := 0, Z := 0 } }
    StateTraffic := { DatabaseId := 0, State := 0, IsFrozen := 0, ElapsedTime := 0 }
    Vehicle := { DatabaseId := 0, Steering := 0, Throttle := 0, Brake := 0, bHandbrake := 0,
                 Gear := 0 }
    Walker := { DatabaseId := 0, Speed := 0 }
    DoorVehicle := { DatabaseId := 0, Doors := 0 }
    LightVehicle := { DatabaseId := 0, State := 0 }
    LightScene := { LightId := 0, bOn := 0, Intensity := 0, Color := { R := 0, G := 0, B := 0 } }
    Kinematics := { DatabaseId := 0, LinearVelocity := { X := 0, Y := 0, Z := 0 },
                    AngularVelocity := { X := 0, Y := 0, Z := 0 } }
    ActorBoundingBox := { DatabaseId := 0,
                          BoundingBox := { Origin := { X := 0, Y := 0, Z := 0 },
                                           Extension := { X := 0, Y := 0, Z := 0 } } }
    PlatformTime := { Time := 0 }
    PhysicsControl :=
      { DatabaseId := 0,
        VehiclePhysicsControl :=
          { max_torque := "", max_rpm := "", rev_up_moi := "", rev_down_rate := "",
            differential_type := "", front_rear_split := "", use_automatic_gears := false,
            gear_change_time := "", final_ratio := "", change_up_rpm := "",
            change_down_rpm := "", transmission_efficiency := "", mass := "",
            drag_coefficient := "", center_of_mass := ("", "", ""), torque_curve := [],
            steering_curve := [], forward_gear_ratios := [], reverse_gear_ratios := [],
            wheels := [] } }
    TrafficLightTime := { DatabaseId := 0, GreenTime := 0, YellowTime := 0, RedTime := 0 }
    WalkerBones := { DatabaseId := 0, Bones := [] } }

/-- A file system that holds one file. -/
def singleFile (name : String) (content : List Nat) : String → Option (List Nat) :=
  fun n => if n = name then some content else none

/-- The bit patterns of the doubles 0.05 and 0.10. -/
def double_0_05 : Nat := 0x3FA999999999999A

/-- The bit pattern of the double 0.10. -/
def double_0_10 : Nat := 0x3FB999999999999A

/-- The file header of the scenarios of section 8:
`Header(CARLA_RECORDER, version=9, map=Town03, date=0)`. -/
def scenarioHeader : List Nat := encodeFileHeader "CARLA_RECORDER" 9 "Town03" 0

/-- Scenario S2: the pair (7, 8) collides in frames 1 and 2; the file ends after the
`FrameStart` packet of frame 3. -/
def scenarioS2 : List Nat :=
  scenarioHeader
    ++ encodePacket 0 (encodeFrame 1 0 double_0_05)
    ++ encodePacket 5 (encodeList [encodeCollision 1 1 0 7 8])
    ++ encodePacket 0 (encodeFrame 2 double_0_05 double_0_05)
    ++ encodePacket 5 (encodeList [encodeCollision 1 1 0 7 8])
    ++ encodePacket 0 (encodeFrame 3 double_0_10 double_0_05)

/-- Scenario S3: as S2, but the collision is missing from frame 2 and recorded again in
frame 3; the file ends after the `Collision` packet of frame 3. -/
def scenarioS3 : List Nat :=
  scenarioHeader
    ++ encodePacket 0 (encodeFrame 1 0 double_0_05)
    ++ encodePacket 5 (encodeList [encodeCollision 1 1 0 7 8])
    ++ encodePacket 0 (encodeFrame 2 double_0_05 double_0_05)
    ++ encodePacket 0 (encodeFrame 3 double_0_10 double_0_05)
    ++ encodePacket 5 (encodeList [encodeCollision 1 1 0 7 8])

/-- A codec for `PhysicsControl` records that reads nothing, for the evaluation of
recordings that hold no such packet (the codec is then never called). -/
def PhysicsCodec.absent : PhysicsCodec := { Read := fun File r => (r, File) }

/-- A recording that ends with a `Collision` packet: the scenario header, frame 1, one
collision between the actors 7 and 8. -/
def endsWithCollision : List Nat :=
  scenarioHeader
    ++ encodePacket 0 (encodeFrame 1 0 double_0_05)
    ++ encodePacket 5 (encodeList [encodeCollision 1 1 0 7 8])

/-- A recording whose header carries another magic text, followed by one `FrameStart`
packet. -/
def badMagicFile : List Nat :=
  encodeFileHeader "CARLA_REPLAYER" 9 "Town03" 0 ++ encodePacket 0 (encodeFrame 1 0 0)

/-- A recording in which actor 7 is created with type 4 and then collides with actor 8,
both hero flags being 0. -/
def typeFourCollision : List Nat :=
  scenarioHeader
    ++ encodePacket 0 (encodeFrame 1 0 double_0_05)
    ++ encodePacket 2 (encodeList [encodeEventAdd 7 4 (0, 0, 0) "traffic.stop"])
    ++ encodePacket 5 (encodeList [encodeCollision 1 0 0 7 8])
    ++ encodePacket 1 []

/-- A state of the `Collision` loop of `QueryCollisions`: the table `Actors`, empty
collision sets, an empty report, and a file that holds the bytes `records` only. -/
def collisionLoopState (Actors : List (Nat × ReplayerActorInfo)) (records : List Nat) :
    CollisionsState :=
  { self := { CarlaRecorderQuery.zero with
      File := { data := records, pos := 0, isOpen := true, eofbit := false, failbit := false } }
    Info := OStream.init
    Total := some 1
    Actors := Actors
    oldCollisions := []
    newCollisions := [] }

/-- The query object once the last byte of `endsWithCollision` has been read: the read
position is the length of the file, no state flag is set, and `Header` still holds the
header of the `Collision` packet. -/
def atEndOfFile : CarlaRecorderQuery :=
  { CarlaRecorderQuery.zero with
    File := { data := endsWithCollision, pos := 84, isOpen := true, eofbit := false,
              failbit := false }
    Header := { Id := 5, Size := 16 } }

/-- An arithmetic for evaluating `QueryBlocked` on recordings whose header is rejected
(the arithmetic is then never used). -/
def BlockedArith.unused : BlockedArith :=
  { add := fun x _ => x, distanceLess := fun _ _ _ => false }

/-- A state of the `Collision` loop: actor 7 is a vehicle, and the next record is a
collision of 7 with 8 whose side-1 hero flag is set. -/
def heroCollisionState : CollisionsState :=
  collisionLoopState [(7, { Type_ := 1, Id := "vehicle.tesla.model3" })]
    (encodeCollision 1 1 0 7 8)

/-- A state of the `Collision` loop: actor 7 is a vehicle and actor 8 a walker, and the
next record is a collision of 7 with 8 with no hero flag. -/
def vehicleWalkerState : CollisionsState :=
  collisionLoopState [(7, { Type_ := 1, Id := "vehicle.tesla.model3" }),
      (8, { Type_ := 2, Id := "walker.pedestrian.0001" })]
    (encodeCollision 1 0 0 7 8)

/-- A state of the `Collision` loop: actor 7 is a walker and actor 8 a vehicle, and the
next record is a collision of 7 with 8 with no hero flag. -/
def walkerVehicleState : CollisionsState :=
  collisionLoopState [(7, { Type_ := 2, Id := "walker.pedestrian.0001" }),
      (8, { Type_ := 1, Id := "vehicle.tesla.model3" })]
    (encodeCollision 1 0 0 7 8)

/-- One `EventDel` record. -/
def encodeEventDel (databaseId : Nat) : List Nat := leBytes 4 databaseId

/-- A recording in which the vehicle 7 and then the walker 8 are created, actor 7 is
destroyed, and 7 and 8 collide afterwards. -/
def destroyFirstActor : List Nat :=
  scenarioHeader
    ++ encodePacket 0 (encodeFrame 1 0 double_0_05)
    ++ encodePacket 2 (encodeList [encodeEventAdd 7 1 (0, 0, 0) "vehicle.tesla.model3",
        encodeEventAdd 8 2 (0, 0, 0) "walker.pedestrian.0001"])
    ++ encodePacket 3 (encodeList [encodeEventDel 7])
    ++ encodePacket 5 (encodeList [encodeCollision 1 0 0 7 8])
    ++ encodePacket 1 []

/-- A state of the `EventDel` loop of `QueryCollisions`: the table holds the vehicle 7
and the walker 8, the member `EventAdd` still holds the record of actor 8, created last,
and the next record of the file destroys actor 7. -/
def collisionsDestroyState : CollisionsState :=
  { self := { CarlaRecorderQuery.zero with
      File := { data := encodeEventDel 7, pos := 0, isOpen := true, eofbit := false,
                failbit := false }
      EventAdd := { CarlaRecorderQuery.zero.EventAdd with
        DatabaseId := 8, Type_ := 2,
        Description := { Id := "walker.pedestrian.0001", Attributes := [] } } }
    Info := OStream.init
    Total := some 1
    Actors := [(7, { Type_ := 1, Id := "vehicle.tesla.model3" }),
               (8, { Type_ := 2, Id := "walker.pedestrian.0001" })]
    oldCollisions := []
    newCollisions := [] }

/-- The same situation in the `EventDel` loop of `QueryBlocked`. -/
def blockedDestroyState : BlockedState :=
  { self := collisionsDestroyState.self
    Info := OStream.init
    Total := some 1
    Actors := [(7, { BlockedActorInfo.init with Type_ := 1, Id := "vehicle.tesla.model3" }),
               (8, { BlockedActorInfo.init with Type_ := 2, Id := "walker.pedestrian.0001" })]
    Results := [] }

/-! ## Vocabulary for the statements about QueryBlocked -/

/-- The record the body of the `Position` loop works on in state `s`: the member
`Position` after `Position.Read(File)`. -/
def BlockedState.record (s : BlockedState) : CarlaRecorderPosition :=
  (CarlaRecorderPosition.Read s.self.File s.self.Position).1

/-- The entry `Actors[Position.DatabaseId]` the body of the `Position` loop works on: the
entry of the record's actor, value-initialised when the table has none. -/
def BlockedState.entry (s : BlockedState) : BlockedActorInfo :=
  (mapIndex BlockedActorInfo.init s.Actors s.record.DatabaseId).1

/-- The tracker of section 4.4.3: `{LastPosition, Time, Duration}`. -/
structure Tracker where
  LastPosition : FVector
  Time : Nat
  Duration : Nat
deriving DecidableEq

/-- The tracker part of an entry of the actor table of `QueryBlocked`. -/
def BlockedActorInfo.tracker (e : BlockedActorInfo) : Tracker :=
  { LastPosition := e.LastPosition, Time := e.Time, Duration := e.Duration }

/-- The transition of section 4.4.3, written from the words of the specification: "If
distance(LastPosition, Location) < minDistance: if Duration == 0, set Time :=
Frame.Elapsed; then Duration += Frame.DurationThis.  Else: if Duration >= minTime, emit
one result row for this actor with (Time, id, label, Duration).  Reset Duration := 0, set
LastPosition := Location."  The result is the new tracker and, when a row is emitted, the
`(Time, Duration)` the row carries. -/
def specTrackerStep (A : BlockedArith) (minTime minDistance : Nat) (Elapsed DurationThis : Nat)
    (Location : FVector) (t : Tracker) : Tracker × Option (Nat × Nat) :=
  if A.distanceLess t.LastPosition Location minDistance then
    ({ LastPosition := t.LastPosition,
       Time := if doubleEq t.Duration 0 then Elapsed else t.Time,
       Duration := A.add t.Duration DurationThis }, none)
  else
    ({ LastPosition := Location, Time := t.Time, Duration := 0 },
     if doubleGe t.Duration minTime then some (t.Time, t.Duration) else none)

/-- The fault of a run that has no report. -/
def faultOf {α : Type} (r : Except Fault α) : Option Fault :=
  match r with
  | .ok _ => none
  | .error e => some e

/-- A valid file header followed by a truncated packet header: the one byte 5, the id of
a `Collision` packet, and no `Size`. -/
def truncatedPacketHeader : List Nat := scenarioHeader ++ [5]

/-! ## A reference arithmetic

Closed statements about `QueryBlocked` need concrete values for the parameters of
`BlockedArith`.  The reference arithmetic adds doubles as IEEE 754 prescribes (the exact
sum rounded to the nearest double, ties to even) and decides
`FVector::Distance(a, b) < d` on the exact values of the components and of `d`, which is
the result of the machine's computation whenever the rounding of the distance does not
cross `d`. -/

/-- The magnitude of a finite double, as a multiple of `2^-1074`. -/
def doubleMagnitude (x : Nat) : Nat :=
  if (x / 2 ^ 52) % 2048 = 0 then x % 2 ^ 52
  else (2 ^ 52 + x % 2 ^ 52) * 2 ^ ((x / 2 ^ 52) % 2048 - 1)

/-- The sign bit of a double. -/
def doubleNegative (x : Nat) : Bool := (x / 2 ^ 63) % 2 = 1

/-- An infinity of either sign. -/
def doubleIsInf (x : Nat) : Bool := (x / 2 ^ 52) % 2048 = 2047 ∧ x % 2 ^ 52 = 0

/-- The position of the leading bit of `n`, for `0 < n < 2^4096`. -/
def leadingBit (n : Nat) : Nat :=
  ([2048, 1024, 512, 256, 128, 64, 32, 16, 8, 4, 2, 1].foldl
    (fun (acc : Nat × Nat) k => if 2 ^ k ≤ acc.1 then (acc.1 / 2 ^ k, acc.2 + k) else acc)
    (n, 0)).2

/-- The bit pattern, without the sign, of the double nearest to `n * 2^-1074`, ties to
even; a value too large for a finite double gives the pattern of infinity. -/
def roundMagnitude (n : Nat) : Nat :=
  if n < 2 ^ 53 then n
  else
    let shift := leadingBit n - 52
    let q := n / 2 ^ shift
    let r := n % 2 ^ shift
    let q1 := if 2 ^ (shift - 1) < r ∨ (r = 2 ^ (shift - 1) ∧ q % 2 = 1) then q + 1 else q
    if 2047 * 2 ^ 52 ≤ shift * 2 ^ 52 + q1 then 2047 * 2 ^ 52 else shift * 2 ^ 52 + q1

/-- The double with the value of the natural number `n`, rounded when `n` needs more
than 53 bits. -/
def doubleOfNat (n : Nat) : Nat := roundMagnitude (n * 2 ^ 1074)

/-- `x + y` on doubles in the default rounding mode. -/
def doubleAdd (x y : Nat) : Nat :=
  if doubleIsNaN x ∨ doubleIsNaN y then 0x7FF8000000000000
  else if doubleIsInf x then
    if doubleIsInf y ∧ doubleNegative x ≠ doubleNegative y then 0x7FF8000000000000
    else x % 2 ^ 64
  else if doubleIsInf y then y % 2 ^ 64
  else if doubleNegative x = doubleNegative y then
    (if doubleNegative x then 2 ^ 63 else 0)
      + roundMagnitude (doubleMagnitude x + doubleMagnitude y)
  else if doubleMagnitude x = doubleMagnitude y then 0
  else if doubleMagnitude y < doubleMagnitude x then
    (if doubleNegative x then 2 ^ 63 else 0)
      + roundMagnitude (doubleMagnitude x - doubleMagnitude y)
  else
    (if doubleNegative y then 2 ^ 63 else 0)
      + roundMagnitude (doubleMagnitude y - doubleMagnitude x)

/-- The value of a finite `float`, as a multiple of `2^-149`. -/
def floatValue (x : Nat) : Int :=
  let magnitude : Nat :=
    if (x / 2 ^ 23) % 256 = 0 then x % 2 ^ 23
    else (2 ^ 23 + x % 2 ^ 23) * 2 ^ ((x / 2 ^ 23) % 256 - 1)
  if (x / 2 ^ 31) % 2 = 1 then - (magnitude : Int) else (magnitude : Int)

/-- A `float` that is neither an infinity nor a NaN. -/
def floatIsFinite (x : Nat) : Bool := (x / 2 ^ 23) % 256 ≠ 255

/-- The square of the distance of two points with finite components, as a multiple of
`2^-298`. -/
def distanceSquared (a b : FVector) : Nat :=
  ((floatValue a.X - floatValue b.X) ^ 2 + (floatValue a.Y - floatValue b.Y) ^ 2
    + (floatValue a.Z - floatValue b.Z) ^ 2).toNat

/-- `FVector::Distance(a, b) < d` decided on the exact values: false when a component or
`d` is a NaN or a component is infinite, and when `d` is not positive. -/
def exactDistanceLess (a b : FVector) (d : Nat) : Bool :=
  if doubleIsNaN d ∨ doubleNegative d then false
  else if ¬ (floatIsFinite a.X ∧ floatIsFinite a.Y ∧ floatIsFinite a.Z
      ∧ floatIsFinite b.X ∧ floatIsFinite b.Y ∧ floatIsFinite b.Z) then false
  else if doubleIsInf d then true
  else decide (distanceSquared a b * 2 ^ 1850 < doubleMagnitude d ^ 2)

/-- The reference arithmetic. -/
def referenceArith : BlockedArith :=
  { add := doubleAdd, distanceLess := exactDistanceLess }

/-- One `Position` record with rotation zero; the components of the location are the bit
patterns of three floats. -/
def encodePosition (databaseId : Nat) (location : Nat × Nat × Nat) : List Nat :=
  leBytes 4 databaseId ++ leBytes 4 location.1 ++ leBytes 4 location.2.1
    ++ leBytes 4 location.2.2 ++ leBytes 12 0

/-- The double 1.0. -/
def double_1 : Nat := 0x3FF0000000000000

/-- The double 5.0. -/
def double_5 : Nat := 0x4014000000000000

/-- The packets of one frame of a recording of actor 7 alone: `FrameStart` with the given
id, elapsed time `id - 1` seconds and duration 1.0, then a `Position` packet with the one
record of actor 7 at `(x, 0, 0)`. -/
def positionFrame (id x : Nat) : List Nat :=
  encodePacket 0 (encodeFrame id (doubleOfNat (id - 1)) double_1)
    ++ encodePacket 6 (encodeList [encodePosition 7 (x, 0, 0)])

/-- Scenario S4: a valid header, then 10 frames of duration 1.0 with actor 7 at
`(0, 0, 0)`, then the end of the file. -/
def scenarioS4 : List Nat :=
  scenarioHeader ++ ((List.range 10).map (fun k => positionFrame (k + 1) 0)).flatten

/-- The floats nearest to 0.06, 0.12, ..., 0.60: the X coordinates of an actor that
advances by 0.06 in every frame. -/
def creepingX : List Nat :=
  [0x3D75C28F, 0x3DF5C28F, 0x3E3851EC, 0x3E75C28F, 0x3E99999A, 0x3EB851EC, 0x3ED70A3D,
   0x3EF5C28F, 0x3F0A3D71, 0x3F19999A]

/-- A recording of 10 frames of duration 1.0 in which actor 7 advances by 0.06 along X in
every frame, closed by a `FrameEnd` packet. -/
def creepingActor : List Nat :=
  scenarioHeader
    ++ (creepingX.enum.map (fun e => positionFrame (e.1 + 1) e.2)).flatten
    ++ encodePacket 1 []

/-- The column header of the blocked report. -/
def blockedColumns : String :=
  "    Time     Id Actor                                 Duration\n"

/-! ## Vocabulary for statements about the stream and the packet loops -/

/-- The eofbit is set only together with the failbit, as every read leaves it. -/
def IfStream.wf (f : IfStream) : Prop := f.eofbit = true → f.failbit = true

/-- The stream `g` is a later state of the stream `f`: the same file, a read position
that is not smaller, and a failure that is still there. -/
def IfStream.Le (f g : IfStream) : Prop :=
  g.data = f.data ∧ g.isOpen = f.isOpen ∧ f.pos ≤ g.pos ∧
    (f.failbit = true → g.failbit = true) ∧ (f.wf → g.wf)

/-- A relation `R` between two streams that reads and seeks carry along as long as the
first stream stays in the set `V`: related streams have the same state flags, a read
that ends in `V` returns the same block on both and leaves them related, and `V` holds
of every earlier state of a stream in `V`. -/
def IsCoupling (R : IfStream → IfStream → Prop) (V : IfStream → Prop) : Prop :=
  (∀ f g : IfStream, R f g → f.wf ∧ f.eofbit = g.eofbit ∧ f.failbit = g.failbit) ∧
  (∀ (f g : IfStream) (n : Nat), R f g → V (f.read n).2 →
    (f.read n).1 = (g.read n).1 ∧ R (f.read n).2 (g.read n).2) ∧
  (∀ (f g : IfStream) (n : Nat), R f g → V (f.seekg n) → R (f.seekg n) (g.seekg n)) ∧
  (∀ f g : IfStream, f.wf → f.Le g → V g → V f)

/-- Two streams with the same bytes ahead of the read position and the same flags. -/
def IfStream.Sim (f g : IfStream) : Prop :=
  f.wf ∧ f.rest = g.rest ∧ f.isOpen = g.isOpen ∧ f.eofbit = g.eofbit ∧ f.failbit = g.failbit

/-- Two streams at the same position and with the same flags over files that agree on
their first `p` bytes. -/
def IfStream.PreEq (p : Nat) (f g : IfStream) : Prop :=
  f.wf ∧ f.data.take p = g.data.take p ∧ f.pos = g.pos ∧ f.isOpen = g.isOpen ∧
    f.eofbit = g.eofbit ∧ f.failbit = g.failbit

/-- A good stream whose read position is within the first `p` bytes of the file. -/
def IfStream.Within (p : Nat) (f : IfStream) : Prop := f.good = true ∧ f.pos ≤ p

/-- A reader `k` of values from the stream that only reads forward: it leaves a later
state of the stream, and on related streams it returns the same value and leaves related
streams. -/
def Reader {α : Type} (k : IfStream → α × IfStream) : Prop :=
  (∀ f : IfStream, f.Le (k f).2) ∧
  ∀ R V, IsCoupling R V → ∀ f g : IfStream, R f g → V (k f).2 →
    (k f).1 = (k g).1 ∧ R (k f).2 (k g).2

/-- The locals of a packet loop together with the query object: the three loops differ
in the locals only. -/
class LoopState (σ : Type) where
  self : σ → CarlaRecorderQuery
  setSelf : σ → CarlaRecorderQuery → σ
  self_setSelf : ∀ s q, self (setSelf s q) = q
  setSelf_setSelf : ∀ s q q', setSelf (setSelf s q) q' = setSelf s q'
  setSelf_self : ∀ s, setSelf s (self s) = s

instance : LoopState InfoState where
  self := fun s => s.self
  setSelf := fun s q => { s with self := q }
  self_setSelf := fun _ _ => rfl
  setSelf_setSelf := fun _ _ _ => rfl
  setSelf_self := fun _ => rfl

instance : LoopState CollisionsState where
  self := fun s => s.self
  setSelf := fun s q => { s with self := q }
  self_setSelf := fun _ _ => rfl
  setSelf_setSelf := fun _ _ _ => rfl
  setSelf_self := fun _ => rfl

instance : LoopState BlockedState where
  self := fun s => s.self
  setSelf := fun s q => { s with self := q }
  self_setSelf := fun _ _ => rfl
  setSelf_setSelf := fun _ _ _ => rfl
  setSelf_self := fun _ => rfl

/-- The stream of a loop state. -/
def LoopState.file {σ : Type} [LoopState σ] (s : σ) : IfStream := (LoopState.self s).File

/-- The loop state with its stream replaced. -/
def LoopState.setFile {σ : Type} [LoopState σ] (s : σ) (g : IfStream) : σ :=
  LoopState.setSelf s { LoopState.self s with File := g }

/-- The shape shared by the three packet loops (lines 128-707, 751-866, 937-1034):
`while (File) { if (!ReadHeader()) break; switch (Header.Id) ... }`, run for at most
`fuel` iterations. -/
def packetLoop {σ : Type} [LoopState σ] (packet : σ → Except Fault σ) :
    Nat → σ → Except Fault σ
  | 0, _ => .error .outOfFuel
  | fuel + 1, s =>
    if (LoopState.self s).File.toBool then
      let h := ReadHeader (LoopState.self s)
      if h.1 then
        match packet (LoopState.setSelf s h.2) with
        | .ok t => packetLoop packet fuel t
        | .error e => .error e
      else .ok (LoopState.setSelf s h.2)
    else .ok s

/-- The state at the head of the packet loop after `k` more iterations, when the loop
runs that long. -/
def packetIter {σ : Type} [LoopState σ] (packet : σ → Except Fault σ) : Nat → σ → Option σ
  | 0, s => some s
  | k + 1, s =>
    if (LoopState.self s).File.toBool then
      let h := ReadHeader (LoopState.self s)
      if h.1 then
        match packet (LoopState.setSelf s h.2) with
        | .ok t => packetIter packet k t
        | .error _ => none
      else none
    else none

/-- The states in which the `switch (Header.Id)` is entered during a run of the packet
loop, in order: one per packet dispatched. -/
def packetTrace {σ : Type} [LoopState σ] (packet : σ → Except Fault σ) : Nat → σ → List σ
  | 0, _ => []
  | fuel + 1, s =>
    if (LoopState.self s).File.toBool then
      let h := ReadHeader (LoopState.self s)
      if h.1 then
        LoopState.setSelf s h.2 ::
          (match packet (LoopState.setSelf s h.2) with
          | .ok t => packetTrace packet fuel t
          | .error _ => [])
      else []
    else []

/-- A step of a query that uses the stream by reading forward and seeking only: it
leaves a later state of the stream, and on a state whose stream is replaced by a related
one it does the same and leaves related streams. -/
def LocalStep {σ : Type} [LoopState σ] (step : σ → Except Fault σ) : Prop :=
  (∀ s t, step s = .ok t → (LoopState.file s).Le (LoopState.file t)) ∧
  ∀ R V, IsCoupling R V → ∀ s g t, R (LoopState.file s) g → step s = .ok t →
    V (LoopState.file t) →
    ∃ g', step (LoopState.setFile s g) = .ok (LoopState.setFile t g') ∧
      R (LoopState.file t) g'

/-- The least number of iterations that is enough for the packet loop on the stream
`f`: one for a failed stream, and otherwise the number of bytes ahead plus two. -/
def IfStream.budget (f : IfStream) : Nat :=
  if f.failbit then 1 else f.data.length - f.pos + 2

/-- The assumption on the codec of `PhysicsControl` records, which is not modelled: it
reads forward from the stream and does nothing else with it. -/
def PhysicsCodec.Local (C : PhysicsCodec) : Prop := ∀ r, Reader (fun f => C.Read f r)

/-- A step whose only fault is undefined behaviour. -/
def UBOnly {σ : Type} (step : σ → Except Fault σ) : Prop :=
  ∀ s e, step s = .error e → e = Fault.undefinedBehaviour

/-! ## Vocabulary for statements about a whole run -/

/-- The query object when the packet loop of a query on the file `Filename` starts: the
file opened and the file header read by `CheckFileInfo`. -/
def CarlaRecorderQuery.afterHeader (P : Platform) (fs : String → Option (List Nat))
    (self : CarlaRecorderQuery) (Filename : String) : CarlaRecorderQuery :=
  (CheckFileInfo P { self with File := self.File.open (fs (P.GetRecorderFilename Filename)) }
    OStream.init).2.1

/-- The file of the name `Filename` opens (the stream `File` was closed and the file
exists) and its header carries the magic text. -/
def validRecording (P : Platform) (fs : String → Option (List Nat))
    (self : CarlaRecorderQuery) (Filename : String) : Prop :=
  self.File.isOpen = false ∧ (fs (P.GetRecorderFilename Filename)).isSome = true ∧
    (self.afterHeader P fs Filename).RecInfo.Magic = "CARLA_RECORDER"

/-- The state in which the packet loop of `QueryInfo` starts. -/
def infoStart (P : Platform) (fs : String → Option (List Nat)) (self : CarlaRecorderQuery)
    (Filename : String) : InfoState :=
  { self := self.afterHeader P fs Filename
    Info := { OStream.init with buf := fileHeaderBlock P (self.afterHeader P fs Filename).RecInfo }
    Total := none
    bFramePrinted := false }

/-- The state in which the packet loop of `QueryCollisions` starts. -/
def collisionsStart (P : Platform) (fs : String → Option (List Nat))
    (self : CarlaRecorderQuery) (Filename : String) : CollisionsState :=
  { self := self.afterHeader P fs Filename
    Info := putCollisionsHeader
      { OStream.init with buf := fileHeaderBlock P (self.afterHeader P fs Filename).RecInfo }
    Total := none
    Actors := []
    oldCollisions := []
    newCollisions := [] }

/-- The state in which the packet loop of `QueryBlocked` starts. -/
def blockedStart (P : Platform) (fs : String → Option (List Nat))
    (self : CarlaRecorderQuery) (Filename : String) : BlockedState :=
  { self := self.afterHeader P fs Filename
    Info := putBlockedHeader
      { OStream.init with buf := fileHeaderBlock P (self.afterHeader P fs Filename).RecInfo }
    Total := none
    Actors := []
    Results := [] }

/-- The number of iterations the queries allow their packet loop on a state. -/
def loopFuel {σ : Type} [LoopState σ] (s : σ) : Nat := (LoopState.self s).File.data.length + 2

/-- The value of the member `Frame` after the packets dispatched in the states `trace`:
what `Frame.Read` left at the last `FrameStart` packet, and `init` when there was none. -/
def lastFrameRead {σ : Type} [LoopState σ] (P : Platform) (trace : List σ)
    (init : CarlaRecorderFrame) : CarlaRecorderFrame :=
  trace.foldl
    (fun Frame d =>
      if P.packetKind (LoopState.self d).Header.Id = .FrameStart then
        (CarlaRecorderFrame.Read (LoopState.self d).File (LoopState.self d).Frame).1
      else Frame)
    init

/-! ## The rows `QueryBlocked` emits

To speak of the rows emitted during a run, the three places that touch `Results` are
written once more with the insertion as a parameter: with `insertResult` they are the
code of `QueryBlocked`, with `logResult` they keep the rows in the order of emission. -/

/-- The body of the `Position` loop (lines 991-1016) with the insertion into `Results`
as the parameter `ins`. -/
def blockedPositionWith (ins : List (Nat × String) → Nat → String → List (Nat × String))
    (P : Platform) (A : BlockedArith) (MinTime MinDistance : Nat)
    (s : BlockedState) : Except Fault BlockedState :=
  let rd := CarlaRecorderPosition.Read s.self.File s.self.Position
  let self1 := { s.self with File := rd.2, Position := rd.1 }
  let entry := mapIndex BlockedActorInfo.init s.Actors rd.1.DatabaseId
  if A.distanceLess entry.1.LastPosition rd.1.Location MinDistance then
    let timed := if doubleEq entry.1.Duration 0 then { entry.1 with Time := self1.Frame.Elapsed }
      else entry.1
    .ok { s with self := self1,
                 Actors := mapAssign entry.2 rd.1.DatabaseId
                   { timed with Duration := A.add timed.Duration self1.Frame.DurationThis } }
  else
    .ok { s with self := self1,
                 Results := if doubleGe entry.1.Duration MinTime then
                     ins s.Results entry.1.Duration (blockedRow P rd.1.DatabaseId entry.1)
                   else s.Results,
                 Actors := mapAssign entry.2 rd.1.DatabaseId
                   { entry.1 with Duration := 0, LastPosition := rd.1.Location } }

/-- The `switch (Header.Id)` of `QueryBlocked` with the insertion into `Results` as the
parameter `ins`: the `Position` case runs `blockedPositionWith ins`, the other cases do
not touch `Results`. -/
def blockedPacketWith (ins : List (Nat × String) → Nat → String → List (Nat × String))
    (P : Platform) (A : BlockedArith) (MinTime MinDistance : Nat)
    (s : BlockedState) : Except Fault BlockedState :=
  match P.packetKind s.self.Header.Id with
  | .Position =>
    forTotal s.readTotal.Total (blockedPositionWith ins P A MinTime MinDistance) s.readTotal
  | _ => blockedPacket P A MinTime MinDistance s

/-- The flush of lines 1037-1050 with the insertion into `Results` as the parameter
`ins`. -/
def blockedFlushWith (ins : List (Nat × String) → Nat → String → List (Nat × String))
    (P : Platform) (MinTime : Nat) :
    List (Nat × BlockedActorInfo) → List (Nat × String) → List (Nat × String)
  | [], Results => Results
  | Actor :: rest, Results =>
    blockedFlushWith ins P MinTime rest
      (if doubleGe Actor.2.Duration MinTime then
        ins Results Actor.2.Duration (blockedRow P Actor.1 Actor.2)
      else Results)

/-- The insertion that keeps the rows in the order in which they are emitted. -/
def logResult (Results : List (Nat × String)) (key : Nat) (row : String) :
    List (Nat × String) :=
  Results ++ [(key, row)]

/-- The rows a run of `QueryBlocked` emits, each with the Duration it was emitted with,
in the order of emission: the rows of the packet loop, then the rows of the flush. -/
def emittedRows (P : Platform) (A : BlockedArith) (fs : String → Option (List Nat))
    (self : CarlaRecorderQuery) (Filename : String) (MinTime MinDistance : Nat) :
    List (Nat × String) :=
  match packetLoop (blockedPacketWith logResult P A MinTime MinDistance)
      (loopFuel (blockedStart P fs self Filename)) (blockedStart P fs self Filename) with
  | .ok s => blockedFlushWith logResult P MinTime s.Actors s.Results
  | .error _ => []

/-- Two states of `QueryBlocked` that differ at most in the order of `Results`. -/
def sameRows (s t : BlockedState) : Prop :=
  s.self = t.self ∧ s.Info = t.Info ∧ s.Total = t.Total ∧ s.Actors = t.Actors ∧
    s.Results.Perm t.Results

/-- The rows of `Results` are in non-increasing order of their keys, as doubles. -/
def rowsSorted (Results : List (Nat × String)) : Prop :=
  Results.Pairwise (fun a b => doubleGe a.1 b.1 = true) ∧
    ∀ a ∈ Results, doubleGe a.1 a.1 = true

/-! ## Vocabulary for the frame line of QueryInfo -/

/-- Scenario S1: a frame with one `EventAdd` packet that holds one record. -/
def scenarioS1 : List Nat :=
  scenarioHeader
    ++ encodePacket 0 (encodeFrame 1 0 double_0_05)
    ++ encodePacket 2 (encodeList [encodeEventAdd 7 1 (0x3F800000, 0x40000000, 0x40400000)
        "vehicle.tesla.model3"])
    ++ encodePacket 1 []

/-- The state in which the packet loop of `QueryInfo` starts on the recording `data`
stored as "Saved/s.log". -/
def infoStartOn (data : List Nat) : InfoState :=
  infoStart referencePlatform (singleFile "Saved/s.log" data) CarlaRecorderQuery.zero "s"

/-- The entry of the actor `id` is not touched between the body of the `Position` loop on
the state `s` and the state `s2`: `Actors.find(id)` gives in `s2` what the body on `s`
left. -/
def entryCarried (P : Platform) (A : BlockedArith) (MinTime MinDistance : Nat) (id : Nat)
    (s s2 : BlockedState) : Bool :=
  match blockedPosition P A MinTime MinDistance s with
  | .ok t => decide (mapFind s2.Actors id = mapFind t.Actors id)
  | .error _ => false

/-- The entry of the actor `id` is not touched between the bodies of the `Position` loop
on the consecutive states of `run`. -/
def entriesCarried (P : Platform) (A : BlockedArith) (MinTime MinDistance : Nat) (id : Nat) :
    List BlockedState → Bool
  | s :: s2 :: rest =>
    entryCarried P A MinTime MinDistance id s s2 &&
      entriesCarried P A MinTime MinDistance id (s2 :: rest)
  | _ => true

/-- The state in which the packet loop of `QueryBlocked` starts on the recording `data`
stored as "Saved/s.log". -/
def blockedStartOn (data : List Nat) : BlockedState :=
  blockedStart referencePlatform (singleFile "Saved/s.log" data) CarlaRecorderQuery.zero "s"

/-- The states in which the body of the `Position` loop works on the first record of each
`Position` packet dispatched by `QueryBlocked` with minTime 5 and minDistance 0.1 on the
recording `data`. -/
def positionStatesOn (data : List Nat) : List BlockedState :=
  ((packetTrace (blockedPacket referencePlatform referenceArith double_5 double_0_10)
      (loopFuel (blockedStartOn data)) (blockedStartOn data)).filter
    (fun d => decide (referencePlatform.packetKind d.self.Header.Id = .Position))).map
    BlockedState.readTotal

/-- The outcome `r2` of a packet loop is the outcome `r1` up to the state of the stream:
the same fault, or a final state that differs in the member `File` only. -/
def sameUpToFile {σ : Type} [LoopState σ] (r1 r2 : Except Fault σ) : Prop :=
  match r1 with
  | .ok t => ∃ g, r2 = .ok (LoopState.setFile t g)
  | .error e => r2 = .error e

/-- The report of a run, or its fault. -/
def reportOf (r : Except Fault (String × CarlaRecorderQuery)) : Except Fault String :=
  match r with
  | .ok x => .ok x.1
  | .error e => .error e

/-- The packet loop `packet` started in the state `s` is back at the head of the loop
after `k` iterations, with a good stream at the read position `p`: the position `p` is a
packet boundary of the run. -/
def packetBoundary {σ : Type} [LoopState σ] (packet : σ → Except Fault σ) (s : σ)
    (k p : Nat) : Bool :=
  match packetIter packet k s with
  | some b => decide ((LoopState.file b).pos = p) && (LoopState.file b).good
  | none => false

/-- The file header and the `FrameStart` packet of scenario S1. -/
def scenarioS1Head : List Nat :=
  scenarioHeader ++ encodePacket 0 (encodeFrame 1 0 double_0_05)

/-- The `EventAdd` packet and the `FrameEnd` packet of scenario S1. -/
def scenarioS1Tail : List Nat :=
  encodePacket 2 (encodeList [encodeEventAdd 7 1 (0x3F800000, 0x40000000, 0x40400000)
      "vehicle.tesla.model3"])
    ++ encodePacket 1 []

/-- The kinds of the cases of `QueryInfo` that print only when `bShowAll` is set and call
`SkipPacket` otherwise. -/
def PacketKind.showAllOnly : PacketKind → Bool
  | .Position | .State | .AnimVehicle | .AnimWalker | .VehicleDoor | .VehicleLight
  | .SceneLight | .Kinematics | .BoundingBox | .TriggerVolume | .PlatformTime
  | .PhysicsControl | .TrafficLightTime | .WalkerBones => true
  | _ => false

/-! ## Recordings for the statements about truncated files and repeated calls -/

/-- A recording that ends inside an `EventAdd` packet: the packet declares two records
and the file ends after the first one. -/
def truncatedEventAdd : List Nat :=
  scenarioHeader
    ++ encodePacket 0 (encodeFrame 1 0 double_0_05)
    ++ 2 :: leBytes 4 100 ++ leBytes 2 2
    ++ encodeEventAdd 7 1 (0x3F800000, 0x40000000, 0x40400000) "vehicle.tesla.model3"

/-- A recording that ends inside a `Collision` packet: the packet declares two records
and the file ends after the first one. -/
def truncatedCollision : List Nat :=
  scenarioHeader
    ++ encodePacket 0 (encodeFrame 1 0 double_0_05)
    ++ 5 :: leBytes 4 30 ++ leBytes 2 2
    ++ encodeCollision 1 1 0 7 8

/-- A recording with no `FrameStart` packet: the scenario header and one `FrameEnd`
packet. -/
def noFrameRecording : List Nat := scenarioHeader ++ encodePacket 1 []

/-- A recording of one frame whose elapsed time is 0.05 seconds, with one collision
between the actors 7 and 8, closed by a `FrameEnd` packet. -/
def fractionalElapsed : List Nat :=
  scenarioHeader
    ++ encodePacket 0 (encodeFrame 1 double_0_05 double_0_05)
    ++ encodePacket 5 (encodeList [encodeCollision 1 1 0 7 8])
    ++ encodePacket 1 []

/-- A recording that ends with the `FrameStart` packet of its only frame. -/
def endsWithFrameStart : List Nat :=
  scenarioHeader ++ encodePacket 0 (encodeFrame 1 0 double_0_05)

/-- The report of a second call of `QueryInfo`, on the file system `fs2`, made on the
query object that a first call of `QueryInfo`, on the file system `fs1`, has left. -/
def secondInfoReport (fs1 fs2 : String → Option (List Nat)) (bShowAll : Bool) :
    Option String :=
  match QueryInfo referencePlatform PhysicsCodec.absent fs1 CarlaRecorderQuery.zero "s"
      bShowAll with
  | .ok r =>
    (QueryInfo referencePlatform PhysicsCodec.absent fs2 r.2 "s" bShowAll).toOption.map
      (fun r2 => r2.1)
  | .error _ => none

/-! ## Vocabulary for statements about the lines of a report -/

/-- The lines of a text, read from its characters: `acc` holds the characters of the
line being read, last first. -/
def linesFrom : List Char → List Char → List String
  | [], acc => [String.mk acc.reverse]
  | c :: cs, acc =>
    if c = '\n' then String.mk acc.reverse :: linesFrom cs []
    else linesFrom cs (c :: acc)

/-- The lines of a report: the texts between its newline characters. -/
def reportLines (report : String) : List String := linesFrom report.toList []

/-- The door name the claim gives for a value of the byte `Doors`, written from the
words of the specification: FL = 1 is Front Left, FR = 2 Front Right, RL = 4 Rear Left,
RR = 8 Rear Right, Hood = 16, Trunk = 32, All = 0xFF, and no other value has a name. -/
def specDoorName (Doors : Nat) : Option String :=
  if Doors = 1 then some "Front Left"
  else if Doors = 2 then some "Front Right"
  else if Doors = 4 then some "Rear Left"
  else if Doors = 8 then some "Rear Right"
  else if Doors = 16 then some "Hood"
  else if Doors = 32 then some "Trunk"
  else if Doors = 255 then some "All"
  else none

/-! ## Vocabulary for the rows of QueryCollisions -/

/-- The text of one row of the collisions report (lines 856-862): the elapsed time with
zero decimals in 8 columns, the two category letters, and the two ids and labels. -/
def collisionRowText (P : Platform) (Elapsed : Nat) (Type1 Type2 : Char)
    (DatabaseId1 : Nat) (Id1 : String) (DatabaseId2 : Nat) (Id2 : String) : String :=
  padField false 8 (P.formatDouble true 0 Elapsed) ++ " " ++ "  "
    ++ String.singleton Type1 ++ " " ++ String.singleton Type2 ++ " " ++ " "
    ++ padField false 6 (toString DatabaseId1) ++ " " ++ padField true 35 Id1 ++ " "
    ++ padField false 6 (toString DatabaseId2) ++ " " ++ padField true 35 Id2 ++ "\n"

/-- A recording of two frames in which the actors 7 and 8 collide in both: in frame 1
the side-1 hero flag of the record is 0, in frame 2 it is 1. -/
def heroFlagSetLater : List Nat :=
  scenarioHeader
    ++ encodePacket 0 (encodeFrame 1 0 double_0_05)
    ++ encodePacket 5 (encodeList [encodeCollision 1 0 0 7 8])
    ++ encodePacket 0 (encodeFrame 2 double_0_05 double_0_05)
    ++ encodePacket 5 (encodeList [encodeCollision 1 1 0 7 8])
    ++ encodePacket 1 []

/-- The state in which `QueryCollisions` with the filter ('h', 'a') dispatches the
packet number `i` of the recording `heroFlagSetLater`. -/
def heroFlagDispatch (i : Nat) : CollisionsState :=
  (packetTrace (collisionsPacket referencePlatform 'h' 'a')
    (loopFuel (collisionsStart referencePlatform (singleFile "Saved/s.log" heroFlagSetLater)
      CarlaRecorderQuery.zero "s"))
    (collisionsStart referencePlatform (singleFile "Saved/s.log" heroFlagSetLater)
      CarlaRecorderQuery.zero "s")).getD i
    (collisionsStart referencePlatform (singleFile "Saved/s.log" heroFlagSetLater)
      CarlaRecorderQuery.zero "s")

/-- The state in which the body of the `Collision` loop works on the record of frame 1
of `heroFlagSetLater`. -/
def heroFlagFirstRecord : CollisionsState := (heroFlagDispatch 1).readTotal

/-- The state in which the body of the `Collision` loop works on the record of frame 2
of `heroFlagSetLater`. -/
def heroFlagSecondRecord : CollisionsState := (heroFlagDispatch 3).readTotal

/-! ## Vocabulary for repeated records of QueryCollisions -/

/-- The pair `(Collision.DatabaseId1, Collision.DatabaseId2)` of the record the body of
the `Collision` loop works on in state `s`. -/
def CollisionsState.pair (s : CollisionsState) : Nat × Nat :=
  (s.record.DatabaseId1, s.record.DatabaseId2)

/-- The anchor of section 4.4.3, written from the words of the specification: starting
from `anchor`, every location that is at least `MinDistance` away from the current anchor
becomes the anchor, and a closer location leaves it unchanged. -/
def specAnchor (A : BlockedArith) (MinDistance : Nat) (anchor : FVector) :
    List FVector → FVector
  | [] => anchor
  | loc :: rest =>
    specAnchor A MinDistance
      (if A.distanceLess anchor loc MinDistance = true then anchor else loc) rest

/-- The locations of the records the bodies of the `Position` loop read in the states
`run`. -/
def recordLocations (run : List BlockedState) : List FVector :=
  run.map (fun s => s.record.Location)

/-- The anchors `specAnchor` holds after each of the first `n` locations of `locs`. -/
def anchorsAfter (A : BlockedArith) (MinDistance : Nat) (anchor : FVector)
    (locs : List FVector) (n : Nat) : List FVector :=
  (List.range n).map (fun k => specAnchor A MinDistance anchor (locs.take (k + 1)))

/-- The state in which the body of the `Position` loop works on the record of frame 1 of
the recording `creepingActor`. -/
def creepingFirst : BlockedState :=
  (positionStatesOn creepingActor).headD (blockedStartOn creepingActor)

/-- The states in which the body of the `Position` loop works on the records of frames 2
to 4 of the recording `creepingActor`. -/
def creepingRun : List BlockedState := ((positionStatesOn creepingActor).take 4).tail

/-- The state in which the body of the `Position` loop works on the record of frame 4 of
the recording `creepingActor`. -/
def creepingFourth : BlockedState :=
  (positionStatesOn creepingActor).getD 3 (blockedStartOn creepingActor)

/-- The value of the local `Total` fits the type `uint16_t` it has in the source, when it
holds one. -/
def countBounded : Option Nat → Bool
  | none => true
  | some n => decide (n ≤ 65535)

/-- A recording whose only packet has an id no case of the queries handles and declares
a payload of 4294967295 bytes, far more than the file holds. -/
def overlongPacket : List Nat := scenarioHeader ++ [99, 255, 255, 255, 255]

/-- Bytes that are no recording at all: too few for the file header. -/
def garbageBytes : List Nat := [1, 2, 3]

/-- The floatfield and the precision of the stream, the two settings that decide how a
`double` is printed. -/
def OStream.format (o : OStream) : Bool × Nat := (o.fixed, o.precision)

end CarlaRecorder

/-! ## Theorems -/

namespace CarlaRecorder

theorem filterActor_le_one (c t : Char) (h : Nat) : filterActor c t h ≤ 1 := by
  unfold filterActor
  split_ifs <;> omega

theorem filterActor_eq_one_iff (c t : Char) (h : Nat) :
    filterActor c t h = 1 ↔ sidePasses c t h := by
  unfold filterActor sidePasses
  split_ifs with h1 h2 h3
  · simp [h1]
  · simp [h2]
  · simp [h3]
  · simp only [zero_ne_one, false_iff]
    tauto

theorem valid_eq_two_iff (Category1 Category2 Type1 Type2 : Char)
    (IsActor1Hero IsActor2Hero : Nat) :
    filterActor Category1 Type1 IsActor1Hero + filterActor Category2 Type2 IsActor2Hero = 2 ↔
      sidePasses Category1 Type1 IsActor1Hero ∧ sidePasses Category2 Type2 IsActor2Hero := by
  rw [← filterActor_eq_one_iff, ← filterActor_eq_one_iff]
  have h1 := filterActor_le_one Category1 Type1 IsActor1Hero
  have h2 := filterActor_le_one Category2 Type2 IsActor2Hero
  omega

theorem sideCategory_cases (Actors A : List (Nat × ReplayerActorInfo)) (DatabaseId : Nat)
    (T : Char) (h : sideCategory Actors DatabaseId = .ok (T, A)) :
    (DatabaseId = 4294967295 ∧ T = 'o' ∧ A = Actors) ∨
    (DatabaseId ≠ 4294967295 ∧ Categories[storedType Actors DatabaseId]? = some T ∧
      A = (mapIndex ReplayerActorInfo.init Actors DatabaseId).2) := by
  unfold sideCategory at h
  by_cases hid : DatabaseId = 4294967295
  · left
    simp only [hid, ne_eq, not_true_eq_false, if_false, Except.ok.injEq, Prod.mk.injEq] at h
    exact ⟨hid, h.1.symm, h.2.symm⟩
  · right
    simp only [ne_eq, hid, not_false_eq_true, if_true] at h
    unfold storedType
    cases hl : Categories[(mapIndex ReplayerActorInfo.init Actors DatabaseId).1.Type_]? with
    | none => simp [hl] at h
    | some l =>
      simp only [hl, Except.ok.injEq, Prod.mk.injEq] at h
      exact ⟨hid, by rw [h.1], h.2.symm⟩

theorem categories_letter (n : Nat) (T : Char) (h : Categories[n]? = some T) :
    (n = 0 ∧ T = 'o') ∨ (n = 1 ∧ T = 'v') ∨ (n = 2 ∧ T = 'w') ∨ (n = 3 ∧ T = 't') ∨
      (n = 4 ∧ T = 'h') ∨ (n = 5 ∧ T = 'a') := by
  unfold Categories at h
  match n, h with
  | 0, h => simp at h; subst h; simp
  | 1, h => simp at h; subst h; simp
  | 2, h => simp at h; subst h; simp
  | 3, h => simp at h; subst h; simp
  | 4, h => simp at h; subst h; simp
  | 5, h => simp at h; subst h; simp
  | n + 6, h => simp at h

theorem collisionRecord_eq (P : Platform) (c1 c2 : Char) (s : CollisionsState)
    (T1 T2 : Char) (A1 A2 : List (Nat × ReplayerActorInfo))
    (h1 : sideCategory s.Actors s.record.DatabaseId1 = .ok (T1, A1))
    (h2 : sideCategory A1 s.record.DatabaseId2 = .ok (T2, A2)) :
    collisionRecord P c1 c2 s =
      if filterActor c1 T1 s.record.IsActor1Hero + filterActor c2 T2 s.record.IsActor2Hero = 2
      then
        .ok { s with
          self := { s.self with
            File := (CarlaRecorderCollision.Read s.self.File s.self.Collision).2,
            Collision := s.record },
          Info := (if (s.record.DatabaseId1, s.record.DatabaseId2) ∉ s.oldCollisions
                   then putCollisionRow P s.self.Frame s.record T1 T2 s.Info A2
                   else (s.Info, A2)).1,
          Actors := (if (s.record.DatabaseId1, s.record.DatabaseId2) ∉ s.oldCollisions
                   then putCollisionRow P s.self.Frame s.record T1 T2 s.Info A2
                   else (s.Info, A2)).2,
          newCollisions := setInsert s.newCollisions
            (s.record.DatabaseId1, s.record.DatabaseId2) }
      else
        .ok { s with
          self := { s.self with
            File := (CarlaRecorderCollision.Read s.self.File s.self.Collision).2,
            Collision := s.record },
          Actors := A2 } := by
  unfold CollisionsState.record at h1 h2 ⊢
  unfold collisionRecord
  simp only [h1, h2]

theorem collisionRecord_ok (P : Platform) (c1 c2 : Char) (s t : CollisionsState)
    (h : collisionRecord P c1 c2 s = .ok t) :
    ∃ T1 A1 T2 A2,
      sideCategory s.Actors s.record.DatabaseId1 = .ok (T1, A1) ∧
      sideCategory A1 s.record.DatabaseId2 = .ok (T2, A2) := by
  unfold CollisionsState.record
  unfold collisionRecord at h
  generalize CarlaRecorderCollision.Read s.self.File s.self.Collision = rd at h ⊢
  cases h1 : sideCategory s.Actors rd.1.DatabaseId1 with
  | error e => simp [h1] at h
  | ok r1 =>
    obtain ⟨T1, A1⟩ := r1
    cases h2 : sideCategory A1 rd.1.DatabaseId2 with
    | error e => simp [h1, h2] at h
    | ok r2 =>
      obtain ⟨T2, A2⟩ := r2
      exact ⟨T1, A1, T2, A2, rfl, h2⟩

/-- C6. The category letter of a collision side is 'o' for the sentinel id 0xFFFFFFFF;
for any other id it is the element of `Categories` at the index given by the type stored
in the actor table for that id, so type 0 gives 'o', 1 gives 'v', 2 gives 'w' and 3
gives 't'. -/
theorem side_category_letter (Actors : List (Nat × ReplayerActorInfo)) (DatabaseId : Nat)
    (info : ReplayerActorInfo) (hid : DatabaseId ≠ 4294967295)
    (hfind : mapFind Actors DatabaseId = some info) :
    sideCategory Actors 4294967295 = .ok ('o', Actors) ∧
    (∀ letter, Categories[info.Type_]? = some letter →
      sideCategory Actors DatabaseId = .ok (letter, Actors)) ∧
    (info.Type_ = 0 → sideCategory Actors DatabaseId = .ok ('o', Actors)) ∧
    (info.Type_ = 1 → sideCategory Actors DatabaseId = .ok ('v', Actors)) ∧
    (info.Type_ = 2 → sideCategory Actors DatabaseId = .ok ('w', Actors)) ∧
    (info.Type_ = 3 → sideCategory Actors DatabaseId = .ok ('t', Actors)) := by
  have key : ∀ letter, Categories[info.Type_]? = some letter →
      sideCategory Actors DatabaseId = .ok (letter, Actors) := by
    intro letter hl
    simp [sideCategory, hid, mapIndex, hfind, hl]
  refine ⟨by simp [sideCategory], key, ?_, ?_, ?_, ?_⟩ <;> intro ht <;> apply key <;>
    rw [ht] <;> rfl

/-- C6, at a concrete table: actor 7 is stored with type 1 (vehicle). -/
theorem side_category_letter_witness :
    ((7 : Nat) ≠ 4294967295 ∧
      mapFind [(7, ({ Type_ := 1, Id := "vehicle.tesla.model3" } : ReplayerActorInfo))] 7
        = some { Type_ := 1, Id := "vehicle.tesla.model3" }) ∧
    sideCategory [(7, { Type_ := 1, Id := "vehicle.tesla.model3" })] 7
      = .ok ('v', [(7, { Type_ := 1, Id := "vehicle.tesla.model3" })]) :=
  ⟨⟨by decide, by decide⟩,
    (side_category_letter [(7, { Type_ := 1, Id := "vehicle.tesla.model3" })] 7
      { Type_ := 1, Id := "vehicle.tesla.model3" } (by decide) (by decide)).2.2.2.1 rfl⟩

theorem mapFind_append {α : Type} (m : List (Nat × α)) (k j : Nat) (d : α) :
    mapFind (m ++ [(j, d)]) k =
      match mapFind m k with
      | some v => some v
      | none => if j = k then some d else none := by
  unfold mapFind
  rw [List.find?_append]
  cases h : List.find? (fun e => e.1 == k) m with
  | some e => simp
  | none =>
    by_cases hj : j = k
    · simp [hj]
    · simp [hj]

/-- Looking an id up after another lookup gives the same entry as looking it up first. -/
theorem mapIndex_after {α : Type} (d : α) (m : List (Nat × α)) (j k : Nat) :
    (mapIndex d (mapIndex d m j).2 k).1 = (mapIndex d m k).1 := by
  unfold mapIndex
  cases hj : mapFind m j with
  | some v => simp
  | none =>
    simp only [mapFind_append]
    cases hk : mapFind m k with
    | some v => simp
    | none =>
      by_cases hjk : j = k
      · simp [hjk]
      · simp [hjk]

theorem storedType_after (Actors A : List (Nat × ReplayerActorInfo)) (j k : Nat) (T : Char)
    (h : sideCategory Actors j = .ok (T, A)) : storedType A k = storedType Actors k := by
  rcases sideCategory_cases Actors A j T h with ⟨_, _, hA⟩ | ⟨_, _, hA⟩
  · rw [hA]
  · rw [hA]
    exact congrArg (fun e => e.Type_) (mapIndex_after ReplayerActorInfo.init Actors j k)

/-- C10, amended. In `QueryCollisions` a collision record that is read has its pair
(DatabaseId1, DatabaseId2) inserted into `newCollisions` when it passes the category
filter, and leaves `newCollisions` as it was when it does not pass. -/
theorem new_collisions_gain_passing_pairs_only (P : Platform) (Category1 Category2 : Char)
    (s : CollisionsState) (Type1 Type2 : Char) (A1 A2 : List (Nat × ReplayerActorInfo))
    (h1 : sideCategory s.Actors s.record.DatabaseId1 = .ok (Type1, A1))
    (h2 : sideCategory A1 s.record.DatabaseId2 = .ok (Type2, A2)) :
    ∃ t, collisionRecord P Category1 Category2 s = .ok t ∧
      t.self.Collision = s.record ∧
      ((sidePasses Category1 Type1 s.record.IsActor1Hero ∧
          sidePasses Category2 Type2 s.record.IsActor2Hero) →
        t.newCollisions = setInsert s.newCollisions
          (s.record.DatabaseId1, s.record.DatabaseId2)) ∧
      (¬ (sidePasses Category1 Type1 s.record.IsActor1Hero ∧
          sidePasses Category2 Type2 s.record.IsActor2Hero) →
        t.newCollisions = s.newCollisions ∧ t.Info = s.Info) := by
  rw [collisionRecord_eq P Category1 Category2 s Type1 Type2 A1 A2 h1 h2]
  by_cases hv : filterActor Category1 Type1 s.record.IsActor1Hero
      + filterActor Category2 Type2 s.record.IsActor2Hero = 2
  · rw [if_pos hv]
    exact ⟨_, rfl, rfl, fun _ => rfl, fun hn => absurd ((valid_eq_two_iff _ _ _ _ _ _).1 hv) hn⟩
  · rw [if_neg hv]
    exact ⟨_, rfl, rfl, fun hp => absurd ((valid_eq_two_iff _ _ _ _ _ _).2 hp) hv,
      fun _ => ⟨rfl, rfl⟩⟩

/-- C7, amended. Under the filter ('h', 'a') a record prints a row only if its side-1
hero flag is set or its side-1 actor is stored with type 4, the index of the letter 'h'
in `Categories`. -/
theorem hero_filter_row_needs_flag_or_type_four (P : Platform) (s t : CollisionsState)
    (hstep : collisionRecord P 'h' 'a' s = .ok t) (hrow : t.Info ≠ s.Info) :
    s.record.IsActor1Hero ≠ 0 ∨
      (s.record.DatabaseId1 ≠ 4294967295 ∧ storedType s.Actors s.record.DatabaseId1 = 4) := by
  obtain ⟨T1, A1, T2, A2, h1, h2⟩ := collisionRecord_ok P 'h' 'a' s t hstep
  rw [collisionRecord_eq P 'h' 'a' s T1 T2 A1 A2 h1 h2] at hstep
  by_cases hv : filterActor 'h' T1 s.record.IsActor1Hero
      + filterActor 'a' T2 s.record.IsActor2Hero = 2
  · have hp := ((valid_eq_two_iff _ _ _ _ _ _).1 hv).1
    rcases hp with hp | hp | hp
    · exact absurd hp (by decide)
    · right
      rcases sideCategory_cases _ _ _ _ h1 with ⟨_, hT, _⟩ | ⟨hid, hT, _⟩
      · rw [hT] at hp
        exact absurd hp (by decide)
      · refine ⟨hid, ?_⟩
        rw [← hp] at hT
        rcases categories_letter _ _ hT with ⟨_, h⟩ | ⟨_, h⟩ | ⟨_, h⟩ | ⟨_, h⟩ | ⟨h, _⟩ | ⟨_, h⟩
        · exact absurd h (by decide)
        · exact absurd h (by decide)
        · exact absurd h (by decide)
        · exact absurd h (by decide)
        · exact h
        · exact absurd h (by decide)
    · exact Or.inl hp.2
  · rw [if_neg hv] at hstep
    simp only [Except.ok.injEq] at hstep
    rw [← hstep] at hrow
    exact absurd rfl hrow


theorem sideCategory_letter_v (Actors A : List (Nat × ReplayerActorInfo)) (DatabaseId : Nat)
    (h : sideCategory Actors DatabaseId = .ok ('v', A)) :
    DatabaseId ≠ 4294967295 ∧ storedType Actors DatabaseId = 1 := by
  rcases sideCategory_cases _ _ _ _ h with ⟨_, hT, _⟩ | ⟨hid, hT, _⟩
  · exact absurd hT (by decide)
  · refine ⟨hid, ?_⟩
    rcases categories_letter _ _ hT with ⟨_, h⟩ | ⟨h, _⟩ | ⟨_, h⟩ | ⟨_, h⟩ | ⟨_, h⟩ | ⟨_, h⟩
    · exact absurd h (by decide)
    · exact h
    · exact absurd h (by decide)
    · exact absurd h (by decide)
    · exact absurd h (by decide)
    · exact absurd h (by decide)

theorem sideCategory_letter_w (Actors A : List (Nat × ReplayerActorInfo)) (DatabaseId : Nat)
    (h : sideCategory Actors DatabaseId = .ok ('w', A)) :
    DatabaseId ≠ 4294967295 ∧ storedType Actors DatabaseId = 2 := by
  rcases sideCategory_cases _ _ _ _ h with ⟨_, hT, _⟩ | ⟨hid, hT, _⟩
  · exact absurd hT (by decide)
  · refine ⟨hid, ?_⟩
    rcases categories_letter _ _ hT with ⟨_, h⟩ | ⟨_, h⟩ | ⟨h, _⟩ | ⟨_, h⟩ | ⟨_, h⟩ | ⟨_, h⟩
    · exact absurd h (by decide)
    · exact absurd h (by decide)
    · exact h
    · exact absurd h (by decide)
    · exact absurd h (by decide)
    · exact absurd h (by decide)

/-- C8. The collision filter is order-sensitive: under the filter ('v', 'w') a record
prints a row only if its side-1 actor is stored with type 1 (vehicle) and its side-2
actor with type 2 (walker); a record whose side 1 is a walker and whose side 2 is a
vehicle prints no row, whatever its hero flags, and is not entered in `newCollisions`. -/
theorem vehicle_walker_filter_is_ordered (P : Platform) (s t : CollisionsState)
    (hstep : collisionRecord P 'v' 'w' s = .ok t) :
    (t.Info ≠ s.Info →
      (s.record.DatabaseId1 ≠ 4294967295 ∧ storedType s.Actors s.record.DatabaseId1 = 1) ∧
      (s.record.DatabaseId2 ≠ 4294967295 ∧ storedType s.Actors s.record.DatabaseId2 = 2)) ∧
    (storedType s.Actors s.record.DatabaseId1 = 2 ∧
        storedType s.Actors s.record.DatabaseId2 = 1 →
      t.Info = s.Info ∧ t.newCollisions = s.newCollisions) := by
  obtain ⟨T1, A1, T2, A2, h1, h2⟩ := collisionRecord_ok P 'v' 'w' s t hstep
  rw [collisionRecord_eq P 'v' 'w' s T1 T2 A1 A2 h1 h2] at hstep
  have hpass : filterActor 'v' T1 s.record.IsActor1Hero
      + filterActor 'w' T2 s.record.IsActor2Hero = 2 →
      (s.record.DatabaseId1 ≠ 4294967295 ∧ storedType s.Actors s.record.DatabaseId1 = 1) ∧
      (s.record.DatabaseId2 ≠ 4294967295 ∧ storedType s.Actors s.record.DatabaseId2 = 2) := by
    intro hv
    obtain ⟨p1, p2⟩ := (valid_eq_two_iff _ _ _ _ _ _).1 hv
    have e1 : T1 = 'v' := by
      rcases p1 with hp | hp | hp
      · exact absurd hp (by decide)
      · exact hp.symm
      · exact absurd hp.1 (by decide)
    have e2 : T2 = 'w' := by
      rcases p2 with hp | hp | hp
      · exact absurd hp (by decide)
      · exact hp.symm
      · exact absurd hp.1 (by decide)
    rw [e1] at h1
    rw [e2] at h2
    refine ⟨sideCategory_letter_v _ _ _ h1, ?_⟩
    have h := sideCategory_letter_w _ _ _ h2
    rw [storedType_after _ _ _ _ _ h1] at h
    exact h
  by_cases hv : filterActor 'v' T1 s.record.IsActor1Hero
      + filterActor 'w' T2 s.record.IsActor2Hero = 2
  · refine ⟨fun _ => hpass hv, fun hw => ?_⟩
    have h := (hpass hv).1.2
    rw [hw.1] at h
    exact absurd h (by decide)
  · rw [if_neg hv] at hstep
    simp only [Except.ok.injEq] at hstep
    rw [← hstep]
    exact ⟨fun hrow => absurd rfl hrow, fun _ => ⟨rfl, rfl⟩⟩


theorem sideCategory_mem (Actors A : List (Nat × ReplayerActorInfo)) (DatabaseId : Nat)
    (T : Char) (h : sideCategory Actors DatabaseId = .ok (T, A)) : T ∈ Categories := by
  rcases sideCategory_cases _ _ _ _ h with ⟨_, hT, _⟩ | ⟨_, hT, _⟩
  · rw [hT]; decide
  · rcases categories_letter _ _ hT with ⟨_, h⟩ | ⟨_, h⟩ | ⟨_, h⟩ | ⟨_, h⟩ | ⟨_, h⟩ | ⟨_, h⟩ <;>
      rw [h] <;> decide

theorem filterActor_outside (c T : Char) (h : Nat) (hc : c ∉ Categories) (hT : T ∈ Categories) :
    filterActor c T h = 0 := by
  have ha : c ≠ 'a' := fun e => hc (by rw [e]; decide)
  have hh : c ≠ 'h' := fun e => hc (by rw [e]; decide)
  have ht : c ≠ T := fun e => hc (by rw [e]; exact hT)
  simp [filterActor, ha, hh, ht]

theorem collisionRecord_kept (P : Platform) (c1 c2 : Char)
    (hcat : c1 ∉ Categories ∨ c2 ∉ Categories) (s t : CollisionsState)
    (hstep : collisionRecord P c1 c2 s = .ok t) : t.kept = s.kept := by
  obtain ⟨T1, A1, T2, A2, h1, h2⟩ := collisionRecord_ok P c1 c2 s t hstep
  rw [collisionRecord_eq P c1 c2 s T1 T2 A1 A2 h1 h2] at hstep
  have hv : ¬ (filterActor c1 T1 s.record.IsActor1Hero
      + filterActor c2 T2 s.record.IsActor2Hero = 2) := by
    have b1 := filterActor_le_one c1 T1 s.record.IsActor1Hero
    have b2 := filterActor_le_one c2 T2 s.record.IsActor2Hero
    rcases hcat with hc | hc
    · have := filterActor_outside c1 T1 s.record.IsActor1Hero hc (sideCategory_mem _ _ _ _ h1)
      omega
    · have := filterActor_outside c2 T2 s.record.IsActor2Hero hc (sideCategory_mem _ _ _ _ h2)
      omega
  rw [if_neg hv] at hstep
  simp only [Except.ok.injEq] at hstep
  rw [← hstep]
  rfl

theorem repeatBody_preserves {σ α : Type} (f : σ → α) (body : σ → Except Fault σ)
    (hbody : ∀ s t, body s = .ok t → f t = f s) :
    ∀ (n : Nat) (s t : σ), repeatBody body n s = .ok t → f t = f s := by
  intro n
  induction n with
  | zero =>
    intro s t h
    simp only [repeatBody, Except.ok.injEq] at h
    rw [h]
  | succ n ih =>
    intro s t h
    simp only [repeatBody] at h
    cases hb : body s with
    | error e => simp [hb] at h
    | ok u =>
      simp only [hb] at h
      rw [ih u t h, hbody s u hb]

theorem forTotal_preserves {σ α : Type} (f : σ → α) (body : σ → Except Fault σ)
    (hbody : ∀ s t, body s = .ok t → f t = f s) (Total : Option Nat) (s t : σ)
    (h : forTotal Total body s = .ok t) : f t = f s := by
  cases Total with
  | none => simp [forTotal] at h
  | some n => exact repeatBody_preserves f body hbody n s t h

theorem collisionsPacket_kept (P : Platform) (c1 c2 : Char)
    (hcat : c1 ∉ Categories ∨ c2 ∉ Categories) (s t : CollisionsState)
    (hstep : collisionsPacket P c1 c2 s = .ok t) : t.kept = s.kept := by
  unfold collisionsPacket at hstep
  have hread : s.readTotal.kept = s.kept := rfl
  cases hk : P.packetKind s.self.Header.Id <;> simp only [hk] at hstep
  case FrameStart => simp only [Except.ok.injEq] at hstep; rw [← hstep]; rfl
  case FrameEnd => simp only [Except.ok.injEq] at hstep; rw [← hstep]
  case EventAdd =>
    rw [← hread]
    refine forTotal_preserves CollisionsState.kept _ ?_ _ _ _ hstep
    intro a b hab
    simp only [collisionsEventAdd, Except.ok.injEq] at hab
    rw [← hab]; rfl
  case EventDel =>
    rw [← hread]
    refine forTotal_preserves CollisionsState.kept _ ?_ _ _ _ hstep
    intro a b hab
    simp only [collisionsEventDel, Except.ok.injEq] at hab
    rw [← hab]; rfl
  case Collision =>
    rw [← hread]
    exact forTotal_preserves CollisionsState.kept _ (collisionRecord_kept P c1 c2 hcat) _ _ _ hstep
  all_goals (simp only [Except.ok.injEq] at hstep; rw [← hstep]; rfl)

theorem ReadHeader_RecInfo (self : CarlaRecorderQuery) : (ReadHeader self).2.RecInfo = self.RecInfo := by
  unfold ReadHeader
  split_ifs <;> rfl

theorem collisionsLoop_kept (P : Platform) (c1 c2 : Char)
    (hcat : c1 ∉ Categories ∨ c2 ∉ Categories) :
    ∀ (fuel : Nat) (s t : CollisionsState),
      collisionsLoop P c1 c2 fuel s = .ok t → t.kept = s.kept := by
  intro fuel
  induction fuel with
  | zero => intro s t h; simp [collisionsLoop] at h
  | succ fuel ih =>
    intro s t h
    simp only [collisionsLoop] at h
    split_ifs at h with h1 h2
    · cases hp : collisionsPacket P c1 c2 { s with self := (ReadHeader s.self).2 } with
      | error e => simp [hp] at h
      | ok u =>
        simp only [hp] at h
        rw [ih u t h, collisionsPacket_kept P c1 c2 hcat _ u hp]
        simp only [CollisionsState.kept, ReadHeader_RecInfo]
    · simp only [Except.ok.injEq] at h
      rw [← h]
      simp only [CollisionsState.kept, ReadHeader_RecInfo]
    · simp only [Except.ok.injEq] at h
      rw [h]


theorem padField_zero (l : Bool) (s : String) : padField l 0 s = s := by
  unfold padField
  simp only [Nat.zero_sub, List.replicate_zero]
  have e : String.mk [] = "" := rfl
  rw [e]
  split_ifs
  · exact String.append_empty s
  · exact String.empty_append s

theorem put_eq (o : OStream) (s : String) : o.put s = { o with buf := o.buf ++ s } := by
  simp only [OStream.put, OStream.putW, padField_zero]

theorem putNat_zero (o : OStream) (n : Nat) :
    o.putNat 0 n = { o with buf := o.buf ++ toString n } := by
  simp only [OStream.putNat, OStream.putW, padField_zero]

theorem putDouble_zero (P : Platform) (o : OStream) (x : Nat) :
    o.putDouble P 0 x = { o with buf := o.buf ++ P.formatDouble o.fixed o.precision x } := by
  simp only [OStream.putDouble, OStream.putW, padField_zero]

theorem putTrailer_buf (P : Platform) (Frame : CarlaRecorderFrame) (o : OStream) :
    (putTrailer P Frame o).buf = o.buf ++ trailerText P o.fixed o.precision Frame := by
  simp only [putTrailer, put_eq, putNat_zero, putDouble_zero, trailerText, String.append_assoc]

theorem putCollisionsHeader_eq (o : OStream) (h : o.leftAdjust = false) :
    putCollisionsHeader o =
      { o with buf := o.buf ++ collisionsColumns, leftAdjust := true } := by
  have e1 : padField false 8 "Time" = "    Time" := by decide
  have e2 : padField false 6 "Types" = " Types" := by decide
  have e3 : padField false 6 "Id" = "    Id" := by decide
  have e4 : padField true 35 "Actor 1" = "Actor 1                            " := by decide
  have e5 : padField true 35 "Actor 2" = "Actor 2                            " := by decide
  have e6 : "    Time" ++ (" " ++ (" Types" ++ (" " ++ ("    Id" ++ (" " ++ ("Actor 1                            " ++ (" " ++ ("    Id" ++ (" " ++ ("Actor 2                            " ++ "\n")))))))))) = collisionsColumns := by decide
  simp only [putCollisionsHeader, OStream.endl, put_eq, OStream.putW, h, e1, e2, e3, e4, e5,
    String.append_assoc, e6]

theorem CheckFileInfo_init (P : Platform) (self : CarlaRecorderQuery)
    (h : (CheckFileInfo P self OStream.init).1 = true) :
    (CheckFileInfo P self OStream.init).2.2 =
      { OStream.init with
        buf := fileHeaderBlock P (CheckFileInfo P self OStream.init).2.1.RecInfo } := by
  simp only [CheckFileInfo] at h ⊢
  by_cases hm : (CarlaRecorderInfo.Read P self.File self.RecInfo).1.Magic = "CARLA_RECORDER"
  · simp only [hm, ne_eq, not_true_eq_false, if_false, OStream.endl, put_eq, putNat_zero,
      fileHeaderBlock, OStream.init, String.append_assoc, String.empty_append]
  · simp [hm] at h

theorem CheckFileInfo_self (P : Platform) (self : CarlaRecorderQuery) (Info : OStream) :
    (CheckFileInfo P self Info).2.1 =
      { self with File := (CarlaRecorderInfo.Read P self.File self.RecInfo).2,
                  RecInfo := (CarlaRecorderInfo.Read P self.File self.RecInfo).1 } := by
  simp only [CheckFileInfo]
  split_ifs <;> rfl

/-- C9. If one of the two filter characters is outside the alphabet o, v, w, t, h, a,
then for every recording with a valid header the report of `QueryCollisions`, whenever
the run is defined, holds no body row: it is the file header block, the column header
and the trailer, the trailer being printed in the default number format. -/
theorem no_row_for_category_outside_alphabet (P : Platform)
    (fs : String → Option (List Nat)) (self self' : CarlaRecorderQuery) (Filename : String)
    (Category1 Category2 : Char) (report : String)
    (hcat : Category1 ∉ Categories ∨ Category2 ∉ Categories)
    (hopen : (self.File.open (fs (P.GetRecorderFilename Filename))).isOpen = true)
    (hmagic : (CheckFileInfo P
      { self with File := self.File.open (fs (P.GetRecorderFilename Filename)) }
      OStream.init).1 = true)
    (hrun : QueryCollisions P fs self Filename Category1 Category2 = .ok (report, self')) :
    report = fileHeaderBlock P self'.RecInfo ++ collisionsColumns
      ++ trailerText P false 6 self'.Frame := by
  simp only [QueryCollisions, hopen, hmagic, Bool.not_true, Bool.false_eq_true, if_false] at hrun
  generalize hl : collisionsLoop P Category1 Category2 _ _ = res at hrun
  cases res with
  | error e => simp at hrun
  | ok s =>
    simp only [Except.ok.injEq, Prod.mk.injEq] at hrun
    obtain ⟨hr, hself⟩ := hrun
    have hk := collisionsLoop_kept P Category1 Category2 hcat _ _ s hl
    simp only [CollisionsState.kept, Prod.mk.injEq] at hk
    obtain ⟨hInfo, hRec⟩ := hk
    rw [← hr, ← hself, putTrailer_buf, hInfo, CheckFileInfo_init P _ hmagic,
      putCollisionsHeader_eq _ rfl]
    simp only [hRec, OStream.init]


theorem bad_magic_text :
    ((OStream.init.put "File is not a CARLA recorder").endl).buf
      = "File is not a CARLA recorder\n" := by decide

theorem CheckFileInfo_bad (P : Platform) (self : CarlaRecorderQuery) (Info : OStream)
    (h : (CarlaRecorderInfo.Read P self.File self.RecInfo).1.Magic ≠ "CARLA_RECORDER") :
    CheckFileInfo P self Info =
      (false,
       { self with File := (CarlaRecorderInfo.Read P self.File self.RecInfo).2,
                   RecInfo := (CarlaRecorderInfo.Read P self.File self.RecInfo).1 },
       (Info.put "File is not a CARLA recorder").endl) := by
  simp only [CheckFileInfo]
  rw [if_pos h]

/-- C1. For each of `QueryInfo`, `QueryCollisions` and `QueryBlocked` and every file
that opens and whose decoded header magic is not "CARLA_RECORDER", the report is exactly
the line "File is not a CARLA recorder" followed by a newline, and the query object is
left as `RecInfo.Read` left it: the read position is the one after the file header, so no
packet header or payload is read. -/
theorem bad_magic_report (P : Platform) (C : PhysicsCodec) (A : BlockedArith)
    (fs : String → Option (List Nat)) (self : CarlaRecorderQuery) (Filename : String)
    (bShowAll : Bool) (Category1 Category2 : Char) (MinTime MinDistance : Nat)
    (bytes : List Nat)
    (hclosed : self.File.isOpen = false)
    (hfile : fs (P.GetRecorderFilename Filename) = some bytes)
    (hmagic : (CarlaRecorderInfo.Read P
      { data := bytes, pos := 0, isOpen := true, eofbit := false, failbit := false }
      self.RecInfo).1.Magic ≠ "CARLA_RECORDER") :
    QueryInfo P C fs self Filename bShowAll = .ok ("File is not a CARLA recorder\n",
      { self with
        File := (CarlaRecorderInfo.Read P
          { data := bytes, pos := 0, isOpen := true, eofbit := false, failbit := false }
          self.RecInfo).2,
        RecInfo := (CarlaRecorderInfo.Read P
          { data := bytes, pos := 0, isOpen := true, eofbit := false, failbit := false }
          self.RecInfo).1 }) ∧
    QueryCollisions P fs self Filename Category1 Category2 = .ok ("File is not a CARLA recorder\n",
      { self with
        File := (CarlaRecorderInfo.Read P
          { data := bytes, pos := 0, isOpen := true, eofbit := false, failbit := false }
          self.RecInfo).2,
        RecInfo := (CarlaRecorderInfo.Read P
          { data := bytes, pos := 0, isOpen := true, eofbit := false, failbit := false }
          self.RecInfo).1 }) ∧
    QueryBlocked P A fs self Filename MinTime MinDistance = .ok ("File is not a CARLA recorder\n",
      { self with
        File := (CarlaRecorderInfo.Read P
          { data := bytes, pos := 0, isOpen := true, eofbit := false, failbit := false }
          self.RecInfo).2,
        RecInfo := (CarlaRecorderInfo.Read P
          { data := bytes, pos := 0, isOpen := true, eofbit := false, failbit := false }
          self.RecInfo).1 }) := by
  have hopen : self.File.open (fs (P.GetRecorderFilename Filename)) =
      { data := bytes, pos := 0, isOpen := true, eofbit := false, failbit := false } := by
    simp [IfStream.open, hclosed, hfile]
  have hchk := CheckFileInfo_bad P
    { self with File :=
      { data := bytes, pos := 0, isOpen := true, eofbit := false, failbit := false } }
    OStream.init hmagic
  refine ⟨?_, ?_, ?_⟩
  · simp only [QueryInfo, hopen, hchk, bad_magic_text]
    rfl
  · simp only [QueryCollisions, hopen, hchk, bad_magic_text]
    rfl
  · simp only [QueryBlocked, hopen, hchk, bad_magic_text]
    rfl

/-- C1, at a concrete file: the magic text is "CARLA_REPLAYER"; the file has 63 bytes and
the read position stays at 34, the end of the file header. -/
theorem bad_magic_report_witness :
    (CarlaRecorderQuery.zero.File.isOpen = false ∧
      singleFile "Saved/bad.log" badMagicFile (referencePlatform.GetRecorderFilename "bad")
        = some badMagicFile ∧
      (CarlaRecorderInfo.Read referencePlatform
        { data := badMagicFile, pos := 0, isOpen := true, eofbit := false, failbit := false }
        CarlaRecorderQuery.zero.RecInfo).1.Magic ≠ "CARLA_RECORDER") ∧
    ((CarlaRecorderInfo.Read referencePlatform
        { data := badMagicFile, pos := 0, isOpen := true, eofbit := false, failbit := false }
        CarlaRecorderQuery.zero.RecInfo).2.pos = 34 ∧ badMagicFile.length = 63) ∧
    (QueryInfo referencePlatform PhysicsCodec.absent (singleFile "Saved/bad.log" badMagicFile)
        CarlaRecorderQuery.zero "bad" false = .ok ("File is not a CARLA recorder\n",
      { CarlaRecorderQuery.zero with
        File := (CarlaRecorderInfo.Read referencePlatform
          { data := badMagicFile, pos := 0, isOpen := true, eofbit := false, failbit := false }
          CarlaRecorderQuery.zero.RecInfo).2,
        RecInfo := (CarlaRecorderInfo.Read referencePlatform
          { data := badMagicFile, pos := 0, isOpen := true, eofbit := false, failbit := false }
          CarlaRecorderQuery.zero.RecInfo).1 }) ∧
    QueryCollisions referencePlatform (singleFile "Saved/bad.log" badMagicFile)
        CarlaRecorderQuery.zero "bad" 'a' 'a' = .ok ("File is not a CARLA recorder\n",
      { CarlaRecorderQuery.zero with
        File := (CarlaRecorderInfo.Read referencePlatform
          { data := badMagicFile, pos := 0, isOpen := true, eofbit := false, failbit := false }
          CarlaRecorderQuery.zero.RecInfo).2,
        RecInfo := (CarlaRecorderInfo.Read referencePlatform
          { data := badMagicFile, pos := 0, isOpen := true, eofbit := false, failbit := false }
          CarlaRecorderQuery.zero.RecInfo).1 }) ∧
    QueryBlocked referencePlatform BlockedArith.unused (singleFile "Saved/bad.log" badMagicFile)
        CarlaRecorderQuery.zero "bad" 0 0 = .ok ("File is not a CARLA recorder\n",
      { CarlaRecorderQuery.zero with
        File := (CarlaRecorderInfo.Read referencePlatform
          { data := badMagicFile, pos := 0, isOpen := true, eofbit := false, failbit := false }
          CarlaRecorderQuery.zero.RecInfo).2,
        RecInfo := (CarlaRecorderInfo.Read referencePlatform
          { data := badMagicFile, pos := 0, isOpen := true, eofbit := false, failbit := false }
          CarlaRecorderQuery.zero.RecInfo).1 })) :=
  ⟨⟨by decide, by decide!, by decide!⟩, ⟨by decide!, by decide!⟩,
    bad_magic_report referencePlatform PhysicsCodec.absent BlockedArith.unused
      (singleFile "Saved/bad.log" badMagicFile) CarlaRecorderQuery.zero "bad" false 'a' 'a' 0 0
      badMagicFile (by decide) (by decide!) (by decide!)⟩

/-- With the read position at the end of the file and no state flag set, `ReadHeader`
returns true: `File.eof()` is still false, the two reads fail and `Header` keeps the id
and size of the packet read before. -/
theorem ReadHeader_at_end (self : CarlaRecorderQuery) (hgood : self.File.good = true)
    (hrest : self.File.rest = []) :
    ReadHeader self =
      (true, { self with File := { self.File with eofbit := true, failbit := true } }) := by
  have heof : self.File.eof = false := by
    simp only [IfStream.good, Bool.and_eq_true, Bool.not_eq_true'] at hgood
    exact hgood.1
  have h1 : self.File.read 1 = (none, { self.File with eofbit := true, failbit := true }) := by
    simp [IfStream.read, hgood, hrest]
  have h2 : IfStream.read { self.File with eofbit := true, failbit := true } 4
      = (none, { self.File with eofbit := true, failbit := true }) := by
    simp [IfStream.read, IfStream.good]
  simp only [ReadHeader, heof, ReadValue, h1, h2]
  rfl

/-- C2, the code at a failing input.  The recording `endsWithCollision` holds one frame
with one collision between the actors 7 and 8 and ends with that `Collision` packet: a
run of one frame.  `QueryCollisions` with the filter ('a', 'a') prints two rows for it,
because the packet loop dispatches the last packet a second time at the end of the file.
The same recording followed by a `FrameEnd` packet gives the one row the claim states. -/
theorem single_collision_printed_twice :
    (QueryCollisions referencePlatform (singleFile "Saved/s.log" endsWithCollision)
        CarlaRecorderQuery.zero "s" 'a' 'a').toOption.map (fun r => r.1) =
      some ("Version: 9\nMap: Town03\nDate: 01/01/70 00:00:00\n\n"
        ++ "    Time  Types     Id Actor 1                                 Id Actor 2                            \n"
        ++ "       0   o o       7                                          8                                    \n"
        ++ "       0   o o       7                                          8                                    \n"
        ++ "\nFrames: 1\nDuration: 0 seconds\n") ∧
    (QueryCollisions referencePlatform
        (singleFile "Saved/s.log" (endsWithCollision ++ encodePacket 1 []))
        CarlaRecorderQuery.zero "s" 'a' 'a').toOption.map (fun r => r.1) =
      some ("Version: 9\nMap: Town03\nDate: 01/01/70 00:00:00\n\n"
        ++ "    Time  Types     Id Actor 1                                 Id Actor 2                            \n"
        ++ "       0   o o       7                                          8                                    \n"
        ++ "\nFrames: 1\nDuration: 0 seconds\n") := by
  refine ⟨by decide!, by decide!⟩

/-- C3, the code at the input of the claim.  For scenario S3 `QueryCollisions` with the
filter ('a', 'a') prints three body rows, not two: one for frame 1, one for frame 3, and
one more when the packet loop dispatches the last `Collision` packet a second time at the
end of the file.  Scenario S3 followed by a `FrameEnd` packet gives the two rows. -/
theorem scenario_S3_prints_three_rows :
    (QueryCollisions referencePlatform (singleFile "Saved/s.log" scenarioS3)
        CarlaRecorderQuery.zero "s" 'a' 'a').toOption.map (fun r => r.1) =
      some ("Version: 9\nMap: Town03\nDate: 01/01/70 00:00:00\n\n"
        ++ "    Time  Types     Id Actor 1                                 Id Actor 2                            \n"
        ++ "       0   o o       7                                          8                                    \n"
        ++ "       0   o o       7                                          8                                    \n"
        ++ "       0   o o       7                                          8                                    \n"
        ++ "\nFrames: 3\nDuration: 0 seconds\n") ∧
    (QueryCollisions referencePlatform
        (singleFile "Saved/s.log" (scenarioS3 ++ encodePacket 1 []))
        CarlaRecorderQuery.zero "s" 'a' 'a').toOption.map (fun r => r.1) =
      some ("Version: 9\nMap: Town03\nDate: 01/01/70 00:00:00\n\n"
        ++ "    Time  Types     Id Actor 1                                 Id Actor 2                            \n"
        ++ "       0   o o       7                                          8                                    \n"
        ++ "       0   o o       7                                          8                                    \n"
        ++ "\nFrames: 3\nDuration: 0 seconds\n") := by
  refine ⟨by decide!, by decide!⟩

/-- C4, the code at a failing input.  With the read position exactly at the end of the
file after the last packet, `ReadHeader` returns true, reads nothing and leaves `Header`
as the last packet set it; `QueryInfo` then runs the `Collision` case again and prints
the line of the last record a second time.  The same recording followed by a `FrameEnd`
packet prints the line once. -/
theorem read_header_at_end_of_file :
    atEndOfFile.File.pos = endsWithCollision.length ∧
    ReadHeader atEndOfFile =
      (true, { atEndOfFile with
        File := { data := endsWithCollision, pos := 84, isOpen := true, eofbit := true,
                  failbit := true } }) ∧
    (QueryInfo referencePlatform PhysicsCodec.absent (singleFile "Saved/s.log" endsWithCollision)
        CarlaRecorderQuery.zero "s" false).toOption.map (fun r => r.1) =
      some ("Version: 9\nMap: Town03\nDate: 01/01/70 00:00:00\n\n"
        ++ "Frame 1 at 0 seconds\n"
        ++ " Collision id 1 between 7 (hero)  with 8\n"
        ++ " Collision id 1 between 7 (hero)  with 8\n"
        ++ "\nFrames: 1\nDuration: 0 seconds\n") ∧
    (QueryInfo referencePlatform PhysicsCodec.absent
        (singleFile "Saved/s.log" (endsWithCollision ++ encodePacket 1 []))
        CarlaRecorderQuery.zero "s" false).toOption.map (fun r => r.1) =
      some ("Version: 9\nMap: Town03\nDate: 01/01/70 00:00:00\n\n"
        ++ "Frame 1 at 0 seconds\n"
        ++ " Collision id 1 between 7 (hero)  with 8\n"
        ++ "\nFrames: 1\nDuration: 0 seconds\n") := by
  refine ⟨by decide!, by decide!, by decide!, by decide!⟩

/-- C7, as stated, fails.  In the recording `typeFourCollision` actor 7 is created with
type 4 and collides with actor 8; the side-1 hero flag of the one collision record is 0,
and `QueryCollisions` with the filter ('h', 'a') prints a row for it. -/
theorem hero_filter_row_without_hero_flag :
    (QueryCollisions referencePlatform (singleFile "Saved/s.log" typeFourCollision)
        CarlaRecorderQuery.zero "s" 'h' 'a').toOption.map
          (fun r => (r.1, r.2.Collision.IsActor1Hero)) =
      some ("Version: 9\nMap: Town03\nDate: 01/01/70 00:00:00\n\n"
        ++ "    Time  Types     Id Actor 1                                 Id Actor 2                            \n"
        ++ "       0   h o       7 traffic.stop                             8                                    \n"
        ++ "\nFrames: 1\nDuration: 0 seconds\n", 0) := by
  decide!

/-- C7 amended, at a concrete state: actor 7 is a vehicle, the record has its side-1
hero flag set, and the step prints a row. -/
theorem hero_filter_row_needs_flag_or_type_four_witness :
    ∃ t, collisionRecord referencePlatform 'h' 'a' heroCollisionState = .ok t ∧
      t.Info ≠ heroCollisionState.Info ∧
      (heroCollisionState.record.IsActor1Hero ≠ 0 ∨
        (heroCollisionState.record.DatabaseId1 ≠ 4294967295 ∧
         storedType heroCollisionState.Actors heroCollisionState.record.DatabaseId1 = 4)) := by
  have hne : (collisionRecord referencePlatform 'h' 'a' heroCollisionState).toOption.map
      (fun t => decide (t.Info ≠ heroCollisionState.Info)) = some true := by decide!
  cases h : collisionRecord referencePlatform 'h' 'a' heroCollisionState with
  | error e => rw [h] at hne; simp [Except.toOption] at hne
  | ok t =>
    rw [h] at hne
    simp only [Except.toOption, Option.map_some', Option.some.injEq, decide_eq_true_eq] at hne
    exact ⟨t, rfl, hne, hero_filter_row_needs_flag_or_type_four referencePlatform _ t h hne⟩

/-- C8, at two concrete states: a collision of the vehicle 7 with the walker 8 prints
the row shown, and a collision of the walker 7 with the vehicle 8 prints nothing. -/
theorem vehicle_walker_filter_is_ordered_witness :
    (∃ t, collisionRecord referencePlatform 'v' 'w' vehicleWalkerState = .ok t ∧
      t.Info.buf = "       0   v w       7 vehicle.tesla.model3                     8 walker.pedestrian.0001             \n" ∧
      ((t.Info ≠ vehicleWalkerState.Info →
        (vehicleWalkerState.record.DatabaseId1 ≠ 4294967295 ∧
          storedType vehicleWalkerState.Actors vehicleWalkerState.record.DatabaseId1 = 1) ∧
        (vehicleWalkerState.record.DatabaseId2 ≠ 4294967295 ∧
          storedType vehicleWalkerState.Actors vehicleWalkerState.record.DatabaseId2 = 2)) ∧
      (storedType vehicleWalkerState.Actors vehicleWalkerState.record.DatabaseId1 = 2 ∧
          storedType vehicleWalkerState.Actors vehicleWalkerState.record.DatabaseId2 = 1 →
        t.Info = vehicleWalkerState.Info ∧
          t.newCollisions = vehicleWalkerState.newCollisions))) ∧
    (∃ t, collisionRecord referencePlatform 'v' 'w' walkerVehicleState = .ok t ∧
      (storedType walkerVehicleState.Actors walkerVehicleState.record.DatabaseId1 = 2 ∧
        storedType walkerVehicleState.Actors walkerVehicleState.record.DatabaseId2 = 1) ∧
      t.Info = walkerVehicleState.Info ∧ t.newCollisions = walkerVehicleState.newCollisions) := by
  constructor
  · have hbuf : (collisionRecord referencePlatform 'v' 'w' vehicleWalkerState).toOption.map
        (fun t => t.Info.buf) = some "       0   v w       7 vehicle.tesla.model3                     8 walker.pedestrian.0001             \n" := by
      decide!
    cases h : collisionRecord referencePlatform 'v' 'w' vehicleWalkerState with
    | error e => rw [h] at hbuf; simp [Except.toOption] at hbuf
    | ok t =>
      rw [h] at hbuf
      simp only [Except.toOption, Option.map_some', Option.some.injEq] at hbuf
      exact ⟨t, rfl, hbuf, vehicle_walker_filter_is_ordered referencePlatform _ t h⟩
  · have hok : (collisionRecord referencePlatform 'v' 'w' walkerVehicleState).toOption.isSome
        = true := by decide!
    cases h : collisionRecord referencePlatform 'v' 'w' walkerVehicleState with
    | error e => rw [h] at hok; simp [Except.toOption] at hok
    | ok t =>
      have hw : storedType walkerVehicleState.Actors walkerVehicleState.record.DatabaseId1 = 2 ∧
          storedType walkerVehicleState.Actors walkerVehicleState.record.DatabaseId2 = 1 :=
        ⟨by decide!, by decide!⟩
      exact ⟨t, rfl, hw,
        (vehicle_walker_filter_is_ordered referencePlatform _ t h).2 hw⟩

/-- C10, as stated, fails.  Under the filter ('v', 'a') the record of a collision of the
walker 7 with the vehicle 8 is read in full (the 14 bytes of the record are consumed and
the member `Collision` holds the pair) and `newCollisions` stays empty. -/
theorem failing_record_is_not_inserted :
    (collisionRecord referencePlatform 'v' 'a' walkerVehicleState).toOption.map
        (fun t => (t.self.Collision.DatabaseId1, t.self.Collision.DatabaseId2,
          t.self.File.pos, t.newCollisions)) = some (7, 8, 14, []) := by
  decide!

/-- C10 amended, at a concrete state: under the filter ('v', 'w') the collision of the
vehicle 7 with the walker 8 passes and (7, 8) is inserted. -/
theorem new_collisions_gain_passing_pairs_only_witness :
    (sideCategory vehicleWalkerState.Actors vehicleWalkerState.record.DatabaseId1
        = .ok ('v', vehicleWalkerState.Actors) ∧
      sideCategory vehicleWalkerState.Actors vehicleWalkerState.record.DatabaseId2
        = .ok ('w', vehicleWalkerState.Actors)) ∧
    (sidePasses 'v' 'v' vehicleWalkerState.record.IsActor1Hero ∧
      sidePasses 'w' 'w' vehicleWalkerState.record.IsActor2Hero) ∧
    setInsert vehicleWalkerState.newCollisions
      (vehicleWalkerState.record.DatabaseId1, vehicleWalkerState.record.DatabaseId2)
        = [(7, 8)] ∧
    ∃ t, collisionRecord referencePlatform 'v' 'w' vehicleWalkerState = .ok t ∧
      t.self.Collision = vehicleWalkerState.record ∧
      ((sidePasses 'v' 'v' vehicleWalkerState.record.IsActor1Hero ∧
          sidePasses 'w' 'w' vehicleWalkerState.record.IsActor2Hero) →
        t.newCollisions = setInsert vehicleWalkerState.newCollisions
          (vehicleWalkerState.record.DatabaseId1, vehicleWalkerState.record.DatabaseId2)) ∧
      (¬ (sidePasses 'v' 'v' vehicleWalkerState.record.IsActor1Hero ∧
          sidePasses 'w' 'w' vehicleWalkerState.record.IsActor2Hero) →
        t.newCollisions = vehicleWalkerState.newCollisions ∧
          t.Info = vehicleWalkerState.Info) :=
  ⟨⟨rfl, rfl⟩, ⟨Or.inr (Or.inl rfl), Or.inr (Or.inl rfl)⟩, by decide!,
    new_collisions_gain_passing_pairs_only referencePlatform 'v' 'w' vehicleWalkerState
      'v' 'w' vehicleWalkerState.Actors vehicleWalkerState.Actors rfl rfl⟩

/-- C9, at a concrete input: scenario S2 queried with the filter ('x', 'a'). -/
theorem no_row_for_category_outside_alphabet_witness :
    (('x' ∉ Categories ∨ 'a' ∉ Categories) ∧
      (CarlaRecorderQuery.zero.File.open (singleFile "Saved/s.log" scenarioS2
        (referencePlatform.GetRecorderFilename "s"))).isOpen = true ∧
      (CheckFileInfo referencePlatform
        { CarlaRecorderQuery.zero with
          File := CarlaRecorderQuery.zero.File.open (singleFile "Saved/s.log" scenarioS2
            (referencePlatform.GetRecorderFilename "s")) }
        OStream.init).1 = true) ∧
    (QueryCollisions referencePlatform (singleFile "Saved/s.log" scenarioS2)
        CarlaRecorderQuery.zero "s" 'x' 'a').toOption.map (fun r => r.1) =
      some ("Version: 9\nMap: Town03\nDate: 01/01/70 00:00:00\n\n"
        ++ "    Time  Types     Id Actor 1                                 Id Actor 2                            \n"
        ++ "\nFrames: 3\nDuration: 0.1 seconds\n") ∧
    ∃ report self', QueryCollisions referencePlatform (singleFile "Saved/s.log" scenarioS2)
        CarlaRecorderQuery.zero "s" 'x' 'a' = .ok (report, self') ∧
      report = fileHeaderBlock referencePlatform self'.RecInfo ++ collisionsColumns
        ++ trailerText referencePlatform false 6 self'.Frame := by
  have hcat : 'x' ∉ Categories ∨ 'a' ∉ Categories := Or.inl (by decide)
  have hopen : (CarlaRecorderQuery.zero.File.open (singleFile "Saved/s.log" scenarioS2
        (referencePlatform.GetRecorderFilename "s"))).isOpen = true := by decide!
  have hmagic : (CheckFileInfo referencePlatform
        { CarlaRecorderQuery.zero with
          File := CarlaRecorderQuery.zero.File.open (singleFile "Saved/s.log" scenarioS2
            (referencePlatform.GetRecorderFilename "s")) }
        OStream.init).1 = true := by decide!
  have hok : (QueryCollisions referencePlatform (singleFile "Saved/s.log" scenarioS2)
        CarlaRecorderQuery.zero "s" 'x' 'a').toOption.isSome = true := by decide!
  refine ⟨⟨hcat, hopen, hmagic⟩, by decide!, ?_⟩
  cases h : QueryCollisions referencePlatform (singleFile "Saved/s.log" scenarioS2)
        CarlaRecorderQuery.zero "s" 'x' 'a' with
  | error e => rw [h] at hok; simp [Except.toOption] at hok
  | ok r =>
    obtain ⟨report, self'⟩ := r
    exact ⟨report, self', rfl,
      no_row_for_category_outside_alphabet referencePlatform _ _ self' "s" 'x' 'a' report
        hcat hopen hmagic h⟩

/-- C11, the code at a failing input.  The table holds the actors 7 and 8, of which 8 was
created last; an `EventDel` record for actor 7 is read (the member `EventDel` holds 7),
and both queries erase the entry of actor 8 and keep the entry of actor 7.  In the report
of `QueryCollisions` for the recording `destroyFirstActor` the destroyed actor 7 still
has its letter and label, and the live actor 8 has the letter 'o' and no label. -/
theorem event_del_erases_last_created_actor :
    (collisionsEventDel collisionsDestroyState).toOption.map
        (fun t => (t.self.EventDel.DatabaseId, t.Actors)) =
      some (7, [(7, { Type_ := 1, Id := "vehicle.tesla.model3" })]) ∧
    (blockedEventDel blockedDestroyState).toOption.map
        (fun t => (t.self.EventDel.DatabaseId, t.Actors.map (fun e => (e.1, e.2.Id)))) =
      some (7, [(7, "vehicle.tesla.model3")]) ∧
    (QueryCollisions referencePlatform (singleFile "Saved/s.log" destroyFirstActor)
        CarlaRecorderQuery.zero "s" 'a' 'a').toOption.map (fun r => r.1) =
      some ("Version: 9\nMap: Town03\nDate: 01/01/70 00:00:00\n\n"
        ++ "    Time  Types     Id Actor 1                                 Id Actor 2                            \n"
        ++ "       0   v o       7 vehicle.tesla.model3                     8                                    \n"
        ++ "\nFrames: 1\nDuration: 0 seconds\n") := by
  refine ⟨by decide!, by decide!, by decide!⟩

theorem mapFind_map_assign {α : Type} (m : List (Nat × α)) (k : Nat) (v : α)
    (h : (mapFind m k).isSome = true) :
    mapFind (m.map (fun e => if e.1 == k then (k, v) else e)) k = some v := by
  induction m with
  | nil => simp [mapFind] at h
  | cons a m ih =>
    by_cases ha : a.1 = k
    · simp [mapFind, ha]
    · have hm : (mapFind m k).isSome = true := by
        simpa [mapFind, ha] using h
      have := ih hm
      simp only [mapFind, List.map_cons, ha, beq_iff_eq, if_false] at this ⊢
      rw [List.find?_cons_of_neg _ (by simpa using ha)]
      exact this

theorem mapFind_map_assign_ne {α : Type} (m : List (Nat × α)) (k j : Nat) (v : α)
    (h : j ≠ k) :
    mapFind (m.map (fun e => if e.1 == k then (k, v) else e)) j = mapFind m j := by
  induction m with
  | nil => rfl
  | cons a m ih =>
    simp only [mapFind, List.map_cons] at ih ⊢
    by_cases ha : a.1 = k
    · have hj : ¬ a.1 = j := fun e => h (e.symm.trans ha)
      simp only [ha, beq_self_eq_true, if_true]
      rw [List.find?_cons_of_neg _ (by simpa using fun e : k = j => h e.symm),
        List.find?_cons_of_neg _ (by simpa using hj)]
      simpa [ha] using ih
    · simp only [beq_iff_eq, ha, if_false]
      by_cases hj : a.1 = j
      · simp [hj]
      · rw [List.find?_cons_of_neg _ (by simpa using hj),
          List.find?_cons_of_neg _ (by simpa using hj)]
        simpa [ha] using ih

/-- `m[k] = v` stores `v` under `k`. -/
theorem mapFind_mapAssign_self {α : Type} (m : List (Nat × α)) (k : Nat) (v : α) :
    mapFind (mapAssign m k v) k = some v := by
  unfold mapAssign
  cases h : mapFind m k with
  | some w => exact mapFind_map_assign m k v (by simp [h])
  | none => simp [mapFind_append, h]

/-- `m[k] = v` leaves the other keys alone. -/
theorem mapFind_mapAssign_ne {α : Type} (m : List (Nat × α)) (k j : Nat) (v : α)
    (h : j ≠ k) : mapFind (mapAssign m k v) j = mapFind m j := by
  unfold mapAssign
  cases hk : mapFind m k with
  | some w => exact mapFind_map_assign_ne m k j v h
  | none =>
    simp only [mapFind_append]
    cases mapFind m j with
    | some u => rfl
    | none => simp; exact fun e => h e.symm

/-- `m[k]` leaves the other keys alone. -/
theorem mapFind_mapIndex_ne {α : Type} (d : α) (m : List (Nat × α)) (k j : Nat)
    (h : j ≠ k) : mapFind (mapIndex d m k).2 j = mapFind m j := by
  unfold mapIndex
  cases hk : mapFind m k with
  | some w => rfl
  | none =>
    simp only [mapFind_append]
    cases mapFind m j with
    | some u => rfl
    | none => simp; exact fun e => h e.symm

/-- `m.erase(k)` removes the key `k`. -/
theorem mapFind_mapErase_self {α : Type} (m : List (Nat × α)) (k : Nat) :
    mapFind (mapErase m k) k = none := by
  simp [mapFind, mapErase, List.find?_eq_none]

/-- `m.erase(k)` leaves the other keys alone. -/
theorem mapFind_mapErase_ne {α : Type} (m : List (Nat × α)) (k j : Nat) (h : j ≠ k) :
    mapFind (mapErase m k) j = mapFind m j := by
  induction m with
  | nil => rfl
  | cons a m ih =>
    simp only [mapFind, mapErase] at ih ⊢
    by_cases ha : a.1 = k
    · have hj : ¬ a.1 = j := fun e => h (e.symm.trans ha)
      rw [List.filter_cons_of_neg (by simpa using ha),
        List.find?_cons_of_neg _ (by simpa using hj)]
      exact ih
    · rw [List.filter_cons_of_pos (by simpa using ha)]
      by_cases hj : a.1 = j
      · simp [hj]
      · rw [List.find?_cons_of_neg _ (by simpa using hj),
          List.find?_cons_of_neg _ (by simpa using hj)]
        exact ih

/-- The text of a row of the blocked report: Time, id, label and Duration in columns of
width 8, 6, 35 (left-aligned) and 10, both numbers with no decimals. -/
theorem blockedRow_text (P : Platform) (DatabaseId : Nat) (actor : BlockedActorInfo) :
    blockedRow P DatabaseId actor =
      padField false 8 (P.formatDouble true 0 actor.Time) ++ " "
        ++ padField false 6 (toString DatabaseId) ++ " "
        ++ padField true 35 actor.Id ++ " "
        ++ padField false 10 (P.formatDouble true 0 actor.Duration) ++ "\n" := by
  simp only [blockedRow, OStream.endl, put_eq, OStream.putDouble, OStream.putNat, OStream.putW,
    OStream.init, String.append_assoc, String.empty_append]

/-- The body of the `Position` loop in terms of the record and the entry it works on. -/
theorem blockedPosition_eq (P : Platform) (A : BlockedArith) (MinTime MinDistance : Nat)
    (s : BlockedState) :
    blockedPosition P A MinTime MinDistance s =
      if A.distanceLess s.entry.LastPosition s.record.Location MinDistance = true then
        .ok { s with
          self := { s.self with
            File := (CarlaRecorderPosition.Read s.self.File s.self.Position).2,
            Position := s.record },
          Actors := mapAssign
            (mapIndex BlockedActorInfo.init s.Actors s.record.DatabaseId).2
            s.record.DatabaseId
            { s.entry with
              Time := if doubleEq s.entry.Duration 0 = true then s.self.Frame.Elapsed
                else s.entry.Time,
              Duration := A.add s.entry.Duration s.self.Frame.DurationThis } }
      else
        .ok { s with
          self := { s.self with
            File := (CarlaRecorderPosition.Read s.self.File s.self.Position).2,
            Position := s.record },
          Results := if doubleGe s.entry.Duration MinTime = true then
              insertResult s.Results s.entry.Duration (blockedRow P s.record.DatabaseId s.entry)
            else s.Results,
          Actors := mapAssign
            (mapIndex BlockedActorInfo.init s.Actors s.record.DatabaseId).2
            s.record.DatabaseId
            { s.entry with Duration := 0, LastPosition := s.record.Location } } := by
  unfold BlockedState.entry BlockedState.record blockedPosition
  by_cases hd : A.distanceLess (mapIndex BlockedActorInfo.init s.Actors
      (CarlaRecorderPosition.Read s.self.File s.self.Position).1.DatabaseId).1.LastPosition
      (CarlaRecorderPosition.Read s.self.File s.self.Position).1.Location MinDistance = true
  · simp only [hd, if_true]
    by_cases hz : doubleEq (mapIndex BlockedActorInfo.init s.Actors
        (CarlaRecorderPosition.Read s.self.File s.self.Position).1.DatabaseId).1.Duration 0
        = true
    · simp only [hz, if_true]
    · simp [hz]
  · simp [hd]

/-- C12. The body of the `Position` loop of `QueryBlocked` acts on the tracker of the
record's actor as the transition of section 4.4.3: closer than minDistance to
LastPosition, Time becomes Frame.Elapsed when Duration is 0 and Duration grows by
Frame.DurationThis, and no row is emitted; otherwise one row with the entry's Time, the
id, the label and the entry's Duration is emitted exactly when Duration >= minTime, and
Duration becomes 0 and LastPosition the record's Location.  The entries of the other
actors and the report buffer are left alone. -/
theorem position_step_is_spec_transition (P : Platform) (A : BlockedArith)
    (MinTime MinDistance : Nat) (s : BlockedState) :
    ∃ t, blockedPosition P A MinTime MinDistance s = .ok t ∧
      t.self.Position = s.record ∧
      mapFind t.Actors s.record.DatabaseId = some
        { s.entry with
          LastPosition := (specTrackerStep A MinTime MinDistance s.self.Frame.Elapsed
            s.self.Frame.DurationThis s.record.Location s.entry.tracker).1.LastPosition,
          Time := (specTrackerStep A MinTime MinDistance s.self.Frame.Elapsed
            s.self.Frame.DurationThis s.record.Location s.entry.tracker).1.Time,
          Duration := (specTrackerStep A MinTime MinDistance s.self.Frame.Elapsed
            s.self.Frame.DurationThis s.record.Location s.entry.tracker).1.Duration } ∧
      (∀ j, j ≠ s.record.DatabaseId → mapFind t.Actors j = mapFind s.Actors j) ∧
      t.Results =
        (match (specTrackerStep A MinTime MinDistance s.self.Frame.Elapsed
            s.self.Frame.DurationThis s.record.Location s.entry.tracker).2 with
        | some row => insertResult s.Results row.2
            (padField false 8 (P.formatDouble true 0 row.1) ++ " "
              ++ padField false 6 (toString s.record.DatabaseId) ++ " "
              ++ padField true 35 s.entry.Id ++ " "
              ++ padField false 10 (P.formatDouble true 0 row.2) ++ "\n")
        | none => s.Results) ∧
      t.Info = s.Info := by
  rw [blockedPosition_eq]
  by_cases hd : A.distanceLess s.entry.LastPosition s.record.Location MinDistance = true
  · rw [if_pos hd]
    refine ⟨_, rfl, rfl, ?_, ?_, ?_, rfl⟩
    · show mapFind (mapAssign _ _ _) _ = _
      rw [mapFind_mapAssign_self]
      simp only [specTrackerStep, BlockedActorInfo.tracker, hd, if_true]
    · intro j hj
      show mapFind (mapAssign _ _ _) _ = _
      rw [mapFind_mapAssign_ne _ _ _ _ hj]
      exact mapFind_mapIndex_ne _ _ _ _ hj
    · simp only [specTrackerStep, BlockedActorInfo.tracker, hd, if_true]
  · rw [if_neg hd]
    refine ⟨_, rfl, rfl, ?_, ?_, ?_, rfl⟩
    · show mapFind (mapAssign _ _ _) _ = _
      rw [mapFind_mapAssign_self]
      simp only [specTrackerStep, BlockedActorInfo.tracker, hd, Bool.false_eq_true, if_false]
    · intro j hj
      show mapFind (mapAssign _ _ _) _ = _
      rw [mapFind_mapAssign_ne _ _ _ _ hj]
      exact mapFind_mapIndex_ne _ _ _ _ hj
    · simp only [specTrackerStep, BlockedActorInfo.tracker, hd, Bool.false_eq_true, if_false]
      by_cases hg : doubleGe s.entry.Duration MinTime = true
      · simp only [hg, if_true, blockedRow_text]
      · simp only [hg, Bool.false_eq_true, if_false]

/-- C20, the code at the inputs of scenario S5.  With no packet byte after the file
header and a query object whose members are zero, `QueryInfo(showAll = false)` returns
the header block and the trailer for frame 0; with `showAll = true` the same file gets a
frame line, "Frame 0 at 0 seconds", because `ReadHeader` returns true although nothing
was read and the stale `Header.Id` 0 selects the `FrameStart` case.  With the truncated
packet header of one byte 5 the `Collision` case runs and uses the local `Total`, which
no read has stored a value in: the run has no defined report. -/
theorem truncated_packet_header_is_dispatched :
    (QueryInfo referencePlatform PhysicsCodec.absent (singleFile "Saved/s.log" scenarioHeader)
        CarlaRecorderQuery.zero "s" false).toOption.map (fun r => r.1) =
      some ("Version: 9\nMap: Town03\nDate: 01/01/70 00:00:00\n\n"
        ++ "\nFrames: 0\nDuration: 0 seconds\n") ∧
    (QueryInfo referencePlatform PhysicsCodec.absent (singleFile "Saved/s.log" scenarioHeader)
        CarlaRecorderQuery.zero "s" true).toOption.map (fun r => r.1) =
      some ("Version: 9\nMap: Town03\nDate: 01/01/70 00:00:00\n\n"
        ++ "Frame 0 at 0 seconds\n"
        ++ "\nFrames: 0\nDuration: 0 seconds\n") ∧
    faultOf (QueryInfo referencePlatform PhysicsCodec.absent
        (singleFile "Saved/s.log" truncatedPacketHeader) CarlaRecorderQuery.zero "s" false) =
      some Fault.undefinedBehaviour := by
  refine ⟨by decide!, by decide!, by decide!⟩

/-- C15, the code at scenario S4.  The file ends with a `Position` packet; at the end of
the file `ReadHeader` returns true with the `Position` header still in place, the case
runs once more on the stale `Total` and record, and the one row for actor 7 carries the
Duration 11.  With a `FrameEnd` packet closing the file the Duration is 10. -/
theorem scenario_S4_flushes_duration_eleven :
    (QueryBlocked referencePlatform referenceArith (singleFile "Saved/s.log" scenarioS4)
        CarlaRecorderQuery.zero "s" double_5 double_0_10).toOption.map (fun r => r.1) =
      some ("Version: 9\nMap: Town03\nDate: 01/01/70 00:00:00\n\n" ++ blockedColumns
        ++ "       0      7                                             11\n"
        ++ "\nFrames: 10\nDuration: 9 seconds\n") ∧
    (QueryBlocked referencePlatform referenceArith
        (singleFile "Saved/s.log" (scenarioS4 ++ encodePacket 1 []))
        CarlaRecorderQuery.zero "s" double_5 double_0_10).toOption.map (fun r => r.1) =
      some ("Version: 9\nMap: Town03\nDate: 01/01/70 00:00:00\n\n" ++ blockedColumns
        ++ "       0      7                                             10\n"
        ++ "\nFrames: 10\nDuration: 9 seconds\n") := by
  refine ⟨by decide!, by decide!⟩

theorem IfStream.le_refl (f : IfStream) : f.Le f :=
  ⟨rfl, rfl, Nat.le_refl _, id, id⟩

theorem IfStream.le_trans {f g h : IfStream} (a : f.Le g) (b : g.Le h) : f.Le h :=
  ⟨b.1.trans a.1, b.2.1.trans a.2.1, Nat.le_trans a.2.2.1 b.2.2.1,
    fun x => b.2.2.2.1 (a.2.2.2.1 x), fun x => b.2.2.2.2 (a.2.2.2.2 x)⟩

theorem IfStream.read_le (f : IfStream) (n : Nat) : f.Le (f.read n).2 := by
  obtain ⟨d, p, o, e, fl⟩ := f
  unfold IfStream.read IfStream.Le IfStream.wf IfStream.good
  cases e <;> cases fl <;> simp
  split <;> simp

theorem IfStream.seekg_le (f : IfStream) (n : Nat) : f.Le (f.seekg n) := by
  obtain ⟨d, p, o, e, fl⟩ := f
  unfold IfStream.seekg IfStream.Le IfStream.wf
  cases e <;> cases fl <;> cases o <;> simp

theorem IfStream.good_of_wf {f : IfStream} (h : f.wf) (hf : f.failbit = false) :
    f.good = true := by
  unfold IfStream.good
  unfold IfStream.wf at h
  cases he : f.eofbit
  · simp [hf]
  · rw [h he] at hf; cases hf

theorem IfStream.within_of_le {p : Nat} {f g : IfStream} (hw : f.wf) (h : f.Le g)
    (hv : g.Within p) : f.Within p := by
  refine ⟨?_, Nat.le_trans h.2.2.1 hv.2⟩
  apply IfStream.good_of_wf hw
  cases hf : f.failbit
  · rfl
  · have := h.2.2.2.1 hf
    have hg := hv.1
    unfold IfStream.good at hg
    simp [this] at hg

theorem IfStream.take_drop_of_take_eq {d1 d2 : List Nat} {p pos n : Nat}
    (h : d1.take p = d2.take p) (hp : pos + n ≤ p) :
    (d1.drop pos).take n = (d2.drop pos).take n ∧
      (n ≤ (d1.drop pos).length ↔ n ≤ (d2.drop pos).length) := by
  have e1 : ∀ d : List Nat, (d.drop pos).take n = ((d.take p).drop pos).take n := by
    intro d
    rw [List.drop_take, List.take_take, Nat.min_eq_left (by omega)]
  have e2 : ∀ d : List Nat, 0 < n →
      (n ≤ (d.drop pos).length ↔ pos + n ≤ (d.take p).length) := by
    intro d hn
    simp only [List.length_drop, List.length_take]
    omega
  refine ⟨by rw [e1 d1, e1 d2, h], ?_⟩
  rcases Nat.eq_zero_or_pos n with h0 | h0
  · subst h0; simp
  · rw [e2 d1 h0, e2 d2 h0, h]

theorem isCoupling_sim : IsCoupling IfStream.Sim (fun _ => True) := by
  refine ⟨fun f g h => ⟨h.1, h.2.2.2.1, h.2.2.2.2⟩, ?_, ?_, fun _ _ _ _ _ => trivial⟩
  · intro f g n h _
    have hw := (f.read_le n).2.2.2.2 h.1
    obtain ⟨d, p, o, e, fl⟩ := f
    obtain ⟨d', p', o', e', fl'⟩ := g
    obtain ⟨-, hr, ho, he, hf⟩ := h
    simp only at ho he hf
    subst ho he hf
    simp only [IfStream.rest] at hr
    simp only [IfStream.Sim, IfStream.read, IfStream.good, IfStream.rest, hr] at hw ⊢
    by_cases hg : (!e && !fl) = true
    · by_cases hn : n ≤ (if o = true then List.drop p' d' else []).length
      · simp only [hg, hn, if_true] at hw ⊢
        refine ⟨trivial, hw, ?_, trivial, trivial, trivial⟩
        cases o
        · simp
        · simp only [if_true] at hr ⊢
          rw [← List.drop_drop, ← List.drop_drop, hr]
      · simp only [hg, hn, if_true, if_false] at hw ⊢
        refine ⟨trivial, hw, ?_, trivial, trivial, trivial⟩
        cases o
        · simp
        · simp only [if_true] at hr ⊢
          have hl := congrArg List.length hr
          simp only [List.length_drop] at hl
          rw [List.drop_eq_nil_of_le (by simp; omega), List.drop_eq_nil_of_le (by simp; omega)]
    · simp only [hg, if_false, Bool.false_eq_true] at hw ⊢
      exact ⟨trivial, hw, by simpa using hr, trivial, trivial, trivial⟩
  · intro f g n h _
    have hw := (f.seekg_le n).2.2.2.2 h.1
    obtain ⟨d, p, o, e, fl⟩ := f
    obtain ⟨d', p', o', e', fl'⟩ := g
    obtain ⟨-, hr, ho, he, hf⟩ := h
    simp only at ho he hf
    subst ho he hf
    simp only [IfStream.rest] at hr
    simp only [IfStream.Sim, IfStream.seekg, IfStream.rest] at hw ⊢
    cases fl <;> cases o <;> simp_all
    rw [← List.drop_drop, ← List.drop_drop, hr]

theorem isCoupling_preEq (p : Nat) : IsCoupling (IfStream.PreEq p) (IfStream.Within p) := by
  refine ⟨fun f g h => ⟨h.1, h.2.2.2.2.1, h.2.2.2.2.2⟩, ?_, ?_,
    fun f g hw hl hv => IfStream.within_of_le hw hl hv⟩
  · intro f g n h hv
    have hw := (f.read_le n).2.2.2.2 h.1
    obtain ⟨d, q, o, e, fl⟩ := f
    obtain ⟨d', q', o', e', fl'⟩ := g
    obtain ⟨-, hd, hq, ho, he, hf⟩ := h
    simp only at hd hq ho he hf
    subst hq ho he hf
    simp only [IfStream.PreEq, IfStream.Within, IfStream.read, IfStream.good, IfStream.rest]
      at hw hv ⊢
    by_cases hg : (!e && !fl) = true
    · by_cases hn : n ≤ (if o = true then List.drop q d else []).length
      · simp only [hg, hn, if_true] at hw hv ⊢
        cases o
        · simp only [Bool.false_eq_true, if_false] at hn ⊢
          simp only [List.length_nil, Nat.le_zero] at hn
          subst hn
          exact ⟨by simp, hw, hd, rfl, rfl, rfl, rfl⟩
        · simp only [if_true] at hn ⊢
          obtain ⟨ht, hl⟩ := IfStream.take_drop_of_take_eq hd hv.2
          rw [if_pos (hl.1 hn)]
          exact ⟨by rw [ht], hw, hd, rfl, rfl, rfl, rfl⟩
      · simp only [hg, hn, if_true, if_false] at hv
        simp at hv
    · simp only [hg, if_false, Bool.false_eq_true] at hv
      simp at hv
  · intro f g n h _
    have hw := (f.seekg_le n).2.2.2.2 h.1
    obtain ⟨d, q, o, e, fl⟩ := f
    obtain ⟨d', q', o', e', fl'⟩ := g
    obtain ⟨-, hd, hq, ho, he, hf⟩ := h
    simp only at hd hq ho he hf
    subst hq ho he hf
    simp only [IfStream.PreEq, IfStream.seekg] at hw ⊢
    cases fl <;> cases o <;> simp_all

theorem reader_congr {α : Type} {k k' : IfStream → α × IfStream} (h : ∀ f, k f = k' f)
    (hk : Reader k') : Reader k := by
  have e : k = k' := funext h
  rw [e]; exact hk

theorem reader_pure {α : Type} (a : α) : Reader (fun f => (a, f)) :=
  ⟨fun f => IfStream.le_refl f, fun _ _ _ _ _ hR _ => ⟨rfl, hR⟩⟩

theorem reader_read (n : Nat) : Reader (fun f => f.read n) :=
  ⟨fun f => f.read_le n, fun _ _ hC f g hR hV => hC.2.1 f g n hR hV⟩

theorem reader_bind {α β : Type} {k1 : IfStream → α × IfStream}
    {k2 : α → IfStream → β × IfStream} (h1 : Reader k1) (h2 : ∀ a, Reader (k2 a)) :
    Reader (fun f => k2 (k1 f).1 (k1 f).2) := by
  refine ⟨fun f => IfStream.le_trans (h1.1 f) ((h2 _).1 _), ?_⟩
  intro R V hC f g hR hV
  have hw : (k1 f).2.wf := (h1.1 f).2.2.2.2 (hC.1 f g hR).1
  have hV1 : V (k1 f).2 := hC.2.2.2 _ _ hw ((h2 _).1 _) hV
  obtain ⟨e1, r1⟩ := h1.2 R V hC f g hR hV1
  have := (h2 (k1 f).1).2 R V hC _ _ r1 hV
  show (k2 (k1 f).1 (k1 f).2).1 = (k2 (k1 g).1 (k1 g).2).1 ∧
    R (k2 (k1 f).1 (k1 f).2).2 (k2 (k1 g).1 (k1 g).2).2
  rw [← e1]
  exact this

theorem ReadValue_reader (n : Nat) (v : Nat) : Reader (fun f => ReadValue n f v) := by
  refine reader_congr ?_ (reader_bind (reader_read n)
    (fun o => reader_pure (match o with | some bytes => leValue bytes | none => v)))
  intro f
  unfold ReadValue
  rcases h : f.read n with ⟨_ | _, f'⟩ <;> rfl

theorem ReadFString_reader (P : Platform) (v : String) :
    Reader (fun f => ReadFString P f v) := by
  have h2 : ∀ o : Option (List Nat), Reader (fun f =>
      match o with
      | some len => ((match (f.read (leValue len)).1 with
          | some bytes => P.decodeText bytes
          | none => v), (f.read (leValue len)).2)
      | none => (v, f)) := by
    intro o
    cases o with
    | none => exact reader_pure v
    | some len =>
      exact reader_bind (reader_read (leValue len))
        (fun o2 => reader_pure (match o2 with | some bytes => P.decodeText bytes | none => v))
  refine reader_congr ?_ (reader_bind (reader_read 2) h2)
  intro f
  unfold ReadFString
  rcases h : f.read 2 with ⟨_ | len, f'⟩
  · rfl
  · simp only
    rcases h2 : f'.read (leValue len) with ⟨_ | _, g⟩ <;> rfl

theorem ReadFVector_reader (v : FVector) : Reader (fun f => ReadFVector f v) :=
  reader_bind (ReadValue_reader 4 v.X) fun x =>
  reader_bind (ReadValue_reader 4 v.Y) fun y =>
  reader_bind (ReadValue_reader 4 v.Z) fun z =>
  reader_pure { X := x, Y := y, Z := z }

theorem readElements_reader {α : Type} {readOne : IfStream → α → α × IfStream} (fresh : α)
    (h : ∀ a, Reader (fun f => readOne f a)) (n : Nat) :
    Reader (readElements readOne fresh n) := by
  induction n with
  | zero => exact reader_pure []
  | succ n ih =>
    exact reader_bind (h fresh) fun head => reader_bind ih fun tail => reader_pure (head :: tail)

theorem readCounted_reader {α : Type} {readOne : IfStream → α → α × IfStream} (fresh : α)
    (h : ∀ a, Reader (fun f => readOne f a)) (v : List α) :
    Reader (fun f => readCounted readOne fresh f v) := by
  have h2 : ∀ o : Option (List Nat), Reader (fun f =>
      match o with
      | some count => readElements readOne fresh (leValue count) f
      | none => (v, f)) := by
    intro o
    cases o with
    | none => exact reader_pure v
    | some count => exact readElements_reader fresh h (leValue count)
  refine reader_congr ?_ (reader_bind (reader_read 2) h2)
  intro f
  unfold readCounted
  rcases h : f.read 2 with ⟨_ | count, f'⟩ <;> rfl

theorem CarlaRecorderCollision_Read_reader (r : CarlaRecorderCollision) :
    Reader (fun f => CarlaRecorderCollision.Read f r) :=
  reader_bind (ReadValue_reader 4 r.Id) fun a =>
  reader_bind (ReadValue_reader 1 r.IsActor1Hero) fun b =>
  reader_bind (ReadValue_reader 1 r.IsActor2Hero) fun c =>
  reader_bind (ReadValue_reader 4 r.DatabaseId1) fun d =>
  reader_bind (ReadValue_reader 4 r.DatabaseId2) fun e =>
  reader_pure { Id := a, IsActor1Hero := b, IsActor2Hero := c, DatabaseId1 := d,
                DatabaseId2 := e }

theorem ReadTotal_reader (Total : Option Nat) : Reader (fun f => ReadTotal f Total) := by
  refine reader_congr ?_ (reader_bind (reader_read 2)
    (fun o => reader_pure (match o with | some bytes => some (leValue bytes) | none => Total)))
  intro f
  unfold ReadTotal
  rcases h : f.read 2 with ⟨_ | _, f'⟩ <;> rfl

theorem CarlaRecorderInfo_Read_reader (P : Platform) (r : CarlaRecorderInfo) :
    Reader (fun f => CarlaRecorderInfo.Read P f r) := by
  refine reader_congr (fun f => ?_) (reader_bind (ReadFString_reader P r.Magic) fun a =>
  reader_bind (ReadValue_reader 2 r.Version) fun b =>
  reader_bind (ReadFString_reader P r.Mapfile) fun c =>
  reader_bind (ReadValue_reader 8 r.Date) fun d =>
  reader_pure { Magic := a, Version := b, Mapfile := c, Date := d })
  simp only [CarlaRecorderInfo.Read]

theorem CarlaRecorderFrame_Read_reader (r : CarlaRecorderFrame) :
    Reader (fun f => CarlaRecorderFrame.Read f r) := by
  refine reader_congr (fun f => ?_) (reader_bind (ReadValue_reader 8 r.Id) fun a =>
  reader_bind (ReadValue_reader 8 r.Elapsed) fun b =>
  reader_bind (ReadValue_reader 8 r.DurationThis) fun c =>
  reader_pure { Id := a, Elapsed := b, DurationThis := c })
  simp only [CarlaRecorderFrame.Read]

theorem CarlaRecorderActorAttribute_Read_reader (P : Platform)
    (r : CarlaRecorderActorAttribute) :
    Reader (fun f => CarlaRecorderActorAttribute.Read P f r) := by
  refine reader_congr (fun f => ?_) (reader_bind (ReadValue_reader 1 r.Type_) fun a =>
  reader_bind (ReadFString_reader P r.Id) fun b =>
  reader_bind (ReadFString_reader P r.Value) fun c =>
  reader_pure { Type_ := a, Id := b, Value := c })
  simp only [CarlaRecorderActorAttribute.Read]

theorem CarlaRecorderEventAdd_Read_reader (P : Platform) (r : CarlaRecorderEventAdd) :
    Reader (fun f => CarlaRecorderEventAdd.Read P f r) := by
  refine reader_congr (fun f => ?_) (reader_bind (ReadValue_reader 4 r.DatabaseId) fun a =>
  reader_bind (ReadValue_reader 1 r.Type_) fun b =>
  reader_bind (ReadFVector_reader r.Location) fun c =>
  reader_bind (ReadFVector_reader r.Rotation) fun d =>
  reader_bind (ReadFString_reader P r.Description.Id) fun e =>
  reader_bind (readCounted_reader { Type_ := 0, Id := "", Value := "" }
    (CarlaRecorderActorAttribute_Read_reader P) r.Description.Attributes) fun g =>
  reader_pure { DatabaseId := a, Type_ := b, Location := c, Rotation := d,
                Description := { Id := e, Attributes := g } })
  simp only [CarlaRecorderEventAdd.Read]

theorem CarlaRecorderEventDel_Read_reader (r : CarlaRecorderEventDel) :
    Reader (fun f => CarlaRecorderEventDel.Read f r) := by
  refine reader_congr (fun f => ?_) (reader_bind (ReadValue_reader 4 r.DatabaseId) fun a =>
  reader_pure { DatabaseId := a })
  simp only [CarlaRecorderEventDel.Read]

theorem CarlaRecorderEventParent_Read_reader (r : CarlaRecorderEventParent) :
    Reader (fun f => CarlaRecorderEventParent.Read f r) := by
  refine reader_congr (fun f => ?_) (reader_bind (ReadValue_reader 4 r.DatabaseId) fun a =>
  reader_bind (ReadValue_reader 4 r.DatabaseIdParent) fun b =>
  reader_pure { DatabaseId := a, DatabaseIdParent := b })
  simp only [CarlaRecorderEventParent.Read]

theorem CarlaRecorderPosition_Read_reader (r : CarlaRecorderPosition) :
    Reader (fun f => CarlaRecorderPosition.Read f r) := by
  refine reader_congr (fun f => ?_) (reader_bind (ReadValue_reader 4 r.DatabaseId) fun a =>
  reader_bind (ReadFVector_reader r.Location) fun b =>
  reader_bind (ReadFVector_reader r.Rotation) fun c =>
  reader_pure { DatabaseId := a, Location := b, Rotation := c })
  simp only [CarlaRecorderPosition.Read]

theorem CarlaRecorderStateTrafficLight_Read_reader (r : CarlaRecorderStateTrafficLight) :
    Reader (fun f => CarlaRecorderStateTrafficLight.Read f r) := by
  refine reader_congr (fun f => ?_) (reader_bind (ReadValue_reader 4 r.DatabaseId) fun a =>
  reader_bind (ReadValue_reader 1 r.State) fun b =>
  reader_bind (ReadValue_reader 1 r.IsFrozen) fun c =>
  reader_bind (ReadValue_reader 4 r.ElapsedTime) fun d =>
  reader_pure { DatabaseId := a, State := b, IsFrozen := c, ElapsedTime := d })
  simp only [CarlaRecorderStateTrafficLight.Read]

theorem CarlaRecorderAnimVehicle_Read_reader (r : CarlaRecorderAnimVehicle) :
    Reader (fun f => CarlaRecorderAnimVehicle.Read f r) := by
  refine reader_congr (fun f => ?_) (reader_bind (ReadValue_reader 4 r.DatabaseId) fun a =>
  reader_bind (ReadValue_reader 4 r.Steering) fun b =>
  reader_bind (ReadValue_reader 4 r.Throttle) fun c =>
  reader_bind (ReadValue_reader 4 r.Brake) fun d =>
  reader_bind (ReadValue_reader 1 r.bHandbrake) fun e =>
  reader_bind (ReadValue_reader 4 r.Gear) fun g =>
  reader_pure { DatabaseId := a, Steering := b, Throttle := c, Brake := d, bHandbrake := e,
                Gear := g })
  simp only [CarlaRecorderAnimVehicle.Read]

theorem CarlaRecorderAnimWalker_Read_reader (r : CarlaRecorderAnimWalker) :
    Reader (fun f => CarlaRecorderAnimWalker.Read f r) := by
  refine reader_congr (fun f => ?_) (reader_bind (ReadValue_reader 4 r.DatabaseId) fun a =>
  reader_bind (ReadValue_reader 4 r.Speed) fun b =>
  reader_pure { DatabaseId := a, Speed := b })
  simp only [CarlaRecorderAnimWalker.Read]

theorem CarlaRecorderDoorVehicle_Read_reader (r : CarlaRecorderDoorVehicle) :
    Reader (fun f => CarlaRecorderDoorVehicle.Read f r) := by
  refine reader_congr (fun f => ?_) (reader_bind (ReadValue_reader 4 r.DatabaseId) fun a =>
  reader_bind (ReadValue_reader 1 r.Doors) fun b =>
  reader_pure { DatabaseId := a, Doors := b })
  simp only [CarlaRecorderDoorVehicle.Read]

theorem CarlaRecorderLightVehicle_Read_reader (r : CarlaRecorderLightVehicle) :
    Reader (fun f => CarlaRecorderLightVehicle.Read f r) := by
  refine reader_congr (fun f => ?_) (reader_bind (ReadValue_reader 4 r.DatabaseId) fun a =>
  reader_bind (ReadValue_reader 4 r.State) fun b =>
  reader_pure { DatabaseId := a, State := b })
  simp only [CarlaRecorderLightVehicle.Read]

theorem CarlaRecorderLightScene_Read_reader (r : CarlaRecorderLightScene) :
    Reader (fun f => CarlaRecorderLightScene.Read f r) := by
  refine reader_congr (fun f => ?_) (reader_bind (ReadValue_reader 4 r.LightId) fun a =>
  reader_bind (ReadValue_reader 1 r.bOn) fun b =>
  reader_bind (ReadValue_reader 4 r.Intensity) fun c =>
  reader_bind (ReadValue_reader 1 r.Color.R) fun d =>
  reader_bind (ReadValue_reader 1 r.Color.G) fun e =>
  reader_bind (ReadValue_reader 1 r.Color.B) fun g =>
  reader_pure { LightId := a, bOn := b, Intensity := c, Color := { R := d, G := e, B := g } })
  simp only [CarlaRecorderLightScene.Read]

theorem CarlaRecorderKinematics_Read_reader (r : CarlaRecorderKinematics) :
    Reader (fun f => CarlaRecorderKinematics.Read f r) := by
  refine reader_congr (fun f => ?_) (reader_bind (ReadValue_reader 4 r.DatabaseId) fun a =>
  reader_bind (ReadFVector_reader r.LinearVelocity) fun b =>
  reader_bind (ReadFVector_reader r.AngularVelocity) fun c =>
  reader_pure { DatabaseId := a, LinearVelocity := b, AngularVelocity := c })
  simp only [CarlaRecorderKinematics.Read]

theorem CarlaRecorderActorBoundingBox_Read_reader (r : CarlaRecorderActorBoundingBox) :
    Reader (fun f => CarlaRecorderActorBoundingBox.Read f r) := by
  refine reader_congr (fun f => ?_) (reader_bind (ReadValue_reader 4 r.DatabaseId) fun a =>
  reader_bind (ReadFVector_reader r.BoundingBox.Origin) fun b =>
  reader_bind (ReadFVector_reader r.BoundingBox.Extension) fun c =>
  reader_pure { DatabaseId := a, BoundingBox := { Origin := b, Extension := c } })
  simp only [CarlaRecorderActorBoundingBox.Read]

theorem CarlaRecorderPlatformTime_Read_reader (r : CarlaRecorderPlatformTime) :
    Reader (fun f => CarlaRecorderPlatformTime.Read f r) := by
  refine reader_congr (fun f => ?_) (reader_bind (ReadValue_reader 8 r.Time) fun a =>
  reader_pure { Time := a })
  simp only [CarlaRecorderPlatformTime.Read]

theorem CarlaRecorderTrafficLightTime_Read_reader (r : CarlaRecorderTrafficLightTime) :
    Reader (fun f => CarlaRecorderTrafficLightTime.Read f r) := by
  refine reader_congr (fun f => ?_) (reader_bind (ReadValue_reader 4 r.DatabaseId) fun a =>
  reader_bind (ReadValue_reader 4 r.GreenTime) fun b =>
  reader_bind (ReadValue_reader 4 r.YellowTime) fun c =>
  reader_bind (ReadValue_reader 4 r.RedTime) fun d =>
  reader_pure { DatabaseId := a, GreenTime := b, YellowTime := c, RedTime := d })
  simp only [CarlaRecorderTrafficLightTime.Read]

theorem CarlaRecorderWalkerBone_Read_reader (P : Platform) (r : CarlaRecorderWalkerBone) :
    Reader (fun f => CarlaRecorderWalkerBone.Read P f r) := by
  refine reader_congr (fun f => ?_) (reader_bind (ReadFString_reader P r.Name) fun a =>
  reader_bind (ReadFVector_reader r.Location) fun b =>
  reader_bind (ReadFVector_reader r.Rotation) fun c =>
  reader_pure { Name := a, Location := b, Rotation := c })
  simp only [CarlaRecorderWalkerBone.Read]

theorem CarlaRecorderWalkerBones_Read_reader (P : Platform) (r : CarlaRecorderWalkerBones) :
    Reader (fun f => CarlaRecorderWalkerBones.Read P f r) := by
  refine reader_congr (fun f => ?_) (reader_bind (ReadValue_reader 4 r.DatabaseId) fun a =>
  reader_bind (readCounted_reader
    { Name := "", Location := { X := 0, Y := 0, Z := 0 }, Rotation := { X := 0, Y := 0, Z := 0 } }
    (CarlaRecorderWalkerBone_Read_reader P) r.Bones) fun b =>
  reader_pure { DatabaseId := a, Bones := b })
  simp only [CarlaRecorderWalkerBones.Read]

theorem infoLoop_eq (P : Platform) (C : PhysicsCodec) (bShowAll : Bool) (fuel : Nat)
    (s : InfoState) : infoLoop P C bShowAll fuel s = packetLoop (infoPacket P C bShowAll) fuel s := by
  induction fuel generalizing s with
  | zero => rfl
  | succ n ih =>
    simp only [infoLoop, packetLoop, LoopState.self, LoopState.setSelf]
    split_ifs
    · split <;> simp_all
    · rfl
    · rfl

theorem collisionsLoop_eq (P : Platform) (Category1 Category2 : Char) (fuel : Nat)
    (s : CollisionsState) :
    collisionsLoop P Category1 Category2 fuel s
      = packetLoop (collisionsPacket P Category1 Category2) fuel s := by
  induction fuel generalizing s with
  | zero => rfl
  | succ n ih =>
    simp only [collisionsLoop, packetLoop, LoopState.self, LoopState.setSelf]
    split_ifs
    · split <;> simp_all
    · rfl
    · rfl

theorem blockedLoop_eq (P : Platform) (A : BlockedArith) (MinTime MinDistance : Nat)
    (fuel : Nat) (s : BlockedState) :
    blockedLoop P A MinTime MinDistance fuel s
      = packetLoop (blockedPacket P A MinTime MinDistance) fuel s := by
  induction fuel generalizing s with
  | zero => rfl
  | succ n ih =>
    simp only [blockedLoop, packetLoop, LoopState.self, LoopState.setSelf]
    split_ifs
    · split <;> simp_all
    · rfl
    · rfl

theorem LoopState.file_setFile {σ : Type} [LoopState σ] (s : σ) (g : IfStream) :
    LoopState.file (LoopState.setFile s g) = g := by
  simp [LoopState.file, LoopState.setFile, LoopState.self_setSelf]

theorem LoopState.self_setFile {σ : Type} [LoopState σ] (s : σ) (g : IfStream) :
    LoopState.self (LoopState.setFile s g) = { LoopState.self s with File := g } := by
  simp [LoopState.setFile, LoopState.self_setSelf]

theorem LoopState.setFile_setFile {σ : Type} [LoopState σ] (s : σ) (g g' : IfStream) :
    LoopState.setFile (LoopState.setFile s g) g' = LoopState.setFile s g' := by
  simp [LoopState.setFile, LoopState.self_setSelf, LoopState.setSelf_setSelf]

theorem LoopState.setFile_file {σ : Type} [LoopState σ] (s : σ) :
    LoopState.setFile s (LoopState.file s) = s := by
  have e : ({ LoopState.self s with File := (LoopState.self s).File } : CarlaRecorderQuery)
      = LoopState.self s := rfl
  simp only [LoopState.setFile, LoopState.file, e, LoopState.setSelf_self]

theorem LoopState.file_setSelf {σ : Type} [LoopState σ] (s : σ) (q : CarlaRecorderQuery) :
    LoopState.file (LoopState.setSelf s q) = q.File := by
  simp [LoopState.file, LoopState.self_setSelf]

theorem LoopState.setSelf_setFile {σ : Type} [LoopState σ] (s : σ) (g : IfStream)
    (q : CarlaRecorderQuery) :
    LoopState.setSelf (LoopState.setFile s g) q = LoopState.setSelf s q := by
  simp [LoopState.setFile, LoopState.setSelf_setSelf]

theorem repeatBody_succ {σ : Type} (body : σ → Except Fault σ) (n : Nat) (s t : σ)
    (h : repeatBody body (n + 1) s = .ok t) :
    ∃ s1, body s = .ok s1 ∧ repeatBody body n s1 = .ok t := by
  simp only [repeatBody] at h
  cases hb : body s with
  | error e => rw [hb] at h; cases h
  | ok s1 => rw [hb] at h; exact ⟨s1, rfl, h⟩

theorem localStep_repeatBody {σ : Type} [LoopState σ] {body : σ → Except Fault σ}
    (hb : LocalStep body) (n : Nat) : LocalStep (repeatBody body n) := by
  have mono : ∀ n s t, CarlaRecorder.repeatBody body n s = .ok t →
      (LoopState.file s).Le (LoopState.file t) := by
    intro n
    induction n with
    | zero => intro s t h; cases h; exact IfStream.le_refl _
    | succ n ih =>
      intro s t h
      obtain ⟨s1, h1, h2⟩ := repeatBody_succ body n s t h
      exact IfStream.le_trans (hb.1 s s1 h1) (ih s1 t h2)
  refine ⟨mono n, ?_⟩
  intro R V hC
  induction n with
  | zero =>
    intro s g t hR h _
    cases h
    exact ⟨g, rfl, hR⟩
  | succ n ih =>
    intro s g t hR h hV
    obtain ⟨s1, h1, h2⟩ := repeatBody_succ body n s t h
    have hw : (LoopState.file s1).wf := (hb.1 s s1 h1).2.2.2.2 (hC.1 _ _ hR).1
    have hV1 : V (LoopState.file s1) := hC.2.2.2 _ _ hw (mono n s1 t h2) hV
    obtain ⟨g1, e1, r1⟩ := hb.2 R V hC s g s1 hR h1 hV1
    obtain ⟨g2, e2, r2⟩ := ih s1 g1 t r1 h2 hV
    refine ⟨g2, ?_, r2⟩
    simp only [CarlaRecorder.repeatBody, e1]
    exact e2

theorem localStep_forTotal {σ : Type} [LoopState σ] {body : σ → Except Fault σ}
    (total : σ → Option Nat) (ht : ∀ s g, total (LoopState.setFile s g) = total s)
    (hb : LocalStep body) : LocalStep (fun s => forTotal (total s) body s) := by
  refine ⟨?_, ?_⟩
  · intro s t h
    simp only [CarlaRecorder.forTotal] at h
    cases hn : total s with
    | none => rw [hn] at h; cases h
    | some n => rw [hn] at h; exact (localStep_repeatBody hb n).1 s t h
  · intro R V hC s g t hR h hV
    simp only [CarlaRecorder.forTotal] at h ⊢
    rw [ht]
    cases hn : total s with
    | none => rw [hn] at h; cases h
    | some n => rw [hn] at h; exact (localStep_repeatBody hb n).2 R V hC s g t hR h hV

theorem localStep_comp {σ : Type} [LoopState σ] {k1 k2 : σ → Except Fault σ}
    (h1 : LocalStep k1) (h2 : LocalStep k2) :
    LocalStep (fun s => match k1 s with
      | .ok t => k2 t
      | .error e => .error e) := by
  refine ⟨?_, ?_⟩
  · intro s t h
    simp only at h
    cases hk : k1 s with
    | error e => rw [hk] at h; cases h
    | ok s1 => rw [hk] at h; exact IfStream.le_trans (h1.1 s s1 hk) (h2.1 s1 t h)
  · intro R V hC s g t hR h hV
    simp only at h ⊢
    cases hk : k1 s with
    | error e => rw [hk] at h; cases h
    | ok s1 =>
      rw [hk] at h
      have hw : (LoopState.file s1).wf := (h1.1 s s1 hk).2.2.2.2 (hC.1 _ _ hR).1
      have hV1 : V (LoopState.file s1) := hC.2.2.2 _ _ hw (h2.1 s1 t h) hV
      obtain ⟨g1, e1, r1⟩ := h1.2 R V hC s g s1 hR hk hV1
      obtain ⟨g2, e2, r2⟩ := h2.2 R V hC s1 g1 t r1 h hV
      exact ⟨g2, by rw [e1]; exact e2, r2⟩

theorem localStep_pure {σ : Type} [LoopState σ] (upd : σ → σ)
    (hf : ∀ s, LoopState.file (upd s) = LoopState.file s)
    (hu : ∀ s g, upd (LoopState.setFile s g) = LoopState.setFile (upd s) g) :
    LocalStep (fun s => .ok (upd s)) := by
  refine ⟨?_, ?_⟩
  · intro s t h
    cases h
    rw [hf]; exact IfStream.le_refl _
  · intro R V hC s g t hR h _
    cases h
    exact ⟨g, by simp only [hu], by rw [hf]; exact hR⟩

theorem localStep_skip {σ : Type} [LoopState σ] :
    LocalStep (fun s : σ => .ok (LoopState.setSelf s (SkipPacket (LoopState.self s)))) := by
  refine ⟨?_, ?_⟩
  · intro s t h
    cases h
    rw [LoopState.file_setSelf]
    exact IfStream.seekg_le _ _
  · intro R V hC s g t hR h hV
    cases h
    rw [LoopState.file_setSelf] at hV ⊢
    refine ⟨g.seekg (LoopState.self s).Header.Size, ?_, hC.2.2.1 _ _ _ hR hV⟩
    simp only [SkipPacket, LoopState.self_setFile, LoopState.setSelf_setFile]
    simp only [LoopState.setFile, LoopState.self_setSelf, LoopState.setSelf_setSelf]

theorem localStep_of_pointwise {σ : Type} [LoopState σ] {step : σ → Except Fault σ}
    (h : ∀ s, ∃ step', LocalStep step' ∧ ∀ g, step (LoopState.setFile s g)
      = step' (LoopState.setFile s g)) : LocalStep step := by
  refine ⟨?_, ?_⟩
  · intro s t hs
    obtain ⟨step', hl, he⟩ := h s
    have := he (LoopState.file s)
    rw [LoopState.setFile_file] at this
    exact hl.1 s t (this ▸ hs)
  · intro R V hC s g t hR hs hV
    obtain ⟨step', hl, he⟩ := h s
    have e0 := he (LoopState.file s)
    rw [LoopState.setFile_file] at e0
    obtain ⟨g', e, r⟩ := hl.2 R V hC s g t hR (e0 ▸ hs) hV
    exact ⟨g', by rw [he g]; exact e, r⟩

theorem infoEventAdd_local (P : Platform) : LocalStep (infoEventAdd P) := by
  refine ⟨?_, ?_⟩
  · intro s t h
    have hl := (CarlaRecorderEventAdd_Read_reader P s.self.EventAdd).1 s.self.File
    simp only [infoEventAdd, Except.ok.injEq] at h
    subst h
    simp only [LoopState.file, LoopState.self]
    exact hl
  · intro R V hC s g t hR h hV
    simp only [infoEventAdd, Except.ok.injEq] at h
    subst h
    simp only [LoopState.file, LoopState.self] at hR hV
    obtain ⟨e, r⟩ := (CarlaRecorderEventAdd_Read_reader P s.self.EventAdd).2 R V hC _ _ hR hV
    simp only at e r
    refine ⟨(CarlaRecorderEventAdd.Read P g s.self.EventAdd).2, ?_, ?_⟩
    · simp only [infoEventAdd, LoopState.setFile, LoopState.setSelf, LoopState.self, ← e]
    · simp only [LoopState.file, LoopState.self]
      exact r

theorem infoEventDel_local : LocalStep (infoEventDel) := by
  refine ⟨?_, ?_⟩
  · intro s t h
    have hl := (CarlaRecorderEventDel_Read_reader s.self.EventDel).1 s.self.File
    simp only [infoEventDel, Except.ok.injEq] at h
    subst h
    simp only [LoopState.file, LoopState.self]
    exact hl
  · intro R V hC s g t hR h hV
    simp only [infoEventDel, Except.ok.injEq] at h
    subst h
    simp only [LoopState.file, LoopState.self] at hR hV
    obtain ⟨e, r⟩ := (CarlaRecorderEventDel_Read_reader s.self.EventDel).2 R V hC _ _ hR hV
    simp only at e r
    refine ⟨(CarlaRecorderEventDel.Read g s.self.EventDel).2, ?_, ?_⟩
    · simp only [infoEventDel, LoopState.setFile, LoopState.setSelf, LoopState.self, ← e]
    · simp only [LoopState.file, LoopState.self]
      exact r

theorem infoEventParent_local : LocalStep (infoEventParent) := by
  refine ⟨?_, ?_⟩
  · intro s t h
    have hl := (CarlaRecorderEventParent_Read_reader s.self.EventParent).1 s.self.File
    simp only [infoEventParent, Except.ok.injEq] at h
    subst h
    simp only [LoopState.file, LoopState.self]
    exact hl
  · intro R V hC s g t hR h hV
    simp only [infoEventParent, Except.ok.injEq] at h
    subst h
    simp only [LoopState.file, LoopState.self] at hR hV
    obtain ⟨e, r⟩ := (CarlaRecorderEventParent_Read_reader s.self.EventParent).2 R V hC _ _ hR hV
    simp only at e r
    refine ⟨(CarlaRecorderEventParent.Read g s.self.EventParent).2, ?_, ?_⟩
    · simp only [infoEventParent, LoopState.setFile, LoopState.setSelf, LoopState.self, ← e]
    · simp only [LoopState.file, LoopState.self]
      exact r

theorem infoCollision_local : LocalStep (infoCollision) := by
  refine ⟨?_, ?_⟩
  · intro s t h
    have hl := (CarlaRecorderCollision_Read_reader s.self.Collision).1 s.self.File
    simp only [infoCollision, Except.ok.injEq] at h
    subst h
    simp only [LoopState.file, LoopState.self]
    exact hl
  · intro R V hC s g t hR h hV
    simp only [infoCollision, Except.ok.injEq] at h
    subst h
    simp only [LoopState.file, LoopState.self] at hR hV
    obtain ⟨e, r⟩ := (CarlaRecorderCollision_Read_reader s.self.Collision).2 R V hC _ _ hR hV
    simp only at e r
    refine ⟨(CarlaRecorderCollision.Read g s.self.Collision).2, ?_, ?_⟩
    · simp only [infoCollision, LoopState.setFile, LoopState.setSelf, LoopState.self, ← e]
    · simp only [LoopState.file, LoopState.self]
      exact r

theorem infoPosition_local (P : Platform) : LocalStep (infoPosition P) := by
  refine ⟨?_, ?_⟩
  · intro s t h
    have hl := (CarlaRecorderPosition_Read_reader s.self.Position).1 s.self.File
    simp only [infoPosition, Except.ok.injEq] at h
    subst h
    simp only [LoopState.file, LoopState.self]
    exact hl
  · intro R V hC s g t hR h hV
    simp only [infoPosition, Except.ok.injEq] at h
    subst h
    simp only [LoopState.file, LoopState.self] at hR hV
    obtain ⟨e, r⟩ := (CarlaRecorderPosition_Read_reader s.self.Position).2 R V hC _ _ hR hV
    simp only at e r
    refine ⟨(CarlaRecorderPosition.Read g s.self.Position).2, ?_, ?_⟩
    · simp only [infoPosition, LoopState.setFile, LoopState.setSelf, LoopState.self, ← e]
    · simp only [LoopState.file, LoopState.self]
      exact r

theorem infoState_local (P : Platform) : LocalStep (infoState P) := by
  refine ⟨?_, ?_⟩
  · intro s t h
    have hl := (CarlaRecorderStateTrafficLight_Read_reader s.self.StateTraffic).1 s.self.File
    simp only [infoState, Except.ok.injEq] at h
    subst h
    simp only [LoopState.file, LoopState.self]
    exact hl
  · intro R V hC s g t hR h hV
    simp only [infoState, Except.ok.injEq] at h
    subst h
    simp only [LoopState.file, LoopState.self] at hR hV
    obtain ⟨e, r⟩ := (CarlaRecorderStateTrafficLight_Read_reader s.self.StateTraffic).2 R V hC _ _ hR hV
    simp only at e r
    refine ⟨(CarlaRecorderStateTrafficLight.Read g s.self.StateTraffic).2, ?_, ?_⟩
    · simp only [infoState, LoopState.setFile, LoopState.setSelf, LoopState.self, ← e]
    · simp only [LoopState.file, LoopState.self]
      exact r

theorem infoAnimVehicle_local (P : Platform) : LocalStep (infoAnimVehicle P) := by
  refine ⟨?_, ?_⟩
  · intro s t h
    have hl := (CarlaRecorderAnimVehicle_Read_reader s.self.Vehicle).1 s.self.File
    simp only [infoAnimVehicle, Except.ok.injEq] at h
    subst h
    simp only [LoopState.file, LoopState.self]
    exact hl
  · intro R V hC s g t hR h hV
    simp only [infoAnimVehicle, Except.ok.injEq] at h
    subst h
    simp only [LoopState.file, LoopState.self] at hR hV
    obtain ⟨e, r⟩ := (CarlaRecorderAnimVehicle_Read_reader s.self.Vehicle).2 R V hC _ _ hR hV
    simp only at e r
    refine ⟨(CarlaRecorderAnimVehicle.Read g s.self.Vehicle).2, ?_, ?_⟩
    · simp only [infoAnimVehicle, LoopState.setFile, LoopState.setSelf, LoopState.self, ← e]
    · simp only [LoopState.file, LoopState.self]
      exact r

theorem infoAnimWalker_local (P : Platform) : LocalStep (infoAnimWalker P) := by
  refine ⟨?_, ?_⟩
  · intro s t h
    have hl := (CarlaRecorderAnimWalker_Read_reader s.self.Walker).1 s.self.File
    simp only [infoAnimWalker, Except.ok.injEq] at h
    subst h
    simp only [LoopState.file, LoopState.self]
    exact hl
  · intro R V hC s g t hR h hV
    simp only [infoAnimWalker, Except.ok.injEq] at h
    subst h
    simp only [LoopState.file, LoopState.self] at hR hV
    obtain ⟨e, r⟩ := (CarlaRecorderAnimWalker_Read_reader s.self.Walker).2 R V hC _ _ hR hV
    simp only at e r
    refine ⟨(CarlaRecorderAnimWalker.Read g s.self.Walker).2, ?_, ?_⟩
    · simp only [infoAnimWalker, LoopState.setFile, LoopState.setSelf, LoopState.self, ← e]
    · simp only [LoopState.file, LoopState.self]
      exact r

theorem infoVehicleDoor_local : LocalStep (infoVehicleDoor) := by
  refine ⟨?_, ?_⟩
  · intro s t h
    have hl := (CarlaRecorderDoorVehicle_Read_reader s.self.DoorVehicle).1 s.self.File
    simp only [infoVehicleDoor, Except.ok.injEq] at h
    subst h
    simp only [LoopState.file, LoopState.self]
    exact hl
  · intro R V hC s g t hR h hV
    simp only [infoVehicleDoor, Except.ok.injEq] at h
    subst h
    simp only [LoopState.file, LoopState.self] at hR hV
    obtain ⟨e, r⟩ := (CarlaRecorderDoorVehicle_Read_reader s.self.DoorVehicle).2 R V hC _ _ hR hV
    simp only at e r
    refine ⟨(CarlaRecorderDoorVehicle.Read g s.self.DoorVehicle).2, ?_, ?_⟩
    · simp only [infoVehicleDoor, LoopState.setFile, LoopState.setSelf, LoopState.self, ← e]
    · simp only [LoopState.file, LoopState.self]
      exact r

theorem infoVehicleLight_local : LocalStep (infoVehicleLight) := by
  refine ⟨?_, ?_⟩
  · intro s t h
    have hl := (CarlaRecorderLightVehicle_Read_reader s.self.LightVehicle).1 s.self.File
    simp only [infoVehicleLight, Except.ok.injEq] at h
    subst h
    simp only [LoopState.file, LoopState.self]
    exact hl
  · intro R V hC s g t hR h hV
    simp only [infoVehicleLight, Except.ok.injEq] at h
    subst h
    simp only [LoopState.file, LoopState.self] at hR hV
    obtain ⟨e, r⟩ := (CarlaRecorderLightVehicle_Read_reader s.self.LightVehicle).2 R V hC _ _ hR hV
    simp only at e r
    refine ⟨(CarlaRecorderLightVehicle.Read g s.self.LightVehicle).2, ?_, ?_⟩
    · simp only [infoVehicleLight, LoopState.setFile, LoopState.setSelf, LoopState.self, ← e]
    · simp only [LoopState.file, LoopState.self]
      exact r

theorem infoSceneLight_local (P : Platform) : LocalStep (infoSceneLight P) := by
  refine ⟨?_, ?_⟩
  · intro s t h
    have hl := (CarlaRecorderLightScene_Read_reader s.self.LightScene).1 s.self.File
    simp only [infoSceneLight, Except.ok.injEq] at h
    subst h
    simp only [LoopState.file, LoopState.self]
    exact hl
  · intro R V hC s g t hR h hV
    simp only [infoSceneLight, Except.ok.injEq] at h
    subst h
    simp only [LoopState.file, LoopState.self] at hR hV
    obtain ⟨e, r⟩ := (CarlaRecorderLightScene_Read_reader s.self.LightScene).2 R V hC _ _ hR hV
    simp only at e r
    refine ⟨(CarlaRecorderLightScene.Read g s.self.LightScene).2, ?_, ?_⟩
    · simp only [infoSceneLight, LoopState.setFile, LoopState.setSelf, LoopState.self, ← e]
    · simp only [LoopState.file, LoopState.self]
      exact r

theorem infoKinematics_local (P : Platform) : LocalStep (infoKinematics P) := by
  refine ⟨?_, ?_⟩
  · intro s t h
    have hl := (CarlaRecorderKinematics_Read_reader s.self.Kinematics).1 s.self.File
    simp only [infoKinematics, Except.ok.injEq] at h
    subst h
    simp only [LoopState.file, LoopState.self]
    exact hl
  · intro R V hC s g t hR h hV
    simp only [infoKinematics, Except.ok.injEq] at h
    subst h
    simp only [LoopState.file, LoopState.self] at hR hV
    obtain ⟨e, r⟩ := (CarlaRecorderKinematics_Read_reader s.self.Kinematics).2 R V hC _ _ hR hV
    simp only at e r
    refine ⟨(CarlaRecorderKinematics.Read g s.self.Kinematics).2, ?_, ?_⟩
    · simp only [infoKinematics, LoopState.setFile, LoopState.setSelf, LoopState.self, ← e]
    · simp only [LoopState.file, LoopState.self]
      exact r

theorem infoBoundingBox_local (P : Platform) : LocalStep (infoBoundingBox P) := by
  refine ⟨?_, ?_⟩
  · intro s t h
    have hl := (CarlaRecorderActorBoundingBox_Read_reader s.self.ActorBoundingBox).1 s.self.File
    simp only [infoBoundingBox, Except.ok.injEq] at h
    subst h
    simp only [LoopState.file, LoopState.self]
    exact hl
  · intro R V hC s g t hR h hV
    simp only [infoBoundingBox, Except.ok.injEq] at h
    subst h
    simp only [LoopState.file, LoopState.self] at hR hV
    obtain ⟨e, r⟩ := (CarlaRecorderActorBoundingBox_Read_reader s.self.ActorBoundingBox).2 R V hC _ _ hR hV
    simp only at e r
    refine ⟨(CarlaRecorderActorBoundingBox.Read g s.self.ActorBoundingBox).2, ?_, ?_⟩
    · simp only [infoBoundingBox, LoopState.setFile, LoopState.setSelf, LoopState.self, ← e]
    · simp only [LoopState.file, LoopState.self]
      exact r

theorem infoTrafficLightTime_local (P : Platform) : LocalStep (infoTrafficLightTime P) := by
  refine ⟨?_, ?_⟩
  · intro s t h
    have hl := (CarlaRecorderTrafficLightTime_Read_reader s.self.TrafficLightTime).1 s.self.File
    simp only [infoTrafficLightTime, Except.ok.injEq] at h
    subst h
    simp only [LoopState.file, LoopState.self]
    exact hl
  · intro R V hC s g t hR h hV
    simp only [infoTrafficLightTime, Except.ok.injEq] at h
    subst h
    simp only [LoopState.file, LoopState.self] at hR hV
    obtain ⟨e, r⟩ := (CarlaRecorderTrafficLightTime_Read_reader s.self.TrafficLightTime).2 R V hC _ _ hR hV
    simp only at e r
    refine ⟨(CarlaRecorderTrafficLightTime.Read g s.self.TrafficLightTime).2, ?_, ?_⟩
    · simp only [infoTrafficLightTime, LoopState.setFile, LoopState.setSelf, LoopState.self, ← e]
    · simp only [LoopState.file, LoopState.self]
      exact r

theorem infoWalkerBones_local (P : Platform) : LocalStep (infoWalkerBones P) := by
  refine ⟨?_, ?_⟩
  · intro s t h
    have hl := (CarlaRecorderWalkerBones_Read_reader P s.self.WalkerBones.Clear).1 s.self.File
    simp only [infoWalkerBones, Except.ok.injEq] at h
    subst h
    simp only [LoopState.file, LoopState.self]
    exact hl
  · intro R V hC s g t hR h hV
    simp only [infoWalkerBones, Except.ok.injEq] at h
    subst h
    simp only [LoopState.file, LoopState.self] at hR hV
    obtain ⟨e, r⟩ := (CarlaRecorderWalkerBones_Read_reader P s.self.WalkerBones.Clear).2 R V hC _ _ hR hV
    simp only at e r
    refine ⟨(CarlaRecorderWalkerBones.Read P g s.self.WalkerBones.Clear).2, ?_, ?_⟩
    · simp only [infoWalkerBones, LoopState.setFile, LoopState.setSelf, LoopState.self, ← e]
    · simp only [LoopState.file, LoopState.self]
      exact r

theorem collisionsEventAdd_local (P : Platform) : LocalStep (collisionsEventAdd P) := by
  refine ⟨?_, ?_⟩
  · intro s t h
    have hl := (CarlaRecorderEventAdd_Read_reader P s.self.EventAdd).1 s.self.File
    simp only [collisionsEventAdd, Except.ok.injEq] at h
    subst h
    simp only [LoopState.file, LoopState.self]
    exact hl
  · intro R V hC s g t hR h hV
    simp only [collisionsEventAdd, Except.ok.injEq] at h
    subst h
    simp only [LoopState.file, LoopState.self] at hR hV
    obtain ⟨e, r⟩ := (CarlaRecorderEventAdd_Read_reader P s.self.EventAdd).2 R V hC _ _ hR hV
    simp only at e r
    refine ⟨(CarlaRecorderEventAdd.Read P g s.self.EventAdd).2, ?_, ?_⟩
    · simp only [collisionsEventAdd, LoopState.setFile, LoopState.setSelf, LoopState.self, ← e]
    · simp only [LoopState.file, LoopState.self]
      exact r

theorem collisionsEventDel_local : LocalStep (collisionsEventDel) := by
  refine ⟨?_, ?_⟩
  · intro s t h
    have hl := (CarlaRecorderEventDel_Read_reader s.self.EventDel).1 s.self.File
    simp only [collisionsEventDel, Except.ok.injEq] at h
    subst h
    simp only [LoopState.file, LoopState.self]
    exact hl
  · intro R V hC s g t hR h hV
    simp only [collisionsEventDel, Except.ok.injEq] at h
    subst h
    simp only [LoopState.file, LoopState.self] at hR hV
    obtain ⟨e, r⟩ := (CarlaRecorderEventDel_Read_reader s.self.EventDel).2 R V hC _ _ hR hV
    simp only at e r
    refine ⟨(CarlaRecorderEventDel.Read g s.self.EventDel).2, ?_, ?_⟩
    · simp only [collisionsEventDel, LoopState.setFile, LoopState.setSelf, LoopState.self, ← e]
    · simp only [LoopState.file, LoopState.self]
      exact r

theorem blockedEventAdd_local (P : Platform) : LocalStep (blockedEventAdd P) := by
  refine ⟨?_, ?_⟩
  · intro s t h
    have hl := (CarlaRecorderEventAdd_Read_reader P s.self.EventAdd).1 s.self.File
    simp only [blockedEventAdd, Except.ok.injEq] at h
    subst h
    simp only [LoopState.file, LoopState.self]
    exact hl
  · intro R V hC s g t hR h hV
    simp only [blockedEventAdd, Except.ok.injEq] at h
    subst h
    simp only [LoopState.file, LoopState.self] at hR hV
    obtain ⟨e, r⟩ := (CarlaRecorderEventAdd_Read_reader P s.self.EventAdd).2 R V hC _ _ hR hV
    simp only at e r
    refine ⟨(CarlaRecorderEventAdd.Read P g s.self.EventAdd).2, ?_, ?_⟩
    · simp only [blockedEventAdd, LoopState.setFile, LoopState.setSelf, LoopState.self, ← e]
    · simp only [LoopState.file, LoopState.self]
      exact r

theorem blockedEventDel_local : LocalStep (blockedEventDel) := by
  refine ⟨?_, ?_⟩
  · intro s t h
    have hl := (CarlaRecorderEventDel_Read_reader s.self.EventDel).1 s.self.File
    simp only [blockedEventDel, Except.ok.injEq] at h
    subst h
    simp only [LoopState.file, LoopState.self]
    exact hl
  · intro R V hC s g t hR h hV
    simp only [blockedEventDel, Except.ok.injEq] at h
    subst h
    simp only [LoopState.file, LoopState.self] at hR hV
    obtain ⟨e, r⟩ := (CarlaRecorderEventDel_Read_reader s.self.EventDel).2 R V hC _ _ hR hV
    simp only at e r
    refine ⟨(CarlaRecorderEventDel.Read g s.self.EventDel).2, ?_, ?_⟩
    · simp only [blockedEventDel, LoopState.setFile, LoopState.setSelf, LoopState.self, ← e]
    · simp only [LoopState.file, LoopState.self]
      exact r

theorem blockedPosition_local (P : Platform) (A : BlockedArith) (MinTime MinDistance : Nat) :
    LocalStep (blockedPosition P A MinTime MinDistance) := by
  refine ⟨?_, ?_⟩
  · intro s t h
    have hl := (CarlaRecorderPosition_Read_reader s.self.Position).1 s.self.File
    simp only [blockedPosition] at h
    split at h <;>
    · simp only [Except.ok.injEq] at h
      subst h
      simp only [LoopState.file, LoopState.self]
      exact hl
  · intro R V hC s g t hR h hV
    simp only [blockedPosition] at h
    split at h <;>
    · rename_i hc
      simp only [Except.ok.injEq] at h
      subst h
      simp only [LoopState.file, LoopState.self] at hR hV
      obtain ⟨e, r⟩ := (CarlaRecorderPosition_Read_reader s.self.Position).2 R V hC _ _ hR hV
      simp only at e r
      refine ⟨(CarlaRecorderPosition.Read g s.self.Position).2, ?_, ?_⟩
      · simp only [blockedPosition, LoopState.setFile, LoopState.setSelf, LoopState.self, ← e,
          hc, if_true, if_false, Bool.false_eq_true]
      · simp only [LoopState.file, LoopState.self]
        exact r

theorem collisionRecord_local (P : Platform) (Category1 Category2 : Char) :
    LocalStep (collisionRecord P Category1 Category2) := by
  refine ⟨?_, ?_⟩
  · intro s t h
    have hl := (CarlaRecorderCollision_Read_reader s.self.Collision).1 s.self.File
    obtain ⟨T1, A1, T2, A2, h1, h2⟩ := collisionRecord_ok P Category1 Category2 s t h
    rw [collisionRecord_eq P Category1 Category2 s T1 T2 A1 A2 h1 h2] at h
    split at h <;>
    · simp only [Except.ok.injEq] at h
      subst h
      simp only [LoopState.file, LoopState.self]
      exact hl
  · intro R V hC s g t hR h hV
    obtain ⟨T1, A1, T2, A2, h1, h2⟩ := collisionRecord_ok P Category1 Category2 s t h
    rw [collisionRecord_eq P Category1 Category2 s T1 T2 A1 A2 h1 h2] at h
    have hrec : ∀ e : (CarlaRecorderCollision.Read s.self.File s.self.Collision).1
        = (CarlaRecorderCollision.Read g s.self.Collision).1,
        (LoopState.setFile s g).record = s.record := by
      intro e
      simp only [CollisionsState.record, LoopState.setFile, LoopState.setSelf, LoopState.self,
        ← e]
    split at h <;>
    · rename_i hc
      simp only [Except.ok.injEq] at h
      subst h
      simp only [LoopState.file, LoopState.self] at hR hV
      obtain ⟨e, r⟩ :=
        (CarlaRecorderCollision_Read_reader s.self.Collision).2 R V hC _ _ hR hV
      simp only at e r
      refine ⟨(CarlaRecorderCollision.Read g s.self.Collision).2, ?_, ?_⟩
      · have h1' : sideCategory (LoopState.setFile s g).Actors
            (LoopState.setFile s g).record.DatabaseId1 = .ok (T1, A1) := by
          rw [hrec e]; exact h1
        have h2' : sideCategory A1 (LoopState.setFile s g).record.DatabaseId2
            = .ok (T2, A2) := by
          rw [hrec e]; exact h2
        rw [collisionRecord_eq P Category1 Category2 _ T1 T2 A1 A2 h1' h2', hrec e]
        simp only [hc, if_true, if_false]
        simp only [LoopState.setFile, LoopState.setSelf, LoopState.self]
      · simp only [LoopState.file, LoopState.self]
        exact r

theorem infoPhysicsControl_local (C : PhysicsCodec) (hC : C.Local) :
    LocalStep (infoPhysicsControl C) := by
  refine ⟨?_, ?_⟩
  · intro s t h
    have hl := (hC s.self.PhysicsControl).1 s.self.File
    simp only [infoPhysicsControl, Except.ok.injEq] at h
    subst h
    simp only [LoopState.file, LoopState.self]
    exact hl
  · intro R V hC' s g t hR h hV
    simp only [infoPhysicsControl, Except.ok.injEq] at h
    subst h
    simp only [LoopState.file, LoopState.self] at hR hV
    obtain ⟨e, r⟩ := (hC s.self.PhysicsControl).2 R V hC' _ _ hR hV
    simp only at e r
    refine ⟨(C.Read g s.self.PhysicsControl).2, ?_, ?_⟩
    · simp only [infoPhysicsControl, LoopState.setFile, LoopState.setSelf, LoopState.self, ← e]
    · simp only [LoopState.file, LoopState.self]
      exact r

theorem localStep_of_fileFree {σ : Type} [LoopState σ] {step : σ → Except Fault σ}
    (hf : ∀ s t, step s = .ok t → LoopState.file t = LoopState.file s)
    (hu : ∀ s g t, step s = .ok t → step (LoopState.setFile s g) = .ok (LoopState.setFile t g)) :
    LocalStep step := by
  refine ⟨?_, ?_⟩
  · intro s t h
    rw [hf s t h]; exact IfStream.le_refl _
  · intro R V hC s g t hR h _
    exact ⟨g, hu s g t h, by rw [hf s t h]; exact hR⟩

theorem infoReadTotal_local : LocalStep (fun s : InfoState => .ok s.readTotal) := by
  refine ⟨?_, ?_⟩
  · intro s t h
    have hl := (ReadTotal_reader s.Total).1 s.self.File
    simp only [InfoState.readTotal, Except.ok.injEq] at h
    subst h
    simp only [LoopState.file, LoopState.self]
    exact hl
  · intro R V hC s g t hR h hV
    simp only [InfoState.readTotal, Except.ok.injEq] at h
    subst h
    simp only [LoopState.file, LoopState.self] at hR hV
    obtain ⟨e, r⟩ := (ReadTotal_reader s.Total).2 R V hC _ _ hR hV
    simp only at e r
    refine ⟨(ReadTotal g s.Total).2, ?_, ?_⟩
    · simp only [InfoState.readTotal, LoopState.setFile, LoopState.setSelf, LoopState.self, ← e]
    · simp only [LoopState.file, LoopState.self]
      exact r

theorem collisionsReadTotal_local :
    LocalStep (fun s : CollisionsState => .ok s.readTotal) := by
  refine ⟨?_, ?_⟩
  · intro s t h
    have hl := (ReadTotal_reader s.Total).1 s.self.File
    simp only [CollisionsState.readTotal, Except.ok.injEq] at h
    subst h
    simp only [LoopState.file, LoopState.self]
    exact hl
  · intro R V hC s g t hR h hV
    simp only [CollisionsState.readTotal, Except.ok.injEq] at h
    subst h
    simp only [LoopState.file, LoopState.self] at hR hV
    obtain ⟨e, r⟩ := (ReadTotal_reader s.Total).2 R V hC _ _ hR hV
    simp only at e r
    refine ⟨(ReadTotal g s.Total).2, ?_, ?_⟩
    · simp only [CollisionsState.readTotal, LoopState.setFile, LoopState.setSelf,
        LoopState.self, ← e]
    · simp only [LoopState.file, LoopState.self]
      exact r

theorem blockedReadTotal_local :
    LocalStep (fun s : BlockedState => .ok s.readTotal) := by
  refine ⟨?_, ?_⟩
  · intro s t h
    have hl := (ReadTotal_reader s.Total).1 s.self.File
    simp only [BlockedState.readTotal, Except.ok.injEq] at h
    subst h
    simp only [LoopState.file, LoopState.self]
    exact hl
  · intro R V hC s g t hR h hV
    simp only [BlockedState.readTotal, Except.ok.injEq] at h
    subst h
    simp only [LoopState.file, LoopState.self] at hR hV
    obtain ⟨e, r⟩ := (ReadTotal_reader s.Total).2 R V hC _ _ hR hV
    simp only at e r
    refine ⟨(ReadTotal g s.Total).2, ?_, ?_⟩
    · simp only [BlockedState.readTotal, LoopState.setFile, LoopState.setSelf,
        LoopState.self, ← e]
    · simp only [LoopState.file, LoopState.self]
      exact r

theorem InfoState.frameLine_local (P : Platform) :
    LocalStep (fun s : InfoState => s.frameLine P) := by
  apply localStep_of_fileFree
  · intro s t h
    simp only [InfoState.frameLine] at h
    split at h
    · cases h
    · split at h <;> (cases h; rfl)
  · intro s g t h
    obtain ⟨q, i, tot, bp⟩ := s
    cases tot with
    | none => simp [InfoState.frameLine] at h
    | some n =>
      simp only [InfoState.frameLine] at h
      simp only [InfoState.frameLine, LoopState.setFile, LoopState.setSelf, LoopState.self]
      split at h <;> (rename_i hc; cases h; simp only [hc, if_true, if_false])
      simp

theorem InfoState.titleLine_local (title : String) :
    LocalStep (fun s : InfoState => s.titleLine title) := by
  apply localStep_of_fileFree
  · intro s t h
    simp only [InfoState.titleLine] at h
    split at h
    · cases h
    · cases h; rfl
  · intro s g t h
    obtain ⟨q, i, tot, bp⟩ := s
    cases tot with
    | none => simp [InfoState.titleLine] at h
    | some n =>
      simp only [InfoState.titleLine] at h
      simp only [InfoState.titleLine, LoopState.setFile, LoopState.setSelf, LoopState.self]
      cases h
      rfl

theorem localStep_congr {σ : Type} [LoopState σ] {step step' : σ → Except Fault σ}
    (h : ∀ s, step s = step' s) (hs : LocalStep step') : LocalStep step := by
  have e : step = step' := funext h
  rw [e]; exact hs

theorem infoEventCase_local (P : Platform) {record : InfoState → Except Fault InfoState}
    (h : LocalStep record) : LocalStep (infoEventCase P record) := by
  refine localStep_congr (fun s => ?_)
    (localStep_comp (localStep_comp infoReadTotal_local (InfoState.frameLine_local P))
      (localStep_forTotal (fun s : InfoState => s.Total) (fun _ _ => rfl) h))
  simp only [infoEventCase]
  cases s.readTotal.frameLine P <;> rfl

theorem infoListCase_local (P : Platform) (bShowAll : Bool) (title : String)
    {record : InfoState → Except Fault InfoState} (h : LocalStep record) :
    LocalStep (infoListCase P bShowAll title record) := by
  cases bShowAll
  · exact localStep_skip
  · refine localStep_congr (fun s => ?_) (localStep_comp
      (localStep_comp (localStep_comp infoReadTotal_local (InfoState.frameLine_local P))
        (InfoState.titleLine_local title))
      (localStep_forTotal (fun s : InfoState => s.Total) (fun _ _ => rfl) h))
    simp only [infoListCase, if_true]
    cases s.readTotal.frameLine P with
    | error e => rfl
    | ok s1 =>
      simp only
      cases s1.titleLine title <;> rfl

theorem localStep_id {σ : Type} [LoopState σ] : LocalStep (fun s : σ => .ok s) :=
  localStep_pure (fun s => s) (fun _ => rfl) (fun _ _ => rfl)

theorem localStep_ite {σ : Type} [LoopState σ] (c : σ → Prop) [DecidablePred c]
    (hc : ∀ s g, c (LoopState.setFile s g) ↔ c s) {a b : σ → Except Fault σ}
    (ha : LocalStep a) (hb : LocalStep b) : LocalStep (fun s => if c s then a s else b s) := by
  refine ⟨?_, ?_⟩
  · intro s t h
    by_cases hs : c s
    · simp only [hs, if_true] at h; exact ha.1 s t h
    · simp only [hs, if_false] at h; exact hb.1 s t h
  · intro R V hC s g t hR h hV
    by_cases hs : c s
    · simp only [hs, if_true] at h
      obtain ⟨g', e, r⟩ := ha.2 R V hC s g t hR h hV
      exact ⟨g', by simp only [if_pos ((hc s g).2 hs)]; exact e, r⟩
    · simp only [hs, if_false] at h
      obtain ⟨g', e, r⟩ := hb.2 R V hC s g t hR h hV
      exact ⟨g', by simp only [if_neg (fun x => hs ((hc s g).1 x))]; exact e, r⟩

theorem packet_kind_local {σ : Type} [LoopState σ] (kind : σ → PacketKind)
    (hkind : ∀ s g, kind (LoopState.setFile s g) = kind s) (packet : σ → Except Fault σ)
    (K : PacketKind) (branch : σ → Except Fault σ) (hb : LocalStep branch)
    (he : ∀ s, kind s = K → packet s = branch s) :
    LocalStep (fun s => if kind s = K then packet s else .ok s) := by
  refine localStep_congr (fun s => ?_)
    (localStep_ite (fun s => kind s = K)
      (fun s g => by show kind (LoopState.setFile s g) = K ↔ kind s = K; rw [hkind]) hb
      localStep_id)
  by_cases hk : kind s = K
  · simp only [hk, if_true]
    exact he s hk
  · simp only [hk, if_false]

theorem packet_local_of_kinds {σ : Type} [LoopState σ] (kind : σ → PacketKind)
    (hkind : ∀ s g, kind (LoopState.setFile s g) = kind s) (packet : σ → Except Fault σ)
    (h : ∀ K, LocalStep (fun s => if kind s = K then packet s else .ok s)) :
    LocalStep packet := by
  apply localStep_of_pointwise
  intro s
  refine ⟨_, h (kind s), fun g => ?_⟩
  simp only [hkind, if_true]

theorem infoFrameStart_local (P : Platform) (C : PhysicsCodec) (bShowAll : Bool) :
    LocalStep (fun s : InfoState =>
      if P.packetKind s.self.Header.Id = .FrameStart then infoPacket P C bShowAll s
      else .ok s) := by
  refine ⟨?_, ?_⟩
  · intro s t h
    simp only at h
    split at h
    · rename_i hk
      have hl := (CarlaRecorderFrame_Read_reader s.self.Frame).1 s.self.File
      simp only [infoPacket, hk] at h
      split at h <;>
      · simp only [Except.ok.injEq] at h
        subst h
        simp only [LoopState.file, LoopState.self]
        exact hl
    · cases h; exact IfStream.le_refl _
  · intro R V hC s g t hR h hV
    simp only at h
    have hk' : P.packetKind (LoopState.setFile s g).self.Header.Id
        = P.packetKind s.self.Header.Id := rfl
    simp only [hk']
    split at h
    · rename_i hk
      simp only [infoPacket, hk] at h
      split at h <;>
      · rename_i hb
        simp only [Except.ok.injEq] at h
        subst h
        simp only [LoopState.file, LoopState.self] at hR hV
        obtain ⟨e, r⟩ := (CarlaRecorderFrame_Read_reader s.self.Frame).2 R V hC _ _ hR hV
        simp only at e r
        refine ⟨(CarlaRecorderFrame.Read g s.self.Frame).2, ?_, ?_⟩
        · simp only [hk, if_true, infoPacket, hk', hb, LoopState.setFile, LoopState.setSelf,
            LoopState.self, ← e, Bool.false_eq_true, if_false]
        · simp only [LoopState.file, LoopState.self]
          exact r
    · rename_i hk
      cases h
      exact ⟨g, by simp only [hk, if_false], hR⟩

theorem infoPlatformTime_local (P : Platform) (C : PhysicsCodec) (bShowAll : Bool) :
    LocalStep (fun s : InfoState =>
      if P.packetKind s.self.Header.Id = .PlatformTime then infoPacket P C bShowAll s
      else .ok s) := by
  cases bShowAll
  · exact packet_kind_local (fun s : InfoState => P.packetKind s.self.Header.Id)
      (fun _ _ => rfl) (infoPacket P C false) .PlatformTime _ localStep_skip
      (fun s hk => by simp only [infoPacket, hk, Bool.false_eq_true, if_false]; rfl)
  · refine ⟨?_, ?_⟩
    · intro s t h
      simp only at h
      split at h
      · rename_i hk
        simp only [infoPacket, hk, if_true, Except.ok.injEq] at h
        subst h
        split
        · exact (CarlaRecorderPlatformTime_Read_reader s.self.PlatformTime).1 s.self.File
        · exact (CarlaRecorderPlatformTime_Read_reader s.self.PlatformTime).1 s.self.File
      · cases h; exact IfStream.le_refl _
    · intro R V hC s g t hR h hV
      simp only at h
      have hk' : P.packetKind (LoopState.setFile s g).self.Header.Id
          = P.packetKind s.self.Header.Id := rfl
      simp only [hk']
      split at h
      · rename_i hk
        simp only [infoPacket, hk, if_true, Except.ok.injEq] at h
        subst h
        simp only [LoopState.file, LoopState.self] at hR
        by_cases hp : s.bFramePrinted = false
        · simp only [hp, if_true, LoopState.file, LoopState.self] at hV
          obtain ⟨e, r⟩ :=
            (CarlaRecorderPlatformTime_Read_reader s.self.PlatformTime).2 R V hC _ _ hR hV
          simp only at e r
          refine ⟨(CarlaRecorderPlatformTime.Read g s.self.PlatformTime).2, ?_, ?_⟩
          · simp only [hk, if_true, infoPacket, hk', hp, LoopState.setFile, LoopState.setSelf,
              LoopState.self, ← e]
          · simp only [hp, if_true, LoopState.file, LoopState.self]
            exact r
        · simp only [hp, if_false, Bool.true_eq_false, LoopState.file, LoopState.self] at hV
          obtain ⟨e, r⟩ :=
            (CarlaRecorderPlatformTime_Read_reader s.self.PlatformTime).2 R V hC _ _ hR hV
          simp only at e r
          refine ⟨(CarlaRecorderPlatformTime.Read g s.self.PlatformTime).2, ?_, ?_⟩
          · simp only [hk, if_true, infoPacket, hk', hp, LoopState.setFile, LoopState.setSelf,
              LoopState.self, ← e, if_false, Bool.true_eq_false]
          · simp only [hp, if_false, Bool.true_eq_false, LoopState.file, LoopState.self]
            exact r
      · rename_i hk
        cases h
        exact ⟨g, by simp only [hk, if_false], hR⟩

theorem infoPacket_local (P : Platform) (C : PhysicsCodec) (hC : C.Local) (bShowAll : Bool) :
    LocalStep (infoPacket P C bShowAll) := by
  apply packet_local_of_kinds (fun s : InfoState => P.packetKind s.self.Header.Id)
    (fun _ _ => rfl)
  intro K
  have key := packet_kind_local (fun s : InfoState => P.packetKind s.self.Header.Id)
    (fun _ _ => rfl) (infoPacket P C bShowAll) K
  cases K with
  | FrameStart => exact infoFrameStart_local P C bShowAll
  | PlatformTime => exact infoPlatformTime_local P C bShowAll
  | FrameEnd => exact key _ localStep_id (fun s hk => by simp only [infoPacket, hk])
  | other => exact key _ localStep_skip (fun s hk => by simp only [infoPacket, hk]; rfl)
  | EventAdd =>
    exact key _ (infoEventCase_local P (infoEventAdd_local P))
      (fun s hk => by simp only [infoPacket, hk])
  | EventDel =>
    exact key _ (infoEventCase_local P infoEventDel_local)
      (fun s hk => by simp only [infoPacket, hk])
  | EventParent =>
    exact key _ (infoEventCase_local P infoEventParent_local)
      (fun s hk => by simp only [infoPacket, hk])
  | Collision =>
    exact key _ (infoEventCase_local P infoCollision_local)
      (fun s hk => by simp only [infoPacket, hk])
  | Position =>
    exact key _ (infoListCase_local P bShowAll _ (infoPosition_local P))
      (fun s hk => by simp only [infoPacket, hk]; rfl)
  | State =>
    exact key _ (infoListCase_local P bShowAll _ (infoState_local P))
      (fun s hk => by simp only [infoPacket, hk]; rfl)
  | AnimVehicle =>
    exact key _ (infoListCase_local P bShowAll _ (infoAnimVehicle_local P))
      (fun s hk => by simp only [infoPacket, hk]; rfl)
  | AnimWalker =>
    exact key _ (infoListCase_local P bShowAll _ (infoAnimWalker_local P))
      (fun s hk => by simp only [infoPacket, hk]; rfl)
  | VehicleDoor =>
    exact key _ (infoListCase_local P bShowAll _ infoVehicleDoor_local)
      (fun s hk => by simp only [infoPacket, hk]; rfl)
  | VehicleLight =>
    exact key _ (infoListCase_local P bShowAll _ infoVehicleLight_local)
      (fun s hk => by simp only [infoPacket, hk]; rfl)
  | SceneLight =>
    exact key _ (infoListCase_local P bShowAll _ (infoSceneLight_local P))
      (fun s hk => by simp only [infoPacket, hk]; rfl)
  | Kinematics =>
    exact key _ (infoListCase_local P bShowAll _ (infoKinematics_local P))
      (fun s hk => by simp only [infoPacket, hk]; rfl)
  | BoundingBox =>
    exact key _ (infoListCase_local P bShowAll _ (infoBoundingBox_local P))
      (fun s hk => by simp only [infoPacket, hk]; rfl)
  | TriggerVolume =>
    exact key _ (infoListCase_local P bShowAll _ (infoBoundingBox_local P))
      (fun s hk => by simp only [infoPacket, hk]; rfl)
  | PhysicsControl =>
    exact key _ (infoListCase_local P bShowAll _ (infoPhysicsControl_local C hC))
      (fun s hk => by simp only [infoPacket, hk]; rfl)
  | TrafficLightTime =>
    exact key _ (infoListCase_local P bShowAll _ (infoTrafficLightTime_local P))
      (fun s hk => by simp only [infoPacket, hk]; rfl)
  | WalkerBones =>
    refine key _ (localStep_comp (infoListCase_local P bShowAll " Walkers Bones: "
        (infoWalkerBones_local P))
      (localStep_pure (fun t : InfoState =>
          if bShowAll then { t with Info := t.Info.endl } else t)
        (fun t => by cases bShowAll <;> rfl) (fun t g => by cases bShowAll <;> rfl)))
      (fun s hk => ?_)
    simp only [infoPacket, hk]
    cases infoListCase P bShowAll " Walkers Bones: " (infoWalkerBones P) s with
    | error e => rfl
    | ok t => cases bShowAll <;> rfl

theorem collisionsFrameStart_local (P : Platform) (Category1 Category2 : Char) :
    LocalStep (fun s : CollisionsState =>
      if P.packetKind s.self.Header.Id = .FrameStart then collisionsPacket P Category1 Category2 s
      else .ok s) := by
  refine ⟨?_, ?_⟩
  · intro s t h
    simp only at h
    split at h
    · rename_i hk
      have hl := (CarlaRecorderFrame_Read_reader s.self.Frame).1 s.self.File
      simp only [collisionsPacket, hk, Except.ok.injEq] at h
      subst h
      simp only [LoopState.file, LoopState.self]
      exact hl
    · cases h; exact IfStream.le_refl _
  · intro R V hC s g t hR h hV
    simp only at h
    have hk' : P.packetKind (LoopState.setFile s g).self.Header.Id
        = P.packetKind s.self.Header.Id := rfl
    simp only [hk']
    split at h
    · rename_i hk
      simp only [collisionsPacket, hk, Except.ok.injEq] at h
      subst h
      simp only [LoopState.file, LoopState.self] at hR hV
      obtain ⟨e, r⟩ := (CarlaRecorderFrame_Read_reader s.self.Frame).2 R V hC _ _ hR hV
      simp only at e r
      refine ⟨(CarlaRecorderFrame.Read g s.self.Frame).2, ?_, ?_⟩
      · simp only [hk, if_true, collisionsPacket, hk', LoopState.setFile, LoopState.setSelf,
          LoopState.self, ← e]
      · simp only [LoopState.file, LoopState.self]
        exact r
    · rename_i hk
      cases h
      exact ⟨g, by simp only [hk, if_false], hR⟩

theorem collisionsPacket_local (P : Platform) (Category1 Category2 : Char) :
    LocalStep (collisionsPacket P Category1 Category2) := by
  apply packet_local_of_kinds (fun s : CollisionsState => P.packetKind s.self.Header.Id)
    (fun _ _ => rfl)
  intro K
  have key := packet_kind_local (fun s : CollisionsState => P.packetKind s.self.Header.Id)
    (fun _ _ => rfl) (collisionsPacket P Category1 Category2) K
  cases K with
  | FrameStart => exact collisionsFrameStart_local P Category1 Category2
  | FrameEnd => exact key _ localStep_id (fun s hk => by simp only [collisionsPacket, hk])
  | EventAdd =>
    exact key _ (localStep_comp collisionsReadTotal_local
        (localStep_forTotal (fun s : CollisionsState => s.Total) (fun _ _ => rfl) (collisionsEventAdd_local P)))
      (fun s hk => by simp only [collisionsPacket, hk])
  | EventDel =>
    exact key _ (localStep_comp collisionsReadTotal_local
        (localStep_forTotal (fun s : CollisionsState => s.Total) (fun _ _ => rfl) (collisionsEventDel_local)))
      (fun s hk => by simp only [collisionsPacket, hk])
  | Collision =>
    exact key _ (localStep_comp collisionsReadTotal_local
        (localStep_forTotal (fun s : CollisionsState => s.Total) (fun _ _ => rfl) (collisionRecord_local P Category1 Category2)))
      (fun s hk => by simp only [collisionsPacket, hk])
  | EventParent => exact key _ localStep_skip (fun s hk => by simp only [collisionsPacket, hk]; rfl)
  | Position => exact key _ localStep_skip (fun s hk => by simp only [collisionsPacket, hk]; rfl)
  | State => exact key _ localStep_skip (fun s hk => by simp only [collisionsPacket, hk]; rfl)
  | AnimVehicle => exact key _ localStep_skip (fun s hk => by simp only [collisionsPacket, hk]; rfl)
  | AnimWalker => exact key _ localStep_skip (fun s hk => by simp only [collisionsPacket, hk]; rfl)
  | VehicleDoor => exact key _ localStep_skip (fun s hk => by simp only [collisionsPacket, hk]; rfl)
  | VehicleLight => exact key _ localStep_skip (fun s hk => by simp only [collisionsPacket, hk]; rfl)
  | SceneLight => exact key _ localStep_skip (fun s hk => by simp only [collisionsPacket, hk]; rfl)
  | Kinematics => exact key _ localStep_skip (fun s hk => by simp only [collisionsPacket, hk]; rfl)
  | BoundingBox => exact key _ localStep_skip (fun s hk => by simp only [collisionsPacket, hk]; rfl)
  | TriggerVolume => exact key _ localStep_skip (fun s hk => by simp only [collisionsPacket, hk]; rfl)
  | PlatformTime => exact key _ localStep_skip (fun s hk => by simp only [collisionsPacket, hk]; rfl)
  | PhysicsControl => exact key _ localStep_skip (fun s hk => by simp only [collisionsPacket, hk]; rfl)
  | TrafficLightTime => exact key _ localStep_skip (fun s hk => by simp only [collisionsPacket, hk]; rfl)
  | WalkerBones => exact key _ localStep_skip (fun s hk => by simp only [collisionsPacket, hk]; rfl)
  | other => exact key _ localStep_skip (fun s hk => by simp only [collisionsPacket, hk]; rfl)

theorem blockedFrameStart_local (P : Platform) (A : BlockedArith) (MinTime MinDistance : Nat) :
    LocalStep (fun s : BlockedState =>
      if P.packetKind s.self.Header.Id = .FrameStart then blockedPacket P A MinTime MinDistance s
      else .ok s) := by
  refine ⟨?_, ?_⟩
  · intro s t h
    simp only at h
    split at h
    · rename_i hk
      have hl := (CarlaRecorderFrame_Read_reader s.self.Frame).1 s.self.File
      simp only [blockedPacket, hk, Except.ok.injEq] at h
      subst h
      simp only [LoopState.file, LoopState.self]
      exact hl
    · cases h; exact IfStream.le_refl _
  · intro R V hC s g t hR h hV
    simp only at h
    have hk' : P.packetKind (LoopState.setFile s g).self.Header.Id
        = P.packetKind s.self.Header.Id := rfl
    simp only [hk']
    split at h
    · rename_i hk
      simp only [blockedPacket, hk, Except.ok.injEq] at h
      subst h
      simp only [LoopState.file, LoopState.self] at hR hV
      obtain ⟨e, r⟩ := (CarlaRecorderFrame_Read_reader s.self.Frame).2 R V hC _ _ hR hV
      simp only at e r
      refine ⟨(CarlaRecorderFrame.Read g s.self.Frame).2, ?_, ?_⟩
      · simp only [hk, if_true, blockedPacket, hk', LoopState.setFile, LoopState.setSelf,
          LoopState.self, ← e]
      · simp only [LoopState.file, LoopState.self]
        exact r
    · rename_i hk
      cases h
      exact ⟨g, by simp only [hk, if_false], hR⟩

theorem blockedPacket_local (P : Platform) (A : BlockedArith) (MinTime MinDistance : Nat) :
    LocalStep (blockedPacket P A MinTime MinDistance) := by
  apply packet_local_of_kinds (fun s : BlockedState => P.packetKind s.self.Header.Id)
    (fun _ _ => rfl)
  intro K
  have key := packet_kind_local (fun s : BlockedState => P.packetKind s.self.Header.Id)
    (fun _ _ => rfl) (blockedPacket P A MinTime MinDistance) K
  cases K with
  | FrameStart => exact blockedFrameStart_local P A MinTime MinDistance
  | FrameEnd => exact key _ localStep_id (fun s hk => by simp only [blockedPacket, hk])
  | EventAdd =>
    exact key _ (localStep_comp blockedReadTotal_local
        (localStep_forTotal (fun s : BlockedState => s.Total) (fun _ _ => rfl) (blockedEventAdd_local P)))
      (fun s hk => by simp only [blockedPacket, hk])
  | EventDel =>
    exact key _ (localStep_comp blockedReadTotal_local
        (localStep_forTotal (fun s : BlockedState => s.Total) (fun _ _ => rfl) (blockedEventDel_local)))
      (fun s hk => by simp only [blockedPacket, hk])
  | Position =>
    exact key _ (localStep_comp blockedReadTotal_local
        (localStep_forTotal (fun s : BlockedState => s.Total) (fun _ _ => rfl) (blockedPosition_local P A MinTime MinDistance)))
      (fun s hk => by simp only [blockedPacket, hk])
  | EventParent => exact key _ localStep_skip (fun s hk => by simp only [blockedPacket, hk]; rfl)
  | Collision => exact key _ localStep_skip (fun s hk => by simp only [blockedPacket, hk]; rfl)
  | State => exact key _ localStep_skip (fun s hk => by simp only [blockedPacket, hk]; rfl)
  | AnimVehicle => exact key _ localStep_skip (fun s hk => by simp only [blockedPacket, hk]; rfl)
  | AnimWalker => exact key _ localStep_skip (fun s hk => by simp only [blockedPacket, hk]; rfl)
  | VehicleDoor => exact key _ localStep_skip (fun s hk => by simp only [blockedPacket, hk]; rfl)
  | VehicleLight => exact key _ localStep_skip (fun s hk => by simp only [blockedPacket, hk]; rfl)
  | SceneLight => exact key _ localStep_skip (fun s hk => by simp only [blockedPacket, hk]; rfl)
  | Kinematics => exact key _ localStep_skip (fun s hk => by simp only [blockedPacket, hk]; rfl)
  | BoundingBox => exact key _ localStep_skip (fun s hk => by simp only [blockedPacket, hk]; rfl)
  | TriggerVolume => exact key _ localStep_skip (fun s hk => by simp only [blockedPacket, hk]; rfl)
  | PlatformTime => exact key _ localStep_skip (fun s hk => by simp only [blockedPacket, hk]; rfl)
  | PhysicsControl => exact key _ localStep_skip (fun s hk => by simp only [blockedPacket, hk]; rfl)
  | TrafficLightTime => exact key _ localStep_skip (fun s hk => by simp only [blockedPacket, hk]; rfl)
  | WalkerBones => exact key _ localStep_skip (fun s hk => by simp only [blockedPacket, hk]; rfl)
  | other => exact key _ localStep_skip (fun s hk => by simp only [blockedPacket, hk]; rfl)

theorem ReadValue_snd (n : Nat) (f : IfStream) (v : Nat) :
    (ReadValue n f v).2 = (f.read n).2 := by
  unfold ReadValue
  rcases h : f.read n with ⟨_ | _, f'⟩ <;> rfl

theorem IfStream.budget_pos (f : IfStream) : 0 < f.budget := by
  unfold IfStream.budget
  split <;> omega

theorem IfStream.budget_le_of_le {f g : IfStream} (h : f.Le g) : g.budget ≤ f.budget := by
  obtain ⟨hd, -, hp, hf, -⟩ := h
  unfold IfStream.budget
  cases hg : g.failbit
  · cases hf' : f.failbit
    · simp only [Bool.false_eq_true, if_false, hd]; omega
    · rw [hf hf'] at hg; cases hg
  · simp only [if_true]
    split <;> omega

theorem IfStream.read_budget (f : IfStream) (n : Nat) (hn : 0 < n) (hg : f.good = true) :
    (f.read n).2.budget < f.budget := by
  obtain ⟨d, p, o, e, fl⟩ := f
  simp only [IfStream.good, Bool.and_eq_true, Bool.not_eq_true'] at hg
  obtain ⟨he, hf⟩ := hg
  subst he hf
  by_cases h : n ≤ (IfStream.rest ⟨d, p, o, false, false⟩).length
  · have hr : (IfStream.read ⟨d, p, o, false, false⟩ n).2 = ⟨d, p + n, o, false, false⟩ := by
      simp [IfStream.read, IfStream.good, h]
    rw [hr]
    cases o
    · simp [IfStream.rest] at h; omega
    · simp only [IfStream.rest, if_true, List.length_drop] at h
      simp only [IfStream.budget, Bool.false_eq_true, if_false]
      omega
  · have hr : (IfStream.read ⟨d, p, o, false, false⟩ n).2.failbit = true := by
      simp [IfStream.read, IfStream.good, h]
    simp only [IfStream.budget, hr, if_true, Bool.false_eq_true, if_false]
    omega

theorem ReadHeader_le (q : CarlaRecorderQuery) : q.File.Le (ReadHeader q).2.File := by
  unfold ReadHeader
  split
  · exact IfStream.le_refl _
  · simp only [ReadValue_snd]
    exact IfStream.le_trans (q.File.read_le 1) (IfStream.read_le _ 4)

theorem ReadHeader_budget (q : CarlaRecorderQuery) (h : (ReadHeader q).1 = true)
    (hf : q.File.failbit = false) : (ReadHeader q).2.File.budget < q.File.budget := by
  unfold ReadHeader at h ⊢
  split at h
  · cases h
  · rename_i he
    simp only [IfStream.eof, Bool.not_eq_true] at he
    rw [if_neg (by simp [IfStream.eof, he])]
    simp only [ReadValue_snd]
    have hg : q.File.good = true := by simp [IfStream.good, he, hf]
    exact Nat.lt_of_le_of_lt (IfStream.budget_le_of_le (IfStream.read_le _ 4))
      (q.File.read_budget 1 (by omega) hg)

theorem packetLoop_total {σ : Type} [LoopState σ] {packet : σ → Except Fault σ}
    (hp : ∀ s t, packet s = .ok t → (LoopState.file s).Le (LoopState.file t))
    (hu : UBOnly packet) :
    ∀ (fuel : Nat) (s : σ), (LoopState.file s).budget ≤ fuel →
      packetLoop packet fuel s ≠ .error .outOfFuel := by
  intro fuel
  induction fuel with
  | zero =>
    intro s h
    have := (LoopState.file s).budget_pos
    omega
  | succ n ih =>
    intro s h
    simp only [packetLoop]
    by_cases hb : (LoopState.self s).File.toBool = true
    · simp only [hb, if_true]
      by_cases hh : (ReadHeader (LoopState.self s)).1 = true
      · simp only [hh, if_true]
        cases hk : packet (LoopState.setSelf s (ReadHeader (LoopState.self s)).2) with
        | error e =>
          simp only
          intro he
          have := hu _ _ hk
          rw [this] at he
          cases he
        | ok t =>
          simp only
          apply ih
          have h1 := IfStream.budget_le_of_le (hp _ _ hk)
          rw [LoopState.file_setSelf] at h1
          have h2 := ReadHeader_budget (LoopState.self s) hh
            (by simpa [IfStream.toBool] using hb)
          simp only [LoopState.file] at h h1 ⊢
          omega
      · simp only [hh, if_false, Bool.false_eq_true]
        intro he; cases he
    · simp only [hb, if_false, Bool.false_eq_true]
      intro he; cases he

theorem ubOnly_of_ok {σ : Type} {step : σ → Except Fault σ} (h : ∀ s, ∃ t, step s = .ok t) :
    UBOnly step := by
  intro s e he
  obtain ⟨t, ht⟩ := h s
  rw [ht] at he
  cases he

theorem ubOnly_repeatBody {σ : Type} {body : σ → Except Fault σ} (h : UBOnly body) (n : Nat) :
    UBOnly (repeatBody body n) := by
  induction n with
  | zero => intro s e he; cases he
  | succ n ih =>
    intro s e he
    simp only [CarlaRecorder.repeatBody] at he
    cases hb : body s with
    | error e' => rw [hb] at he; cases he; exact h s _ hb
    | ok t => rw [hb] at he; exact ih t e he

theorem ubOnly_forTotal {σ : Type} {body : σ → Except Fault σ} (h : UBOnly body)
    (Total : Option Nat) : UBOnly (forTotal Total body) := by
  intro s e he
  cases Total with
  | none => cases he; rfl
  | some n => exact ubOnly_repeatBody h n s e he

theorem InfoState.frameLine_ubOnly (P : Platform) :
    UBOnly (fun s : InfoState => s.frameLine P) := by
  intro s e he
  simp only [InfoState.frameLine] at he
  split at he
  · cases he; rfl
  · split at he <;> cases he

theorem InfoState.titleLine_ubOnly (title : String) :
    UBOnly (fun s : InfoState => s.titleLine title) := by
  intro s e he
  simp only [InfoState.titleLine] at he
  split at he
  · cases he; rfl
  · cases he

theorem infoEventCase_ubOnly (P : Platform) {record : InfoState → Except Fault InfoState}
    (h : UBOnly record) : UBOnly (infoEventCase P record) := by
  intro s e he
  simp only [infoEventCase] at he
  cases hf : s.readTotal.frameLine P with
  | error e' => rw [hf] at he; cases he; exact InfoState.frameLine_ubOnly P _ _ hf
  | ok s1 => rw [hf] at he; exact ubOnly_forTotal h _ _ _ he

theorem infoListCase_ubOnly (P : Platform) (bShowAll : Bool) (title : String)
    {record : InfoState → Except Fault InfoState} (h : UBOnly record) :
    UBOnly (infoListCase P bShowAll title record) := by
  intro s e he
  cases bShowAll
  · cases he
  · simp only [infoListCase, if_true] at he
    cases hf : s.readTotal.frameLine P with
    | error e' => rw [hf] at he; cases he; exact InfoState.frameLine_ubOnly P _ _ hf
    | ok s1 =>
      rw [hf] at he
      simp only at he
      cases ht : s1.titleLine title with
      | error e' => rw [ht] at he; cases he; exact InfoState.titleLine_ubOnly title _ _ ht
      | ok s2 => rw [ht] at he; exact ubOnly_forTotal h _ _ _ he

theorem infoPacket_ubOnly (P : Platform) (C : PhysicsCodec) (bShowAll : Bool) :
    UBOnly (infoPacket P C bShowAll) := by
  intro s e he
  unfold infoPacket at he
  split at he
  · simp only at he
    split at he <;> cases he
  · exact infoEventCase_ubOnly P (ubOnly_of_ok fun s => ⟨_, rfl⟩) s e he
  · exact infoEventCase_ubOnly P (ubOnly_of_ok fun s => ⟨_, rfl⟩) s e he
  · exact infoEventCase_ubOnly P (ubOnly_of_ok fun s => ⟨_, rfl⟩) s e he
  · exact infoEventCase_ubOnly P (ubOnly_of_ok fun s => ⟨_, rfl⟩) s e he
  · exact infoListCase_ubOnly P _ _ (ubOnly_of_ok fun s => ⟨_, rfl⟩) s e he
  · exact infoListCase_ubOnly P _ _ (ubOnly_of_ok fun s => ⟨_, rfl⟩) s e he
  · exact infoListCase_ubOnly P _ _ (ubOnly_of_ok fun s => ⟨_, rfl⟩) s e he
  · exact infoListCase_ubOnly P _ _ (ubOnly_of_ok fun s => ⟨_, rfl⟩) s e he
  · exact infoListCase_ubOnly P _ _ (ubOnly_of_ok fun s => ⟨_, rfl⟩) s e he
  · exact infoListCase_ubOnly P _ _ (ubOnly_of_ok fun s => ⟨_, rfl⟩) s e he
  · exact infoListCase_ubOnly P _ _ (ubOnly_of_ok fun s => ⟨_, rfl⟩) s e he
  · exact infoListCase_ubOnly P _ _ (ubOnly_of_ok fun s => ⟨_, rfl⟩) s e he
  · exact infoListCase_ubOnly P _ _ (ubOnly_of_ok fun s => ⟨_, rfl⟩) s e he
  · exact infoListCase_ubOnly P _ _ (ubOnly_of_ok fun s => ⟨_, rfl⟩) s e he
  · split at he <;> cases he
  · exact infoListCase_ubOnly P _ _ (ubOnly_of_ok fun s => ⟨_, rfl⟩) s e he
  · exact infoListCase_ubOnly P _ _ (ubOnly_of_ok fun s => ⟨_, rfl⟩) s e he
  · split at he
    · rename_i e' hl
      cases he
      exact infoListCase_ubOnly P _ _ (ubOnly_of_ok fun s => ⟨_, rfl⟩) s _ hl
    · split at he <;> cases he
  · cases he
  · cases he

theorem sideCategory_ubOnly (Actors : List (Nat × ReplayerActorInfo)) (DatabaseId : Nat)
    (e : Fault) (h : sideCategory Actors DatabaseId = .error e) :
    e = Fault.undefinedBehaviour := by
  unfold sideCategory at h
  split at h
  · simp only at h
    split at h
    · cases h
    · cases h; rfl
  · cases h

theorem collisionRecord_ubOnly (P : Platform) (Category1 Category2 : Char) :
    UBOnly (collisionRecord P Category1 Category2) := by
  intro s e he
  unfold collisionRecord at he
  generalize CarlaRecorderCollision.Read s.self.File s.self.Collision = rd at he
  simp only at he
  cases h1 : sideCategory s.Actors rd.1.DatabaseId1 with
  | error e' => rw [h1] at he; cases he; exact sideCategory_ubOnly _ _ _ h1
  | ok r1 =>
    rw [h1] at he
    simp only at he
    cases h2 : sideCategory r1.2 rd.1.DatabaseId2 with
    | error e' => rw [h2] at he; cases he; exact sideCategory_ubOnly _ _ _ h2
    | ok r2 =>
      rw [h2] at he
      simp only at he
      split at he <;> cases he

theorem collisionsPacket_ubOnly (P : Platform) (Category1 Category2 : Char) :
    UBOnly (collisionsPacket P Category1 Category2) := by
  intro s e he
  unfold collisionsPacket at he
  split at he
  · cases he
  · exact ubOnly_forTotal (ubOnly_of_ok fun s => ⟨_, rfl⟩ : UBOnly (collisionsEventAdd P)) _ _ _ he
  · exact ubOnly_forTotal (ubOnly_of_ok fun s => ⟨_, rfl⟩ : UBOnly collisionsEventDel) _ _ _ he
  · cases he
  · exact ubOnly_forTotal (collisionRecord_ubOnly P Category1 Category2) _ _ _ he
  · cases he
  · cases he
  · cases he
  · cases he

theorem blockedPosition_ubOnly (P : Platform) (A : BlockedArith) (MinTime MinDistance : Nat) :
    UBOnly (blockedPosition P A MinTime MinDistance) := by
  intro s e he
  simp only [blockedPosition] at he
  split at he <;> cases he

theorem blockedPacket_ubOnly (P : Platform) (A : BlockedArith) (MinTime MinDistance : Nat) :
    UBOnly (blockedPacket P A MinTime MinDistance) := by
  intro s e he
  unfold blockedPacket at he
  split at he
  · cases he
  · exact ubOnly_forTotal (ubOnly_of_ok fun s => ⟨_, rfl⟩ : UBOnly (blockedEventAdd P)) _ _ _ he
  · exact ubOnly_forTotal (ubOnly_of_ok fun s => ⟨_, rfl⟩ : UBOnly blockedEventDel) _ _ _ he
  · cases he
  · cases he
  · exact ubOnly_forTotal (blockedPosition_ubOnly P A MinTime MinDistance) _ _ _ he
  · cases he
  · cases he
  · cases he

theorem ReadHeader_Frame (self : CarlaRecorderQuery) :
    (ReadHeader self).2.Frame = self.Frame := by
  unfold ReadHeader
  split_ifs <;> rfl

theorem packetLoop_frame {σ : Type} [LoopState σ] (P : Platform)
    {packet : σ → Except Fault σ}
    (hframe : ∀ d t, packet d = .ok t → (LoopState.self t).Frame =
      if P.packetKind (LoopState.self d).Header.Id = .FrameStart then
        (CarlaRecorderFrame.Read (LoopState.self d).File (LoopState.self d).Frame).1
      else (LoopState.self d).Frame) :
    ∀ (fuel : Nat) (s t : σ), packetLoop packet fuel s = .ok t →
      (LoopState.self t).Frame
        = lastFrameRead P (packetTrace packet fuel s) (LoopState.self s).Frame := by
  intro fuel
  induction fuel with
  | zero => intro s t h; cases h
  | succ n ih =>
    intro s t h
    simp only [packetLoop] at h
    simp only [packetTrace, lastFrameRead]
    by_cases hb : (LoopState.self s).File.toBool = true
    · simp only [hb, if_true] at h ⊢
      by_cases hh : (ReadHeader (LoopState.self s)).1 = true
      · simp only [hh, if_true] at h ⊢
        cases hk : packet (LoopState.setSelf s (ReadHeader (LoopState.self s)).2) with
        | error e => rw [hk] at h; cases h
        | ok t1 =>
          rw [hk] at h
          simp only at h
          simp only [List.foldl_cons]
          have h1 := hframe _ _ hk
          simp only [LoopState.self_setSelf, ReadHeader_Frame] at h1 ⊢
          rw [← h1]
          exact ih t1 t h
      · simp only [hh, if_false, Bool.false_eq_true, Except.ok.injEq] at h ⊢
        subst h
        simp only [LoopState.self_setSelf, ReadHeader_Frame, List.foldl_nil]
    · simp only [hb, if_false, Bool.false_eq_true, Except.ok.injEq] at h ⊢
      subst h
      rfl

theorem infoEventCase_preserves {α : Type} (P : Platform) (f : InfoState → α)
    {record : InfoState → Except Fault InfoState}
    (hrt : ∀ s, f s.readTotal = f s)
    (hfl : ∀ s t, s.frameLine P = .ok t → f t = f s)
    (hrec : ∀ s t, record s = .ok t → f t = f s) (s t : InfoState)
    (h : infoEventCase P record s = .ok t) : f t = f s := by
  simp only [infoEventCase] at h
  cases hf : s.readTotal.frameLine P with
  | error e => rw [hf] at h; cases h
  | ok s1 =>
    rw [hf] at h
    rw [forTotal_preserves f record hrec _ _ _ h, hfl _ _ hf, hrt]

theorem infoListCase_preserves {α : Type} (P : Platform) (bShowAll : Bool) (title : String)
    (f : InfoState → α) {record : InfoState → Except Fault InfoState}
    (hsk : ∀ s, f { s with self := SkipPacket s.self } = f s)
    (hrt : ∀ s, f s.readTotal = f s)
    (hfl : ∀ s t, s.frameLine P = .ok t → f t = f s)
    (htl : ∀ s t, s.titleLine title = .ok t → f t = f s)
    (hrec : ∀ s t, record s = .ok t → f t = f s) (s t : InfoState)
    (h : infoListCase P bShowAll title record s = .ok t) : f t = f s := by
  cases bShowAll
  · simp only [infoListCase, Bool.false_eq_true, if_false, Except.ok.injEq] at h
    subst h
    exact hsk s
  · simp only [infoListCase, if_true] at h
    cases hf : s.readTotal.frameLine P with
    | error e => rw [hf] at h; cases h
    | ok s1 =>
      rw [hf] at h
      simp only at h
      cases ht : s1.titleLine title with
      | error e => rw [ht] at h; cases h
      | ok s2 =>
        rw [ht] at h
        rw [forTotal_preserves f record hrec _ _ _ h, htl _ _ ht, hfl _ _ hf, hrt]

theorem frameLine_self (P : Platform) (s t : InfoState) (h : s.frameLine P = .ok t) :
    t.self = s.self := by
  simp only [InfoState.frameLine] at h
  split at h
  · cases h
  · split at h <;> (cases h; rfl)

theorem titleLine_self (title : String) (s t : InfoState) (h : s.titleLine title = .ok t) :
    t.self = s.self := by
  simp only [InfoState.titleLine] at h
  split at h
  · cases h
  · cases h; rfl

theorem infoPacket_frame (P : Platform) (C : PhysicsCodec) (bShowAll : Bool)
    (d t : InfoState) (h : infoPacket P C bShowAll d = .ok t) :
    t.self.Frame =
      if P.packetKind d.self.Header.Id = .FrameStart then
        (CarlaRecorderFrame.Read d.self.File d.self.Frame).1
      else d.self.Frame := by
  by_cases hk : P.packetKind d.self.Header.Id = .FrameStart
  · simp only [hk, if_true]
    simp only [infoPacket, hk] at h
    split at h <;> (simp only [Except.ok.injEq] at h; subst h; rfl)
  · simp only [hk, if_false]
    unfold infoPacket at h
    split at h
    · rename_i hk'; exact absurd hk' hk
    · exact infoEventCase_preserves P (fun s => s.self.Frame) (fun _ => rfl)
        (fun s t h => congrArg CarlaRecorderQuery.Frame (frameLine_self P s t h))
        (fun s t h => by simp only [infoEventAdd, Except.ok.injEq] at h; subst h; rfl) d t h
    · exact infoEventCase_preserves P (fun s => s.self.Frame) (fun _ => rfl)
        (fun s t h => congrArg CarlaRecorderQuery.Frame (frameLine_self P s t h))
        (fun s t h => by simp only [infoEventDel, Except.ok.injEq] at h; subst h; rfl) d t h
    · exact infoEventCase_preserves P (fun s => s.self.Frame) (fun _ => rfl)
        (fun s t h => congrArg CarlaRecorderQuery.Frame (frameLine_self P s t h))
        (fun s t h => by simp only [infoEventParent, Except.ok.injEq] at h; subst h; rfl) d t h
    · exact infoEventCase_preserves P (fun s => s.self.Frame) (fun _ => rfl)
        (fun s t h => congrArg CarlaRecorderQuery.Frame (frameLine_self P s t h))
        (fun s t h => by simp only [infoCollision, Except.ok.injEq] at h; subst h; rfl) d t h
    · exact infoListCase_preserves P _ _ (fun s => s.self.Frame) (fun _ => rfl) (fun _ => rfl)
        (fun s t h => congrArg CarlaRecorderQuery.Frame (frameLine_self P s t h)) (fun s t h => congrArg CarlaRecorderQuery.Frame (titleLine_self _ s t h))
        (fun s t h => by simp only [infoPosition, Except.ok.injEq] at h; subst h; rfl) d t h
    · exact infoListCase_preserves P _ _ (fun s => s.self.Frame) (fun _ => rfl) (fun _ => rfl)
        (fun s t h => congrArg CarlaRecorderQuery.Frame (frameLine_self P s t h)) (fun s t h => congrArg CarlaRecorderQuery.Frame (titleLine_self _ s t h))
        (fun s t h => by simp only [infoState, Except.ok.injEq] at h; subst h; rfl) d t h
    · exact infoListCase_preserves P _ _ (fun s => s.self.Frame) (fun _ => rfl) (fun _ => rfl)
        (fun s t h => congrArg CarlaRecorderQuery.Frame (frameLine_self P s t h)) (fun s t h => congrArg CarlaRecorderQuery.Frame (titleLine_self _ s t h))
        (fun s t h => by simp only [infoAnimVehicle, Except.ok.injEq] at h; subst h; rfl) d t h
    · exact infoListCase_preserves P _ _ (fun s => s.self.Frame) (fun _ => rfl) (fun _ => rfl)
        (fun s t h => congrArg CarlaRecorderQuery.Frame (frameLine_self P s t h)) (fun s t h => congrArg CarlaRecorderQuery.Frame (titleLine_self _ s t h))
        (fun s t h => by simp only [infoAnimWalker, Except.ok.injEq] at h; subst h; rfl) d t h
    · exact infoListCase_preserves P _ _ (fun s => s.self.Frame) (fun _ => rfl) (fun _ => rfl)
        (fun s t h => congrArg CarlaRecorderQuery.Frame (frameLine_self P s t h)) (fun s t h => congrArg CarlaRecorderQuery.Frame (titleLine_self _ s t h))
        (fun s t h => by simp only [infoVehicleDoor, Except.ok.injEq] at h; subst h; rfl) d t h
    · exact infoListCase_preserves P _ _ (fun s => s.self.Frame) (fun _ => rfl) (fun _ => rfl)
        (fun s t h => congrArg CarlaRecorderQuery.Frame (frameLine_self P s t h)) (fun s t h => congrArg CarlaRecorderQuery.Frame (titleLine_self _ s t h))
        (fun s t h => by simp only [infoVehicleLight, Except.ok.injEq] at h; subst h; rfl) d t h
    · exact infoListCase_preserves P _ _ (fun s => s.self.Frame) (fun _ => rfl) (fun _ => rfl)
        (fun s t h => congrArg CarlaRecorderQuery.Frame (frameLine_self P s t h)) (fun s t h => congrArg CarlaRecorderQuery.Frame (titleLine_self _ s t h))
        (fun s t h => by simp only [infoSceneLight, Except.ok.injEq] at h; subst h; rfl) d t h
    · exact infoListCase_preserves P _ _ (fun s => s.self.Frame) (fun _ => rfl) (fun _ => rfl)
        (fun s t h => congrArg CarlaRecorderQuery.Frame (frameLine_self P s t h)) (fun s t h => congrArg CarlaRecorderQuery.Frame (titleLine_self _ s t h))
        (fun s t h => by simp only [infoKinematics, Except.ok.injEq] at h; subst h; rfl) d t h
    · exact infoListCase_preserves P _ _ (fun s => s.self.Frame) (fun _ => rfl) (fun _ => rfl)
        (fun s t h => congrArg CarlaRecorderQuery.Frame (frameLine_self P s t h)) (fun s t h => congrArg CarlaRecorderQuery.Frame (titleLine_self _ s t h))
        (fun s t h => by simp only [infoBoundingBox, Except.ok.injEq] at h; subst h; rfl) d t h
    · exact infoListCase_preserves P _ _ (fun s => s.self.Frame) (fun _ => rfl) (fun _ => rfl)
        (fun s t h => congrArg CarlaRecorderQuery.Frame (frameLine_self P s t h)) (fun s t h => congrArg CarlaRecorderQuery.Frame (titleLine_self _ s t h))
        (fun s t h => by simp only [infoBoundingBox, Except.ok.injEq] at h; subst h; rfl) d t h
    · split at h
      · simp only [Except.ok.injEq] at h
        subst h
        split <;> rfl
      · simp only [Except.ok.injEq] at h
        subst h
        rfl
    · exact infoListCase_preserves P _ _ (fun s => s.self.Frame) (fun _ => rfl) (fun _ => rfl)
        (fun s t h => congrArg CarlaRecorderQuery.Frame (frameLine_self P s t h)) (fun s t h => congrArg CarlaRecorderQuery.Frame (titleLine_self _ s t h))
        (fun s t h => by simp only [infoPhysicsControl, Except.ok.injEq] at h; subst h; rfl) d t h
    · exact infoListCase_preserves P _ _ (fun s => s.self.Frame) (fun _ => rfl) (fun _ => rfl)
        (fun s t h => congrArg CarlaRecorderQuery.Frame (frameLine_self P s t h)) (fun s t h => congrArg CarlaRecorderQuery.Frame (titleLine_self _ s t h))
        (fun s t h => by simp only [infoTrafficLightTime, Except.ok.injEq] at h; subst h; rfl) d t h
    · split at h
      · cases h
      · rename_i t1 hl
        have e1 : t1.self.Frame = d.self.Frame :=
          infoListCase_preserves P _ _ (fun s => s.self.Frame) (fun _ => rfl) (fun _ => rfl)
            (fun s t h => congrArg CarlaRecorderQuery.Frame (frameLine_self P s t h))
            (fun s t h => congrArg CarlaRecorderQuery.Frame (titleLine_self _ s t h))
            (fun s t h => by simp only [infoWalkerBones, Except.ok.injEq] at h; subst h; rfl)
            d t1 hl
        split at h <;> (simp only [Except.ok.injEq] at h; subst h; exact e1)
    · simp only [Except.ok.injEq] at h
      subst h
      rfl
    · simp only [Except.ok.injEq] at h
      subst h
      rfl

theorem collisionRecord_self_frame (P : Platform) (Category1 Category2 : Char)
    (s t : CollisionsState) (h : collisionRecord P Category1 Category2 s = .ok t) :
    t.self.Frame = s.self.Frame := by
  obtain ⟨T1, A1, T2, A2, h1, h2⟩ := collisionRecord_ok P Category1 Category2 s t h
  rw [collisionRecord_eq P Category1 Category2 s T1 T2 A1 A2 h1 h2] at h
  split at h <;> (simp only [Except.ok.injEq] at h; subst h; rfl)

theorem collisionsPacket_frame (P : Platform) (Category1 Category2 : Char)
    (d t : CollisionsState) (h : collisionsPacket P Category1 Category2 d = .ok t) :
    t.self.Frame =
      if P.packetKind d.self.Header.Id = .FrameStart then
        (CarlaRecorderFrame.Read d.self.File d.self.Frame).1
      else d.self.Frame := by
  by_cases hk : P.packetKind d.self.Header.Id = .FrameStart
  · simp only [hk, if_true]
    simp only [collisionsPacket, hk, Except.ok.injEq] at h
    subst h
    rfl
  · simp only [hk, if_false]
    unfold collisionsPacket at h
    split at h
    · rename_i hk'; exact absurd hk' hk
    · have := forTotal_preserves (fun s : CollisionsState => s.self.Frame) (collisionsEventAdd P)
        (fun s t h => by simp only [collisionsEventAdd, Except.ok.injEq] at h; subst h; rfl)
        _ _ _ h
      exact this
    · have := forTotal_preserves (fun s : CollisionsState => s.self.Frame) (collisionsEventDel)
        (fun s t h => by simp only [collisionsEventDel, Except.ok.injEq] at h; subst h; rfl)
        _ _ _ h
      exact this
    · simp only [Except.ok.injEq] at h; subst h; rfl
    · have := forTotal_preserves (fun s : CollisionsState => s.self.Frame) _
        (collisionRecord_self_frame P Category1 Category2) _ _ _ h
      exact this
    · simp only [Except.ok.injEq] at h; subst h; rfl
    · simp only [Except.ok.injEq] at h; subst h; rfl
    · simp only [Except.ok.injEq] at h; subst h; rfl
    · simp only [Except.ok.injEq] at h; subst h; rfl

theorem blockedPosition_self_frame (P : Platform) (A : BlockedArith)
    (MinTime MinDistance : Nat) (s t : BlockedState)
    (h : blockedPosition P A MinTime MinDistance s = .ok t) :
    t.self.Frame = s.self.Frame := by
  simp only [blockedPosition] at h
  split at h <;> (simp only [Except.ok.injEq] at h; subst h; rfl)

theorem blockedPacket_frame (P : Platform) (A : BlockedArith) (MinTime MinDistance : Nat)
    (d t : BlockedState) (h : blockedPacket P A MinTime MinDistance d = .ok t) :
    t.self.Frame =
      if P.packetKind d.self.Header.Id = .FrameStart then
        (CarlaRecorderFrame.Read d.self.File d.self.Frame).1
      else d.self.Frame := by
  by_cases hk : P.packetKind d.self.Header.Id = .FrameStart
  · simp only [hk, if_true]
    simp only [blockedPacket, hk, Except.ok.injEq] at h
    subst h
    rfl
  · simp only [hk, if_false]
    unfold blockedPacket at h
    split at h
    · rename_i hk'; exact absurd hk' hk
    · have := forTotal_preserves (fun s : BlockedState => s.self.Frame) (blockedEventAdd P)
        (fun s t h => by simp only [blockedEventAdd, Except.ok.injEq] at h; subst h; rfl)
        _ _ _ h
      exact this
    · have := forTotal_preserves (fun s : BlockedState => s.self.Frame) (blockedEventDel)
        (fun s t h => by simp only [blockedEventDel, Except.ok.injEq] at h; subst h; rfl)
        _ _ _ h
      exact this
    · simp only [Except.ok.injEq] at h; subst h; rfl
    · simp only [Except.ok.injEq] at h; subst h; rfl
    · have := forTotal_preserves (fun s : BlockedState => s.self.Frame) _
        (blockedPosition_self_frame P A MinTime MinDistance) _ _ _ h
      exact this
    · simp only [Except.ok.injEq] at h; subst h; rfl
    · simp only [Except.ok.injEq] at h; subst h; rfl
    · simp only [Except.ok.injEq] at h; subst h; rfl

theorem afterHeader_eq (P : Platform) (fs : String → Option (List Nat))
    (self : CarlaRecorderQuery) (Filename : String) :
    self.afterHeader P fs Filename =
      { self with
        File := (CarlaRecorderInfo.Read P
          (self.File.open (fs (P.GetRecorderFilename Filename))) self.RecInfo).2,
        RecInfo := (CarlaRecorderInfo.Read P
          (self.File.open (fs (P.GetRecorderFilename Filename))) self.RecInfo).1 } := by
  simp only [CarlaRecorderQuery.afterHeader, CheckFileInfo_self]

theorem open_valid (P : Platform) (fs : String → Option (List Nat))
    (self : CarlaRecorderQuery) (Filename : String) (hv : validRecording P fs self Filename) :
    ∃ bytes, fs (P.GetRecorderFilename Filename) = some bytes ∧
      self.File.open (fs (P.GetRecorderFilename Filename))
        = { data := bytes, pos := 0, isOpen := true, eofbit := false, failbit := false } := by
  obtain ⟨ho, hs, -⟩ := hv
  cases hf : fs (P.GetRecorderFilename Filename) with
  | none => rw [hf] at hs; cases hs
  | some bytes =>
    refine ⟨bytes, rfl, ?_⟩
    simp only [IfStream.open, ho, Bool.false_eq_true, if_false]

theorem CheckFileInfo_valid (P : Platform) (fs : String → Option (List Nat))
    (self : CarlaRecorderQuery) (Filename : String) (hv : validRecording P fs self Filename) :
    CheckFileInfo P { self with File := self.File.open (fs (P.GetRecorderFilename Filename)) }
        OStream.init
      = (true, self.afterHeader P fs Filename,
          { OStream.init with
            buf := fileHeaderBlock P (self.afterHeader P fs Filename).RecInfo }) := by
  have hm := hv.2.2
  have h1 : (CheckFileInfo P
      { self with File := self.File.open (fs (P.GetRecorderFilename Filename)) }
      OStream.init).1 = true := by
    rw [afterHeader_eq] at hm
    simp only at hm
    simp only [CheckFileInfo, hm, ne_eq, not_true_eq_false, if_false]
  have h2 := CheckFileInfo_init P _ h1
  refine Prod.ext h1 (Prod.ext rfl ?_)
  exact h2

theorem QueryInfo_valid (P : Platform) (C : PhysicsCodec) (fs : String → Option (List Nat))
    (self : CarlaRecorderQuery) (Filename : String) (bShowAll : Bool)
    (hv : validRecording P fs self Filename) :
    QueryInfo P C fs self Filename bShowAll =
      match packetLoop (infoPacket P C bShowAll) (loopFuel (infoStart P fs self Filename))
          (infoStart P fs self Filename) with
      | .error e => .error e
      | .ok s => .ok ((putTrailer P s.self.Frame s.Info).buf,
          { s.self with File := s.self.File.close }) := by
  obtain ⟨bytes, hf, ho⟩ := open_valid P fs self Filename hv
  have hc := CheckFileInfo_valid P fs self Filename hv
  unfold QueryInfo
  simp only [hc]
  simp only [ho, Bool.not_true, Bool.false_eq_true, if_false, infoLoop_eq]
  rfl

theorem QueryCollisions_valid (P : Platform) (fs : String → Option (List Nat))
    (self : CarlaRecorderQuery) (Filename : String) (Category1 Category2 : Char)
    (hv : validRecording P fs self Filename) :
    QueryCollisions P fs self Filename Category1 Category2 =
      match packetLoop (collisionsPacket P Category1 Category2)
          (loopFuel (collisionsStart P fs self Filename))
          (collisionsStart P fs self Filename) with
      | .error e => .error e
      | .ok s => .ok ((putTrailer P s.self.Frame s.Info).buf,
          { s.self with File := s.self.File.close }) := by
  obtain ⟨bytes, hf, ho⟩ := open_valid P fs self Filename hv
  have hc := CheckFileInfo_valid P fs self Filename hv
  unfold QueryCollisions
  simp only [hc]
  simp only [ho, Bool.not_true, Bool.false_eq_true, if_false, collisionsLoop_eq]
  rfl

theorem QueryBlocked_valid (P : Platform) (A : BlockedArith)
    (fs : String → Option (List Nat)) (self : CarlaRecorderQuery) (Filename : String)
    (MinTime MinDistance : Nat) (hv : validRecording P fs self Filename) :
    QueryBlocked P A fs self Filename MinTime MinDistance =
      match packetLoop (blockedPacket P A MinTime MinDistance)
          (loopFuel (blockedStart P fs self Filename)) (blockedStart P fs self Filename) with
      | .error e => .error e
      | .ok s =>
        .ok ((putTrailer P s.self.Frame
              (putResults s.Info (blockedFlush P MinTime s.Actors s.Results))).buf,
          { s.self with File := s.self.File.close }) := by
  obtain ⟨bytes, hf, ho⟩ := open_valid P fs self Filename hv
  have hc := CheckFileInfo_valid P fs self Filename hv
  unfold QueryBlocked
  simp only [hc]
  simp only [ho, Bool.not_true, Bool.false_eq_true, if_false, blockedLoop_eq]
  rfl

theorem budget_le_loopFuel {σ : Type} [LoopState σ] (s : σ) :
    (LoopState.file s).budget ≤ loopFuel s := by
  simp only [IfStream.budget, loopFuel, LoopState.file]
  split <;> omega

theorem packetLoop_outcome {σ : Type} [LoopState σ] {packet : σ → Except Fault σ}
    (hl : LocalStep packet) (hu : UBOnly packet) (s : σ) :
    packetLoop packet (loopFuel s) s = .error .undefinedBehaviour ∨
      ∃ t, packetLoop packet (loopFuel s) s = .ok t := by
  cases h : packetLoop packet (loopFuel s) s with
  | ok t => exact Or.inr ⟨t, rfl⟩
  | error e =>
    cases e with
    | undefinedBehaviour => exact Or.inl rfl
    | outOfFuel => exact absurd h (packetLoop_total hl.1 hu _ s (budget_le_loopFuel s))

theorem afterHeader_Frame (P : Platform) (fs : String → Option (List Nat))
    (self : CarlaRecorderQuery) (Filename : String) :
    (self.afterHeader P fs Filename).Frame = self.Frame := by
  rw [afterHeader_eq]

theorem absent_local : PhysicsCodec.absent.Local := fun r => reader_pure r

theorem blockedPositionWith_insertResult (P : Platform) (A : BlockedArith)
    (MinTime MinDistance : Nat) :
    blockedPositionWith insertResult P A MinTime MinDistance
      = blockedPosition P A MinTime MinDistance := rfl

theorem blockedPacketWith_insertResult (P : Platform) (A : BlockedArith)
    (MinTime MinDistance : Nat) :
    blockedPacketWith insertResult P A MinTime MinDistance
      = blockedPacket P A MinTime MinDistance := by
  funext s
  unfold blockedPacketWith
  split
  · rename_i hk
    simp only [blockedPacket, hk, blockedPositionWith_insertResult]
  · rfl

theorem blockedFlushWith_insertResult (P : Platform) (MinTime : Nat)
    (Actors : List (Nat × BlockedActorInfo)) (Results : List (Nat × String)) :
    blockedFlushWith insertResult P MinTime Actors Results
      = blockedFlush P MinTime Actors Results := by
  induction Actors generalizing Results with
  | nil => rfl
  | cons a rest ih => simp only [blockedFlushWith, blockedFlush, ih]

theorem insertResult_perm (Results : List (Nat × String)) (key : Nat) (row : String) :
    (insertResult Results key row).Perm ((key, row) :: Results) := by
  unfold insertResult
  have h := List.takeWhile_append_dropWhile (fun e : Nat × String => !doubleGt key e.1) Results
  refine List.perm_middle.trans ?_
  rw [h]

theorem logResult_perm (Results : List (Nat × String)) (key : Nat) (row : String) :
    (logResult Results key row).Perm ((key, row) :: Results) := by
  unfold logResult
  exact (List.perm_append_singleton _ _)

theorem doubleGe_of_not_doubleGt {x y : Nat} (hx : doubleGe x x = true)
    (hy : doubleGe y y = true) (h : doubleGt x y = false) : doubleGe y x = true := by
  simp only [doubleGe, doubleGt, Bool.and_eq_true, Bool.not_eq_true', decide_eq_true_eq,
    Bool.and_eq_false_imp] at *
  obtain ⟨⟨hx1, -⟩, -⟩ := hx
  obtain ⟨⟨hy1, -⟩, -⟩ := hy
  refine ⟨⟨hy1, hx1⟩, ?_⟩
  have := h ⟨hx1, hy1⟩
  simp only [decide_eq_false_iff_not, not_lt] at this
  exact this

theorem doubleGe_of_doubleGt {x y : Nat} (h : doubleGt x y = true) : doubleGe x y = true := by
  simp only [doubleGe, doubleGt, Bool.and_eq_true, Bool.not_eq_true', decide_eq_true_eq] at *
  exact ⟨h.1, le_of_lt h.2⟩

theorem doubleGe_trans {x y z : Nat} (h1 : doubleGe x y = true) (h2 : doubleGe y z = true) :
    doubleGe x z = true := by
  simp only [doubleGe, Bool.and_eq_true, Bool.not_eq_true', decide_eq_true_eq] at *
  exact ⟨⟨h1.1.1, h2.1.2⟩, le_trans h2.2 h1.2⟩

theorem insertResult_cons (e : Nat × String) (Results : List (Nat × String)) (key : Nat)
    (row : String) :
    insertResult (e :: Results) key row =
      if doubleGt key e.1 = true then (key, row) :: e :: Results
      else e :: insertResult Results key row := by
  unfold insertResult
  by_cases h : doubleGt key e.1 = true
  · simp [h, List.takeWhile, List.dropWhile]
  · simp [h, List.takeWhile, List.dropWhile]

theorem insertResult_sorted (Results : List (Nat × String)) (key : Nat) (row : String)
    (hk : doubleGe key key = true) (h : rowsSorted Results) :
    rowsSorted (insertResult Results key row) := by
  induction Results with
  | nil =>
    refine ⟨?_, ?_⟩
    · simp [insertResult]
    · intro a ha
      simp [insertResult] at ha
      subst ha
      exact hk
  | cons e rest ih =>
    obtain ⟨hp, hn⟩ := h
    have hpe := List.pairwise_cons.1 hp
    have hrest : rowsSorted rest := ⟨hpe.2, fun a ha => hn a (List.mem_cons_of_mem _ ha)⟩
    have he : doubleGe e.1 e.1 = true := hn e (List.mem_cons_self _ _)
    rw [insertResult_cons]
    by_cases hg : doubleGt key e.1 = true
    · simp only [hg, if_true]
      refine ⟨?_, ?_⟩
      · refine List.pairwise_cons.2 ⟨?_, hp⟩
        intro a ha
        rcases List.mem_cons.1 ha with rfl | ha'
        · exact doubleGe_of_doubleGt hg
        · exact doubleGe_trans (doubleGe_of_doubleGt hg) (hpe.1 a ha')
      · intro a ha
        rcases List.mem_cons.1 ha with rfl | ha'
        · exact hk
        · exact hn a ha'
    · simp only [hg, if_false, Bool.false_eq_true]
      obtain ⟨ip, inn⟩ := ih hrest
      refine ⟨?_, ?_⟩
      · refine List.pairwise_cons.2 ⟨?_, ip⟩
        intro a ha
        have := (insertResult_perm rest key row).subset ha
        rcases List.mem_cons.1 this with rfl | ha'
        · exact doubleGe_of_not_doubleGt hk he (by simpa using hg)
        · exact hpe.1 a ha'
      · intro a ha
        rcases List.mem_cons.1 ha with rfl | ha'
        · exact he
        · exact inn a ha'

theorem repeatBody_rel {σ : Type} (Rel : σ → σ → Prop) {b1 b2 : σ → Except Fault σ}
    (hb : ∀ s1 s2 t1, Rel s1 s2 → b1 s1 = .ok t1 → ∃ t2, b2 s2 = .ok t2 ∧ Rel t1 t2) :
    ∀ (n : Nat) (s1 s2 t1 : σ), Rel s1 s2 → repeatBody b1 n s1 = .ok t1 →
      ∃ t2, repeatBody b2 n s2 = .ok t2 ∧ Rel t1 t2 := by
  intro n
  induction n with
  | zero =>
    intro s1 s2 t1 hr h
    cases h
    exact ⟨s2, rfl, hr⟩
  | succ n ih =>
    intro s1 s2 t1 hr h
    obtain ⟨u1, h1, h2⟩ := repeatBody_succ b1 n s1 t1 h
    obtain ⟨u2, e1, r1⟩ := hb s1 s2 u1 hr h1
    obtain ⟨t2, e2, r2⟩ := ih u1 u2 t1 r1 h2
    exact ⟨t2, by simp only [repeatBody, e1]; exact e2, r2⟩

theorem forTotal_rel {σ : Type} (Rel : σ → σ → Prop) {b1 b2 : σ → Except Fault σ}
    (hb : ∀ s1 s2 t1, Rel s1 s2 → b1 s1 = .ok t1 → ∃ t2, b2 s2 = .ok t2 ∧ Rel t1 t2)
    (Total : Option Nat) (s1 s2 t1 : σ) (hr : Rel s1 s2)
    (h : forTotal Total b1 s1 = .ok t1) :
    ∃ t2, forTotal Total b2 s2 = .ok t2 ∧ Rel t1 t2 := by
  cases Total with
  | none => cases h
  | some n => exact repeatBody_rel Rel hb n s1 s2 t1 hr h

theorem packetLoop_rel {σ : Type} [LoopState σ] (Rel : σ → σ → Prop)
    {p1 p2 : σ → Except Fault σ}
    (hself : ∀ s1 s2, Rel s1 s2 → LoopState.self s1 = LoopState.self s2)
    (hset : ∀ s1 s2 q, Rel s1 s2 → Rel (LoopState.setSelf s1 q) (LoopState.setSelf s2 q))
    (hp : ∀ s1 s2 t1, Rel s1 s2 → p1 s1 = .ok t1 → ∃ t2, p2 s2 = .ok t2 ∧ Rel t1 t2) :
    ∀ (fuel : Nat) (s1 s2 t1 : σ), Rel s1 s2 → packetLoop p1 fuel s1 = .ok t1 →
      ∃ t2, packetLoop p2 fuel s2 = .ok t2 ∧ Rel t1 t2 := by
  intro fuel
  induction fuel with
  | zero => intro s1 s2 t1 _ h; cases h
  | succ n ih =>
    intro s1 s2 t1 hr h
    simp only [packetLoop] at h ⊢
    rw [← hself s1 s2 hr]
    by_cases hb : (LoopState.self s1).File.toBool = true
    · simp only [hb, if_true] at h ⊢
      by_cases hh : (ReadHeader (LoopState.self s1)).1 = true
      · simp only [hh, if_true] at h ⊢
        cases hk : p1 (LoopState.setSelf s1 (ReadHeader (LoopState.self s1)).2) with
        | error e => rw [hk] at h; cases h
        | ok u1 =>
          rw [hk] at h
          obtain ⟨u2, e1, r1⟩ := hp _ _ u1 (hset s1 s2 _ hr) hk
          rw [e1]
          exact ih u1 u2 t1 r1 h
      · simp only [hh, if_false, Bool.false_eq_true, Except.ok.injEq] at h ⊢
        subst h
        exact ⟨_, rfl, hset s1 s2 _ hr⟩
    · simp only [hb, if_false, Bool.false_eq_true, Except.ok.injEq] at h ⊢
      subst h
      exact ⟨s2, rfl, hr⟩

theorem repeatBody_inv {σ : Type} (Inv : σ → Prop) {body : σ → Except Fault σ}
    (hb : ∀ s t, Inv s → body s = .ok t → Inv t) :
    ∀ (n : Nat) (s t : σ), Inv s → repeatBody body n s = .ok t → Inv t := by
  intro n
  induction n with
  | zero => intro s t hi h; cases h; exact hi
  | succ n ih =>
    intro s t hi h
    obtain ⟨u, h1, h2⟩ := repeatBody_succ body n s t h
    exact ih u t (hb s u hi h1) h2

theorem forTotal_inv {σ : Type} (Inv : σ → Prop) {body : σ → Except Fault σ}
    (hb : ∀ s t, Inv s → body s = .ok t → Inv t) (Total : Option Nat) (s t : σ)
    (hi : Inv s) (h : forTotal Total body s = .ok t) : Inv t := by
  cases Total with
  | none => cases h
  | some n => exact repeatBody_inv Inv hb n s t hi h

theorem packetLoop_inv {σ : Type} [LoopState σ] (Inv : σ → Prop)
    {packet : σ → Except Fault σ}
    (hset : ∀ s, Inv s → Inv (LoopState.setSelf s (ReadHeader (LoopState.self s)).2))
    (hp : ∀ s t, Inv s → packet s = .ok t → Inv t) :
    ∀ (fuel : Nat) (s t : σ), Inv s → packetLoop packet fuel s = .ok t → Inv t := by
  intro fuel
  induction fuel with
  | zero => intro s t _ h; cases h
  | succ n ih =>
    intro s t hi h
    simp only [packetLoop] at h
    by_cases hb : (LoopState.self s).File.toBool = true
    · simp only [hb, if_true] at h
      by_cases hh : (ReadHeader (LoopState.self s)).1 = true
      · simp only [hh, if_true] at h
        cases hk : packet (LoopState.setSelf s (ReadHeader (LoopState.self s)).2) with
        | error e => rw [hk] at h; cases h
        | ok u =>
          rw [hk] at h
          exact ih u t (hp _ _ (hset s hi) hk) h
      · simp only [hh, if_false, Bool.false_eq_true, Except.ok.injEq] at h
        subst h
        exact hset s hi
    · simp only [hb, if_false, Bool.false_eq_true, Except.ok.injEq] at h
      subst h
      exact hi

theorem blockedPositionWith_rel
    (ins1 ins2 : List (Nat × String) → Nat → String → List (Nat × String))
    (h1 : ∀ R k r, (ins1 R k r).Perm ((k, r) :: R))
    (h2 : ∀ R k r, (ins2 R k r).Perm ((k, r) :: R))
    (P : Platform) (A : BlockedArith) (MinTime MinDistance : Nat)
    (s1 s2 t1 : BlockedState) (hr : sameRows s1 s2)
    (h : blockedPositionWith ins1 P A MinTime MinDistance s1 = .ok t1) :
    ∃ t2, blockedPositionWith ins2 P A MinTime MinDistance s2 = .ok t2 ∧ sameRows t1 t2 := by
  obtain ⟨q, i, tot, ac, r1⟩ := s1
  obtain ⟨q', i', tot', ac', r2⟩ := s2
  obtain ⟨hq, hi, ht, ha, hp⟩ := hr
  simp only at hq hi ht ha hp
  subst hq hi ht ha
  simp only [blockedPositionWith] at h ⊢
  split at h
  · rename_i hc
    simp only [Except.ok.injEq] at h
    subst h
    simp only [hc, if_true]
    exact ⟨_, rfl, rfl, rfl, rfl, rfl, hp⟩
  · rename_i hc
    simp only [Except.ok.injEq] at h
    subst h
    simp only [hc, if_false]
    refine ⟨_, rfl, rfl, rfl, rfl, rfl, ?_⟩
    simp only
    split
    · exact ((h1 _ _ _).trans ((List.Perm.cons _ hp).trans (h2 _ _ _).symm))
    · exact hp

theorem sameRows_step (f : BlockedState → Except Fault BlockedState)
    (hf : ∀ s R, f { s with Results := R } = (f s).map (fun t => { t with Results := R }))
    (hres : ∀ s t, f s = .ok t → t.Results = s.Results)
    (s1 s2 t1 : BlockedState) (hr : sameRows s1 s2) (h : f s1 = .ok t1) :
    ∃ t2, f s2 = .ok t2 ∧ sameRows t1 t2 := by
  obtain ⟨q, i, tot, ac, r1⟩ := s1
  obtain ⟨q', i', tot', ac', r2⟩ := s2
  obtain ⟨hq, hi, ht, ha, hp⟩ := hr
  simp only at hq hi ht ha hp
  subst hq hi ht ha
  have e := hf ⟨q, i, tot, ac, r1⟩ r2
  simp only [h, Except.map] at e
  refine ⟨_, e, rfl, rfl, rfl, rfl, ?_⟩
  simp only
  rw [hres _ _ h]
  exact hp

theorem blockedPacket_rel_other (P : Platform) (A : BlockedArith) (MinTime MinDistance : Nat)
    (s1 s2 t1 : BlockedState) (hk : P.packetKind s1.self.Header.Id ≠ .Position)
    (hr : sameRows s1 s2) (h : blockedPacket P A MinTime MinDistance s1 = .ok t1) :
    ∃ t2, blockedPacket P A MinTime MinDistance s2 = .ok t2 ∧ sameRows t1 t2 := by
  have hq : s2.self = s1.self := hr.1.symm
  have hrt : sameRows s1.readTotal s2.readTotal := by
    obtain ⟨a, b, c, d, e⟩ := hr
    exact ⟨by simp only [BlockedState.readTotal, a, c], b,
      by simp only [BlockedState.readTotal, a, c], d, e⟩
  have htot : s2.readTotal.Total = s1.readTotal.Total := hrt.2.2.1.symm
  unfold blockedPacket at h ⊢
  rw [hq, htot]
  split at h
  · simp only [Except.ok.injEq] at h
    subst h
    exact ⟨_, rfl, by simp only [hq], hr.2.1, hr.2.2.1, hr.2.2.2.1, hr.2.2.2.2⟩
  · exact forTotal_rel sameRows
      (sameRows_step (blockedEventAdd P) (fun _ _ => rfl)
        (fun s t h => by simp only [blockedEventAdd, Except.ok.injEq] at h; subst h; rfl))
      _ _ _ _ hrt h
  · exact forTotal_rel sameRows
      (sameRows_step blockedEventDel (fun _ _ => rfl)
        (fun s t h => by simp only [blockedEventDel, Except.ok.injEq] at h; subst h; rfl))
      _ _ _ _ hrt h
  · simp only [Except.ok.injEq] at h
    subst h
    exact ⟨_, rfl, by simp only [hq], hr.2.1, hr.2.2.1, hr.2.2.2.1, hr.2.2.2.2⟩
  · simp only [Except.ok.injEq] at h
    subst h
    exact ⟨_, rfl, by simp only [hq], hr.2.1, hr.2.2.1, hr.2.2.2.1, hr.2.2.2.2⟩
  · rename_i hk'
    exact absurd hk' hk
  · simp only [Except.ok.injEq] at h
    subst h
    exact ⟨_, rfl, by simp only [hq], hr.2.1, hr.2.2.1, hr.2.2.2.1, hr.2.2.2.2⟩
  · simp only [Except.ok.injEq] at h
    subst h
    exact ⟨_, rfl, hr⟩
  · simp only [Except.ok.injEq] at h
    subst h
    exact ⟨_, rfl, by simp only [hq], hr.2.1, hr.2.2.1, hr.2.2.2.1, hr.2.2.2.2⟩

theorem blockedPacketWith_rel
    (ins1 ins2 : List (Nat × String) → Nat → String → List (Nat × String))
    (h1 : ∀ R k r, (ins1 R k r).Perm ((k, r) :: R))
    (h2 : ∀ R k r, (ins2 R k r).Perm ((k, r) :: R))
    (P : Platform) (A : BlockedArith) (MinTime MinDistance : Nat)
    (s1 s2 t1 : BlockedState) (hr : sameRows s1 s2)
    (h : blockedPacketWith ins1 P A MinTime MinDistance s1 = .ok t1) :
    ∃ t2, blockedPacketWith ins2 P A MinTime MinDistance s2 = .ok t2 ∧ sameRows t1 t2 := by
  have hq : s2.self = s1.self := hr.1.symm
  unfold blockedPacketWith at h ⊢
  rw [hq]
  split at h
  · rename_i hk
    have hrt : sameRows s1.readTotal s2.readTotal := by
      obtain ⟨a, b, c, d, e⟩ := hr
      exact ⟨by simp only [BlockedState.readTotal, a, c], b,
        by simp only [BlockedState.readTotal, a, c], d, e⟩
    have htot : s2.readTotal.Total = s1.readTotal.Total := hrt.2.2.1.symm
    rw [htot]
    exact forTotal_rel sameRows
      (blockedPositionWith_rel ins1 ins2 h1 h2 P A MinTime MinDistance) _ _ _ _ hrt h
  · rename_i hk
    have hk' : P.packetKind s1.self.Header.Id ≠ .Position := fun e => hk e
    exact blockedPacket_rel_other P A MinTime MinDistance s1 s2 t1 hk' hr h

theorem doubleGe_self_of_ge {x y : Nat} (h : doubleGe x y = true) : doubleGe x x = true := by
  simp only [doubleGe, Bool.and_eq_true, Bool.not_eq_true', decide_eq_true_eq] at *
  exact ⟨⟨h.1.1, h.1.1⟩, le_refl _⟩

theorem blockedPosition_rows (P : Platform) (A : BlockedArith) (MinTime MinDistance : Nat)
    (I0 : OStream) (s t : BlockedState) (hi : s.Info = I0 ∧ rowsSorted s.Results)
    (h : blockedPosition P A MinTime MinDistance s = .ok t) :
    t.Info = I0 ∧ rowsSorted t.Results := by
  simp only [blockedPosition] at h
  split at h
  · simp only [Except.ok.injEq] at h
    subst h
    exact hi
  · simp only [Except.ok.injEq] at h
    subst h
    refine ⟨hi.1, ?_⟩
    simp only
    split
    · rename_i hg
      exact insertResult_sorted _ _ _ (doubleGe_self_of_ge hg) hi.2
    · exact hi.2

theorem blockedPacket_rows (P : Platform) (A : BlockedArith) (MinTime MinDistance : Nat)
    (I0 : OStream) (s t : BlockedState) (hi : s.Info = I0 ∧ rowsSorted s.Results)
    (h : blockedPacket P A MinTime MinDistance s = .ok t) :
    t.Info = I0 ∧ rowsSorted t.Results := by
  have hrt : s.readTotal.Info = I0 ∧ rowsSorted s.readTotal.Results := hi
  unfold blockedPacket at h
  split at h
  · simp only [Except.ok.injEq] at h; subst h; exact hi
  · exact forTotal_inv (fun s : BlockedState => s.Info = I0 ∧ rowsSorted s.Results)
      (fun s t hi h => by simp only [blockedEventAdd, Except.ok.injEq] at h; subst h; exact hi)
      _ _ _ hrt h
  · exact forTotal_inv (fun s : BlockedState => s.Info = I0 ∧ rowsSorted s.Results)
      (fun s t hi h => by simp only [blockedEventDel, Except.ok.injEq] at h; subst h; exact hi)
      _ _ _ hrt h
  · simp only [Except.ok.injEq] at h; subst h; exact hi
  · simp only [Except.ok.injEq] at h; subst h; exact hi
  · exact forTotal_inv (fun s : BlockedState => s.Info = I0 ∧ rowsSorted s.Results)
      (blockedPosition_rows P A MinTime MinDistance I0) _ _ _ hrt h
  · simp only [Except.ok.injEq] at h; subst h; exact hi
  · simp only [Except.ok.injEq] at h; subst h; exact hi
  · simp only [Except.ok.injEq] at h; subst h; exact hi

theorem blockedFlush_sorted (P : Platform) (MinTime : Nat)
    (Actors : List (Nat × BlockedActorInfo)) (Results : List (Nat × String))
    (h : rowsSorted Results) : rowsSorted (blockedFlush P MinTime Actors Results) := by
  induction Actors generalizing Results with
  | nil => exact h
  | cons a rest ih =>
    simp only [blockedFlush]
    apply ih
    split
    · rename_i hg
      exact insertResult_sorted _ _ _ (doubleGe_self_of_ge hg) h
    · exact h

theorem blockedFlushWith_perm
    (ins1 ins2 : List (Nat × String) → Nat → String → List (Nat × String))
    (h1 : ∀ R k r, (ins1 R k r).Perm ((k, r) :: R))
    (h2 : ∀ R k r, (ins2 R k r).Perm ((k, r) :: R))
    (P : Platform) (MinTime : Nat) (Actors : List (Nat × BlockedActorInfo))
    (R1 R2 : List (Nat × String)) (hp : R1.Perm R2) :
    (blockedFlushWith ins1 P MinTime Actors R1).Perm
      (blockedFlushWith ins2 P MinTime Actors R2) := by
  induction Actors generalizing R1 R2 with
  | nil => exact hp
  | cons a rest ih =>
    simp only [blockedFlushWith]
    apply ih
    split
    · exact ((h1 _ _ _).trans ((List.Perm.cons _ hp).trans (h2 _ _ _).symm))
    · exact hp

theorem foldl_append_eq (x : String) (l : List String) :
    l.foldl (fun r s => r ++ s) x = x ++ String.join l := by
  induction l generalizing x with
  | nil => simp [String.join]
  | cons a rest ih =>
    simp only [List.foldl_cons, String.join]
    rw [ih (x ++ a), ih ("" ++ a)]
    simp [String.append_assoc]

theorem join_cons (a : String) (l : List String) :
    String.join (a :: l) = a ++ String.join l := by
  show List.foldl (fun r s => r ++ s) "" (a :: l) = a ++ String.join l
  rw [List.foldl_cons, foldl_append_eq]
  simp

theorem putResults_eq (Info : OStream) (rows : List (Nat × String)) :
    putResults Info rows
      = { Info with buf := Info.buf ++ String.join (rows.map (fun r => r.2)) } := by
  induction rows generalizing Info with
  | nil => simp [putResults, String.join]
  | cons r rest ih =>
    simp only [putResults, ih, put_eq, List.map_cons, join_cons, String.append_assoc]

theorem putBlockedHeader_eq (o : OStream) (h : o.leftAdjust = false) :
    putBlockedHeader o = { o with buf := o.buf ++ blockedColumns } := by
  have e1 : padField false 8 "Time" = "    Time" := by decide
  have e2 : padField false 6 "Id" = "    Id" := by decide
  have e3 : padField true 35 "Actor" = "Actor                              " := by decide
  have e4 : padField false 10 "Duration" = "  Duration" := by decide
  have e5 : "    Time" ++ (" " ++ ("    Id" ++ (" " ++ ("Actor                              "
      ++ (" " ++ ("  Duration" ++ "\n")))))) = blockedColumns := by decide
  simp only [putBlockedHeader, OStream.putW, OStream.endl, OStream.put, h, e1, e2, e3, e4,
    padField_zero, String.append_assoc, e5]

/-- C14. For every file that opens with a valid magic and every minTime and minDistance,
a run of `QueryBlocked` either has undefined behaviour or returns the file header block,
the column header, the rows and the trailer, where the rows are a rearrangement of the
rows emitted during the run (those of the packet loop and those of the end-of-stream
flush, none lost and none duplicated) and appear in non-increasing order of the Duration
each was emitted with. -/
theorem blocked_rows_sorted_and_complete (P : Platform) (A : BlockedArith)
    (fs : String → Option (List Nat)) (self : CarlaRecorderQuery) (Filename : String)
    (MinTime MinDistance : Nat) (hv : validRecording P fs self Filename) :
    faultOf (QueryBlocked P A fs self Filename MinTime MinDistance)
        = some Fault.undefinedBehaviour ∨
      ∃ rows : List (Nat × String),
        rows.Perm (emittedRows P A fs self Filename MinTime MinDistance) ∧
        rows.Pairwise (fun a b => doubleGe a.1 b.1 = true) ∧
        (QueryBlocked P A fs self Filename MinTime MinDistance).toOption.map (fun r => r.1) =
          some (fileHeaderBlock P (self.afterHeader P fs Filename).RecInfo ++ blockedColumns
            ++ String.join (rows.map (fun r => r.2))
            ++ trailerText P false 6
              (lastFrameRead P (packetTrace (blockedPacket P A MinTime MinDistance)
                (loopFuel (blockedStart P fs self Filename))
                (blockedStart P fs self Filename)) self.Frame)) := by
  rw [QueryBlocked_valid P A fs self Filename MinTime MinDistance hv]
  rcases packetLoop_outcome (blockedPacket_local P A MinTime MinDistance)
    (blockedPacket_ubOnly P A MinTime MinDistance)
    (blockedStart P fs self Filename) with h | ⟨t, h⟩
  · left; rw [h]; rfl
  · right
    have hf : t.self.Frame = lastFrameRead P
        (packetTrace (blockedPacket P A MinTime MinDistance)
          (loopFuel (blockedStart P fs self Filename)) (blockedStart P fs self Filename))
        self.Frame := by
      have := packetLoop_frame P (blockedPacket_frame P A MinTime MinDistance) _ _ _ h
      rw [← afterHeader_Frame P fs self Filename]
      exact this
    have hI : (blockedStart P fs self Filename).Info =
        { OStream.init with
          buf := fileHeaderBlock P (self.afterHeader P fs Filename).RecInfo ++ blockedColumns } := by
      simp only [blockedStart]
      rw [putBlockedHeader_eq _ rfl]
    have hinv := packetLoop_inv
      (fun s : BlockedState => s.Info = (blockedStart P fs self Filename).Info
        ∧ rowsSorted s.Results)
      (fun s hi => hi)
      (blockedPacket_rows P A MinTime MinDistance _) _ _ t
      ⟨rfl, List.Pairwise.nil, fun a ha => by cases ha⟩ h
    have h' := h
    rw [← blockedPacketWith_insertResult] at h'
    obtain ⟨t2, e2, r2⟩ := packetLoop_rel sameRows
      (fun s1 s2 hr => hr.1)
      (fun s1 s2 q hr => ⟨rfl, hr.2.1, hr.2.2.1, hr.2.2.2.1, hr.2.2.2.2⟩)
      (blockedPacketWith_rel insertResult logResult insertResult_perm logResult_perm
        P A MinTime MinDistance) _ _ (blockedStart P fs self Filename) t
      ⟨rfl, rfl, rfl, rfl, List.Perm.refl _⟩ h'
    refine ⟨blockedFlush P MinTime t.Actors t.Results, ?_, ?_, ?_⟩
    · simp only [emittedRows, e2]
      rw [← blockedFlushWith_insertResult, r2.2.2.2.1]
      exact blockedFlushWith_perm insertResult logResult insertResult_perm logResult_perm
        P MinTime _ _ _ r2.2.2.2.2
    · exact (blockedFlush_sorted P MinTime t.Actors t.Results hinv.2).1
    · rw [h]
      simp only [Except.toOption, Option.map_some', putTrailer_buf, putResults_eq, hinv.1, hI,
        hf, OStream.init]

theorem blocked_rows_sorted_and_complete_witness :
    validRecording referencePlatform (singleFile "Saved/s.log" scenarioS4)
        CarlaRecorderQuery.zero "s" ∧
    (faultOf (QueryBlocked referencePlatform referenceArith
        (singleFile "Saved/s.log" scenarioS4) CarlaRecorderQuery.zero "s" double_5 double_0_10)
        = some Fault.undefinedBehaviour ∨
      ∃ rows : List (Nat × String),
        rows.Perm (emittedRows referencePlatform referenceArith
          (singleFile "Saved/s.log" scenarioS4) CarlaRecorderQuery.zero "s" double_5
          double_0_10) ∧
        rows.Pairwise (fun a b => doubleGe a.1 b.1 = true) ∧
        (QueryBlocked referencePlatform referenceArith (singleFile "Saved/s.log" scenarioS4)
            CarlaRecorderQuery.zero "s" double_5 double_0_10).toOption.map (fun r => r.1) =
          some (fileHeaderBlock referencePlatform
              (CarlaRecorderQuery.zero.afterHeader referencePlatform
                (singleFile "Saved/s.log" scenarioS4) "s").RecInfo ++ blockedColumns
            ++ String.join (rows.map (fun r => r.2))
            ++ trailerText referencePlatform false 6
              (lastFrameRead referencePlatform
                (packetTrace (blockedPacket referencePlatform referenceArith double_5
                    double_0_10)
                  (loopFuel (blockedStart referencePlatform
                    (singleFile "Saved/s.log" scenarioS4) CarlaRecorderQuery.zero "s"))
                  (blockedStart referencePlatform (singleFile "Saved/s.log" scenarioS4)
                    CarlaRecorderQuery.zero "s"))
                CarlaRecorderQuery.zero.Frame))) :=
  (fun hv => ⟨hv, blocked_rows_sorted_and_complete referencePlatform referenceArith
    (singleFile "Saved/s.log" scenarioS4) CarlaRecorderQuery.zero "s" double_5 double_0_10 hv⟩)
    ⟨by decide, by decide, by decide!⟩

theorem entry_of_find (s : BlockedState) (e : BlockedActorInfo)
    (h : mapFind s.Actors s.record.DatabaseId = some e) : s.entry = e := by
  unfold BlockedState.entry mapIndex
  rw [h]

theorem blockedPosition_stopped (P : Platform) (A : BlockedArith) (MinTime MinDistance : Nat)
    (s : BlockedState)
    (hd : A.distanceLess s.entry.LastPosition s.record.Location MinDistance = true) :
    ∃ t e, blockedPosition P A MinTime MinDistance s = .ok t ∧ t.Results = s.Results ∧
      mapFind t.Actors s.record.DatabaseId = some e ∧
      e.Duration = A.add s.entry.Duration s.self.Frame.DurationThis ∧
      e.LastPosition = s.entry.LastPosition := by
  rw [blockedPosition_eq, if_pos hd]
  exact ⟨_, _, rfl, rfl, mapFind_mapAssign_self _ _ _, rfl, rfl⟩

theorem blockedPosition_moving (P : Platform) (A : BlockedArith) (MinTime MinDistance : Nat)
    (s : BlockedState)
    (hd : A.distanceLess s.entry.LastPosition s.record.Location MinDistance = false) :
    ∃ t e, blockedPosition P A MinTime MinDistance s = .ok t ∧
      t.Results = (if doubleGe s.entry.Duration MinTime = true then
          insertResult s.Results s.entry.Duration (blockedRow P s.record.DatabaseId s.entry)
        else s.Results) ∧
      mapFind t.Actors s.record.DatabaseId = some e ∧ e.Duration = 0 ∧
      e.LastPosition = s.record.Location := by
  rw [blockedPosition_eq, if_neg (by rw [hd]; exact Bool.false_ne_true)]
  exact ⟨_, _, rfl, rfl, mapFind_mapAssign_self _ _ _, rfl, rfl⟩

theorem ReadHeader_coupled {R : IfStream → IfStream → Prop} {V : IfStream → Prop}
    (hc : IsCoupling R V) (q : CarlaRecorderQuery) (g : IfStream)
    (hr : R q.File g) (hv : V (ReadHeader q).2.File) :
    ∃ g2, ReadHeader { q with File := g }
        = ((ReadHeader q).1, { (ReadHeader q).2 with File := g2 }) ∧
      R (ReadHeader q).2.File g2 := by
  have hflag := (hc.1 _ _ hr).2.1
  unfold ReadHeader at hv ⊢
  simp only [IfStream.eof] at hv ⊢
  by_cases he : q.File.eofbit = true
  · have hg : g.eofbit = true := by rw [← hflag]; exact he
    simp only [he, hg, if_true] at hv ⊢
    exact ⟨g, rfl, hr⟩
  · have hg : ¬ g.eofbit = true := by rw [← hflag]; exact he
    simp only [he, hg, if_false, Bool.false_eq_true] at hv ⊢
    have h2 : ∀ a : Nat, Reader (fun f =>
        ((a, (ReadValue 4 f q.Header.Size).1), (ReadValue 4 f q.Header.Size).2)) := fun a =>
      reader_congr (fun f => rfl)
        (reader_bind (ReadValue_reader 4 q.Header.Size) (fun b => reader_pure (a, b)))
    have hrd := reader_bind (ReadValue_reader 1 q.Header.Id) h2
    obtain ⟨e, r⟩ := hrd.2 R V hc q.File g hr hv
    simp only [Prod.mk.injEq] at e r
    refine ⟨_, ?_, r⟩
    simp only [← e.1, ← e.2]

theorem packetIter_le {σ : Type} [LoopState σ] {packet : σ → Except Fault σ}
    (hp : ∀ s t, packet s = .ok t → (LoopState.file s).Le (LoopState.file t)) :
    ∀ (k : Nat) (s b : σ), packetIter packet k s = some b →
      (LoopState.file s).Le (LoopState.file b) := by
  intro k
  induction k with
  | zero =>
    intro s b h
    simp only [packetIter, Option.some.injEq] at h
    subst h
    exact IfStream.le_refl _
  | succ n ih =>
    intro s b h
    simp only [packetIter] at h
    split at h
    · split at h
      · split at h
        · rename_i t ht
          have h1 := ReadHeader_le (LoopState.self s)
          have h2 := hp _ _ ht
          rw [LoopState.file_setSelf] at h2
          exact IfStream.le_trans (IfStream.le_trans h1 h2) (ih t b h)
        · cases h
      · cases h
    · cases h

theorem packetIter_coupled {σ : Type} [LoopState σ] {packet : σ → Except Fault σ}
    (hl : LocalStep packet) {R : IfStream → IfStream → Prop} {V : IfStream → Prop}
    (hc : IsCoupling R V) :
    ∀ (k : Nat) (s b : σ) (g : IfStream), R (LoopState.file s) g →
      packetIter packet k s = some b → V (LoopState.file b) →
      ∃ g2, packetIter packet k (LoopState.setFile s g) = some (LoopState.setFile b g2) ∧
        R (LoopState.file b) g2 := by
  intro k
  induction k with
  | zero =>
    intro s b g hr h _
    simp only [packetIter, Option.some.injEq] at h
    subst h
    exact ⟨g, rfl, hr⟩
  | succ n ih =>
    intro s b g hr h hv
    simp only [packetIter] at h
    split at h
    · rename_i hb
      split at h
      · rename_i hh
        split at h
        · rename_i t ht
          have hle3 := packetIter_le hl.1 n t b h
          have hle2 := hl.1 _ _ ht
          have hwf0 : (LoopState.file s).wf := (hc.1 _ _ hr).1
          have hwf1 : (ReadHeader (LoopState.self s)).2.File.wf :=
            (ReadHeader_le (LoopState.self s)).2.2.2.2 hwf0
          rw [LoopState.file_setSelf] at hle2
          have hwf2 : (LoopState.file t).wf := hle2.2.2.2.2 hwf1
          have hv2 : V (LoopState.file t) := hc.2.2.2 _ _ hwf2 hle3 hv
          have hv1 : V (ReadHeader (LoopState.self s)).2.File := hc.2.2.2 _ _ hwf1 hle2 hv2
          obtain ⟨g1, e1, r1⟩ := ReadHeader_coupled hc (LoopState.self s) g hr hv1
          have r1' : R (LoopState.file (LoopState.setSelf s (ReadHeader (LoopState.self s)).2))
              g1 := by rw [LoopState.file_setSelf]; exact r1
          obtain ⟨g2, e2, r2⟩ := hl.2 R V hc _ g1 t r1' ht hv2
          obtain ⟨g3, e3, r3⟩ := ih t b g2 r2 h hv
          refine ⟨g3, ?_, r3⟩
          have hfl := (hc.1 _ _ hr).2.2
          simp only [packetIter, LoopState.self_setFile, e1, LoopState.setSelf_setFile]
          have hb2 : g.toBool = true := by
            simp only [IfStream.toBool, LoopState.file] at hb hfl ⊢
            rw [← hfl]; exact hb
          simp only [hb2, hh, if_true]
          have e2' : packet (LoopState.setSelf s
              { (ReadHeader (LoopState.self s)).2 with File := g1 })
              = .ok (LoopState.setFile t g2) := by
            rw [← e2]
            simp only [LoopState.setFile, LoopState.self_setSelf, LoopState.setSelf_setSelf]
          rw [e2']
          exact e3
        · cases h
      · cases h
    · cases h

theorem packetIter_loop {σ : Type} [LoopState σ] (packet : σ → Except Fault σ) :
    ∀ (k : Nat) (s b : σ), packetIter packet k s = some b →
      ∀ n, packetLoop packet (k + n) s = packetLoop packet n b := by
  intro k
  induction k with
  | zero =>
    intro s b h n
    simp only [packetIter, Option.some.injEq] at h
    subst h
    rw [Nat.zero_add]
  | succ m ih =>
    intro s b h n
    simp only [packetIter] at h
    rw [Nat.succ_add]
    simp only [packetLoop]
    split at h
    · rename_i hb
      split at h
      · rename_i hh
        split at h
        · rename_i t ht
          simp only [hb, hh, if_true, ht]
          exact ih t b h n
        · cases h
      · cases h
    · cases h

theorem packetLoop_fuel_succ {σ : Type} [LoopState σ] (packet : σ → Except Fault σ) :
    ∀ (fuel : Nat) (s : σ), packetLoop packet fuel s ≠ .error .outOfFuel →
      packetLoop packet (fuel + 1) s = packetLoop packet fuel s := by
  intro fuel
  induction fuel with
  | zero => intro s h; exact absurd rfl h
  | succ n ih =>
    intro s h
    rw [packetLoop] at h ⊢
    by_cases hb : (LoopState.self s).File.toBool = true
    · simp only [hb, if_true] at h ⊢
      by_cases hh : (ReadHeader (LoopState.self s)).1 = true
      · simp only [hh, if_true] at h ⊢
        cases hk : packet (LoopState.setSelf s (ReadHeader (LoopState.self s)).2) with
        | error e => rw [packetLoop]; simp only [hb, hh, if_true, hk]
        | ok t =>
          simp only [hk] at h ⊢
          rw [ih t h]
          conv_rhs => rw [packetLoop]
          simp only [hb, hh, if_true, hk]
      · rw [packetLoop]; simp only [hb, hh, if_true, if_false, Bool.false_eq_true]
    · rw [packetLoop]; simp only [hb, if_false, Bool.false_eq_true]

theorem packetLoop_fuel {σ : Type} [LoopState σ] {packet : σ → Except Fault σ}
    (hp : ∀ s t, packet s = .ok t → (LoopState.file s).Le (LoopState.file t))
    (hu : UBOnly packet) (s : σ) (fuel : Nat) (h : (LoopState.file s).budget ≤ fuel) :
    ∀ n, packetLoop packet (fuel + n) s = packetLoop packet fuel s := by
  intro n
  induction n with
  | zero => rfl
  | succ m ih =>
    rw [← Nat.add_assoc, packetLoop_fuel_succ packet (fuel + m) s, ih]
    rw [ih]
    exact packetLoop_total hp hu fuel s h

theorem packetLoop_fuel_eq {σ : Type} [LoopState σ] {packet : σ → Except Fault σ}
    (hp : ∀ s t, packet s = .ok t → (LoopState.file s).Le (LoopState.file t))
    (hu : UBOnly packet) (s : σ) (fuel1 fuel2 : Nat)
    (h1 : (LoopState.file s).budget ≤ fuel1) (h2 : (LoopState.file s).budget ≤ fuel2) :
    packetLoop packet fuel1 s = packetLoop packet fuel2 s := by
  have a := packetLoop_fuel hp hu s fuel1 h1 fuel2
  have b := packetLoop_fuel hp hu s fuel2 h2 fuel1
  rw [← a, ← b, Nat.add_comm]

theorem packetLoop_coupled {σ : Type} [LoopState σ] {packet : σ → Except Fault σ}
    (hl : LocalStep packet) {R : IfStream → IfStream → Prop}
    (hc : IsCoupling R (fun _ => True)) :
    ∀ (fuel : Nat) (s t : σ) (g : IfStream), R (LoopState.file s) g →
      packetLoop packet fuel s = .ok t →
      ∃ g2, packetLoop packet fuel (LoopState.setFile s g) = .ok (LoopState.setFile t g2) := by
  intro fuel
  induction fuel with
  | zero => intro s t g _ h; cases h
  | succ n ih =>
    intro s t g hr h
    have hfl := (hc.1 _ _ hr).2.2
    simp only [packetLoop] at h
    simp only [packetLoop, LoopState.self_setFile]
    by_cases hb : (LoopState.self s).File.toBool = true
    · have hb2 : g.toBool = true := by
        simp only [IfStream.toBool, LoopState.file] at hb hfl ⊢
        rw [← hfl]; exact hb
      simp only [hb, hb2, if_true] at h ⊢
      obtain ⟨g1, e1, r1⟩ := ReadHeader_coupled hc (LoopState.self s) g hr trivial
      rw [e1]
      simp only [LoopState.setSelf_setFile]
      by_cases hh : (ReadHeader (LoopState.self s)).1 = true
      · simp only [hh, if_true] at h ⊢
        cases hk : packet (LoopState.setSelf s (ReadHeader (LoopState.self s)).2) with
        | error e => rw [hk] at h; cases h
        | ok u =>
          rw [hk] at h
          have r1' : R (LoopState.file (LoopState.setSelf s (ReadHeader (LoopState.self s)).2))
              g1 := by rw [LoopState.file_setSelf]; exact r1
          obtain ⟨g2, e2, r2⟩ := hl.2 R _ hc _ g1 u r1' hk trivial
          have e2' : packet (LoopState.setSelf s
              { (ReadHeader (LoopState.self s)).2 with File := g1 })
              = .ok (LoopState.setFile u g2) := by
            rw [← e2]
            simp only [LoopState.setFile, LoopState.self_setSelf, LoopState.setSelf_setSelf]
          rw [e2']
          exact ih u t g2 r2 h
      · simp only [hh, Bool.false_eq_true, if_false, Except.ok.injEq] at h ⊢
        subst h
        refine ⟨g1, ?_⟩
        simp only [LoopState.setFile, LoopState.self_setSelf, LoopState.setSelf_setSelf]
    · have hb2 : ¬ g.toBool = true := by
        simp only [IfStream.toBool, LoopState.file] at hb hfl ⊢
        rw [← hfl]; exact hb
      simp only [hb, hb2, if_false, Bool.false_eq_true, Except.ok.injEq] at h ⊢
      subst h
      exact ⟨g, rfl⟩

theorem IfStream.sim_symm {f g : IfStream} (h : f.Sim g) : g.Sim f := by
  obtain ⟨hw, hr, ho, he, hf⟩ := h
  refine ⟨?_, hr.symm, ho.symm, he.symm, hf.symm⟩
  intro x
  rw [← hf]
  exact hw (by rw [he]; exact x)

theorem fault_cases (e : Fault) (h : e ≠ Fault.outOfFuel) : e = Fault.undefinedBehaviour := by
  cases e
  · rfl
  · exact absurd rfl h

theorem packetLoop_sim {σ : Type} [LoopState σ] {packet : σ → Except Fault σ}
    (hl : LocalStep packet) (hu : UBOnly packet) (fuel : Nat) (s : σ) (g : IfStream)
    (hr : (LoopState.file s).Sim g) (h1 : (LoopState.file s).budget ≤ fuel)
    (h2 : g.budget ≤ fuel) :
    sameUpToFile (packetLoop packet fuel s) (packetLoop packet fuel (LoopState.setFile s g)) := by
  unfold sameUpToFile
  cases hA : packetLoop packet fuel s with
  | ok t =>
    exact packetLoop_coupled hl isCoupling_sim fuel s t g hr hA
  | error e =>
    simp only
    have he : e = Fault.undefinedBehaviour :=
      fault_cases e (fun x => packetLoop_total hl.1 hu fuel s h1 (by rw [hA, x]))
    cases hB : packetLoop packet fuel (LoopState.setFile s g) with
    | ok t2 =>
      have hr2 : (LoopState.file (LoopState.setFile s g)).Sim (LoopState.file s) := by
        rw [LoopState.file_setFile]; exact IfStream.sim_symm hr
      obtain ⟨g2, e2⟩ := packetLoop_coupled hl isCoupling_sim fuel _ t2 _ hr2 hB
      rw [LoopState.setFile_setFile, LoopState.setFile_file, hA] at e2
      cases e2
    | error e2 =>
      have he2 : e2 = Fault.undefinedBehaviour :=
        fault_cases e2 (fun x => packetLoop_total hl.1 hu fuel _
          (by rw [LoopState.file_setFile]; exact h2) (by rw [hB, x]))
      rw [he, he2]

theorem IfStream.read_of_rest (f : IfStream) (n : Nat) (hg : f.good = true)
    (hn : n ≤ f.rest.length) :
    f.read n = (some (f.rest.take n), { f with pos := f.pos + n }) := by
  unfold IfStream.read
  rw [if_pos hg, if_pos hn]

theorem IfStream.rest_advance (f : IfStream) (n : Nat) :
    IfStream.rest { f with pos := f.pos + n } = f.rest.drop n := by
  unfold IfStream.rest
  cases f.isOpen
  · simp
  · simp only [if_true, List.drop_drop]

theorem ReadValue_of_rest (f : IfStream) (n v : Nat) (hg : f.good = true)
    (hn : n ≤ f.rest.length) :
    ReadValue n f v = (leValue (f.rest.take n), { f with pos := f.pos + n }) := by
  unfold ReadValue
  rw [IfStream.read_of_rest f n hg hn]

theorem ReadHeader_of_rest (q : CarlaRecorderQuery) (hg : q.File.good = true)
    (hn : 5 ≤ q.File.rest.length) :
    ReadHeader q = (true, { q with
      File := { q.File with pos := q.File.pos + 5 },
      Header := { Id := leValue (q.File.rest.take 1),
                  Size := leValue ((q.File.rest.drop 1).take 4) } }) := by
  have he : ¬ q.File.eof = true := by
    unfold IfStream.good at hg
    unfold IfStream.eof
    cases h : q.File.eofbit
    · exact Bool.false_ne_true
    · rw [h] at hg; simp at hg
  have h1 := ReadValue_of_rest q.File 1 q.Header.Id hg (by omega)
  have hg2 : IfStream.good { q.File with pos := q.File.pos + 1 } = true := hg
  have h2 := ReadValue_of_rest { q.File with pos := q.File.pos + 1 } 4 q.Header.Size hg2
    (by rw [IfStream.rest_advance, List.length_drop]; omega)
  rw [IfStream.rest_advance] at h2
  unfold ReadHeader
  rw [if_neg he]
  simp only [h1, h2, Nat.add_assoc]

theorem ReadHeader_header_irrelevant (q : CarlaRecorderQuery) (H : CarlaRecorderPacketHeader)
    (hg : q.File.good = true) (hn : 5 ≤ q.File.rest.length) :
    ReadHeader { q with Header := H } = ReadHeader q := by
  rw [ReadHeader_of_rest q hg hn, ReadHeader_of_rest { q with Header := H } hg hn]

theorem packetLoop_header_irrelevant {σ : Type} [LoopState σ] (packet : σ → Except Fault σ)
    (s : σ) (H : CarlaRecorderPacketHeader) (hg : (LoopState.file s).good = true)
    (hn : 5 ≤ (LoopState.file s).rest.length) (n : Nat) :
    packetLoop packet n (LoopState.setSelf s { LoopState.self s with Header := H })
      = packetLoop packet n s := by
  cases n with
  | zero => rfl
  | succ m =>
    have hb : (LoopState.self s).File.toBool = true := by
      unfold IfStream.good at hg
      simp only [LoopState.file] at hg
      simp only [IfStream.toBool]
      cases h : (LoopState.self s).File.failbit
      · rfl
      · rw [h] at hg; simp at hg
    simp only [packetLoop, LoopState.self_setSelf, LoopState.setSelf_setSelf]
    rw [ReadHeader_header_irrelevant (LoopState.self s) H hg hn]
    simp only [hb, if_true]

/-- One iteration of a packet loop on a packet that the `switch` skips: the header is
read and `SkipPacket` moves the read position over the payload. -/
theorem packetIter_skip {σ : Type} [LoopState σ] (packet : σ → Except Fault σ) (s : σ)
    (Id Size : Nat)
    (hsk : ∀ d : σ, (LoopState.self d).Header.Id = Id →
      packet d = .ok (LoopState.setSelf d (SkipPacket (LoopState.self d))))
    (hg : (LoopState.file s).good = true) (hn : 5 ≤ (LoopState.file s).rest.length)
    (hid : leValue ((LoopState.file s).rest.take 1) = Id)
    (hsize : leValue (((LoopState.file s).rest.drop 1).take 4) = Size) :
    packetIter packet 1 s = some (LoopState.setSelf s { LoopState.self s with
      File := { LoopState.file s with pos := (LoopState.file s).pos + (5 + Size) },
      Header := { Id := Id, Size := Size } }) := by
  have hf : (LoopState.file s).failbit = false := by
    unfold IfStream.good at hg
    cases h : (LoopState.file s).failbit
    · rfl
    · rw [h] at hg; simp at hg
  have he : (LoopState.file s).eofbit = false := by
    unfold IfStream.good at hg
    cases h : (LoopState.file s).eofbit
    · rfl
    · rw [h] at hg; simp at hg
  have ho : (LoopState.file s).isOpen = true := by
    cases h : (LoopState.file s).isOpen
    · unfold IfStream.rest at hn
      rw [h] at hn
      simp at hn
    · rfl
  have hb : (LoopState.self s).File.toBool = true := by
    simp only [LoopState.file] at hf
    simp only [IfStream.toBool, hf, Bool.not_false]
  simp only [LoopState.file] at hg hn hid hsize hf he ho
  simp only [packetIter, hb, if_true, ReadHeader_of_rest (LoopState.self s) hg hn, hid, hsize]
  rw [hsk _ (by rw [LoopState.self_setSelf])]
  simp only [LoopState.self_setSelf, LoopState.setSelf_setSelf, SkipPacket, IfStream.seekg, hf,
    ho, he, Bool.false_eq_true, if_false, if_true, LoopState.file, Nat.add_assoc]

theorem IfStream.flags_of_good {f : IfStream} (h : f.good = true) :
    f.eofbit = false ∧ f.failbit = false := by
  unfold IfStream.good at h
  cases he : f.eofbit <;> cases hf : f.failbit <;> rw [he, hf] at h <;> simp at h ⊢

theorem IfStream.rest_of_data (f : IfStream) (pre rest : List Nat) (ho : f.isOpen = true)
    (hd : f.data = pre ++ rest) (hp : f.pos = pre.length) : f.rest = rest := by
  unfold IfStream.rest
  rw [if_pos ho, hd, hp, List.drop_left' rfl]

theorem IfStream.budget_le_length (f : IfStream) : f.budget ≤ f.data.length + 2 := by
  unfold IfStream.budget
  split <;> omega

/-- The packet loop on a file with a skipped packet inserted at a packet boundary ends as
the packet loop on the file without it, up to the stream. -/
theorem packetLoop_insert {σ : Type} [LoopState σ] {packet : σ → Except Fault σ}
    (hl : LocalStep packet) (hu : UBOnly packet) (Id : Nat)
    (hsk : ∀ d : σ, (LoopState.self d).Header.Id = Id →
      packet d = .ok (LoopState.setSelf d (SkipPacket (LoopState.self d))))
    (sA : σ) (gB : IfStream) (pre post sizeBytes payload : List Nat) (id k : Nat) (b : σ)
    (hdA : (LoopState.file sA).data = pre ++ post)
    (hdB : gB.data = pre ++ (id :: sizeBytes ++ payload) ++ post)
    (hrel : (LoopState.file sA).PreEq pre.length gB)
    (hopen : (LoopState.file sA).isOpen = true)
    (hId : leValue [id] = Id) (hsz : sizeBytes.length = 4)
    (hpl : payload.length = leValue sizeBytes) (hpost : 5 ≤ post.length)
    (hiter : packetIter packet k sA = some b)
    (hpos : (LoopState.file b).pos = pre.length)
    (hgood : (LoopState.file b).good = true) :
    sameUpToFile (packetLoop packet (loopFuel sA) sA)
      (packetLoop packet (loopFuel (LoopState.setFile sA gB)) (LoopState.setFile sA gB)) := by
  have hleA := packetIter_le hl.1 k sA b hiter
  obtain ⟨g, hB, hpre⟩ := packetIter_coupled hl (isCoupling_preEq pre.length) k sA b gB hrel
    hiter ⟨hgood, Nat.le_of_eq hpos⟩
  have hleB := packetIter_le hl.1 k _ _ hB
  rw [LoopState.file_setFile, LoopState.file_setFile] at hleB
  obtain ⟨hwf, -, hp, ho, he, hf⟩ := hpre
  obtain ⟨hbe, hbf⟩ := IfStream.flags_of_good hgood
  have hbo : (LoopState.file b).isOpen = true := by rw [hleA.2.1]; exact hopen
  have hgo : g.isOpen = true := by rw [← ho]; exact hbo
  have hge : g.eofbit = false := by rw [← he]; exact hbe
  have hgf : g.failbit = false := by rw [← hf]; exact hbf
  have hgg : g.good = true := by unfold IfStream.good; rw [hge, hgf]; rfl
  have hgp : g.pos = pre.length := by rw [← hp]; exact hpos
  have hgd : g.data = pre ++ ((id :: sizeBytes ++ payload) ++ post) := by
    rw [hleB.1, hdB, List.append_assoc]
  have hgr : g.rest = (id :: sizeBytes ++ payload) ++ post :=
    IfStream.rest_of_data g pre _ hgo hgd hgp
  have hbr : (LoopState.file b).rest = post :=
    IfStream.rest_of_data _ pre post hbo (by rw [hleA.1]; exact hdA) hpos
  -- the iteration of the second run on the inserted packet
  have hskip := packetIter_skip packet (LoopState.setFile b g) Id (leValue sizeBytes) hsk
    (by rw [LoopState.file_setFile]; exact hgg)
    (by rw [LoopState.file_setFile, hgr]; simp only [List.length_append, List.length_cons]; omega)
    (by rw [LoopState.file_setFile, hgr]; simpa using hId)
    (by
      rw [LoopState.file_setFile, hgr]
      have : ((id :: sizeBytes ++ payload) ++ post).drop 1 = sizeBytes ++ (payload ++ post) := by
        simp
      rw [this, List.take_left' hsz])
  rw [LoopState.file_setFile, LoopState.self_setFile, LoopState.setSelf_setFile] at hskip
  have hg2r : IfStream.rest { g with pos := g.pos + (5 + leValue sizeBytes) } = post := by
    rw [IfStream.rest_advance, hgr]
    have hl5 : (id :: sizeBytes ++ payload).length = 5 + leValue sizeBytes := by
      simp only [List.length_append, List.length_cons]; omega
    rw [List.drop_left' hl5]
  have hg2g : IfStream.good { g with pos := g.pos + (5 + leValue sizeBytes) } = true := hgg
  have hhead := fun n => packetLoop_header_irrelevant packet
    (LoopState.setFile b { g with pos := g.pos + (5 + leValue sizeBytes) })
    { Id := Id, Size := leValue sizeBytes }
    (by rw [LoopState.file_setFile]; exact hg2g)
    (by rw [LoopState.file_setFile, hg2r]; exact hpost) n
  rw [LoopState.self_setFile, LoopState.setSelf_setFile] at hhead
  have hsim : (LoopState.file b).Sim { g with pos := g.pos + (5 + leValue sizeBytes) } :=
    ⟨hwf, by rw [hbr, hg2r], ho, he, hf⟩
  -- the fuel
  have hbudA : (LoopState.file sA).budget ≤ loopFuel sA := budget_le_loopFuel sA
  have hbudB : (LoopState.file (LoopState.setFile sA gB)).budget
      ≤ loopFuel (LoopState.setFile sA gB) := budget_le_loopFuel _
  have hbudb : (LoopState.file b).budget ≤ loopFuel sA :=
    Nat.le_trans (IfStream.budget_le_of_le hleA) hbudA
  have hbudg : IfStream.budget { g with pos := g.pos + (5 + leValue sizeBytes) }
      ≤ loopFuel (LoopState.setFile sA gB) := by
    have h1 := IfStream.budget_le_length { g with pos := g.pos + (5 + leValue sizeBytes) }
    have h2 : loopFuel (LoopState.setFile sA gB) = gB.data.length + 2 := by
      simp only [loopFuel, LoopState.self_setFile]
    rw [h2, ← hleB.1]
    exact h1
  have eA : packetLoop packet (loopFuel sA) sA
      = packetLoop packet (loopFuel sA + loopFuel (LoopState.setFile sA gB)) b := by
    rw [← packetIter_loop packet k sA b hiter]
    exact packetLoop_fuel_eq hl.1 hu sA _ _ hbudA (by omega)
  have eB : packetLoop packet (loopFuel (LoopState.setFile sA gB)) (LoopState.setFile sA gB)
      = packetLoop packet (loopFuel sA + loopFuel (LoopState.setFile sA gB))
          (LoopState.setFile b { g with pos := g.pos + (5 + leValue sizeBytes) }) := by
    rw [← hhead, ← Nat.zero_add (loopFuel sA + loopFuel (LoopState.setFile sA gB)),
      ← packetIter_loop packet 1 _ _ hskip, Nat.zero_add,
      ← packetIter_loop packet k _ _ hB]
    exact packetLoop_fuel_eq hl.1 hu _ _ _ hbudB (by omega)
  rw [eA, eB]
  exact packetLoop_sim hl hu _ b _ hsim (by omega) (by omega)

/-- Two files that agree on their first `p` bytes leave, after the file header is read
within these bytes, query objects that differ in the stream only. -/
theorem afterHeader_coupled (P : Platform) (fsA fsB : String → Option (List Nat))
    (self : CarlaRecorderQuery) (Filename : String) (dataA dataB : List Nat) (p : Nat)
    (fb : IfStream)
    (hv : validRecording P fsA self Filename)
    (hA : fsA (P.GetRecorderFilename Filename) = some dataA)
    (hB : fsB (P.GetRecorderFilename Filename) = some dataB)
    (hpre : dataA.take p = dataB.take p)
    (hle : (self.afterHeader P fsA Filename).File.Le fb) (hw : fb.Within p) :
    ∃ gB, self.afterHeader P fsB Filename
        = { self.afterHeader P fsA Filename with File := gB } ∧
      (self.afterHeader P fsA Filename).File.PreEq p gB ∧
      (self.afterHeader P fsA Filename).File.data = dataA ∧
      (self.afterHeader P fsA Filename).File.isOpen = true ∧
      gB.data = dataB ∧
      validRecording P fsB self Filename := by
  obtain ⟨hclosed, -, hmagic⟩ := hv
  have hoA : self.File.open (fsA (P.GetRecorderFilename Filename))
      = { data := dataA, pos := 0, isOpen := true, eofbit := false, failbit := false } := by
    simp only [IfStream.open, hclosed, Bool.false_eq_true, if_false, hA]
  have hoB : self.File.open (fsB (P.GetRecorderFilename Filename))
      = { data := dataB, pos := 0, isOpen := true, eofbit := false, failbit := false } := by
    simp only [IfStream.open, hclosed, Bool.false_eq_true, if_false, hB]
  have hrd := CarlaRecorderInfo_Read_reader P self.RecInfo
  have hwf0 : IfStream.wf
      { data := dataA, pos := 0, isOpen := true, eofbit := false, failbit := false } := by
    intro h; cases h
  have hle0 := hrd.1 (IfStream.mk dataA 0 true false false)
  have hrel0 : IfStream.PreEq p
      { data := dataA, pos := 0, isOpen := true, eofbit := false, failbit := false }
      { data := dataB, pos := 0, isOpen := true, eofbit := false, failbit := false } :=
    ⟨hwf0, hpre, rfl, rfl, rfl, rfl⟩
  have eA := afterHeader_eq P fsA self Filename
  have eB := afterHeader_eq P fsB self Filename
  rw [hoA] at eA
  rw [hoB] at eB
  have hfA : (self.afterHeader P fsA Filename).File = (CarlaRecorderInfo.Read P
      { data := dataA, pos := 0, isOpen := true, eofbit := false, failbit := false }
      self.RecInfo).2 := by rw [eA]
  have hwfA : (self.afterHeader P fsA Filename).File.wf := by
    rw [hfA]; exact hle0.2.2.2.2 hwf0
  have hwA : (self.afterHeader P fsA Filename).File.Within p :=
    IfStream.within_of_le hwfA hle hw
  rw [hfA] at hwA
  obtain ⟨e, r⟩ := hrd.2 _ _ (isCoupling_preEq p) _ _ hrel0 hwA
  simp only at e r
  have hleB := hrd.1 (IfStream.mk dataB 0 true false false)
  refine ⟨_, ?_, ?_, ?_, ?_, hleB.1, ?_⟩
  · rw [eB, eA, ← e]
  · rw [hfA]; exact r
  · rw [hfA]; exact hle0.1
  · rw [hfA]; exact hle0.2.1
  · refine ⟨hclosed, by rw [hB]; rfl, ?_⟩
    rw [eB, ← e]
    rw [eA] at hmagic
    exact hmagic

theorem infoPacket_other (P : Platform) (C : PhysicsCodec) (bShowAll : Bool) (Id : Nat)
    (hk : P.packetKind Id = .other) (d : InfoState) (hd : (LoopState.self d).Header.Id = Id) :
    infoPacket P C bShowAll d
      = .ok (LoopState.setSelf d (SkipPacket (LoopState.self d))) := by
  have hd2 : P.packetKind d.self.Header.Id = .other := by rw [← hk, ← hd]; rfl
  unfold infoPacket
  rw [hd2]
  rfl

theorem collisionsPacket_other (P : Platform) (Category1 Category2 : Char) (Id : Nat)
    (hk : P.packetKind Id = .other) (d : CollisionsState)
    (hd : (LoopState.self d).Header.Id = Id) :
    collisionsPacket P Category1 Category2 d
      = .ok (LoopState.setSelf d (SkipPacket (LoopState.self d))) := by
  have hd2 : P.packetKind d.self.Header.Id = .other := by rw [← hk, ← hd]; rfl
  unfold collisionsPacket
  rw [hd2]
  rfl

theorem blockedPacket_other (P : Platform) (A : BlockedArith) (MinTime MinDistance : Nat)
    (Id : Nat) (hk : P.packetKind Id = .other) (d : BlockedState)
    (hd : (LoopState.self d).Header.Id = Id) :
    blockedPacket P A MinTime MinDistance d
      = .ok (LoopState.setSelf d (SkipPacket (LoopState.self d))) := by
  have hd2 : P.packetKind d.self.Header.Id = .other := by rw [← hk, ← hd]; rfl
  unfold blockedPacket
  rw [hd2]
  rfl

theorem reportOf_info (P : Platform) (rA rB : Except Fault InfoState) :
    sameUpToFile rA rB →
    reportOf (match rB with
      | .error e => .error e
      | .ok s => .ok ((putTrailer P s.self.Frame s.Info).buf,
          { s.self with File := s.self.File.close }))
    = reportOf (match rA with
      | .error e => .error e
      | .ok s => .ok ((putTrailer P s.self.Frame s.Info).buf,
          { s.self with File := s.self.File.close })) := by
  intro h
  unfold sameUpToFile at h
  cases rA with
  | error e => simp only at h; subst h; rfl
  | ok t =>
    obtain ⟨g, hg⟩ := h
    subst hg
    rfl

theorem reportOf_collisions (P : Platform) (rA rB : Except Fault CollisionsState) :
    sameUpToFile rA rB →
    reportOf (match rB with
      | .error e => .error e
      | .ok s => .ok ((putTrailer P s.self.Frame s.Info).buf,
          { s.self with File := s.self.File.close }))
    = reportOf (match rA with
      | .error e => .error e
      | .ok s => .ok ((putTrailer P s.self.Frame s.Info).buf,
          { s.self with File := s.self.File.close })) := by
  intro h
  unfold sameUpToFile at h
  cases rA with
  | error e => simp only at h; subst h; rfl
  | ok t =>
    obtain ⟨g, hg⟩ := h
    subst hg
    rfl

theorem reportOf_blocked (P : Platform) (MinTime : Nat) (rA rB : Except Fault BlockedState) :
    sameUpToFile rA rB →
    reportOf (match rB with
      | .error e => .error e
      | .ok s => .ok ((putTrailer P s.self.Frame
            (putResults s.Info (blockedFlush P MinTime s.Actors s.Results))).buf,
          { s.self with File := s.self.File.close }))
    = reportOf (match rA with
      | .error e => .error e
      | .ok s => .ok ((putTrailer P s.self.Frame
            (putResults s.Info (blockedFlush P MinTime s.Actors s.Results))).buf,
          { s.self with File := s.self.File.close })) := by
  intro h
  unfold sameUpToFile at h
  cases rA with
  | error e => simp only at h; subst h; rfl
  | ok t =>
    obtain ⟨g, hg⟩ := h
    subst hg
    rfl

theorem packetBoundary_state {σ : Type} [LoopState σ] (packet : σ → Except Fault σ) (s : σ)
    (k p : Nat) (h : packetBoundary packet s k p = true) :
    ∃ b, packetIter packet k s = some b ∧ (LoopState.file b).pos = p ∧
      (LoopState.file b).good = true := by
  unfold packetBoundary at h
  cases hi : packetIter packet k s with
  | none => rw [hi] at h; cases h
  | some b =>
    rw [hi] at h
    simp only [Bool.and_eq_true, decide_eq_true_eq] at h
    exact ⟨b, rfl, h.1, h.2⟩

theorem take_insert (pre mid post : List Nat) :
    (pre ++ post).take pre.length = (pre ++ mid ++ post).take pre.length := by
  rw [List.take_left' rfl, List.append_assoc, List.take_left' rfl]

theorem QueryInfo_insert (P : Platform) (C : PhysicsCodec) (hC : C.Local)
    (fsA fsB : String → Option (List Nat)) (self : CarlaRecorderQuery) (Filename : String)
    (pre post sizeBytes payload : List Nat) (id : Nat) (bShowAll : Bool)
    (hv : validRecording P fsA self Filename)
    (hA : fsA (P.GetRecorderFilename Filename) = some (pre ++ post))
    (hB : fsB (P.GetRecorderFilename Filename)
      = some (pre ++ (id :: sizeBytes ++ payload) ++ post))
    (hkind : P.packetKind (leValue [id]) = .other)
    (hsz : sizeBytes.length = 4) (hpl : payload.length = leValue sizeBytes)
    (hpost : 5 ≤ post.length) (k : Nat)
    (hk : packetBoundary (infoPacket P C bShowAll) (infoStart P fsA self Filename) k
      pre.length = true) :
    reportOf (QueryInfo P C fsB self Filename bShowAll)
      = reportOf (QueryInfo P C fsA self Filename bShowAll) := by
  obtain ⟨b, hiter, hpos, hgood⟩ := packetBoundary_state _ _ _ _ hk
  have hl := infoPacket_local P C hC bShowAll
  have hle := packetIter_le hl.1 k _ b hiter
  obtain ⟨gB, eB, hrel, hdA, hopen, hdB, hvB⟩ := afterHeader_coupled P fsA fsB self Filename _ _
    pre.length (LoopState.file b) hv hA hB (take_insert pre _ post) hle
    ⟨hgood, Nat.le_of_eq hpos⟩
  have hstart : infoStart P fsB self Filename
      = LoopState.setFile (infoStart P fsA self Filename) gB := by
    unfold infoStart
    rw [eB]
    rfl
  rw [QueryInfo_valid P C fsA self Filename bShowAll hv,
    QueryInfo_valid P C fsB self Filename bShowAll hvB, hstart]
  exact reportOf_info P _ _ (packetLoop_insert hl (infoPacket_ubOnly P C bShowAll) (leValue [id])
    (infoPacket_other P C bShowAll _ hkind) (infoStart P fsA self Filename) gB pre post sizeBytes payload id k b hdA hdB hrel
    hopen rfl hsz hpl hpost hiter hpos hgood)

theorem QueryCollisions_insert (P : Platform)
    (fsA fsB : String → Option (List Nat)) (self : CarlaRecorderQuery) (Filename : String)
    (pre post sizeBytes payload : List Nat) (id : Nat) (Category1 Category2 : Char)
    (hv : validRecording P fsA self Filename)
    (hA : fsA (P.GetRecorderFilename Filename) = some (pre ++ post))
    (hB : fsB (P.GetRecorderFilename Filename)
      = some (pre ++ (id :: sizeBytes ++ payload) ++ post))
    (hkind : P.packetKind (leValue [id]) = .other)
    (hsz : sizeBytes.length = 4) (hpl : payload.length = leValue sizeBytes)
    (hpost : 5 ≤ post.length) (k : Nat)
    (hk : packetBoundary (collisionsPacket P Category1 Category2)
      (collisionsStart P fsA self Filename) k pre.length = true) :
    reportOf (QueryCollisions P fsB self Filename Category1 Category2)
      = reportOf (QueryCollisions P fsA self Filename Category1 Category2) := by
  obtain ⟨b, hiter, hpos, hgood⟩ := packetBoundary_state _ _ _ _ hk
  have hl := collisionsPacket_local P Category1 Category2
  have hle := packetIter_le hl.1 k _ b hiter
  obtain ⟨gB, eB, hrel, hdA, hopen, hdB, hvB⟩ := afterHeader_coupled P fsA fsB self Filename _ _
    pre.length (LoopState.file b) hv hA hB (take_insert pre _ post) hle
    ⟨hgood, Nat.le_of_eq hpos⟩
  have hstart : collisionsStart P fsB self Filename
      = LoopState.setFile (collisionsStart P fsA self Filename) gB := by
    unfold collisionsStart
    rw [eB]
    rfl
  rw [QueryCollisions_valid P fsA self Filename Category1 Category2 hv,
    QueryCollisions_valid P fsB self Filename Category1 Category2 hvB, hstart]
  exact reportOf_collisions P _ _ (packetLoop_insert hl
    (collisionsPacket_ubOnly P Category1 Category2) (leValue [id])
    (collisionsPacket_other P Category1 Category2 _ hkind)
    (collisionsStart P fsA self Filename) gB pre post sizeBytes payload id k b
    hdA hdB hrel hopen rfl hsz hpl hpost hiter hpos hgood)

theorem QueryBlocked_insert (P : Platform) (A : BlockedArith)
    (fsA fsB : String → Option (List Nat)) (self : CarlaRecorderQuery) (Filename : String)
    (pre post sizeBytes payload : List Nat) (id : Nat) (MinTime MinDistance : Nat)
    (hv : validRecording P fsA self Filename)
    (hA : fsA (P.GetRecorderFilename Filename) = some (pre ++ post))
    (hB : fsB (P.GetRecorderFilename Filename)
      = some (pre ++ (id :: sizeBytes ++ payload) ++ post))
    (hkind : P.packetKind (leValue [id]) = .other)
    (hsz : sizeBytes.length = 4) (hpl : payload.length = leValue sizeBytes)
    (hpost : 5 ≤ post.length) (k : Nat)
    (hk : packetBoundary (blockedPacket P A MinTime MinDistance)
      (blockedStart P fsA self Filename) k pre.length = true) :
    reportOf (QueryBlocked P A fsB self Filename MinTime MinDistance)
      = reportOf (QueryBlocked P A fsA self Filename MinTime MinDistance) := by
  obtain ⟨b, hiter, hpos, hgood⟩ := packetBoundary_state _ _ _ _ hk
  have hl := blockedPacket_local P A MinTime MinDistance
  have hle := packetIter_le hl.1 k _ b hiter
  obtain ⟨gB, eB, hrel, hdA, hopen, hdB, hvB⟩ := afterHeader_coupled P fsA fsB self Filename _ _
    pre.length (LoopState.file b) hv hA hB (take_insert pre _ post) hle
    ⟨hgood, Nat.le_of_eq hpos⟩
  have hstart : blockedStart P fsB self Filename
      = LoopState.setFile (blockedStart P fsA self Filename) gB := by
    unfold blockedStart
    rw [eB]
    rfl
  rw [QueryBlocked_valid P A fsA self Filename MinTime MinDistance hv,
    QueryBlocked_valid P A fsB self Filename MinTime MinDistance hvB, hstart]
  exact reportOf_blocked P MinTime _ _ (packetLoop_insert hl
    (blockedPacket_ubOnly P A MinTime MinDistance) (leValue [id])
    (blockedPacket_other P A MinTime MinDistance _ hkind)
    (blockedStart P fsA self Filename) gB pre post sizeBytes payload id k b
    hdA hdB hrel hopen rfl hsz hpl hpost hiter hpos hgood)

/-- C17. For each of the three queries and every file that opens and has a valid magic:
let the position after the bytes `pre` be a packet boundary of the run on `pre ++ post`
(the loop is back at its head there after some number of packets, with a good stream) and
let `post` hold at least the header of the next packet.  Inserting there a packet whose
id is not a known packet kind, with any declared Size and any Size payload bytes, leaves
the outcome of the query unchanged: the same report, or undefined behaviour in both. -/
theorem unknown_packet_is_skipped (P : Platform) (C : PhysicsCodec) (A : BlockedArith)
    (fsA fsB : String → Option (List Nat)) (self : CarlaRecorderQuery) (Filename : String)
    (pre post sizeBytes payload : List Nat) (id : Nat) (bShowAll : Bool)
    (Category1 Category2 : Char) (MinTime MinDistance : Nat)
    (hC : C.Local) (hv : validRecording P fsA self Filename)
    (hA : fsA (P.GetRecorderFilename Filename) = some (pre ++ post))
    (hB : fsB (P.GetRecorderFilename Filename)
      = some (pre ++ (id :: sizeBytes ++ payload) ++ post))
    (hkind : P.packetKind (leValue [id]) = .other)
    (hsz : sizeBytes.length = 4) (hpl : payload.length = leValue sizeBytes)
    (hpost : 5 ≤ post.length) :
    (∀ k, packetBoundary (infoPacket P C bShowAll) (infoStart P fsA self Filename) k
        pre.length = true →
      reportOf (QueryInfo P C fsB self Filename bShowAll)
        = reportOf (QueryInfo P C fsA self Filename bShowAll)) ∧
    (∀ k, packetBoundary (collisionsPacket P Category1 Category2)
        (collisionsStart P fsA self Filename) k pre.length = true →
      reportOf (QueryCollisions P fsB self Filename Category1 Category2)
        = reportOf (QueryCollisions P fsA self Filename Category1 Category2)) ∧
    (∀ k, packetBoundary (blockedPacket P A MinTime MinDistance)
        (blockedStart P fsA self Filename) k pre.length = true →
      reportOf (QueryBlocked P A fsB self Filename MinTime MinDistance)
        = reportOf (QueryBlocked P A fsA self Filename MinTime MinDistance)) :=
  ⟨fun k hk => QueryInfo_insert P C hC fsA fsB self Filename pre post sizeBytes payload id
      bShowAll hv hA hB hkind hsz hpl hpost k hk,
   fun k hk => QueryCollisions_insert P fsA fsB self Filename pre post sizeBytes payload id
      Category1 Category2 hv hA hB hkind hsz hpl hpost k hk,
   fun k hk => QueryBlocked_insert P A fsA fsB self Filename pre post sizeBytes payload id
      MinTime MinDistance hv hA hB hkind hsz hpl hpost k hk⟩

theorem unknown_packet_is_skipped_witness :
    validRecording referencePlatform
      (singleFile "Saved/s.log" (scenarioS1Head ++ scenarioS1Tail)) CarlaRecorderQuery.zero "s" ∧
    singleFile "Saved/s.log" (scenarioS1Head ++ scenarioS1Tail)
      (referencePlatform.GetRecorderFilename "s") = some (scenarioS1Head ++ scenarioS1Tail) ∧
    singleFile "Saved/s.log" (scenarioS1Head ++ (99 :: [3, 0, 0, 0] ++ [1, 2, 3]) ++ scenarioS1Tail)
      (referencePlatform.GetRecorderFilename "s")
      = some (scenarioS1Head ++ (99 :: [3, 0, 0, 0] ++ [1, 2, 3]) ++ scenarioS1Tail) ∧
    referencePlatform.packetKind (leValue [99]) = .other ∧
    [3, 0, 0, 0].length = 4 ∧ [1, 2, 3].length = leValue [3, 0, 0, 0] ∧
    5 ≤ scenarioS1Tail.length ∧
    packetBoundary (infoPacket referencePlatform PhysicsCodec.absent true)
      (infoStart referencePlatform (singleFile "Saved/s.log" (scenarioS1Head ++ scenarioS1Tail))
        CarlaRecorderQuery.zero "s") 1 scenarioS1Head.length = true ∧
    packetBoundary (collisionsPacket referencePlatform 'a' 'a')
      (collisionsStart referencePlatform
        (singleFile "Saved/s.log" (scenarioS1Head ++ scenarioS1Tail))
        CarlaRecorderQuery.zero "s") 1 scenarioS1Head.length = true ∧
    packetBoundary (blockedPacket referencePlatform referenceArith double_5 double_0_10)
      (blockedStart referencePlatform
        (singleFile "Saved/s.log" (scenarioS1Head ++ scenarioS1Tail))
        CarlaRecorderQuery.zero "s") 1 scenarioS1Head.length = true ∧
    reportOf (QueryInfo referencePlatform PhysicsCodec.absent
        (singleFile "Saved/s.log"
          (scenarioS1Head ++ (99 :: [3, 0, 0, 0] ++ [1, 2, 3]) ++ scenarioS1Tail))
        CarlaRecorderQuery.zero "s" true)
      = reportOf (QueryInfo referencePlatform PhysicsCodec.absent
        (singleFile "Saved/s.log" (scenarioS1Head ++ scenarioS1Tail))
        CarlaRecorderQuery.zero "s" true) ∧
    reportOf (QueryCollisions referencePlatform
        (singleFile "Saved/s.log"
          (scenarioS1Head ++ (99 :: [3, 0, 0, 0] ++ [1, 2, 3]) ++ scenarioS1Tail))
        CarlaRecorderQuery.zero "s" 'a' 'a')
      = reportOf (QueryCollisions referencePlatform
        (singleFile "Saved/s.log" (scenarioS1Head ++ scenarioS1Tail))
        CarlaRecorderQuery.zero "s" 'a' 'a') ∧
    reportOf (QueryBlocked referencePlatform referenceArith
        (singleFile "Saved/s.log"
          (scenarioS1Head ++ (99 :: [3, 0, 0, 0] ++ [1, 2, 3]) ++ scenarioS1Tail))
        CarlaRecorderQuery.zero "s" double_5 double_0_10)
      = reportOf (QueryBlocked referencePlatform referenceArith
        (singleFile "Saved/s.log" (scenarioS1Head ++ scenarioS1Tail))
        CarlaRecorderQuery.zero "s" double_5 double_0_10) :=
  (fun hv hA hB hkind hsz hpl hpost hI hC hBl =>
    ⟨hv, hA, hB, hkind, hsz, hpl, hpost, hI, hC, hBl,
      (unknown_packet_is_skipped referencePlatform PhysicsCodec.absent referenceArith
        _ _ CarlaRecorderQuery.zero "s" scenarioS1Head scenarioS1Tail [3, 0, 0, 0] [1, 2, 3] 99
        true 'a' 'a' double_5 double_0_10 absent_local hv hA hB hkind hsz hpl hpost).1 1 hI,
      (unknown_packet_is_skipped referencePlatform PhysicsCodec.absent referenceArith
        _ _ CarlaRecorderQuery.zero "s" scenarioS1Head scenarioS1Tail [3, 0, 0, 0] [1, 2, 3] 99
        true 'a' 'a' double_5 double_0_10 absent_local hv hA hB hkind hsz hpl hpost).2.1 1 hC,
      (unknown_packet_is_skipped referencePlatform PhysicsCodec.absent referenceArith
        _ _ CarlaRecorderQuery.zero "s" scenarioS1Head scenarioS1Tail [3, 0, 0, 0] [1, 2, 3] 99
        true 'a' 'a' double_5 double_0_10 absent_local hv hA hB hkind hsz hpl hpost).2.2 1 hBl⟩)
    ⟨by decide, by decide, by decide!⟩ (by decide!) (by decide!) (by decide) (by decide)
    (by decide) (by decide!) (by decide!) (by decide!) (by decide!)

theorem packetIter_comp {σ : Type} [LoopState σ] (packet : σ → Except Fault σ) :
    ∀ (k : Nat) (s b : σ), packetIter packet k s = some b →
      ∀ n, packetIter packet (k + n) s = packetIter packet n b := by
  intro k
  induction k with
  | zero =>
    intro s b h n
    simp only [packetIter, Option.some.injEq] at h
    subst h
    rw [Nat.zero_add]
  | succ m ih =>
    intro s b h n
    simp only [packetIter] at h
    rw [Nat.succ_add]
    simp only [packetIter]
    split at h
    · rename_i hb
      split at h
      · rename_i hh
        split at h
        · rename_i t ht
          simp only [hb, hh, if_true, ht]
          exact ih t b h n
        · cases h
      · cases h
    · cases h

/-- The packet loop on a file in which the payload of a skipped packet is replaced by
other bytes of the same length ends as the packet loop on the file itself, up to the
stream; the iteration on the packet changes the stream and `Header` only. -/
theorem packetLoop_replace {σ : Type} [LoopState σ] {packet : σ → Except Fault σ}
    (hl : LocalStep packet) (hu : UBOnly packet) (Id : Nat)
    (hsk : ∀ d : σ, (LoopState.self d).Header.Id = Id →
      packet d = .ok (LoopState.setSelf d (SkipPacket (LoopState.self d))))
    (sA : σ) (gB : IfStream) (pre post sizeBytes payloadA payloadB : List Nat) (id k : Nat)
    (b : σ)
    (hdA : (LoopState.file sA).data = pre ++ (id :: sizeBytes ++ payloadA) ++ post)
    (hdB : gB.data = pre ++ (id :: sizeBytes ++ payloadB) ++ post)
    (hrel : (LoopState.file sA).PreEq (pre.length + 5) gB)
    (hopen : (LoopState.file sA).isOpen = true)
    (hId : leValue [id] = Id) (hsz : sizeBytes.length = 4)
    (hplA : payloadA.length = leValue sizeBytes) (hplB : payloadB.length = leValue sizeBytes)
    (hiter : packetIter packet k sA = some b)
    (hpos : (LoopState.file b).pos = pre.length)
    (hgood : (LoopState.file b).good = true) :
    sameUpToFile (packetLoop packet (loopFuel sA) sA)
        (packetLoop packet (loopFuel (LoopState.setFile sA gB)) (LoopState.setFile sA gB)) ∧
      packetIter packet (k + 1) sA = some (LoopState.setSelf b { LoopState.self b with
        File := { LoopState.file b with
          pos := (LoopState.file b).pos + (5 + leValue sizeBytes) },
        Header := { Id := Id, Size := leValue sizeBytes } }) := by
  have hleA := packetIter_le hl.1 k sA b hiter
  obtain ⟨g, hB, hpre⟩ := packetIter_coupled hl (isCoupling_preEq (pre.length + 5)) k sA b gB
    hrel hiter ⟨hgood, by omega⟩
  have hleB := packetIter_le hl.1 k _ _ hB
  rw [LoopState.file_setFile, LoopState.file_setFile] at hleB
  obtain ⟨hwf, -, hp, ho, he, hf⟩ := hpre
  obtain ⟨hbe, hbf⟩ := IfStream.flags_of_good hgood
  have hbo : (LoopState.file b).isOpen = true := by rw [hleA.2.1]; exact hopen
  have hgo : g.isOpen = true := by rw [← ho]; exact hbo
  have hge : g.eofbit = false := by rw [← he]; exact hbe
  have hgf : g.failbit = false := by rw [← hf]; exact hbf
  have hgg : g.good = true := by unfold IfStream.good; rw [hge, hgf]; rfl
  have hgp : g.pos = pre.length := by rw [← hp]; exact hpos
  have hgr : g.rest = (id :: sizeBytes ++ payloadB) ++ post :=
    IfStream.rest_of_data g pre _ hgo (by rw [hleB.1, hdB, List.append_assoc]) hgp
  have hbr : (LoopState.file b).rest = (id :: sizeBytes ++ payloadA) ++ post :=
    IfStream.rest_of_data _ pre _ hbo (by rw [hleA.1, hdA, List.append_assoc]) hpos
  have hdrop : ∀ payload : List Nat,
      ((id :: sizeBytes ++ payload) ++ post).drop 1 = sizeBytes ++ (payload ++ post) := by
    intro payload; simp
  have hskipA := packetIter_skip packet b Id (leValue sizeBytes) hsk hgood
    (by rw [hbr]; simp only [List.length_append, List.length_cons]; omega)
    (by rw [hbr]; simpa using hId)
    (by rw [hbr, hdrop, List.take_left' hsz])
  have hskipB := packetIter_skip packet (LoopState.setFile b g) Id (leValue sizeBytes) hsk
    (by rw [LoopState.file_setFile]; exact hgg)
    (by rw [LoopState.file_setFile, hgr]; simp only [List.length_append, List.length_cons]; omega)
    (by rw [LoopState.file_setFile, hgr]; simpa using hId)
    (by rw [LoopState.file_setFile, hgr, hdrop, List.take_left' hsz])
  rw [LoopState.file_setFile, LoopState.self_setFile, LoopState.setSelf_setFile] at hskipB
  have hB2 : LoopState.setSelf b { LoopState.self b with
        File := { g with pos := g.pos + (5 + leValue sizeBytes) },
        Header := { Id := Id, Size := leValue sizeBytes } }
      = LoopState.setFile (LoopState.setSelf b { LoopState.self b with
          File := { LoopState.file b with
            pos := (LoopState.file b).pos + (5 + leValue sizeBytes) },
          Header := { Id := Id, Size := leValue sizeBytes } })
        { g with pos := g.pos + (5 + leValue sizeBytes) } := by
    simp only [LoopState.setFile, LoopState.self_setSelf, LoopState.setSelf_setSelf]
  have hl5 : ∀ payload : List Nat, payload.length = leValue sizeBytes →
      (id :: sizeBytes ++ payload).length = 5 + leValue sizeBytes := by
    intro payload h
    simp only [List.length_append, List.length_cons]; omega
  have hrA : IfStream.rest { LoopState.file b with
      pos := (LoopState.file b).pos + (5 + leValue sizeBytes) } = post := by
    rw [IfStream.rest_advance, hbr, List.drop_left' (hl5 _ hplA)]
  have hrB : IfStream.rest { g with pos := g.pos + (5 + leValue sizeBytes) } = post := by
    rw [IfStream.rest_advance, hgr, List.drop_left' (hl5 _ hplB)]
  have hwf2 : IfStream.wf { LoopState.file b with
      pos := (LoopState.file b).pos + (5 + leValue sizeBytes) } := hwf
  have hsim : IfStream.Sim
      { LoopState.file b with pos := (LoopState.file b).pos + (5 + leValue sizeBytes) }
      { g with pos := g.pos + (5 + leValue sizeBytes) } :=
    ⟨hwf2, by rw [hrA, hrB], ho, he, hf⟩
  have hiterA : packetIter packet (k + 1) sA = some (LoopState.setSelf b
      { LoopState.self b with
        File := { LoopState.file b with
          pos := (LoopState.file b).pos + (5 + leValue sizeBytes) },
        Header := { Id := Id, Size := leValue sizeBytes } }) := by
    rw [packetIter_comp packet k sA b hiter 1]
    exact hskipA
  refine ⟨?_, hiterA⟩
  -- the fuel
  have hbudA : (LoopState.file sA).budget ≤ loopFuel sA := budget_le_loopFuel sA
  have hbudB : (LoopState.file (LoopState.setFile sA gB)).budget
      ≤ loopFuel (LoopState.setFile sA gB) := budget_le_loopFuel _
  have hbudb : IfStream.budget { LoopState.file b with
      pos := (LoopState.file b).pos + (5 + leValue sizeBytes) } ≤ loopFuel sA := by
    have h1 := IfStream.budget_le_length { LoopState.file b with
      pos := (LoopState.file b).pos + (5 + leValue sizeBytes) }
    have h2 : loopFuel sA = (LoopState.file sA).data.length + 2 := rfl
    rw [h2, ← hleA.1]
    exact h1
  have hbudg : IfStream.budget { g with pos := g.pos + (5 + leValue sizeBytes) }
      ≤ loopFuel (LoopState.setFile sA gB) := by
    have h1 := IfStream.budget_le_length { g with pos := g.pos + (5 + leValue sizeBytes) }
    have h2 : loopFuel (LoopState.setFile sA gB) = gB.data.length + 2 := by
      simp only [loopFuel, LoopState.self_setFile]
    rw [h2, ← hleB.1]
    exact h1
  have eA : packetLoop packet (loopFuel sA) sA
      = packetLoop packet (loopFuel sA + loopFuel (LoopState.setFile sA gB))
        (LoopState.setSelf b { LoopState.self b with
          File := { LoopState.file b with
            pos := (LoopState.file b).pos + (5 + leValue sizeBytes) },
          Header := { Id := Id, Size := leValue sizeBytes } }) := by
    rw [← Nat.zero_add (loopFuel sA + loopFuel (LoopState.setFile sA gB)),
      ← packetIter_loop packet 1 _ _ hskipA, Nat.zero_add,
      ← packetIter_loop packet k _ _ hiter]
    exact packetLoop_fuel_eq hl.1 hu _ _ _ hbudA (by omega)
  have eB : packetLoop packet (loopFuel (LoopState.setFile sA gB)) (LoopState.setFile sA gB)
      = packetLoop packet (loopFuel sA + loopFuel (LoopState.setFile sA gB))
        (LoopState.setFile (LoopState.setSelf b { LoopState.self b with
          File := { LoopState.file b with
            pos := (LoopState.file b).pos + (5 + leValue sizeBytes) },
          Header := { Id := Id, Size := leValue sizeBytes } })
        { g with pos := g.pos + (5 + leValue sizeBytes) }) := by
    rw [← hB2, ← Nat.zero_add (loopFuel sA + loopFuel (LoopState.setFile sA gB)),
      ← packetIter_loop packet 1 _ _ hskipB, Nat.zero_add,
      ← packetIter_loop packet k _ _ hB]
    exact packetLoop_fuel_eq hl.1 hu _ _ _ hbudB (by omega)
  rw [eA, eB]
  exact packetLoop_sim hl hu _ _ _ (by rw [LoopState.file_setSelf]; exact hsim)
    (by rw [LoopState.file_setSelf]; exact Nat.le_trans hbudb (Nat.le_add_right _ _))
    (Nat.le_trans hbudg (Nat.le_add_left _ _))

theorem take_replace (pre hdr a b post : List Nat) (h : hdr.length = 5) :
    (pre ++ (hdr ++ a) ++ post).take (pre.length + 5)
      = (pre ++ (hdr ++ b) ++ post).take (pre.length + 5) := by
  have e : ∀ x : List Nat, pre ++ (hdr ++ x) ++ post = (pre ++ hdr) ++ (x ++ post) := by
    intro x; simp only [List.append_assoc]
  have hl : (pre ++ hdr).length = pre.length + 5 := by rw [List.length_append, h]
  rw [e, e, List.take_left' hl, List.take_left' hl]

theorem infoPacket_hidden (P : Platform) (C : PhysicsCodec) (Id : Nat)
    (hk : (P.packetKind Id).showAllOnly = true) (d : InfoState)
    (hd : (LoopState.self d).Header.Id = Id) :
    infoPacket P C false d = .ok (LoopState.setSelf d (SkipPacket (LoopState.self d))) := by
  have hd2 : (P.packetKind d.self.Header.Id).showAllOnly = true := by rw [← hk, ← hd]; rfl
  unfold infoPacket
  cases hk2 : P.packetKind d.self.Header.Id <;> rw [hk2] at hd2 <;>
    first
    | rfl
    | cases hd2

/-- C18. With showAll = false, for every file that opens and has a valid magic: let the
position after the bytes `pre` be a packet boundary of the run of `QueryInfo` and let the
packet there be of one of the kinds Position, State, AnimVehicle, AnimWalker, VehicleDoor,
VehicleLight, SceneLight, Kinematics, BoundingBox, TriggerVolume, PlatformTime,
PhysicsControl, TrafficLightTime, WalkerBones, with a payload of the declared Size.
Replacing the payload by any other bytes of the same Size leaves the outcome of
`QueryInfo` unchanged (the same report, or undefined behaviour in both), and the iteration
of the loop on that packet moves the read position over the packet and leaves the report
buffer as it was. -/
theorem hidden_packet_payload_is_ignored (P : Platform) (C : PhysicsCodec)
    (fsA fsB : String → Option (List Nat)) (self : CarlaRecorderQuery) (Filename : String)
    (pre post sizeBytes payloadA payloadB : List Nat) (id k : Nat)
    (hC : C.Local) (hv : validRecording P fsA self Filename)
    (hA : fsA (P.GetRecorderFilename Filename)
      = some (pre ++ (id :: sizeBytes ++ payloadA) ++ post))
    (hB : fsB (P.GetRecorderFilename Filename)
      = some (pre ++ (id :: sizeBytes ++ payloadB) ++ post))
    (hkind : (P.packetKind (leValue [id])).showAllOnly = true)
    (hsz : sizeBytes.length = 4)
    (hplA : payloadA.length = leValue sizeBytes) (hplB : payloadB.length = leValue sizeBytes)
    (hk : packetBoundary (infoPacket P C false) (infoStart P fsA self Filename) k
      pre.length = true) :
    reportOf (QueryInfo P C fsB self Filename false)
        = reportOf (QueryInfo P C fsA self Filename false) ∧
      ∃ b t, packetIter (infoPacket P C false) k (infoStart P fsA self Filename) = some b ∧
        packetIter (infoPacket P C false) (k + 1) (infoStart P fsA self Filename) = some t ∧
        t.self.File.pos = pre.length + (5 + leValue sizeBytes) ∧ t.Info = b.Info := by
  obtain ⟨b, hiter, hpos, hgood⟩ := packetBoundary_state _ _ _ _ hk
  have hl := infoPacket_local P C hC false
  have hle := packetIter_le hl.1 k _ b hiter
  have htake : (pre ++ (id :: sizeBytes ++ payloadA) ++ post).take (pre.length + 5)
      = (pre ++ (id :: sizeBytes ++ payloadB) ++ post).take (pre.length + 5) :=
    take_replace pre (id :: sizeBytes) payloadA payloadB post
      (by rw [List.length_cons, hsz])
  obtain ⟨gB, eB, hrel, hdA, hopen, hdB, hvB⟩ := afterHeader_coupled P fsA fsB self Filename _ _
    (pre.length + 5) (LoopState.file b) hv hA hB htake hle
    ⟨hgood, by rw [hpos]; exact Nat.le_add_right _ _⟩
  have hstart : infoStart P fsB self Filename
      = LoopState.setFile (infoStart P fsA self Filename) gB := by
    unfold infoStart
    rw [eB]
    rfl
  obtain ⟨hsame, hnext⟩ := packetLoop_replace hl (infoPacket_ubOnly P C false) (leValue [id])
    (infoPacket_hidden P C _ hkind) (infoStart P fsA self Filename) gB pre post sizeBytes
    payloadA payloadB id k b hdA hdB hrel hopen rfl hsz hplA hplB hiter hpos hgood
  refine ⟨?_, b, _, hiter, hnext, ?_, rfl⟩
  · rw [QueryInfo_valid P C fsA self Filename false hv,
      QueryInfo_valid P C fsB self Filename false hvB, hstart]
    exact reportOf_info P _ _ hsame
  · show (LoopState.file b).pos + (5 + leValue sizeBytes) = _
    rw [hpos]

theorem hidden_packet_payload_is_ignored_witness :
    validRecording referencePlatform
      (singleFile "Saved/s.log" (scenarioS1Head
        ++ (6 :: [30, 0, 0, 0] ++ encodeList [encodePosition 7 (0, 0, 0)]) ++ scenarioS1Tail))
      CarlaRecorderQuery.zero "s" ∧
    singleFile "Saved/s.log" (scenarioS1Head
        ++ (6 :: [30, 0, 0, 0] ++ encodeList [encodePosition 7 (0, 0, 0)]) ++ scenarioS1Tail)
      (referencePlatform.GetRecorderFilename "s")
      = some (scenarioS1Head
        ++ (6 :: [30, 0, 0, 0] ++ encodeList [encodePosition 7 (0, 0, 0)]) ++ scenarioS1Tail) ∧
    singleFile "Saved/s.log" (scenarioS1Head
        ++ (6 :: [30, 0, 0, 0] ++ List.replicate 30 255) ++ scenarioS1Tail)
      (referencePlatform.GetRecorderFilename "s")
      = some (scenarioS1Head
        ++ (6 :: [30, 0, 0, 0] ++ List.replicate 30 255) ++ scenarioS1Tail) ∧
    (referencePlatform.packetKind (leValue [6])).showAllOnly = true ∧
    [30, 0, 0, 0].length = 4 ∧
    (encodeList [encodePosition 7 (0, 0, 0)]).length = leValue [30, 0, 0, 0] ∧
    (List.replicate 30 255).length = leValue [30, 0, 0, 0] ∧
    packetBoundary (infoPacket referencePlatform PhysicsCodec.absent false)
      (infoStart referencePlatform (singleFile "Saved/s.log" (scenarioS1Head
        ++ (6 :: [30, 0, 0, 0] ++ encodeList [encodePosition 7 (0, 0, 0)]) ++ scenarioS1Tail))
        CarlaRecorderQuery.zero "s") 1 scenarioS1Head.length = true ∧
    (reportOf (QueryInfo referencePlatform PhysicsCodec.absent
        (singleFile "Saved/s.log" (scenarioS1Head
          ++ (6 :: [30, 0, 0, 0] ++ List.replicate 30 255) ++ scenarioS1Tail))
        CarlaRecorderQuery.zero "s" false)
      = reportOf (QueryInfo referencePlatform PhysicsCodec.absent
        (singleFile "Saved/s.log" (scenarioS1Head
          ++ (6 :: [30, 0, 0, 0] ++ encodeList [encodePosition 7 (0, 0, 0)]) ++ scenarioS1Tail))
        CarlaRecorderQuery.zero "s" false) ∧
      ∃ b t, packetIter (infoPacket referencePlatform PhysicsCodec.absent false) 1
          (infoStart referencePlatform (singleFile "Saved/s.log" (scenarioS1Head
            ++ (6 :: [30, 0, 0, 0] ++ encodeList [encodePosition 7 (0, 0, 0)])
            ++ scenarioS1Tail)) CarlaRecorderQuery.zero "s") = some b ∧
        packetIter (infoPacket referencePlatform PhysicsCodec.absent false) (1 + 1)
          (infoStart referencePlatform (singleFile "Saved/s.log" (scenarioS1Head
            ++ (6 :: [30, 0, 0, 0] ++ encodeList [encodePosition 7 (0, 0, 0)])
            ++ scenarioS1Tail)) CarlaRecorderQuery.zero "s") = some t ∧
        t.self.File.pos = scenarioS1Head.length + (5 + leValue [30, 0, 0, 0]) ∧
        t.Info = b.Info) :=
  (fun hv hA hB hkind hsz hplA hplB hk =>
    ⟨hv, hA, hB, hkind, hsz, hplA, hplB, hk,
      hidden_packet_payload_is_ignored referencePlatform PhysicsCodec.absent _ _
        CarlaRecorderQuery.zero "s" scenarioS1Head scenarioS1Tail [30, 0, 0, 0]
        (encodeList [encodePosition 7 (0, 0, 0)]) (List.replicate 30 255) 6 1
        absent_local hv hA hB hkind hsz hplA hplB hk⟩)
    ⟨by decide, by decide, by decide!⟩ (by decide!) (by decide!) (by decide) (by decide)
    (by decide) (by decide) (by decide!)

theorem mapFind_none_not_mem {α : Type} (m : List (Nat × α)) (k : Nat)
    (h : mapFind m k = none) : k ∉ m.map Prod.fst := by
  unfold mapFind at h
  intro hk
  obtain ⟨a, ha, hak⟩ := List.mem_map.1 hk
  have hn : m.find? (fun e => e.1 == k) = none := by
    cases hf : m.find? (fun e => e.1 == k) with
    | none => rfl
    | some e => rw [hf] at h; cases h
  have := List.find?_eq_none.1 hn a ha
  simp [hak] at this

theorem keys_mapAssign {α : Type} (m : List (Nat × α)) (k : Nat) (v : α)
    (h : (m.map Prod.fst).Nodup) : ((mapAssign m k v).map Prod.fst).Nodup := by
  unfold mapAssign
  cases hf : mapFind m k with
  | some w =>
    simp only
    have e : (m.map (fun e => if e.1 == k then (k, v) else e)).map Prod.fst
        = m.map Prod.fst := by
      rw [List.map_map]
      apply List.map_congr_left
      intro a _
      by_cases hk : a.1 = k
      · simp [hk]
      · simp [hk]
    rw [e]
    exact h
  | none =>
    simp only
    rw [List.map_append, List.map_cons, List.map_nil]
    exact List.Nodup.append h (List.nodup_singleton _)
      (List.disjoint_singleton.2 (mapFind_none_not_mem m k hf))

theorem keys_mapIndex {α : Type} (d : α) (m : List (Nat × α)) (k : Nat)
    (h : (m.map Prod.fst).Nodup) : (((mapIndex d m k).2).map Prod.fst).Nodup := by
  unfold mapIndex
  cases hf : mapFind m k with
  | some w => exact h
  | none =>
    simp only
    rw [List.map_append, List.map_cons, List.map_nil]
    exact List.Nodup.append h (List.nodup_singleton _)
      (List.disjoint_singleton.2 (mapFind_none_not_mem m k hf))

theorem keys_mapErase {α : Type} (m : List (Nat × α)) (k : Nat)
    (h : (m.map Prod.fst).Nodup) : ((mapErase m k).map Prod.fst).Nodup := by
  unfold mapErase
  exact List.Nodup.sublist (List.Sublist.map _ (List.filter_sublist _)) h

theorem blockedPacket_keys (P : Platform) (A : BlockedArith) (MinTime MinDistance : Nat)
    (s t : BlockedState) (hi : (s.Actors.map Prod.fst).Nodup)
    (h : blockedPacket P A MinTime MinDistance s = .ok t) :
    (t.Actors.map Prod.fst).Nodup := by
  unfold blockedPacket at h
  split at h
  · simp only [Except.ok.injEq] at h; subst h; exact hi
  · refine forTotal_inv (fun u : BlockedState => (u.Actors.map Prod.fst).Nodup) ?_ _ s.readTotal _ hi h
    intro u w hu hw
    simp only [blockedEventAdd, Except.ok.injEq] at hw
    subst hw
    exact keys_mapAssign _ _ _ hu
  · refine forTotal_inv (fun u : BlockedState => (u.Actors.map Prod.fst).Nodup) ?_ _ s.readTotal _ hi h
    intro u w hu hw
    simp only [blockedEventDel, Except.ok.injEq] at hw
    subst hw
    exact keys_mapErase _ _ hu
  · simp only [Except.ok.injEq] at h; subst h; exact hi
  · simp only [Except.ok.injEq] at h; subst h; exact hi
  · refine forTotal_inv (fun u : BlockedState => (u.Actors.map Prod.fst).Nodup) ?_ _ s.readTotal _ hi h
    intro u w hu hw
    simp only [blockedPosition] at hw
    split at hw
    · simp only [Except.ok.injEq] at hw
      subst hw
      exact keys_mapAssign _ _ _ (keys_mapIndex _ _ _ hu)
    · simp only [Except.ok.injEq] at hw
      subst hw
      exact keys_mapAssign _ _ _ (keys_mapIndex _ _ _ hu)
  · simp only [Except.ok.injEq] at h; subst h; exact hi
  · simp only [Except.ok.injEq] at h; subst h; exact hi
  · simp only [Except.ok.injEq] at h; subst h; exact hi

/-- The table `Actors` with which the packet loop of `QueryBlocked` ends has one entry
for a key. -/
theorem blockedLoop_keys (P : Platform) (A : BlockedArith) (MinTime MinDistance : Nat)
    (fs : String → Option (List Nat)) (self : CarlaRecorderQuery) (Filename : String)
    (fuel : Nat) (t : BlockedState)
    (h : packetLoop (blockedPacket P A MinTime MinDistance) fuel
      (blockedStart P fs self Filename) = .ok t) :
    (t.Actors.map Prod.fst).Nodup :=
  packetLoop_inv (fun u : BlockedState => (u.Actors.map Prod.fst).Nodup)
    (fun _ hs => hs) (blockedPacket_keys P A MinTime MinDistance) fuel
    (blockedStart P fs self Filename) t List.nodup_nil h

/-- C21, the code at two failing inputs.  The recordings `truncatedEventAdd` and
`truncatedCollision` end inside a packet that declares two records, after the first
record.  `QueryInfo` prints the line of the one complete record twice and
`QueryCollisions` prints its row twice: the record loop runs `Total` times, the reads of
the second run fail and leave the member as the first record set it, and the body prints
it again.  The trailer is written and the query returns. -/
theorem truncated_packet_prints_the_last_record_again :
    (QueryInfo referencePlatform PhysicsCodec.absent (singleFile "Saved/s.log" truncatedEventAdd)
        CarlaRecorderQuery.zero "s" false).toOption.map (fun r => r.1) =
      some ("Version: 9\nMap: Town03\nDate: 01/01/70 00:00:00\n\n"
        ++ "Frame 1 at 0 seconds\n"
        ++ " Create 7: vehicle.tesla.model3 (1) at (1, 2, 3)\n"
        ++ " Create 7: vehicle.tesla.model3 (1) at (1, 2, 3)\n"
        ++ "\nFrames: 1\nDuration: 0 seconds\n") ∧
    (QueryCollisions referencePlatform (singleFile "Saved/s.log" truncatedCollision)
        CarlaRecorderQuery.zero "s" 'a' 'a').toOption.map (fun r => r.1) =
      some ("Version: 9\nMap: Town03\nDate: 01/01/70 00:00:00\n\n" ++ collisionsColumns
        ++ "       0   o o       7                                          8                                    \n"
        ++ "       0   o o       7                                          8                                    \n"
        ++ "\nFrames: 1\nDuration: 0 seconds\n") := by
  refine ⟨by decide!, by decide!⟩

/-- C22, the code at a failing input.  After `QueryInfo` on the recording `badMagicFile`
the stream `File` is still open, at the position after the file header: the return of the
bad-magic path does not close it.  A second call of `QueryInfo` on the same query object,
for scenario S1, reports "File is not a CARLA recorder" again, because `File.open` fails
on the open stream and nothing of the new file is read.  After a call that runs to the
end of the packet loop the stream is closed and the second call reports scenario S1. -/
theorem bad_magic_return_leaves_file_open :
    (QueryInfo referencePlatform PhysicsCodec.absent (singleFile "Saved/s.log" badMagicFile)
        CarlaRecorderQuery.zero "s" false).toOption.map
          (fun r => (r.1, r.2.File.isOpen, r.2.File.pos)) =
      some ("File is not a CARLA recorder\n", true, 34) ∧
    secondInfoReport (singleFile "Saved/s.log" badMagicFile)
        (singleFile "Saved/s.log" scenarioS1) false =
      some "File is not a CARLA recorder\n" ∧
    (QueryInfo referencePlatform PhysicsCodec.absent (singleFile "Saved/s.log" noFrameRecording)
        CarlaRecorderQuery.zero "s" false).toOption.map (fun r => r.2.File.isOpen) =
      some false ∧
    secondInfoReport (singleFile "Saved/s.log" noFrameRecording)
        (singleFile "Saved/s.log" scenarioS1) false =
      some ("Version: 9\nMap: Town03\nDate: 01/01/70 00:00:00\n\n"
        ++ "Frame 1 at 0 seconds\n"
        ++ " Create 7: vehicle.tesla.model3 (1) at (1, 2, 3)\n"
        ++ "\nFrames: 1\nDuration: 0 seconds\n") := by
  refine ⟨by decide!, by decide!, by decide!, by decide!⟩

/-- C23, the code at a failing input.  The recording `noFrameRecording` holds no
`FrameStart` packet.  On a query object whose members are zero `QueryInfo` reports
"Frames: 0" for it; on the query object that a call for scenario S1 has left, the same
call on the same file reports "Frames: 1": the trailer prints the member `Frame`, which
the earlier call has set and the later call never writes. -/
theorem report_depends_on_the_previous_call :
    (QueryInfo referencePlatform PhysicsCodec.absent (singleFile "Saved/s.log" noFrameRecording)
        CarlaRecorderQuery.zero "s" false).toOption.map (fun r => r.1) =
      some ("Version: 9\nMap: Town03\nDate: 01/01/70 00:00:00\n\n"
        ++ "\nFrames: 0\nDuration: 0 seconds\n") ∧
    secondInfoReport (singleFile "Saved/s.log" scenarioS1)
        (singleFile "Saved/s.log" noFrameRecording) false =
      some ("Version: 9\nMap: Town03\nDate: 01/01/70 00:00:00\n\n"
        ++ "\nFrames: 1\nDuration: 0 seconds\n") := by
  refine ⟨by decide!, by decide!⟩

/-- C27, the code at a failing input.  The recording `endsWithFrameStart` holds one
`FrameStart` packet and ends with it.  `QueryInfo` with showAll = true prints the line
"Frame 1 at 0 seconds" twice, because the packet loop dispatches the last packet a second
time at the end of the file.  With a `FrameEnd` packet closing the file the line is
printed once. -/
theorem last_frame_start_prints_its_line_twice :
    (QueryInfo referencePlatform PhysicsCodec.absent
        (singleFile "Saved/s.log" endsWithFrameStart)
        CarlaRecorderQuery.zero "s" true).toOption.map (fun r => r.1) =
      some ("Version: 9\nMap: Town03\nDate: 01/01/70 00:00:00\n\n"
        ++ "Frame 1 at 0 seconds\n"
        ++ "Frame 1 at 0 seconds\n"
        ++ "\nFrames: 1\nDuration: 0 seconds\n") ∧
    (QueryInfo referencePlatform PhysicsCodec.absent
        (singleFile "Saved/s.log" (endsWithFrameStart ++ encodePacket 1 []))
        CarlaRecorderQuery.zero "s" true).toOption.map (fun r => r.1) =
      some ("Version: 9\nMap: Town03\nDate: 01/01/70 00:00:00\n\n"
        ++ "Frame 1 at 0 seconds\n"
        ++ "\nFrames: 1\nDuration: 0 seconds\n") := by
  refine ⟨by decide!, by decide!⟩

/-- C30, the code at a failing input.  For the recording `fractionalElapsed`, whose one
frame has the elapsed time 0.05, `QueryInfo` writes the trailer line
"Duration: 0.05 seconds".  `QueryCollisions` with the filter ('a', 'a') prints one row and
then writes "Duration: 0 seconds": the row sets `std::fixed` and `std::setprecision(0)`
on `Info`, both stay in force, and the trailer is written to the same stream.  With the
filter ('v', 'v') no row is printed and the line is "Duration: 0.05 seconds". -/
theorem collisions_trailer_keeps_row_precision :
    (QueryInfo referencePlatform PhysicsCodec.absent (singleFile "Saved/s.log" fractionalElapsed)
        CarlaRecorderQuery.zero "s" false).toOption.map (fun r => r.1) =
      some ("Version: 9\nMap: Town03\nDate: 01/01/70 00:00:00\n\n"
        ++ "Frame 1 at 0.05 seconds\n"
        ++ " Collision id 1 between 7 (hero)  with 8\n"
        ++ "\nFrames: 1\nDuration: 0.05 seconds\n") ∧
    (QueryCollisions referencePlatform (singleFile "Saved/s.log" fractionalElapsed)
        CarlaRecorderQuery.zero "s" 'a' 'a').toOption.map (fun r => r.1) =
      some ("Version: 9\nMap: Town03\nDate: 01/01/70 00:00:00\n\n" ++ collisionsColumns
        ++ "       0   o o       7                                          8                                    \n"
        ++ "\nFrames: 1\nDuration: 0 seconds\n") ∧
    (QueryCollisions referencePlatform (singleFile "Saved/s.log" fractionalElapsed)
        CarlaRecorderQuery.zero "s" 'v' 'v').toOption.map (fun r => r.1) =
      some ("Version: 9\nMap: Town03\nDate: 01/01/70 00:00:00\n\n" ++ collisionsColumns
        ++ "\nFrames: 1\nDuration: 0.05 seconds\n") := by
  refine ⟨by decide!, by decide!, by decide!⟩

/-- C24. For each of `QueryInfo`, `QueryCollisions` and `QueryBlocked`, called on a
query object whose stream is closed with a file name whose resolved name names no file,
the report is exactly "File <resolved-name> not found on server" followed by one newline,
where <resolved-name> is `GetRecorderFilename` of the argument; the stream is left with
the failbit that the failed `open` has set, and nothing is read. -/
theorem missing_file_report (P : Platform) (C : PhysicsCodec) (A : BlockedArith)
    (fs : String → Option (List Nat)) (self : CarlaRecorderQuery) (Filename : String)
    (bShowAll : Bool) (Category1 Category2 : Char) (MinTime MinDistance : Nat)
    (hclosed : self.File.isOpen = false)
    (hmissing : fs (P.GetRecorderFilename Filename) = none) :
    QueryInfo P C fs self Filename bShowAll =
      .ok ("File " ++ P.GetRecorderFilename Filename ++ " not found on server\n",
        { self with File := { self.File with failbit := true } }) ∧
    QueryCollisions P fs self Filename Category1 Category2 =
      .ok ("File " ++ P.GetRecorderFilename Filename ++ " not found on server\n",
        { self with File := { self.File with failbit := true } }) ∧
    QueryBlocked P A fs self Filename MinTime MinDistance =
      .ok ("File " ++ P.GetRecorderFilename Filename ++ " not found on server\n",
        { self with File := { self.File with failbit := true } }) := by
  have ho : self.File.open (fs (P.GetRecorderFilename Filename))
      = { self.File with failbit := true } := by
    simp only [IfStream.open, hclosed, hmissing, Bool.false_eq_true, if_false]
  have hn : (IfStream.isOpen { self.File with failbit := true }) = false := hclosed
  have hb : (OStream.init.put ("File " ++ P.GetRecorderFilename Filename
      ++ " not found on server\n")).buf
      = "File " ++ P.GetRecorderFilename Filename ++ " not found on server\n" := by
    rw [put_eq]
    exact String.empty_append _
  refine ⟨?_, ?_, ?_⟩
  · unfold QueryInfo
    simp only [ho, hn, Bool.not_false, if_true, hb]
  · unfold QueryCollisions
    simp only [ho, hn, Bool.not_false, if_true, hb]
  · unfold QueryBlocked
    simp only [ho, hn, Bool.not_false, if_true, hb]

theorem missing_file_report_witness :
    CarlaRecorderQuery.zero.File.isOpen = false ∧
    singleFile "Saved/other.log" scenarioS1 (referencePlatform.GetRecorderFilename "s") = none ∧
    (QueryInfo referencePlatform PhysicsCodec.absent (singleFile "Saved/other.log" scenarioS1)
        CarlaRecorderQuery.zero "s" true =
      .ok ("File " ++ referencePlatform.GetRecorderFilename "s" ++ " not found on server\n",
        { CarlaRecorderQuery.zero with
          File := { CarlaRecorderQuery.zero.File with failbit := true } }) ∧
    QueryCollisions referencePlatform (singleFile "Saved/other.log" scenarioS1)
        CarlaRecorderQuery.zero "s" 'a' 'a' =
      .ok ("File " ++ referencePlatform.GetRecorderFilename "s" ++ " not found on server\n",
        { CarlaRecorderQuery.zero with
          File := { CarlaRecorderQuery.zero.File with failbit := true } }) ∧
    QueryBlocked referencePlatform referenceArith (singleFile "Saved/other.log" scenarioS1)
        CarlaRecorderQuery.zero "s" double_5 double_0_10 =
      .ok ("File " ++ referencePlatform.GetRecorderFilename "s" ++ " not found on server\n",
        { CarlaRecorderQuery.zero with
          File := { CarlaRecorderQuery.zero.File with failbit := true } })) ∧
    "File " ++ referencePlatform.GetRecorderFilename "s" ++ " not found on server\n"
      = "File Saved/s.log not found on server\n" :=
  (fun h1 h2 => ⟨h1, h2,
    missing_file_report referencePlatform PhysicsCodec.absent referenceArith
      (singleFile "Saved/other.log" scenarioS1) CarlaRecorderQuery.zero "s" true 'a' 'a'
      double_5 double_0_10 h1 h2, by decide⟩)
    (by decide) (by decide)

/-- C25. For scenario S1 the report of `QueryInfo` with showAll = false is the header
block, the line "Frame 1 at 0 seconds", the line
" Create 7: vehicle.tesla.model3 (1) at (1, 2, 3)" and the trailer: the frame line is
immediately followed by the create line, and each of the two occurs exactly once among
the lines of the report. -/
theorem scenario_S1_frame_and_create_lines :
    (QueryInfo referencePlatform PhysicsCodec.absent (singleFile "Saved/s.log" scenarioS1)
        CarlaRecorderQuery.zero "s" false).toOption.map (fun r => r.1) =
      some ("Version: 9\nMap: Town03\nDate: 01/01/70 00:00:00\n\n"
        ++ "Frame 1 at 0 seconds\n"
        ++ " Create 7: vehicle.tesla.model3 (1) at (1, 2, 3)\n"
        ++ "\nFrames: 1\nDuration: 0 seconds\n") ∧
    (QueryInfo referencePlatform PhysicsCodec.absent (singleFile "Saved/s.log" scenarioS1)
        CarlaRecorderQuery.zero "s" false).toOption.map (fun r => reportLines r.1) =
      some ["Version: 9", "Map: Town03", "Date: 01/01/70 00:00:00", "",
        "Frame 1 at 0 seconds", " Create 7: vehicle.tesla.model3 (1) at (1, 2, 3)", "",
        "Frames: 1", "Duration: 0 seconds", ""] ∧
    (QueryInfo referencePlatform PhysicsCodec.absent (singleFile "Saved/s.log" scenarioS1)
        CarlaRecorderQuery.zero "s" false).toOption.map
        (fun r => ((reportLines r.1).count "Frame 1 at 0 seconds",
          (reportLines r.1).count " Create 7: vehicle.tesla.model3 (1) at (1, 2, 3)",
          (reportLines r.1).indexOf "Frame 1 at 0 seconds",
          (reportLines r.1).indexOf " Create 7: vehicle.tesla.model3 (1) at (1, 2, 3)")) =
      some (1, 1, 4, 5) := by
  refine ⟨by decide!, by decide!, by decide!⟩

theorem endl_eq (o : OStream) : o.endl = { o with buf := o.buf ++ "\n" } := by
  simp only [OStream.endl, put_eq]

/-- C26. The body of the `VehicleDoor` loop of `QueryInfo`, which runs for each record
when showAll = true, writes "  Id: <DatabaseId>", a newline and "  Doors opened: ", and
then the door name chosen by equality on the byte `Doors`: " <name> " and a newline when
`Doors` is 1 (Front Left), 2 (Front Right), 4 (Rear Left), 8 (Rear Right), 16 (Hood),
32 (Trunk) or 255 (All), and nothing at all for every other value, such as the mask 3. -/
theorem door_name_is_chosen_by_equality (P : Platform) (C : PhysicsCodec) (s : InfoState) :
    (P.packetKind s.self.Header.Id = .VehicleDoor →
      infoPacket P C true s
        = infoListCase P true " Vehicle door animations: " infoVehicleDoor s) ∧
    specDoorName 3 = none ∧
    ∃ t, infoVehicleDoor s = .ok t ∧
      t.self.DoorVehicle = (CarlaRecorderDoorVehicle.Read s.self.File s.self.DoorVehicle).1 ∧
      t.Info.buf = s.Info.buf ++ "  Id: " ++ toString t.self.DoorVehicle.DatabaseId ++ "\n"
        ++ "  Doors opened: "
        ++ (match specDoorName t.self.DoorVehicle.Doors with
            | some name => " " ++ name ++ " " ++ "\n"
            | none => "") := by
  refine ⟨?_, by decide, ?_⟩
  · intro hk
    unfold infoPacket
    rw [hk]
  · refine ⟨_, rfl, rfl, ?_⟩
    simp only [put_eq, putNat_zero, endl_eq, specDoorName]
    generalize (CarlaRecorderDoorVehicle.Read s.self.File s.self.DoorVehicle).1.Doors = d
    by_cases h1 : d = 1
    · subst h1; simp [String.append_assoc]; rfl
    by_cases h2 : d = 2
    · subst h2; simp [String.append_assoc]; rfl
    by_cases h4 : d = 4
    · subst h4; simp [String.append_assoc]; rfl
    by_cases h8 : d = 8
    · subst h8; simp [String.append_assoc]; rfl
    by_cases h16 : d = 16
    · subst h16; simp [String.append_assoc]; rfl
    by_cases h32 : d = 32
    · subst h32; simp [String.append_assoc]; rfl
    by_cases h255 : d = 255
    · subst h255; simp [String.append_assoc]; rfl
    simp [h1, h2, h4, h8, h16, h32, h255]

/-- C29. In `QueryCollisions` and in `QueryBlocked` the body of the `EventDel` loop
reads the record into the member `EventDel`, leaves the member `EventAdd` as it was, and
erases from `Actors` the key `EventAdd.DatabaseId`, the id of the most recently decoded
`EventAdd` record: that key has no entry afterwards and every other key has the entry it
had, so the entry of the deleted actor stays when its id differs. -/
theorem event_del_erases_event_add_key (s : CollisionsState) (b : BlockedState) :
    (∃ t, collisionsEventDel s = .ok t ∧
      t.self.EventDel = (CarlaRecorderEventDel.Read s.self.File s.self.EventDel).1 ∧
      t.self.EventAdd = s.self.EventAdd ∧
      t.Actors = s.Actors.filter (fun e => e.1 != s.self.EventAdd.DatabaseId) ∧
      mapFind t.Actors s.self.EventAdd.DatabaseId = none ∧
      (∀ j, j ≠ s.self.EventAdd.DatabaseId → mapFind t.Actors j = mapFind s.Actors j) ∧
      (t.self.EventDel.DatabaseId ≠ s.self.EventAdd.DatabaseId →
        mapFind t.Actors t.self.EventDel.DatabaseId
          = mapFind s.Actors t.self.EventDel.DatabaseId)) ∧
    (∃ t, blockedEventDel b = .ok t ∧
      t.self.EventDel = (CarlaRecorderEventDel.Read b.self.File b.self.EventDel).1 ∧
      t.self.EventAdd = b.self.EventAdd ∧
      t.Actors = b.Actors.filter (fun e => e.1 != b.self.EventAdd.DatabaseId) ∧
      mapFind t.Actors b.self.EventAdd.DatabaseId = none ∧
      (∀ j, j ≠ b.self.EventAdd.DatabaseId → mapFind t.Actors j = mapFind b.Actors j) ∧
      (t.self.EventDel.DatabaseId ≠ b.self.EventAdd.DatabaseId →
        mapFind t.Actors t.self.EventDel.DatabaseId
          = mapFind b.Actors t.self.EventDel.DatabaseId)) :=
  ⟨⟨_, rfl, rfl, rfl, rfl, mapFind_mapErase_self _ _,
      fun _ hj => mapFind_mapErase_ne _ _ _ hj,
      fun h => mapFind_mapErase_ne _ _ _ h⟩,
   ⟨_, rfl, rfl, rfl, rfl, mapFind_mapErase_self _ _,
      fun _ hj => mapFind_mapErase_ne _ _ _ hj,
      fun h => mapFind_mapErase_ne _ _ _ h⟩⟩

theorem putCollisionRow_buf (P : Platform) (Frame : CarlaRecorderFrame)
    (Collision : CarlaRecorderCollision) (Type1 Type2 : Char) (Info : OStream)
    (Actors : List (Nat × ReplayerActorInfo)) :
    (putCollisionRow P Frame Collision Type1 Type2 Info Actors).1.buf =
      Info.buf ++ collisionRowText P Frame.Elapsed Type1 Type2 Collision.DatabaseId1
        (mapIndex ReplayerActorInfo.init Actors Collision.DatabaseId1).1.Id
        Collision.DatabaseId2
        (mapIndex ReplayerActorInfo.init
          (mapIndex ReplayerActorInfo.init Actors Collision.DatabaseId1).2
          Collision.DatabaseId2).1.Id := by
  simp only [putCollisionRow, collisionRowText, OStream.endl, put_eq, OStream.putDouble,
    OStream.putNat, OStream.putW, String.append_assoc]

theorem ok_of_toOption {α : Type} {r : Except Fault α} {a : α}
    (h : r.toOption = some a) : r = .ok a := by
  cases r with
  | error e => cases h
  | ok b =>
    simp only [Except.toOption, Option.some.injEq] at h
    rw [h]

/-- C28. In `QueryCollisions` a collision record that fails the category filter changes
neither `newCollisions` nor the report.  Hence, when the pair of such a record is not in
`newCollisions` before the record and nothing inserts it before the next `FrameStart`
packet is dispatched, that packet leaves `oldCollisions` without the pair, and a record
of the same pair that passes the filter in the frame so started prints a row, the text of
the record's ids and labels appended to the report, and is inserted into
`newCollisions`. -/
theorem failing_pair_is_printed_when_it_passes (P : Platform) (Category1 Category2 : Char)
    (s1 d s2 : CollisionsState) (T1 T2 U1 U2 : Char)
    (A1 A2 B1 B2 : List (Nat × ReplayerActorInfo))
    (h1 : sideCategory s1.Actors s1.record.DatabaseId1 = .ok (T1, A1))
    (h2 : sideCategory A1 s1.record.DatabaseId2 = .ok (T2, A2))
    (hfail : ¬ (sidePasses Category1 T1 s1.record.IsActor1Hero ∧
      sidePasses Category2 T2 s1.record.IsActor2Hero))
    (hnot : (s1.record.DatabaseId1, s1.record.DatabaseId2) ∉ s1.newCollisions)
    (hkeep : ∀ t1, collisionRecord P Category1 Category2 s1 = .ok t1 →
      (s1.record.DatabaseId1, s1.record.DatabaseId2) ∈ d.newCollisions →
      (s1.record.DatabaseId1, s1.record.DatabaseId2) ∈ t1.newCollisions)
    (hd : P.packetKind d.self.Header.Id = .FrameStart)
    (hold : ∀ t2, collisionsPacket P Category1 Category2 d = .ok t2 →
      s2.oldCollisions = t2.oldCollisions)
    (hpair : (s2.record.DatabaseId1, s2.record.DatabaseId2)
      = (s1.record.DatabaseId1, s1.record.DatabaseId2))
    (g1 : sideCategory s2.Actors s2.record.DatabaseId1 = .ok (U1, B1))
    (g2 : sideCategory B1 s2.record.DatabaseId2 = .ok (U2, B2))
    (hpass : sidePasses Category1 U1 s2.record.IsActor1Hero ∧
      sidePasses Category2 U2 s2.record.IsActor2Hero) :
    (∃ t1, collisionRecord P Category1 Category2 s1 = .ok t1 ∧
      t1.newCollisions = s1.newCollisions ∧ t1.Info = s1.Info) ∧
    (∃ t2, collisionsPacket P Category1 Category2 d = .ok t2 ∧
      t2.oldCollisions = d.newCollisions ∧ t2.newCollisions = [] ∧
      (s1.record.DatabaseId1, s1.record.DatabaseId2) ∉ t2.oldCollisions) ∧
    (∃ t3, collisionRecord P Category1 Category2 s2 = .ok t3 ∧
      t3.Info.buf = s2.Info.buf ++ collisionRowText P s2.self.Frame.Elapsed U1 U2
        s2.record.DatabaseId1
        (mapIndex ReplayerActorInfo.init B2 s2.record.DatabaseId1).1.Id
        s2.record.DatabaseId2
        (mapIndex ReplayerActorInfo.init
          (mapIndex ReplayerActorInfo.init B2 s2.record.DatabaseId1).2
          s2.record.DatabaseId2).1.Id ∧
      (s2.record.DatabaseId1, s2.record.DatabaseId2) ∈ t3.newCollisions) := by
  have e1 := collisionRecord_eq P Category1 Category2 s1 T1 T2 A1 A2 h1 h2
  rw [if_neg (fun hv => hfail ((valid_eq_two_iff _ _ _ _ _ _).1 hv))] at e1
  have hdn : (s1.record.DatabaseId1, s1.record.DatabaseId2) ∉ d.newCollisions :=
    fun hin => by
      have hm := hkeep _ e1 hin
      exact hnot hm
  have e2 : collisionsPacket P Category1 Category2 d
      = .ok { d with
          self := { d.self with
            File := (CarlaRecorderFrame.Read d.self.File d.self.Frame).2,
            Frame := (CarlaRecorderFrame.Read d.self.File d.self.Frame).1 },
          oldCollisions := d.newCollisions, newCollisions := [] } := by
    unfold collisionsPacket
    rw [hd]
  have hs2 : (s2.record.DatabaseId1, s2.record.DatabaseId2) ∉ s2.oldCollisions := by
    rw [hold _ e2, hpair]
    exact hdn
  have e3 := collisionRecord_eq P Category1 Category2 s2 U1 U2 B1 B2 g1 g2
  rw [if_pos ((valid_eq_two_iff _ _ _ _ _ _).2 hpass)] at e3
  refine ⟨⟨_, e1, rfl, rfl⟩, ⟨_, e2, rfl, rfl, hdn⟩, ⟨_, e3, ?_, ?_⟩⟩
  · simp only [if_pos hs2]
    exact putCollisionRow_buf P s2.self.Frame s2.record U1 U2 s2.Info B2
  · show (s2.record.DatabaseId1, s2.record.DatabaseId2)
      ∈ setInsert s2.newCollisions (s2.record.DatabaseId1, s2.record.DatabaseId2)
    unfold setInsert
    split
    · assumption
    · exact List.mem_append_right _ (List.mem_singleton_self _)

theorem failing_pair_is_printed_when_it_passes_witness :
    sideCategory heroFlagFirstRecord.Actors heroFlagFirstRecord.record.DatabaseId1
      = .ok ('o', [(7, ReplayerActorInfo.init)]) ∧
    sideCategory [(7, ReplayerActorInfo.init)] heroFlagFirstRecord.record.DatabaseId2
      = .ok ('o', [(7, ReplayerActorInfo.init), (8, ReplayerActorInfo.init)]) ∧
    ¬ (sidePasses 'h' 'o' heroFlagFirstRecord.record.IsActor1Hero ∧
      sidePasses 'a' 'o' heroFlagFirstRecord.record.IsActor2Hero) ∧
    (heroFlagFirstRecord.record.DatabaseId1, heroFlagFirstRecord.record.DatabaseId2)
      ∉ heroFlagFirstRecord.newCollisions ∧
    referencePlatform.packetKind (heroFlagDispatch 2).self.Header.Id = .FrameStart ∧
    (heroFlagSecondRecord.record.DatabaseId1, heroFlagSecondRecord.record.DatabaseId2)
      = (heroFlagFirstRecord.record.DatabaseId1, heroFlagFirstRecord.record.DatabaseId2) ∧
    sideCategory heroFlagSecondRecord.Actors heroFlagSecondRecord.record.DatabaseId1
      = .ok ('o', [(7, ReplayerActorInfo.init), (8, ReplayerActorInfo.init)]) ∧
    sideCategory [(7, ReplayerActorInfo.init), (8, ReplayerActorInfo.init)]
        heroFlagSecondRecord.record.DatabaseId2
      = .ok ('o', [(7, ReplayerActorInfo.init), (8, ReplayerActorInfo.init)]) ∧
    (sidePasses 'h' 'o' heroFlagSecondRecord.record.IsActor1Hero ∧
      sidePasses 'a' 'o' heroFlagSecondRecord.record.IsActor2Hero) ∧
    ((∃ t1, collisionRecord referencePlatform 'h' 'a' heroFlagFirstRecord = .ok t1 ∧
        t1.newCollisions = heroFlagFirstRecord.newCollisions ∧
        t1.Info = heroFlagFirstRecord.Info) ∧
      (∃ t2, collisionsPacket referencePlatform 'h' 'a' (heroFlagDispatch 2) = .ok t2 ∧
        t2.oldCollisions = (heroFlagDispatch 2).newCollisions ∧ t2.newCollisions = [] ∧
        (heroFlagFirstRecord.record.DatabaseId1, heroFlagFirstRecord.record.DatabaseId2)
          ∉ t2.oldCollisions) ∧
      (∃ t3, collisionRecord referencePlatform 'h' 'a' heroFlagSecondRecord = .ok t3 ∧
        t3.Info.buf = heroFlagSecondRecord.Info.buf
          ++ collisionRowText referencePlatform heroFlagSecondRecord.self.Frame.Elapsed 'o' 'o'
            heroFlagSecondRecord.record.DatabaseId1
            (mapIndex ReplayerActorInfo.init
              [(7, ReplayerActorInfo.init), (8, ReplayerActorInfo.init)]
              heroFlagSecondRecord.record.DatabaseId1).1.Id
            heroFlagSecondRecord.record.DatabaseId2
            (mapIndex ReplayerActorInfo.init
              (mapIndex ReplayerActorInfo.init
                [(7, ReplayerActorInfo.init), (8, ReplayerActorInfo.init)]
                heroFlagSecondRecord.record.DatabaseId1).2
              heroFlagSecondRecord.record.DatabaseId2).1.Id ∧
        (heroFlagSecondRecord.record.DatabaseId1, heroFlagSecondRecord.record.DatabaseId2)
          ∈ t3.newCollisions)) ∧
    (QueryCollisions referencePlatform (singleFile "Saved/s.log" heroFlagSetLater)
        CarlaRecorderQuery.zero "s" 'h' 'a').toOption.map (fun r => r.1) =
      some ("Version: 9\nMap: Town03\nDate: 01/01/70 00:00:00\n\n" ++ collisionsColumns
        ++ "       0   o o       7                                          8                                    \n"
        ++ "\nFrames: 2\nDuration: 0 seconds\n") :=
  (fun h1 h2 hfail hnot hdn hd hold hpair g1 g2 hpass =>
    ⟨h1, h2, hfail, hnot, hd, hpair, g1, g2, hpass,
      failing_pair_is_printed_when_it_passes referencePlatform 'h' 'a' heroFlagFirstRecord
        (heroFlagDispatch 2) heroFlagSecondRecord 'o' 'o' 'o' 'o' _ _ _ _ h1 h2 hfail hnot
        (fun _ _ hin => absurd hin hdn) hd
        (fun t2 ht2 => by
          rw [ht2] at hold
          simp only [Except.toOption, Option.map_some', Option.some.injEq] at hold
          exact hold.symm)
        hpair g1 g2 hpass,
      by decide!⟩)
    (ok_of_toOption (by decide!)) (ok_of_toOption (by decide!))
    (fun h => absurd ((valid_eq_two_iff _ _ _ _ _ _).2 h) (by decide!)) (by decide!)
    (by decide! : (heroFlagFirstRecord.record.DatabaseId1, heroFlagFirstRecord.record.DatabaseId2)
      ∉ (heroFlagDispatch 2).newCollisions)
    (by decide!)
    (by decide! : (collisionsPacket referencePlatform 'h' 'a' (heroFlagDispatch 2)).toOption.map
      (fun t => t.oldCollisions) = some heroFlagSecondRecord.oldCollisions)
    (by decide!) (ok_of_toOption (by decide!)) (ok_of_toOption (by decide!))
    ((valid_eq_two_iff _ _ _ _ _ _).1 (by decide!))

/-- C33. For a collision side whose id is not the sentinel 0xFFFFFFFF: when the actor
table holds the id with a Type of at most 5, the index into the 6 elements of
`Categories` is in bounds and the lookup gives the letter at that index and leaves the
table as it is; when the stored Type is 6 or more the index is out of bounds, which is
undefined behaviour; and when the table does not hold the id, `Actors[id]` adds a
value-initialised entry, Type 0 with an empty label, and the letter is 'o'. -/
theorem category_lookup_is_safe_below_six (Actors : List (Nat × ReplayerActorInfo))
    (DatabaseId : Nat) (hid : DatabaseId ≠ 4294967295) :
    Categories.length = 6 ∧
    (∀ info, mapFind Actors DatabaseId = some info → info.Type_ ≤ 5 →
      ∃ letter, Categories[info.Type_]? = some letter ∧
        sideCategory Actors DatabaseId = .ok (letter, Actors)) ∧
    (∀ info, mapFind Actors DatabaseId = some info → 6 ≤ info.Type_ →
      sideCategory Actors DatabaseId = .error .undefinedBehaviour) ∧
    (mapFind Actors DatabaseId = none →
      sideCategory Actors DatabaseId
        = .ok ('o', Actors ++ [(DatabaseId, { Type_ := 0, Id := "" })]) ∧
      mapFind (Actors ++ [(DatabaseId, ({ Type_ := 0, Id := "" } : ReplayerActorInfo))])
        DatabaseId = some { Type_ := 0, Id := "" }) := by
  refine ⟨rfl, ?_, ?_, ?_⟩
  · intro info hfind hle
    have hlt : info.Type_ < Categories.length := by
      have : Categories.length = 6 := rfl
      omega
    refine ⟨Categories[info.Type_], List.getElem?_eq_getElem hlt, ?_⟩
    simp [sideCategory, hid, mapIndex, hfind, List.getElem?_eq_getElem hlt]
  · intro info hfind hge
    have hnone : Categories[info.Type_]? = none := by
      apply List.getElem?_eq_none
      have : Categories.length = 6 := rfl
      omega
    simp [sideCategory, hid, mapIndex, hfind, hnone]
  · intro hfind
    refine ⟨?_, ?_⟩
    · simp [sideCategory, hid, mapIndex, hfind, ReplayerActorInfo.init, Categories]
    · rw [mapFind_append, hfind]
      simp

theorem category_lookup_is_safe_below_six_witness :
    (8 : Nat) ≠ 4294967295 ∧
    (Categories.length = 6 ∧
    (∀ info, mapFind [(7, ({ Type_ := 1, Id := "vehicle.tesla.model3" } : ReplayerActorInfo))]
        8 = some info → info.Type_ ≤ 5 →
      ∃ letter, Categories[info.Type_]? = some letter ∧
        sideCategory [(7, { Type_ := 1, Id := "vehicle.tesla.model3" })] 8
          = .ok (letter, [(7, { Type_ := 1, Id := "vehicle.tesla.model3" })])) ∧
    (∀ info, mapFind [(7, ({ Type_ := 1, Id := "vehicle.tesla.model3" } : ReplayerActorInfo))]
        8 = some info → 6 ≤ info.Type_ →
      sideCategory [(7, { Type_ := 1, Id := "vehicle.tesla.model3" })] 8
        = .error .undefinedBehaviour) ∧
    (mapFind [(7, ({ Type_ := 1, Id := "vehicle.tesla.model3" } : ReplayerActorInfo))] 8
        = none →
      sideCategory [(7, { Type_ := 1, Id := "vehicle.tesla.model3" })] 8
        = .ok ('o', [(7, { Type_ := 1, Id := "vehicle.tesla.model3" })]
            ++ [(8, { Type_ := 0, Id := "" })]) ∧
      mapFind ([(7, ({ Type_ := 1, Id := "vehicle.tesla.model3" } : ReplayerActorInfo))]
          ++ [(8, ({ Type_ := 0, Id := "" } : ReplayerActorInfo))]) 8
        = some { Type_ := 0, Id := "" })) ∧
    mapFind [(7, ({ Type_ := 1, Id := "vehicle.tesla.model3" } : ReplayerActorInfo))] 8
      = none ∧
    (sideCategory [(7, { Type_ := 6, Id := "sensor" })] 7).toOption = none :=
  (fun h => ⟨h, category_lookup_is_safe_below_six
    [(7, { Type_ := 1, Id := "vehicle.tesla.model3" })] 8 h, by decide, by decide⟩)
    (by decide)

theorem collisionRowText_ne (P : Platform) (Elapsed : Nat) (Type1 Type2 : Char)
    (DatabaseId1 : Nat) (Id1 : String) (DatabaseId2 : Nat) (Id2 : String) :
    collisionRowText P Elapsed Type1 Type2 DatabaseId1 Id1 DatabaseId2 Id2 ≠ "" := by
  intro h
  have hl := congrArg String.length h
  simp only [collisionRowText, String.length_append] at hl
  have h1 : "\n".length = 1 := rfl
  have h0 : "".length = 0 := rfl
  omega

theorem blockedPosition_anchor (P : Platform) (A : BlockedArith) (MinTime MinDistance : Nat)
    (s : BlockedState) :
    ∃ t e, blockedPosition P A MinTime MinDistance s = .ok t ∧
      mapFind t.Actors s.record.DatabaseId = some e ∧
      e.LastPosition =
        (if A.distanceLess s.entry.LastPosition s.record.Location MinDistance = true then
          s.entry.LastPosition else s.record.Location) ∧
      (A.distanceLess s.entry.LastPosition s.record.Location MinDistance = true →
        e.Duration = A.add s.entry.Duration s.self.Frame.DurationThis) ∧
      (A.distanceLess s.entry.LastPosition s.record.Location MinDistance = false →
        e.Duration = 0) := by
  rcases Bool.eq_false_or_eq_true
      (A.distanceLess s.entry.LastPosition s.record.Location MinDistance) with hd | hd
  · obtain ⟨t, e, ht, _, hf, hD, hL⟩ := blockedPosition_stopped P A MinTime MinDistance s hd
    refine ⟨t, e, ht, hf, ?_, fun _ => hD, fun h => ?_⟩
    · rw [if_pos hd]; exact hL
    · rw [hd] at h; cases h
  · obtain ⟨t, e, ht, _, hf, hD, hL⟩ := blockedPosition_moving P A MinTime MinDistance s hd
    refine ⟨t, e, ht, hf, ?_, fun h => ?_, fun _ => hD⟩
    · rw [if_neg (by rw [hd]; exact Bool.false_ne_true)]; exact hL
    · rw [hd] at h; cases h

theorem anchor_run_steps (P : Platform) (A : BlockedArith) (MinTime MinDistance : Nat)
    (id : Nat) :
    ∀ (run : List BlockedState) (s sN : BlockedState),
      (∀ x ∈ s :: run, x.record.DatabaseId = id) →
      entriesCarried P A MinTime MinDistance id (s :: run) = true →
      (s :: run).getLast? = some sN →
      ∃ tN e, blockedPosition P A MinTime MinDistance sN = .ok tN ∧
        mapFind tN.Actors id = some e ∧
        e.LastPosition =
          specAnchor A MinDistance s.entry.LastPosition (recordLocations (s :: run)) := by
  intro run
  induction run with
  | nil =>
    intro s sN hid _ hlast
    have hs : s.record.DatabaseId = id := hid s (List.mem_cons_self _ _)
    obtain ⟨t, e, ht, hf, hL, _, _⟩ := blockedPosition_anchor P A MinTime MinDistance s
    simp only [List.getLast?_singleton, Option.some.injEq] at hlast
    subst hlast
    refine ⟨t, e, ht, by rw [← hs]; exact hf, ?_⟩
    rw [hL]
    simp only [recordLocations, List.map_cons, List.map_nil, specAnchor]
  | cons s2 rest ih =>
    intro s sN hid hc hlast
    have hs : s.record.DatabaseId = id := hid s (List.mem_cons_self _ _)
    have hs2 : s2.record.DatabaseId = id :=
      hid s2 (List.mem_cons_of_mem _ (List.mem_cons_self _ _))
    obtain ⟨t, e1, ht, hf, hL, _, _⟩ := blockedPosition_anchor P A MinTime MinDistance s
    simp only [entriesCarried, Bool.and_eq_true] at hc
    obtain ⟨hcar, hc2⟩ := hc
    simp only [entryCarried, ht, decide_eq_true_eq] at hcar
    rw [hs] at hf
    rw [hf, ← hs2] at hcar
    have he2 := entry_of_find s2 _ hcar
    have hlast2 : (s2 :: rest).getLast? = some sN := by
      rw [← hlast, List.getLast?_cons_cons]
    obtain ⟨tN, e, htN, hfN, hLP⟩ := ih s2 sN
      (fun x hx => hid x (List.mem_cons_of_mem _ hx)) hc2 hlast2
    refine ⟨tN, e, htN, hfN, ?_⟩
    rw [hLP, he2, hL]
    simp only [recordLocations, List.map_cons, specAnchor]

theorem blockedEventAdd_anchor (P : Platform) (s : BlockedState) :
    ∃ t e, blockedEventAdd P s = .ok t ∧
      mapFind t.Actors (CarlaRecorderEventAdd.Read P s.self.File s.self.EventAdd).1.DatabaseId
        = some e ∧
      e.LastPosition = { X := 0, Y := 0, Z := 0 } ∧ e.Duration = 0 :=
  ⟨_, _, rfl, mapFind_mapAssign_self _ _ _, rfl, rfl⟩

theorem entry_of_absent (s : BlockedState)
    (h : mapFind s.Actors s.record.DatabaseId = none) :
    s.entry = BlockedActorInfo.init := by
  unfold BlockedState.entry mapIndex
  rw [h]

/-- C32. In `QueryBlocked` a `Position` record closer than `MinDistance` to the actor's
`LastPosition` leaves `LastPosition` unchanged and any other record makes its location
the new `LastPosition` and restarts the duration: the distance is measured from that
anchor. An actor without an entry and an actor just created by an `EventAdd` record
start from the anchor (0,0,0). Over the records of one actor whose entry is not touched
in between, the `LastPosition` after the last record is the anchor the specification
describes: the location of the last record that was at least `MinDistance` away from the
anchor before it. -/
theorem last_position_is_the_anchor (P : Platform) (A : BlockedArith)
    (MinTime MinDistance : Nat) (id : Nat) (s0 sN : BlockedState) (run : List BlockedState)
    (hid : ∀ s ∈ s0 :: run, s.record.DatabaseId = id)
    (hcarried : entriesCarried P A MinTime MinDistance id (s0 :: run) = true)
    (hlast : (s0 :: run).getLast? = some sN) :
    (∀ s : BlockedState, ∃ t e, blockedPosition P A MinTime MinDistance s = .ok t ∧
      mapFind t.Actors s.record.DatabaseId = some e ∧
      (A.distanceLess s.entry.LastPosition s.record.Location MinDistance = true →
        e.LastPosition = s.entry.LastPosition ∧
        e.Duration = A.add s.entry.Duration s.self.Frame.DurationThis) ∧
      (A.distanceLess s.entry.LastPosition s.record.Location MinDistance = false →
        e.LastPosition = s.record.Location ∧ e.Duration = 0)) ∧
    (∀ s : BlockedState, mapFind s.Actors s.record.DatabaseId = none →
      s.entry.LastPosition = { X := 0, Y := 0, Z := 0 }) ∧
    (∀ s : BlockedState, ∃ t e, blockedEventAdd P s = .ok t ∧
      mapFind t.Actors
        (CarlaRecorderEventAdd.Read P s.self.File s.self.EventAdd).1.DatabaseId = some e ∧
      e.LastPosition = { X := 0, Y := 0, Z := 0 }) ∧
    ∃ tN e, blockedPosition P A MinTime MinDistance sN = .ok tN ∧
      mapFind tN.Actors id = some e ∧
      e.LastPosition =
        specAnchor A MinDistance s0.entry.LastPosition (recordLocations (s0 :: run)) := by
  refine ⟨fun s => ?_, fun s h => ?_, fun s => ?_,
    anchor_run_steps P A MinTime MinDistance id run s0 sN hid hcarried hlast⟩
  · obtain ⟨t, e, ht, hf, hL, hD1, hD0⟩ := blockedPosition_anchor P A MinTime MinDistance s
    refine ⟨t, e, ht, hf, fun h => ⟨?_, hD1 h⟩, fun h => ⟨?_, hD0 h⟩⟩
    · rw [hL, if_pos h]
    · rw [hL, if_neg (by rw [h]; exact Bool.false_ne_true)]
  · rw [entry_of_absent s h]; rfl
  · obtain ⟨t, e, ht, hf, hL, _⟩ := blockedEventAdd_anchor P s
    exact ⟨t, e, ht, hf, hL⟩

theorem last_position_is_the_anchor_witness :
    (∀ s ∈ creepingFirst :: creepingRun, s.record.DatabaseId = 7) ∧
    entriesCarried referencePlatform referenceArith double_5 double_0_10 7
      (creepingFirst :: creepingRun) = true ∧
    (creepingFirst :: creepingRun).getLast? = some creepingFourth ∧
    recordLocations (creepingFirst :: creepingRun) =
      [{ X := 0x3D75C28F, Y := 0, Z := 0 }, { X := 0x3DF5C28F, Y := 0, Z := 0 },
       { X := 0x3E3851EC, Y := 0, Z := 0 }, { X := 0x3E75C28F, Y := 0, Z := 0 }] ∧
    creepingFirst.entry.LastPosition = { X := 0, Y := 0, Z := 0 } ∧
    anchorsAfter referenceArith double_0_10 creepingFirst.entry.LastPosition
        (recordLocations (creepingFirst :: creepingRun)) 4 =
      [{ X := 0, Y := 0, Z := 0 }, { X := 0x3DF5C28F, Y := 0, Z := 0 },
       { X := 0x3DF5C28F, Y := 0, Z := 0 }, { X := 0x3E75C28F, Y := 0, Z := 0 }] ∧
    ((∀ s : BlockedState, ∃ t e,
      blockedPosition referencePlatform referenceArith double_5 double_0_10 s = .ok t ∧
      mapFind t.Actors s.record.DatabaseId = some e ∧
      (referenceArith.distanceLess s.entry.LastPosition s.record.Location double_0_10 = true →
        e.LastPosition = s.entry.LastPosition ∧
        e.Duration = referenceArith.add s.entry.Duration s.self.Frame.DurationThis) ∧
      (referenceArith.distanceLess s.entry.LastPosition s.record.Location double_0_10 = false →
        e.LastPosition = s.record.Location ∧ e.Duration = 0)) ∧
    (∀ s : BlockedState, mapFind s.Actors s.record.DatabaseId = none →
      s.entry.LastPosition = { X := 0, Y := 0, Z := 0 }) ∧
    (∀ s : BlockedState, ∃ t e, blockedEventAdd referencePlatform s = .ok t ∧
      mapFind t.Actors
        (CarlaRecorderEventAdd.Read referencePlatform s.self.File s.self.EventAdd).1.DatabaseId
          = some e ∧
      e.LastPosition = { X := 0, Y := 0, Z := 0 }) ∧
    ∃ tN e, blockedPosition referencePlatform referenceArith double_5 double_0_10
        creepingFourth = .ok tN ∧
      mapFind tN.Actors 7 = some e ∧
      e.LastPosition =
        specAnchor referenceArith double_0_10 creepingFirst.entry.LastPosition
          (recordLocations (creepingFirst :: creepingRun))) :=
  (fun h1 h2 h3 h4 h5 h6 => ⟨h1, h2, h3, h4, h5, h6,
    last_position_is_the_anchor referencePlatform referenceArith double_5 double_0_10 7
      creepingFirst creepingFourth creepingRun h1 h2 h3⟩)
    (by decide!) (by decide!) (by decide!) (by decide!) (by decide!) (by decide!)

theorem leValue_lt : ∀ bytes : List Nat, leValue bytes < 256 ^ bytes.length := by
  intro bytes
  induction bytes with
  | nil => simp [leValue]
  | cons b bs ih =>
    simp only [leValue, List.length_cons, pow_succ]
    have := Nat.mod_lt b (show 0 < 256 by omega)
    omega

theorem IfStream.read_length (f : IfStream) (n : Nat) (bytes : List Nat) (g : IfStream)
    (h : f.read n = (some bytes, g)) : bytes.length = n := by
  unfold IfStream.read at h
  split_ifs at h with h1 h2
  · simp only [Prod.mk.injEq, Option.some.injEq] at h
    rw [← h.1, List.length_take]
    omega
  · simp at h
  · simp at h

theorem ReadTotal_bounded (File : IfStream) (Total : Option Nat)
    (h : countBounded Total = true) : countBounded (ReadTotal File Total).1 = true := by
  unfold ReadTotal
  rcases hr : File.read 2 with ⟨_ | bytes, g⟩
  · exact h
  · have hl := IfStream.read_length File 2 bytes g hr
    have := leValue_lt bytes
    rw [hl] at this
    simp only [countBounded, decide_eq_true_eq]
    omega

theorem packetLoop_failed {σ : Type} [LoopState σ] (packet : σ → Except Fault σ)
    (fuel : Nat) (s : σ) (h : (LoopState.self s).File.failbit = true) :
    packetLoop packet (fuel + 1) s = .ok s := by
  simp [packetLoop, IfStream.toBool, h]

theorem IfStream.short_header_fails (f : IfStream) (he : f.eofbit = false)
    (hf : f.failbit = false) (hn : ¬ 5 ≤ f.rest.length) :
    ((f.read 1).2.read 4).2.failbit = true := by
  obtain ⟨d, p, o, e, fl⟩ := f
  simp only at he hf
  subst he hf
  simp only [IfStream.rest] at hn
  simp only [IfStream.read, IfStream.good, IfStream.rest]
  split_ifs <;> simp_all
  all_goals omega

theorem ReadHeader_progress (q : CarlaRecorderQuery) (hf : q.File.failbit = false)
    (h : (ReadHeader q).1 = true) :
    (ReadHeader q).2.File.failbit = true ∨
      ((ReadHeader q).2.File.pos = q.File.pos + 5 ∧
        q.File.pos + 5 ≤ q.File.data.length) := by
  have he : q.File.eofbit = false := by
    unfold ReadHeader at h
    split at h
    · cases h
    · rename_i he
      simpa [IfStream.eof] using he
  have hg : q.File.good = true := by simp [IfStream.good, he, hf]
  by_cases hn : 5 ≤ q.File.rest.length
  · right
    rw [ReadHeader_of_rest q hg hn]
    refine ⟨rfl, ?_⟩
    unfold IfStream.rest at hn
    split at hn
    · rw [List.length_drop] at hn
      omega
    · simp at hn
  · left
    unfold ReadHeader
    rw [if_neg (by simp [IfStream.eof, he])]
    simp only [ReadValue_snd]
    exact IfStream.short_header_fails q.File he hf hn

theorem packetIter_progress {σ : Type} [LoopState σ] {packet : σ → Except Fault σ}
    (hp : ∀ s t, packet s = .ok t → (LoopState.file s).Le (LoopState.file t)) :
    ∀ (k : Nat) (s t : σ), packetIter packet k s = some t →
      (LoopState.file t).failbit = false →
      (LoopState.file s).pos + 5 * k ≤ (LoopState.file t).pos := by
  intro k
  induction k with
  | zero =>
    intro s t h _
    simp only [packetIter, Option.some.injEq] at h
    subst h
    omega
  | succ n ih =>
    intro s t h ht
    simp only [packetIter] at h
    by_cases hb : (LoopState.self s).File.toBool = true
    · simp only [hb, if_true] at h
      by_cases hh : (ReadHeader (LoopState.self s)).1 = true
      · simp only [hh, if_true] at h
        cases hk : packet (LoopState.setSelf s (ReadHeader (LoopState.self s)).2) with
        | error e => rw [hk] at h; cases h
        | ok u =>
          rw [hk] at h
          simp only at h
          have hle := hp _ _ hk
          rw [LoopState.file_setSelf] at hle
          have hut := packetIter_le hp n u t h
          have hu : (LoopState.file u).failbit = false := by
            cases hc : (LoopState.file u).failbit
            · rfl
            · rw [hut.2.2.2.1 hc] at ht; cases ht
          have hhf : (ReadHeader (LoopState.self s)).2.File.failbit = false := by
            cases hc : (ReadHeader (LoopState.self s)).2.File.failbit
            · rfl
            · rw [hle.2.2.2.1 hc] at hu; cases hu
          have hsf : (LoopState.self s).File.failbit = false := by
            simpa [IfStream.toBool] using hb
          rcases ReadHeader_progress _ hsf hh with hx | ⟨hx, _⟩
          · rw [hx] at hhf; cases hhf
          · have h1 := ih u t h ht
            have h2 := hle.2.2.1
            simp only [LoopState.file] at h1 h2 ⊢
            omega
      · simp only [hh, if_false, Bool.false_eq_true] at h
        cases h
    · simp only [hb, if_false, Bool.false_eq_true] at h
      cases h

theorem packetTrace_inv {σ : Type} [LoopState σ] (Inv : σ → Prop)
    {packet : σ → Except Fault σ}
    (hset : ∀ s, Inv s → Inv (LoopState.setSelf s (ReadHeader (LoopState.self s)).2))
    (hp : ∀ s t, Inv s → packet s = .ok t → Inv t) :
    ∀ (fuel : Nat) (s : σ), Inv s → ∀ d ∈ packetTrace packet fuel s, Inv d := by
  intro fuel
  induction fuel with
  | zero => intro s _ d hd; simp [packetTrace] at hd
  | succ n ih =>
    intro s hi d hd
    simp only [packetTrace] at hd
    by_cases hb : (LoopState.self s).File.toBool = true
    · simp only [hb, if_true] at hd
      by_cases hh : (ReadHeader (LoopState.self s)).1 = true
      · simp only [hh, if_true, List.mem_cons] at hd
        rcases hd with rfl | hd
        · exact hset s hi
        · cases hk : packet (LoopState.setSelf s (ReadHeader (LoopState.self s)).2) with
          | error e => rw [hk] at hd; simp at hd
          | ok u =>
            rw [hk] at hd
            exact ih u (hp _ _ (hset s hi) hk) d hd
      · simp [hh] at hd
    · simp [hb] at hd

theorem frameLine_total (P : Platform) (s t : InfoState) (h : s.frameLine P = .ok t) :
    t.Total = s.Total := by
  simp only [InfoState.frameLine] at h
  split at h
  · cases h
  · split at h <;> (cases h; rfl)

theorem titleLine_total (title : String) (s t : InfoState) (h : s.titleLine title = .ok t) :
    t.Total = s.Total := by
  simp only [InfoState.titleLine] at h
  split at h
  · cases h
  · cases h; rfl

theorem infoEventCase_total (P : Platform) {record : InfoState → Except Fault InfoState}
    (hrec : ∀ s t, record s = .ok t → t.Total = s.Total) (s t : InfoState)
    (h : infoEventCase P record s = .ok t) : t.Total = s.readTotal.Total := by
  simp only [infoEventCase] at h
  cases hf : s.readTotal.frameLine P with
  | error e => rw [hf] at h; cases h
  | ok s1 =>
    rw [hf] at h
    rw [forTotal_preserves (fun u : InfoState => u.Total) record hrec _ _ _ h,
      frameLine_total P _ _ hf]

theorem infoListCase_total (P : Platform) (bShowAll : Bool) (title : String)
    {record : InfoState → Except Fault InfoState}
    (hrec : ∀ s t, record s = .ok t → t.Total = s.Total) (s t : InfoState)
    (h : infoListCase P bShowAll title record s = .ok t) :
    t.Total = s.Total ∨ t.Total = s.readTotal.Total := by
  cases bShowAll
  · simp only [infoListCase, Bool.false_eq_true, if_false, Except.ok.injEq] at h
    subst h
    exact Or.inl rfl
  · simp only [infoListCase, if_true] at h
    cases hf : s.readTotal.frameLine P with
    | error e => rw [hf] at h; cases h
    | ok s1 =>
      rw [hf] at h
      simp only at h
      cases ht : s1.titleLine title with
      | error e => rw [ht] at h; cases h
      | ok s2 =>
        rw [ht] at h
        right
        rw [forTotal_preserves (fun u : InfoState => u.Total) record hrec _ _ _ h,
          titleLine_total _ _ _ ht, frameLine_total P _ _ hf]

theorem infoPacket_total (P : Platform) (C : PhysicsCodec) (bShowAll : Bool)
    (d t : InfoState) (h : infoPacket P C bShowAll d = .ok t) :
    t.Total = d.Total ∨ t.Total = d.readTotal.Total := by
  unfold infoPacket at h
  split at h
  · left
    split at h <;> (simp only [Except.ok.injEq] at h; subst h; rfl)
  · exact Or.inr (infoEventCase_total P
      (fun s t h => by simp only [infoEventAdd, Except.ok.injEq] at h; subst h; rfl) d t h)
  · exact Or.inr (infoEventCase_total P
      (fun s t h => by simp only [infoEventDel, Except.ok.injEq] at h; subst h; rfl) d t h)
  · exact Or.inr (infoEventCase_total P
      (fun s t h => by simp only [infoEventParent, Except.ok.injEq] at h; subst h; rfl) d t h)
  · exact Or.inr (infoEventCase_total P
      (fun s t h => by simp only [infoCollision, Except.ok.injEq] at h; subst h; rfl) d t h)
  · exact infoListCase_total P _ _
      (fun s t h => by simp only [infoPosition, Except.ok.injEq] at h; subst h; rfl) d t h
  · exact infoListCase_total P _ _
      (fun s t h => by simp only [infoState, Except.ok.injEq] at h; subst h; rfl) d t h
  · exact infoListCase_total P _ _
      (fun s t h => by simp only [infoAnimVehicle, Except.ok.injEq] at h; subst h; rfl) d t h
  · exact infoListCase_total P _ _
      (fun s t h => by simp only [infoAnimWalker, Except.ok.injEq] at h; subst h; rfl) d t h
  · exact infoListCase_total P _ _
      (fun s t h => by simp only [infoVehicleDoor, Except.ok.injEq] at h; subst h; rfl) d t h
  · exact infoListCase_total P _ _
      (fun s t h => by simp only [infoVehicleLight, Except.ok.injEq] at h; subst h; rfl) d t h
  · exact infoListCase_total P _ _
      (fun s t h => by simp only [infoSceneLight, Except.ok.injEq] at h; subst h; rfl) d t h
  · exact infoListCase_total P _ _
      (fun s t h => by simp only [infoKinematics, Except.ok.injEq] at h; subst h; rfl) d t h
  · exact infoListCase_total P _ _
      (fun s t h => by simp only [infoBoundingBox, Except.ok.injEq] at h; subst h; rfl) d t h
  · exact infoListCase_total P _ _
      (fun s t h => by simp only [infoBoundingBox, Except.ok.injEq] at h; subst h; rfl) d t h
  · left
    split at h
    · simp only [Except.ok.injEq] at h
      subst h
      split <;> rfl
    · simp only [Except.ok.injEq] at h
      subst h
      rfl
  · exact infoListCase_total P _ _
      (fun s t h => by simp only [infoPhysicsControl, Except.ok.injEq] at h; subst h; rfl) d t h
  · exact infoListCase_total P _ _
      (fun s t h => by simp only [infoTrafficLightTime, Except.ok.injEq] at h; subst h; rfl)
      d t h
  · split at h
    · cases h
    · rename_i t1 hl
      have e1 := infoListCase_total P _ _
        (fun s t h => by simp only [infoWalkerBones, Except.ok.injEq] at h; subst h; rfl)
        d t1 hl
      split at h <;> (simp only [Except.ok.injEq] at h; subst h; exact e1)
  · simp only [Except.ok.injEq] at h
    subst h
    exact Or.inl rfl
  · simp only [Except.ok.injEq] at h
    subst h
    exact Or.inl rfl

theorem collisionRecord_total (P : Platform) (Category1 Category2 : Char)
    (s t : CollisionsState) (h : collisionRecord P Category1 Category2 s = .ok t) :
    t.Total = s.Total := by
  obtain ⟨T1, A1, T2, A2, h1, h2⟩ := collisionRecord_ok P Category1 Category2 s t h
  rw [collisionRecord_eq P Category1 Category2 s T1 T2 A1 A2 h1 h2] at h
  split at h <;> (simp only [Except.ok.injEq] at h; subst h; rfl)

theorem collisionsPacket_total (P : Platform) (Category1 Category2 : Char)
    (d t : CollisionsState) (h : collisionsPacket P Category1 Category2 d = .ok t) :
    t.Total = d.Total ∨ t.Total = d.readTotal.Total := by
  unfold collisionsPacket at h
  split at h
  · simp only [Except.ok.injEq] at h
    subst h
    exact Or.inl rfl
  · exact Or.inr (forTotal_preserves (fun u : CollisionsState => u.Total) _
      (fun s t h => by simp only [collisionsEventAdd, Except.ok.injEq] at h; subst h; rfl)
      _ _ _ h)
  · exact Or.inr (forTotal_preserves (fun u : CollisionsState => u.Total) _
      (fun s t h => by simp only [collisionsEventDel, Except.ok.injEq] at h; subst h; rfl)
      _ _ _ h)
  all_goals first
    | exact Or.inr (forTotal_preserves (fun u : CollisionsState => u.Total) _
        (collisionRecord_total P Category1 Category2) _ _ _ h)
    | (simp only [Except.ok.injEq] at h; subst h; exact Or.inl rfl)

theorem blockedPosition_total (P : Platform) (A : BlockedArith) (MinTime MinDistance : Nat)
    (s t : BlockedState) (h : blockedPosition P A MinTime MinDistance s = .ok t) :
    t.Total = s.Total := by
  rw [blockedPosition_eq] at h
  split at h <;> (simp only [Except.ok.injEq] at h; subst h; rfl)

theorem blockedPacket_total (P : Platform) (A : BlockedArith) (MinTime MinDistance : Nat)
    (d t : BlockedState) (h : blockedPacket P A MinTime MinDistance d = .ok t) :
    t.Total = d.Total ∨ t.Total = d.readTotal.Total := by
  unfold blockedPacket at h
  split at h
  · simp only [Except.ok.injEq] at h
    subst h
    exact Or.inl rfl
  · exact Or.inr (forTotal_preserves (fun u : BlockedState => u.Total) _
      (fun s t h => by simp only [blockedEventAdd, Except.ok.injEq] at h; subst h; rfl)
      _ _ _ h)
  · exact Or.inr (forTotal_preserves (fun u : BlockedState => u.Total) _
      (fun s t h => by simp only [blockedEventDel, Except.ok.injEq] at h; subst h; rfl)
      _ _ _ h)
  all_goals first
    | exact Or.inr (forTotal_preserves (fun u : BlockedState => u.Total) _
        (blockedPosition_total P A MinTime MinDistance) _ _ _ h)
    | (simp only [Except.ok.injEq] at h; subst h; exact Or.inl rfl)

theorem QueryInfo_returns (P : Platform) (C : PhysicsCodec) (hC : C.Local)
    (fs : String → Option (List Nat)) (self : CarlaRecorderQuery) (Filename : String)
    (bShowAll : Bool) :
    faultOf (QueryInfo P C fs self Filename bShowAll) = some Fault.undefinedBehaviour ∨
      ∃ r, QueryInfo P C fs self Filename bShowAll = .ok r := by
  unfold QueryInfo
  simp only []
  split_ifs
  · exact Or.inr ⟨_, rfl⟩
  · exact Or.inr ⟨_, rfl⟩
  · rw [infoLoop_eq]
    rcases packetLoop_outcome (infoPacket_local P C hC bShowAll) (infoPacket_ubOnly P C bShowAll)
      ({ self := (CheckFileInfo P { self with
            File := self.File.open (fs (P.GetRecorderFilename Filename)) } OStream.init).2.1,
         Info := (CheckFileInfo P { self with
            File := self.File.open (fs (P.GetRecorderFilename Filename)) } OStream.init).2.2,
         Total := none, bFramePrinted := false } : InfoState) with h | ⟨t, h⟩
    · simp only [loopFuel, LoopState.self] at h
      rw [h]
      exact Or.inl rfl
    · simp only [loopFuel, LoopState.self] at h
      rw [h]
      exact Or.inr ⟨_, rfl⟩

theorem QueryCollisions_returns (P : Platform) (fs : String → Option (List Nat))
    (self : CarlaRecorderQuery) (Filename : String) (Category1 Category2 : Char) :
    faultOf (QueryCollisions P fs self Filename Category1 Category2)
        = some Fault.undefinedBehaviour ∨
      ∃ r, QueryCollisions P fs self Filename Category1 Category2 = .ok r := by
  unfold QueryCollisions
  simp only []
  split_ifs
  · exact Or.inr ⟨_, rfl⟩
  · exact Or.inr ⟨_, rfl⟩
  · rw [collisionsLoop_eq]
    rcases packetLoop_outcome (collisionsPacket_local P Category1 Category2)
      (collisionsPacket_ubOnly P Category1 Category2)
      ({ self := (CheckFileInfo P { self with
            File := self.File.open (fs (P.GetRecorderFilename Filename)) } OStream.init).2.1,
         Info := putCollisionsHeader (CheckFileInfo P { self with
            File := self.File.open (fs (P.GetRecorderFilename Filename)) } OStream.init).2.2,
         Total := none, Actors := [], oldCollisions := [], newCollisions := [] }
        : CollisionsState) with h | ⟨t, h⟩
    · simp only [loopFuel, LoopState.self] at h
      rw [h]
      exact Or.inl rfl
    · simp only [loopFuel, LoopState.self] at h
      rw [h]
      exact Or.inr ⟨_, rfl⟩

theorem QueryBlocked_returns (P : Platform) (A : BlockedArith)
    (fs : String → Option (List Nat)) (self : CarlaRecorderQuery) (Filename : String)
    (MinTime MinDistance : Nat) :
    faultOf (QueryBlocked P A fs self Filename MinTime MinDistance)
        = some Fault.undefinedBehaviour ∨
      ∃ r, QueryBlocked P A fs self Filename MinTime MinDistance = .ok r := by
  unfold QueryBlocked
  simp only []
  split_ifs
  · exact Or.inr ⟨_, rfl⟩
  · exact Or.inr ⟨_, rfl⟩
  · rw [blockedLoop_eq]
    rcases packetLoop_outcome (blockedPacket_local P A MinTime MinDistance)
      (blockedPacket_ubOnly P A MinTime MinDistance)
      ({ self := (CheckFileInfo P { self with
            File := self.File.open (fs (P.GetRecorderFilename Filename)) } OStream.init).2.1,
         Info := putBlockedHeader (CheckFileInfo P { self with
            File := self.File.open (fs (P.GetRecorderFilename Filename)) } OStream.init).2.2,
         Total := none, Actors := [], Results := [] } : BlockedState) with h | ⟨t, h⟩
    · simp only [loopFuel, LoopState.self] at h
      rw [h]
      exact Or.inl rfl
    · simp only [loopFuel, LoopState.self] at h
      rw [h]
      exact Or.inr ⟨_, rfl⟩

theorem packetLoop_terminates {σ : Type} [LoopState σ] {packet : σ → Except Fault σ}
    (hl : LocalStep packet) (hu : UBOnly packet) (s : σ) (fuel : Nat)
    (h : loopFuel s ≤ fuel) :
    packetLoop packet fuel s ≠ .error .outOfFuel ∧
      packetLoop packet fuel s = packetLoop packet (loopFuel s) s :=
  ⟨packetLoop_total hl.1 hu fuel s (Nat.le_trans (budget_le_loopFuel s) h),
    packetLoop_fuel_eq hl.1 hu s fuel (loopFuel s)
      (Nat.le_trans (budget_le_loopFuel s) h) (budget_le_loopFuel s)⟩

theorem infoTrace_counts (P : Platform) (C : PhysicsCodec) (bShowAll : Bool) (fuel : Nat)
    (s : InfoState) (h : countBounded s.Total = true) :
    ∀ d ∈ packetTrace (infoPacket P C bShowAll) fuel s,
      countBounded d.readTotal.Total = true := by
  intro d hd
  have hi := packetTrace_inv (fun u : InfoState => countBounded u.Total = true)
    (fun _ hu => hu)
    (fun u t hu ht => by
      rcases infoPacket_total P C bShowAll u t ht with e | e
      · rw [e]; exact hu
      · rw [e]; exact ReadTotal_bounded _ _ hu)
    fuel s h d hd
  exact ReadTotal_bounded _ _ hi

theorem collisionsTrace_counts (P : Platform) (Category1 Category2 : Char) (fuel : Nat)
    (s : CollisionsState) (h : countBounded s.Total = true) :
    ∀ d ∈ packetTrace (collisionsPacket P Category1 Category2) fuel s,
      countBounded d.readTotal.Total = true := by
  intro d hd
  have hi := packetTrace_inv (fun u : CollisionsState => countBounded u.Total = true)
    (fun _ hu => hu)
    (fun u t hu ht => by
      rcases collisionsPacket_total P Category1 Category2 u t ht with e | e
      · rw [e]; exact hu
      · rw [e]; exact ReadTotal_bounded _ _ hu)
    fuel s h d hd
  exact ReadTotal_bounded _ _ hi

theorem blockedTrace_counts (P : Platform) (A : BlockedArith) (MinTime MinDistance : Nat)
    (fuel : Nat) (s : BlockedState) (h : countBounded s.Total = true) :
    ∀ d ∈ packetTrace (blockedPacket P A MinTime MinDistance) fuel s,
      countBounded d.readTotal.Total = true := by
  intro d hd
  have hi := packetTrace_inv (fun u : BlockedState => countBounded u.Total = true)
    (fun _ hu => hu)
    (fun u t hu ht => by
      rcases blockedPacket_total P A MinTime MinDistance u t ht with e | e
      · rw [e]; exact hu
      · rw [e]; exact ReadTotal_bounded _ _ hu)
    fuel s h d hd
  exact ReadTotal_bounded _ _ hi

theorem count_of_bounded (Total : Option Nat) (h : countBounded Total = true) (n : Nat)
    (hn : Total = some n) : n ≤ 65535 := by
  subst hn
  simpa [countBounded] using h

/-- C34. For every content of the file, well-formed or not, and every state of the query
object, each of the three queries comes to an end: the run returns a report unless it
meets undefined behaviour of the source, and its packet loop never uses up the
iterations the file length allows, with the same outcome for every larger allowance.
An iteration that reads a header on a stream that has not failed either consumes the 5
bytes of the header, all of them inside the file, or leaves the stream failed; the case
of the packet never moves the stream back and never clears a failure; on a failed stream
the loop ends at once; so `k` iterations that leave the stream unfailed have consumed at
least `5 * k` bytes. The record loop of a packet runs as often as the 16-bit count `Total`
says, which is at most 65535. The codec of `PhysicsControl` records, which is not part
of the sources, is assumed to read forward only. -/
theorem packet_loops_terminate (P : Platform) (C : PhysicsCodec) (A : BlockedArith)
    (fs : String → Option (List Nat)) (self : CarlaRecorderQuery) (Filename : String)
    (bShowAll : Bool) (Category1 Category2 : Char) (MinTime MinDistance : Nat)
    (hC : C.Local) :
    ((faultOf (QueryInfo P C fs self Filename bShowAll) = some Fault.undefinedBehaviour ∨
        ∃ r, QueryInfo P C fs self Filename bShowAll = .ok r) ∧
      (faultOf (QueryCollisions P fs self Filename Category1 Category2)
          = some Fault.undefinedBehaviour ∨
        ∃ r, QueryCollisions P fs self Filename Category1 Category2 = .ok r) ∧
      (faultOf (QueryBlocked P A fs self Filename MinTime MinDistance)
          = some Fault.undefinedBehaviour ∨
        ∃ r, QueryBlocked P A fs self Filename MinTime MinDistance = .ok r)) ∧
    ((∀ (s : InfoState) (fuel : Nat), loopFuel s ≤ fuel →
        packetLoop (infoPacket P C bShowAll) fuel s ≠ .error .outOfFuel ∧
        packetLoop (infoPacket P C bShowAll) fuel s
          = packetLoop (infoPacket P C bShowAll) (loopFuel s) s) ∧
      (∀ (s : CollisionsState) (fuel : Nat), loopFuel s ≤ fuel →
        packetLoop (collisionsPacket P Category1 Category2) fuel s ≠ .error .outOfFuel ∧
        packetLoop (collisionsPacket P Category1 Category2) fuel s
          = packetLoop (collisionsPacket P Category1 Category2) (loopFuel s) s) ∧
      (∀ (s : BlockedState) (fuel : Nat), loopFuel s ≤ fuel →
        packetLoop (blockedPacket P A MinTime MinDistance) fuel s ≠ .error .outOfFuel ∧
        packetLoop (blockedPacket P A MinTime MinDistance) fuel s
          = packetLoop (blockedPacket P A MinTime MinDistance) (loopFuel s) s)) ∧
    (∀ q : CarlaRecorderQuery, q.File.failbit = false → (ReadHeader q).1 = true →
      (ReadHeader q).2.File.failbit = true ∨
        ((ReadHeader q).2.File.pos = q.File.pos + 5 ∧
          q.File.pos + 5 ≤ q.File.data.length)) ∧
    ((∀ s t : InfoState, infoPacket P C bShowAll s = .ok t →
        s.self.File.pos ≤ t.self.File.pos ∧
        (s.self.File.failbit = true → t.self.File.failbit = true)) ∧
      (∀ s t : CollisionsState, collisionsPacket P Category1 Category2 s = .ok t →
        s.self.File.pos ≤ t.self.File.pos ∧
        (s.self.File.failbit = true → t.self.File.failbit = true)) ∧
      (∀ s t : BlockedState, blockedPacket P A MinTime MinDistance s = .ok t →
        s.self.File.pos ≤ t.self.File.pos ∧
        (s.self.File.failbit = true → t.self.File.failbit = true))) ∧
    ((∀ (s : InfoState) (fuel : Nat), s.self.File.failbit = true →
        packetLoop (infoPacket P C bShowAll) (fuel + 1) s = .ok s) ∧
      (∀ (s : CollisionsState) (fuel : Nat), s.self.File.failbit = true →
        packetLoop (collisionsPacket P Category1 Category2) (fuel + 1) s = .ok s) ∧
      (∀ (s : BlockedState) (fuel : Nat), s.self.File.failbit = true →
        packetLoop (blockedPacket P A MinTime MinDistance) (fuel + 1) s = .ok s)) ∧
    ((∀ (k : Nat) (s t : InfoState), packetIter (infoPacket P C bShowAll) k s = some t →
        t.self.File.failbit = false → s.self.File.pos + 5 * k ≤ t.self.File.pos) ∧
      (∀ (k : Nat) (s t : CollisionsState),
        packetIter (collisionsPacket P Category1 Category2) k s = some t →
        t.self.File.failbit = false → s.self.File.pos + 5 * k ≤ t.self.File.pos) ∧
      (∀ (k : Nat) (s t : BlockedState),
        packetIter (blockedPacket P A MinTime MinDistance) k s = some t →
        t.self.File.failbit = false → s.self.File.pos + 5 * k ≤ t.self.File.pos)) ∧
    ((∀ (s : InfoState) (fuel : Nat), s.Total = none →
        ∀ d ∈ packetTrace (infoPacket P C bShowAll) fuel s,
          ∀ n, d.readTotal.Total = some n → n ≤ 65535) ∧
      (∀ (s : CollisionsState) (fuel : Nat), s.Total = none →
        ∀ d ∈ packetTrace (collisionsPacket P Category1 Category2) fuel s,
          ∀ n, d.readTotal.Total = some n → n ≤ 65535) ∧
      (∀ (s : BlockedState) (fuel : Nat), s.Total = none →
        ∀ d ∈ packetTrace (blockedPacket P A MinTime MinDistance) fuel s,
          ∀ n, d.readTotal.Total = some n → n ≤ 65535)) := by
  have hli := infoPacket_local P C hC bShowAll
  have hlc := collisionsPacket_local P Category1 Category2
  have hlb := blockedPacket_local P A MinTime MinDistance
  refine ⟨⟨QueryInfo_returns P C hC fs self Filename bShowAll,
      QueryCollisions_returns P fs self Filename Category1 Category2,
      QueryBlocked_returns P A fs self Filename MinTime MinDistance⟩,
    ⟨fun s fuel h => packetLoop_terminates hli (infoPacket_ubOnly P C bShowAll) s fuel h,
      fun s fuel h => packetLoop_terminates hlc
        (collisionsPacket_ubOnly P Category1 Category2) s fuel h,
      fun s fuel h => packetLoop_terminates hlb
        (blockedPacket_ubOnly P A MinTime MinDistance) s fuel h⟩,
    ReadHeader_progress,
    ⟨fun s t h => ⟨(hli.1 s t h).2.2.1, (hli.1 s t h).2.2.2.1⟩,
      fun s t h => ⟨(hlc.1 s t h).2.2.1, (hlc.1 s t h).2.2.2.1⟩,
      fun s t h => ⟨(hlb.1 s t h).2.2.1, (hlb.1 s t h).2.2.2.1⟩⟩,
    ⟨fun s fuel h => packetLoop_failed _ fuel s h,
      fun s fuel h => packetLoop_failed _ fuel s h,
      fun s fuel h => packetLoop_failed _ fuel s h⟩,
    ⟨fun k s t h ht => packetIter_progress hli.1 k s t h ht,
      fun k s t h ht => packetIter_progress hlc.1 k s t h ht,
      fun k s t h ht => packetIter_progress hlb.1 k s t h ht⟩,
    ⟨fun s fuel h d hd n hn => count_of_bounded _
        (infoTrace_counts P C bShowAll fuel s (by rw [h]; rfl) d hd) n hn,
      fun s fuel h d hd n hn => count_of_bounded _
        (collisionsTrace_counts P Category1 Category2 fuel s (by rw [h]; rfl) d hd) n hn,
      fun s fuel h d hd n hn => count_of_bounded _
        (blockedTrace_counts P A MinTime MinDistance fuel s (by rw [h]; rfl) d hd) n hn⟩⟩

theorem packet_loops_terminate_witness :
    PhysicsCodec.absent.Local ∧
    (QueryInfo referencePlatform PhysicsCodec.absent (singleFile "Saved/s.log" overlongPacket)
        CarlaRecorderQuery.zero "s" true).toOption.map (fun r => r.1) =
      some "Version: 9\nMap: Town03\nDate: 01/01/70 00:00:00\n\n\nFrames: 0\nDuration: 0 seconds\n" ∧
    (QueryInfo referencePlatform PhysicsCodec.absent (singleFile "Saved/s.log" garbageBytes)
        CarlaRecorderQuery.zero "s" true).toOption.map (fun r => r.1) =
      some "File is not a CARLA recorder\n" ∧
    (packetTrace (infoPacket referencePlatform PhysicsCodec.absent true)
        (loopFuel (infoStartOn overlongPacket)) (infoStartOn overlongPacket)).map
      (fun d => (d.self.Header.Id, d.self.Header.Size, d.self.File.pos, d.self.File.failbit)) =
      [(99, 4294967295, 39, false), (99, 4294967295, 4294967334, true)] ∧
    ((faultOf (QueryInfo referencePlatform PhysicsCodec.absent
          (singleFile "Saved/s.log" overlongPacket) CarlaRecorderQuery.zero "s" true)
        = some Fault.undefinedBehaviour ∨
        ∃ r, QueryInfo referencePlatform PhysicsCodec.absent
          (singleFile "Saved/s.log" overlongPacket) CarlaRecorderQuery.zero "s" true = .ok r) ∧
      (faultOf (QueryCollisions referencePlatform (singleFile "Saved/s.log" overlongPacket)
          CarlaRecorderQuery.zero "s" 'a' 'a') = some Fault.undefinedBehaviour ∨
        ∃ r, QueryCollisions referencePlatform (singleFile "Saved/s.log" overlongPacket)
          CarlaRecorderQuery.zero "s" 'a' 'a' = .ok r) ∧
      (faultOf (QueryBlocked referencePlatform referenceArith
          (singleFile "Saved/s.log" overlongPacket) CarlaRecorderQuery.zero "s" double_5
          double_0_10) = some Fault.undefinedBehaviour ∨
        ∃ r, QueryBlocked referencePlatform referenceArith
          (singleFile "Saved/s.log" overlongPacket) CarlaRecorderQuery.zero "s" double_5
          double_0_10 = .ok r)) :=
  ⟨absent_local, by decide!, by decide!, by decide!,
    (packet_loops_terminate referencePlatform PhysicsCodec.absent referenceArith
      (singleFile "Saved/s.log" overlongPacket) CarlaRecorderQuery.zero "s" true 'a' 'a'
      double_5 double_0_10 absent_local).1⟩

theorem mem_setInsert (l : List (Nat × Nat)) (p q : Nat × Nat) :
    q ∈ setInsert l p ↔ q = p ∨ q ∈ l := by
  unfold setInsert
  split
  · constructor
    · exact Or.inr
    · rintro (rfl | h)
      · assumption
      · exact h
  · simp only [List.mem_append, List.mem_singleton]
    tauto

theorem append_ne_self (a row : String) (h : row ≠ "") : a ++ row ≠ a := by
  intro e
  have hl := congrArg String.length e
  rw [String.length_append] at hl
  apply h
  apply String.ext
  have : row.data.length = 0 := by
    have : row.length = 0 := by omega
    exact this
  exact List.length_eq_zero.1 this

/-- C5. For every collision record and every pair of filter characters, the body of the
`Collision` loop of `QueryCollisions`, with `Type1` and `Type2` the category letters the
two lookups resolve, treats the record as passing the filter if and only if both sides
pass, where side k passes exactly when its filter character is 'a', or equals the side's
category letter, or is 'h' while the side's hero flag is non-zero: when both sides pass,
the body leaves the state of the passing branch (the pair is inserted into
`newCollisions`, and the row is printed when the pair is not in `oldCollisions`); when a
side fails it leaves the state in which only the record was read and the lookups were
made. So the pair is in `newCollisions` afterwards if and only if both sides pass or it
was there before, and the report changes if and only if both sides pass and the pair is
not in `oldCollisions`. -/
theorem collision_filter_iff_both_sides (P : Platform) (Category1 Category2 : Char)
    (s : CollisionsState) (Type1 Type2 : Char)
    (Actors1 Actors2 : List (Nat × ReplayerActorInfo))
    (h1 : sideCategory s.Actors s.record.DatabaseId1 = .ok (Type1, Actors1))
    (h2 : sideCategory Actors1 s.record.DatabaseId2 = .ok (Type2, Actors2)) :
    ∃ t, collisionRecord P Category1 Category2 s = .ok t ∧
      ((sidePasses Category1 Type1 s.record.IsActor1Hero ∧
          sidePasses Category2 Type2 s.record.IsActor2Hero) →
        t = { s with
          self := { s.self with
            File := (CarlaRecorderCollision.Read s.self.File s.self.Collision).2,
            Collision := s.record },
          Info := if s.pair ∉ s.oldCollisions then
              (putCollisionRow P s.self.Frame s.record Type1 Type2 s.Info Actors2).1
            else s.Info,
          Actors := if s.pair ∉ s.oldCollisions then
              (putCollisionRow P s.self.Frame s.record Type1 Type2 s.Info Actors2).2
            else Actors2,
          newCollisions := setInsert s.newCollisions s.pair }) ∧
      (¬ (sidePasses Category1 Type1 s.record.IsActor1Hero ∧
          sidePasses Category2 Type2 s.record.IsActor2Hero) →
        t = { s with
          self := { s.self with
            File := (CarlaRecorderCollision.Read s.self.File s.self.Collision).2,
            Collision := s.record },
          Actors := Actors2 }) ∧
      (s.pair ∈ t.newCollisions ↔
        (sidePasses Category1 Type1 s.record.IsActor1Hero ∧
          sidePasses Category2 Type2 s.record.IsActor2Hero) ∨ s.pair ∈ s.newCollisions) ∧
      (t.Info ≠ s.Info ↔
        (sidePasses Category1 Type1 s.record.IsActor1Hero ∧
          sidePasses Category2 Type2 s.record.IsActor2Hero) ∧ s.pair ∉ s.oldCollisions) := by
  have e := collisionRecord_eq P Category1 Category2 s Type1 Type2 Actors1 Actors2 h1 h2
  by_cases hp : sidePasses Category1 Type1 s.record.IsActor1Hero ∧
      sidePasses Category2 Type2 s.record.IsActor2Hero
  · rw [if_pos ((valid_eq_two_iff _ _ _ _ _ _).2 hp)] at e
    refine ⟨_, e, fun _ => ?_, fun hn => absurd hp hn, ?_, ?_⟩
    · by_cases ho : s.pair ∉ s.oldCollisions
      · have ho2 : (s.record.DatabaseId1, s.record.DatabaseId2) ∉ s.oldCollisions := ho
        simp only [if_pos ho, if_pos ho2]
        rfl
      · have ho2 : ¬ (s.record.DatabaseId1, s.record.DatabaseId2) ∉ s.oldCollisions := ho
        simp only [if_neg ho, if_neg ho2]
        rfl
    · constructor
      · intro _; exact Or.inl hp
      · intro _
        exact (mem_setInsert _ _ _).2 (Or.inl rfl)
    · by_cases ho : s.pair ∉ s.oldCollisions
      · have ho2 : (s.record.DatabaseId1, s.record.DatabaseId2) ∉ s.oldCollisions := ho
        simp only [if_pos ho2]
        refine ⟨fun _ => ⟨hp, ho⟩, fun _ hi => ?_⟩
        have hb := congrArg OStream.buf hi
        rw [putCollisionRow_buf] at hb
        exact append_ne_self _ _ (collisionRowText_ne _ _ _ _ _ _ _ _) hb
      · have ho2 : ¬ (s.record.DatabaseId1, s.record.DatabaseId2) ∉ s.oldCollisions := ho
        simp only [if_neg ho2]
        exact ⟨fun hne => absurd rfl hne, fun hh => absurd hh.2 ho⟩
  · rw [if_neg (fun hv => hp ((valid_eq_two_iff _ _ _ _ _ _).1 hv))] at e
    refine ⟨_, e, fun hh => absurd hh hp, fun _ => rfl, ?_, ?_⟩
    · constructor
      · intro hin; exact Or.inr hin
      · rintro (hh | hin)
        · exact absurd hh hp
        · exact hin
    · exact ⟨fun hne => absurd rfl hne, fun hh => absurd hh.1 hp⟩

theorem collision_filter_iff_both_sides_witness :
    sideCategory heroFlagSecondRecord.Actors heroFlagSecondRecord.record.DatabaseId1
      = .ok ('o', [(7, ReplayerActorInfo.init), (8, ReplayerActorInfo.init)]) ∧
    sideCategory [(7, ReplayerActorInfo.init), (8, ReplayerActorInfo.init)]
        heroFlagSecondRecord.record.DatabaseId2
      = .ok ('o', [(7, ReplayerActorInfo.init), (8, ReplayerActorInfo.init)]) ∧
    (sidePasses 'h' 'o' heroFlagSecondRecord.record.IsActor1Hero ∧
      sidePasses 'a' 'o' heroFlagSecondRecord.record.IsActor2Hero) ∧
    heroFlagSecondRecord.pair ∉ heroFlagSecondRecord.oldCollisions ∧
    (∃ t, collisionRecord referencePlatform 'h' 'a' heroFlagSecondRecord = .ok t ∧
      (heroFlagSecondRecord.pair ∈ t.newCollisions ↔
        (sidePasses 'h' 'o' heroFlagSecondRecord.record.IsActor1Hero ∧
          sidePasses 'a' 'o' heroFlagSecondRecord.record.IsActor2Hero) ∨
        heroFlagSecondRecord.pair ∈ heroFlagSecondRecord.newCollisions) ∧
      (t.Info ≠ heroFlagSecondRecord.Info ↔
        (sidePasses 'h' 'o' heroFlagSecondRecord.record.IsActor1Hero ∧
          sidePasses 'a' 'o' heroFlagSecondRecord.record.IsActor2Hero) ∧
        heroFlagSecondRecord.pair ∉ heroFlagSecondRecord.oldCollisions) ∧
      heroFlagSecondRecord.pair ∈ t.newCollisions ∧ t.Info ≠ heroFlagSecondRecord.Info) ∧
    sideCategory heroFlagFirstRecord.Actors heroFlagFirstRecord.record.DatabaseId1
      = .ok ('o', [(7, ReplayerActorInfo.init)]) ∧
    sideCategory [(7, ReplayerActorInfo.init)] heroFlagFirstRecord.record.DatabaseId2
      = .ok ('o', [(7, ReplayerActorInfo.init), (8, ReplayerActorInfo.init)]) ∧
    ¬ (sidePasses 'h' 'o' heroFlagFirstRecord.record.IsActor1Hero ∧
      sidePasses 'a' 'o' heroFlagFirstRecord.record.IsActor2Hero) ∧
    heroFlagFirstRecord.pair ∉ heroFlagFirstRecord.newCollisions ∧
    (∃ t, collisionRecord referencePlatform 'h' 'a' heroFlagFirstRecord = .ok t ∧
      heroFlagFirstRecord.pair ∉ t.newCollisions ∧ ¬ t.Info ≠ heroFlagFirstRecord.Info) ∧
    (heroFlagFirstRecord.record.IsActor1Hero, heroFlagSecondRecord.record.IsActor1Hero,
      heroFlagFirstRecord.pair, heroFlagSecondRecord.pair) = (0, 1, (7, 8), (7, 8)) :=
  (fun h1 h2 hp hold g1 g2 hfail hnew =>
    ⟨h1, h2, hp, hold,
      (collision_filter_iff_both_sides referencePlatform 'h' 'a' heroFlagSecondRecord 'o' 'o'
        _ _ h1 h2).imp
        (fun _ ht => ⟨ht.1, ht.2.2.2.1, ht.2.2.2.2, ht.2.2.2.1.2 (Or.inl hp),
          ht.2.2.2.2.2 ⟨hp, hold⟩⟩),
      g1, g2, hfail, hnew,
      (collision_filter_iff_both_sides referencePlatform 'h' 'a' heroFlagFirstRecord 'o' 'o'
        _ _ g1 g2).imp
        (fun _ ht => ⟨ht.1, fun hin => (ht.2.2.2.1.1 hin).elim hfail hnew,
          fun hne => hfail (ht.2.2.2.2.1 hne).1⟩),
      by decide!⟩)
    (ok_of_toOption (by decide!)) (ok_of_toOption (by decide!))
    ((valid_eq_two_iff _ _ _ _ _ _).1 (by decide!)) (by decide!)
    (ok_of_toOption (by decide!)) (ok_of_toOption (by decide!))
    (fun h => absurd ((valid_eq_two_iff _ _ _ _ _ _).2 h) (by decide!)) (by decide!)

theorem putW_format (o : OStream) (w : Nat) (s : String) : (o.putW w s).format = o.format :=
  rfl

theorem put_format (o : OStream) (s : String) : (o.put s).format = o.format := rfl

theorem endl_format (o : OStream) : o.endl.format = o.format := rfl

theorem putNat_format (o : OStream) (w n : Nat) : (o.putNat w n).format = o.format := rfl

theorem putDouble_format (P : Platform) (o : OStream) (w x : Nat) :
    (o.putDouble P w x).format = o.format := rfl

theorem putFloat_format (P : Platform) (o : OStream) (x : Nat) :
    (o.putFloat P x).format = o.format := rfl

theorem putTriple_format (P : Platform) (v : FVector) (o : OStream) :
    (putTriple P v o).format = o.format := rfl

theorem putBool_format (b : Nat) (o : OStream) : (putBool b o).format = o.format := rfl

theorem putChar_format (c : Nat) (o : OStream) : (putChar c o).format = o.format := rfl

theorem PrintFrame_format (P : Platform) (Frame : CarlaRecorderFrame) (o : OStream) :
    (PrintFrame P Frame o).format = o.format := rfl

theorem foldl_format {α : Type} (f : OStream → α → OStream)
    (hf : ∀ i a, (f i a).format = i.format) :
    ∀ (l : List α) (i : OStream), (l.foldl f i).format = i.format := by
  intro l
  induction l with
  | nil => intro i; rfl
  | cons a rest ih => intro i; rw [List.foldl_cons, ih, hf]

theorem putCurve_format (o : OStream) (curve : List (String × String)) :
    (putCurve o curve).format = o.format := by
  unfold putCurve
  apply foldl_format
  intro i a
  rfl

theorem putGears_format (o : OStream) (ratios : List String) :
    (putGears o ratios).format = o.format := by
  unfold putGears
  apply foldl_format
  intro i a
  rfl

theorem putWheel_format (Index : Nat) (Wheel : WheelPhysicsControl) (o : OStream) :
    (putWheel Index Wheel o).format = o.format := rfl

theorem frameLine_format (P : Platform) (s t : InfoState) (h : s.frameLine P = .ok t) :
    t.Info.format = s.Info.format := by
  simp only [InfoState.frameLine] at h
  split at h
  · cases h
  · split at h <;> (cases h; rfl)

theorem titleLine_format (title : String) (s t : InfoState) (h : s.titleLine title = .ok t) :
    t.Info.format = s.Info.format := by
  simp only [InfoState.titleLine] at h
  split at h
  · cases h
  · cases h; rfl

theorem infoPhysicsControl_format (C : PhysicsCodec) (s t : InfoState)
    (h : infoPhysicsControl C s = .ok t) : t.Info.format = s.Info.format := by
  simp only [infoPhysicsControl, Except.ok.injEq] at h
  subst h
  simp only [endl_format]
  rw [foldl_format (fun (i : OStream) (e : Nat × WheelPhysicsControl) => putWheel e.1 e.2 i)
    (fun i e => putWheel_format e.1 e.2 i)]
  simp only [put_format, putGears_format, putCurve_format, putNat_format]

theorem infoPacket_format (P : Platform) (C : PhysicsCodec) (bShowAll : Bool)
    (d t : InfoState) (h : infoPacket P C bShowAll d = .ok t) :
    t.Info.format = d.Info.format := by
  unfold infoPacket at h
  split at h
  · split at h <;> (simp only [Except.ok.injEq] at h; subst h; rfl)
  · exact infoEventCase_preserves P (fun s : InfoState => s.Info.format) (fun _ => rfl)
      (frameLine_format P)
      (fun s t h => by
        simp only [infoEventAdd, Except.ok.injEq] at h
        subst h
        show OStream.format (List.foldl _ _ _) = _
        rw [foldl_format _ (fun i a => by
          simp only [apply_ite OStream.format, endl_format, put_format, putNat_format,
            putFloat_format, putDouble_format, putTriple_format, putBool_format, putChar_format,
            ite_self])]
        simp only [apply_ite OStream.format, endl_format, put_format, putNat_format,
          putFloat_format, putDouble_format, putTriple_format, putBool_format, putChar_format,
          ite_self]) d t h
  · exact infoEventCase_preserves P (fun s : InfoState => s.Info.format) (fun _ => rfl)
      (frameLine_format P)
      (fun s t h => by
        simp only [infoEventDel, Except.ok.injEq] at h
        subst h
        simp only [apply_ite OStream.format, endl_format, put_format, putNat_format,
          putFloat_format, putDouble_format, putTriple_format, putBool_format, putChar_format,
          ite_self]) d t h
  · exact infoEventCase_preserves P (fun s : InfoState => s.Info.format) (fun _ => rfl)
      (frameLine_format P)
      (fun s t h => by
        simp only [infoEventParent, Except.ok.injEq] at h
        subst h
        simp only [apply_ite OStream.format, endl_format, put_format, putNat_format,
          putFloat_format, putDouble_format, putTriple_format, putBool_format, putChar_format,
          ite_self]) d t h
  · exact infoEventCase_preserves P (fun s : InfoState => s.Info.format) (fun _ => rfl)
      (frameLine_format P)
      (fun s t h => by
        simp only [infoCollision, Except.ok.injEq] at h
        subst h
        simp only [apply_ite OStream.format, endl_format, put_format, putNat_format,
          putFloat_format, putDouble_format, putTriple_format, putBool_format, putChar_format,
          ite_self]) d t h
  · exact infoListCase_preserves P _ _ (fun s : InfoState => s.Info.format) (fun _ => rfl)
      (fun _ => rfl) (frameLine_format P) (titleLine_format _)
      (fun s t h => by
        simp only [infoPosition, Except.ok.injEq] at h
        subst h
        simp only [apply_ite OStream.format, endl_format, put_format, putNat_format,
          putFloat_format, putDouble_format, putTriple_format, putBool_format, putChar_format,
          ite_self]) d t h
  · exact infoListCase_preserves P _ _ (fun s : InfoState => s.Info.format) (fun _ => rfl)
      (fun _ => rfl) (frameLine_format P) (titleLine_format _)
      (fun s t h => by
        simp only [infoState, Except.ok.injEq] at h
        subst h
        simp only [apply_ite OStream.format, endl_format, put_format, putNat_format,
          putFloat_format, putDouble_format, putTriple_format, putBool_format, putChar_format,
          ite_self]) d t h
  · exact infoListCase_preserves P _ _ (fun s : InfoState => s.Info.format) (fun _ => rfl)
      (fun _ => rfl) (frameLine_format P) (titleLine_format _)
      (fun s t h => by
        simp only [infoAnimVehicle, Except.ok.injEq] at h
        subst h
        simp only [apply_ite OStream.format, endl_format, put_format, putNat_format,
          putFloat_format, putDouble_format, putTriple_format, putBool_format, putChar_format,
          ite_self]) d t h
  · exact infoListCase_preserves P _ _ (fun s : InfoState => s.Info.format) (fun _ => rfl)
      (fun _ => rfl) (frameLine_format P) (titleLine_format _)
      (fun s t h => by
        simp only [infoAnimWalker, Except.ok.injEq] at h
        subst h
        simp only [apply_ite OStream.format, endl_format, put_format, putNat_format,
          putFloat_format, putDouble_format, putTriple_format, putBool_format, putChar_format,
          ite_self]) d t h
  · exact infoListCase_preserves P _ _ (fun s : InfoState => s.Info.format) (fun _ => rfl)
      (fun _ => rfl) (frameLine_format P) (titleLine_format _)
      (fun s t h => by
        simp only [infoVehicleDoor, Except.ok.injEq] at h
        subst h
        simp only [apply_ite OStream.format, endl_format, put_format, putNat_format,
          putFloat_format, putDouble_format, putTriple_format, putBool_format, putChar_format,
          ite_self]) d t h
  · exact infoListCase_preserves P _ _ (fun s : InfoState => s.Info.format) (fun _ => rfl)
      (fun _ => rfl) (frameLine_format P) (titleLine_format _)
      (fun s t h => by
        simp only [infoVehicleLight, Except.ok.injEq] at h
        subst h
        simp only [apply_ite OStream.format, endl_format, put_format, putNat_format,
          putFloat_format, putDouble_format, putTriple_format, putBool_format, putChar_format,
          ite_self]) d t h
  · exact infoListCase_preserves P _ _ (fun s : InfoState => s.Info.format) (fun _ => rfl)
      (fun _ => rfl) (frameLine_format P) (titleLine_format _)
      (fun s t h => by
        simp only [infoSceneLight, Except.ok.injEq] at h
        subst h
        simp only [apply_ite OStream.format, endl_format, put_format, putNat_format,
          putFloat_format, putDouble_format, putTriple_format, putBool_format, putChar_format,
          ite_self]) d t h
  · exact infoListCase_preserves P _ _ (fun s : InfoState => s.Info.format) (fun _ => rfl)
      (fun _ => rfl) (frameLine_format P) (titleLine_format _)
      (fun s t h => by
        simp only [infoKinematics, Except.ok.injEq] at h
        subst h
        simp only [apply_ite OStream.format, endl_format, put_format, putNat_format,
          putFloat_format, putDouble_format, putTriple_format, putBool_format, putChar_format,
          ite_self]) d t h
  · exact infoListCase_preserves P _ _ (fun s : InfoState => s.Info.format) (fun _ => rfl)
      (fun _ => rfl) (frameLine_format P) (titleLine_format _)
      (fun s t h => by
        simp only [infoBoundingBox, Except.ok.injEq] at h
        subst h
        simp only [apply_ite OStream.format, endl_format, put_format, putNat_format,
          putFloat_format, putDouble_format, putTriple_format, putBool_format, putChar_format,
          ite_self]) d t h
  · exact infoListCase_preserves P _ _ (fun s : InfoState => s.Info.format) (fun _ => rfl)
      (fun _ => rfl) (frameLine_format P) (titleLine_format _)
      (fun s t h => by
        simp only [infoBoundingBox, Except.ok.injEq] at h
        subst h
        simp only [apply_ite OStream.format, endl_format, put_format, putNat_format,
          putFloat_format, putDouble_format, putTriple_format, putBool_format, putChar_format,
          ite_self]) d t h
  · split at h
    · simp only [Except.ok.injEq] at h
      subst h
      split <;> rfl
    · simp only [Except.ok.injEq] at h
      subst h
      rfl
  · exact infoListCase_preserves P _ _ (fun s : InfoState => s.Info.format) (fun _ => rfl)
      (fun _ => rfl) (frameLine_format P) (titleLine_format _)
      (infoPhysicsControl_format C) d t h
  · exact infoListCase_preserves P _ _ (fun s : InfoState => s.Info.format) (fun _ => rfl)
      (fun _ => rfl) (frameLine_format P) (titleLine_format _)
      (fun s t h => by
        simp only [infoTrafficLightTime, Except.ok.injEq] at h
        subst h
        simp only [apply_ite OStream.format, endl_format, put_format, putNat_format,
          putFloat_format, putDouble_format, putTriple_format, putBool_format, putChar_format,
          ite_self]) d t h
  · split at h
    · cases h
    · rename_i t1 hl
      have e1 : t1.Info.format = d.Info.format :=
        infoListCase_preserves P _ _ (fun s : InfoState => s.Info.format) (fun _ => rfl)
          (fun _ => rfl) (frameLine_format P) (titleLine_format _)
          (fun s t h => by
            simp only [infoWalkerBones, Except.ok.injEq] at h
            subst h
            show OStream.format (List.foldl _ _ _) = _
            rw [foldl_format _ (fun i a => by
              simp only [apply_ite OStream.format, endl_format, put_format, putNat_format,
                putFloat_format, putDouble_format, putTriple_format, putBool_format, putChar_format,
                ite_self])]
            simp only [apply_ite OStream.format, endl_format, put_format, putNat_format,
              putFloat_format, putDouble_format, putTriple_format, putBool_format, putChar_format,
              ite_self]) d t1 hl
      split at h <;> (simp only [Except.ok.injEq] at h; subst h; exact e1)
  · simp only [Except.ok.injEq] at h
    subst h
    rfl
  · simp only [Except.ok.injEq] at h
    subst h
    rfl

theorem putCollisionRow_format (P : Platform) (Frame : CarlaRecorderFrame)
    (Collision : CarlaRecorderCollision) (Type1 Type2 : Char) (Info : OStream)
    (Actors : List (Nat × ReplayerActorInfo)) :
    (putCollisionRow P Frame Collision Type1 Type2 Info Actors).1.format = (true, 0) := rfl

theorem append_ne_empty (rows row : String) (h : row ≠ "") : rows ++ row ≠ "" := by
  intro e
  have hl := congrArg String.length e
  rw [String.length_append] at hl
  apply h
  apply String.ext
  have h0 : "".length = 0 := rfl
  have : row.data.length = 0 := by
    have : row.length = 0 := by omega
    exact this
  exact List.length_eq_zero.1 this

theorem collisionRecord_rows (P : Platform) (Category1 Category2 : Char) (B0 : String)
    (s t : CollisionsState)
    (hi : ∃ rows, s.Info.buf = B0 ++ rows ∧
      ((rows = "" ∧ s.Info.format = (false, 6)) ∨ (rows ≠ "" ∧ s.Info.format = (true, 0))))
    (h : collisionRecord P Category1 Category2 s = .ok t) :
    ∃ rows, t.Info.buf = B0 ++ rows ∧
      ((rows = "" ∧ t.Info.format = (false, 6)) ∨ (rows ≠ "" ∧ t.Info.format = (true, 0))) := by
  obtain ⟨T1, A1, T2, A2, h1, h2⟩ := collisionRecord_ok P Category1 Category2 s t h
  rw [collisionRecord_eq P Category1 Category2 s T1 T2 A1 A2 h1 h2] at h
  split at h
  · simp only [Except.ok.injEq] at h
    subst h
    by_cases ho : (s.record.DatabaseId1, s.record.DatabaseId2) ∉ s.oldCollisions
    · simp only [if_pos ho]
      obtain ⟨rows, hb, _⟩ := hi
      refine ⟨rows ++ collisionRowText P s.self.Frame.Elapsed T1 T2 s.record.DatabaseId1
        (mapIndex ReplayerActorInfo.init A2 s.record.DatabaseId1).1.Id s.record.DatabaseId2
        (mapIndex ReplayerActorInfo.init
          (mapIndex ReplayerActorInfo.init A2 s.record.DatabaseId1).2
          s.record.DatabaseId2).1.Id, ?_, Or.inr ⟨?_, ?_⟩⟩
      · rw [putCollisionRow_buf, hb, String.append_assoc]
      · exact append_ne_empty _ _ (collisionRowText_ne _ _ _ _ _ _ _ _)
      · exact putCollisionRow_format _ _ _ _ _ _ _
    · simp only [if_neg ho]
      exact hi
  · simp only [Except.ok.injEq] at h
    subst h
    exact hi

theorem collisionsPacket_rows (P : Platform) (Category1 Category2 : Char) (B0 : String)
    (s t : CollisionsState)
    (hi : ∃ rows, s.Info.buf = B0 ++ rows ∧
      ((rows = "" ∧ s.Info.format = (false, 6)) ∨ (rows ≠ "" ∧ s.Info.format = (true, 0))))
    (h : collisionsPacket P Category1 Category2 s = .ok t) :
    ∃ rows, t.Info.buf = B0 ++ rows ∧
      ((rows = "" ∧ t.Info.format = (false, 6)) ∨ (rows ≠ "" ∧ t.Info.format = (true, 0))) := by
  have hrt : ∃ rows, s.readTotal.Info.buf = B0 ++ rows ∧
      ((rows = "" ∧ s.readTotal.Info.format = (false, 6)) ∨
        (rows ≠ "" ∧ s.readTotal.Info.format = (true, 0))) := hi
  unfold collisionsPacket at h
  split at h
  · simp only [Except.ok.injEq] at h; subst h; exact hi
  · exact forTotal_inv (fun u : CollisionsState => ∃ rows, u.Info.buf = B0 ++ rows ∧
        ((rows = "" ∧ u.Info.format = (false, 6)) ∨ (rows ≠ "" ∧ u.Info.format = (true, 0))))
      (fun s t hi h => by
        simp only [collisionsEventAdd, Except.ok.injEq] at h; subst h; exact hi)
      _ _ _ hrt h
  · exact forTotal_inv (fun u : CollisionsState => ∃ rows, u.Info.buf = B0 ++ rows ∧
        ((rows = "" ∧ u.Info.format = (false, 6)) ∨ (rows ≠ "" ∧ u.Info.format = (true, 0))))
      (fun s t hi h => by
        simp only [collisionsEventDel, Except.ok.injEq] at h; subst h; exact hi)
      _ _ _ hrt h
  all_goals first
    | exact forTotal_inv (fun u : CollisionsState => ∃ rows, u.Info.buf = B0 ++ rows ∧
        ((rows = "" ∧ u.Info.format = (false, 6)) ∨ (rows ≠ "" ∧ u.Info.format = (true, 0))))
        (fun s t hi h => collisionRecord_rows P Category1 Category2 B0 s t hi h) _ _ _ hrt h
    | (simp only [Except.ok.injEq] at h; subst h; exact hi)

/-- The trailer of each query on a file that opens with a valid magic, in the format the
stream has when it is written.  `QueryInfo` and `QueryBlocked` never change the format of
`Info`, so their report ends with the trailer in the default format.  `QueryCollisions`
prints its rows on `Info` with `std::fixed` and precision 0: its trailer is in the default
format when no row was printed and has no decimals in "Duration" after a row. -/
theorem trailer_format_of_each_query (P : Platform) (C : PhysicsCodec) (A : BlockedArith)
    (fs : String → Option (List Nat)) (self : CarlaRecorderQuery) (Filename : String)
    (bShowAll : Bool) (Category1 Category2 : Char) (MinTime MinDistance : Nat)
    (hC : C.Local) (hv : validRecording P fs self Filename) :
    (faultOf (QueryInfo P C fs self Filename bShowAll) = some Fault.undefinedBehaviour ∨
      ∃ body,
        (QueryInfo P C fs self Filename bShowAll).toOption.map (fun r => r.1) =
          some (body ++ trailerText P false 6
            (lastFrameRead P (packetTrace (infoPacket P C bShowAll)
              (loopFuel (infoStart P fs self Filename)) (infoStart P fs self Filename))
              self.Frame))) ∧
    (faultOf (QueryCollisions P fs self Filename Category1 Category2)
        = some Fault.undefinedBehaviour ∨
      (QueryCollisions P fs self Filename Category1 Category2).toOption.map (fun r => r.1) =
        some (fileHeaderBlock P (self.afterHeader P fs Filename).RecInfo ++ collisionsColumns
          ++ trailerText P false 6
            (lastFrameRead P (packetTrace (collisionsPacket P Category1 Category2)
              (loopFuel (collisionsStart P fs self Filename))
              (collisionsStart P fs self Filename)) self.Frame)) ∨
      ∃ rows, rows ≠ "" ∧
        (QueryCollisions P fs self Filename Category1 Category2).toOption.map (fun r => r.1) =
          some (fileHeaderBlock P (self.afterHeader P fs Filename).RecInfo ++ collisionsColumns
            ++ rows ++ trailerText P true 0
              (lastFrameRead P (packetTrace (collisionsPacket P Category1 Category2)
                (loopFuel (collisionsStart P fs self Filename))
                (collisionsStart P fs self Filename)) self.Frame))) ∧
    (faultOf (QueryBlocked P A fs self Filename MinTime MinDistance)
        = some Fault.undefinedBehaviour ∨
      ∃ body,
        (QueryBlocked P A fs self Filename MinTime MinDistance).toOption.map (fun r => r.1) =
          some (body ++ trailerText P false 6
            (lastFrameRead P (packetTrace (blockedPacket P A MinTime MinDistance)
              (loopFuel (blockedStart P fs self Filename))
              (blockedStart P fs self Filename)) self.Frame))) := by
  refine ⟨?_, ?_, ?_⟩
  · rw [QueryInfo_valid P C fs self Filename bShowAll hv]
    rcases packetLoop_outcome (infoPacket_local P C hC bShowAll) (infoPacket_ubOnly P C bShowAll)
      (infoStart P fs self Filename) with h | ⟨t, h⟩
    · left; rw [h]; rfl
    · right
      have hf := packetLoop_frame P (infoPacket_frame P C bShowAll) _ _ _ h
      have hfmt := packetLoop_inv
        (fun s : InfoState => s.Info.format = (false, 6))
        (fun s hi => hi)
        (fun s t hi hp => (infoPacket_format P C bShowAll s t hp).trans hi)
        _ (infoStart P fs self Filename) t rfl h
      have h1 : t.Info.fixed = false := congrArg Prod.fst hfmt
      have h2 : t.Info.precision = 6 := congrArg Prod.snd hfmt
      rw [h]
      refine ⟨t.Info.buf, ?_⟩
      simp only [Except.toOption, Option.map_some', putTrailer_buf, h1, h2]
      rw [← afterHeader_Frame P fs self Filename]
      exact congrArg (fun F => some (t.Info.buf ++ trailerText P false 6 F)) hf
  · rw [QueryCollisions_valid P fs self Filename Category1 Category2 hv]
    rcases packetLoop_outcome (collisionsPacket_local P Category1 Category2)
      (collisionsPacket_ubOnly P Category1 Category2)
      (collisionsStart P fs self Filename) with h | ⟨t, h⟩
    · left; rw [h]; rfl
    · right
      have hf : t.self.Frame = lastFrameRead P
          (packetTrace (collisionsPacket P Category1 Category2)
            (loopFuel (collisionsStart P fs self Filename))
            (collisionsStart P fs self Filename)) self.Frame := by
        have := packetLoop_frame P (collisionsPacket_frame P Category1 Category2) _ _ _ h
        rw [← afterHeader_Frame P fs self Filename]
        exact this
      have hI : (collisionsStart P fs self Filename).Info =
          { OStream.init with
            buf := fileHeaderBlock P (self.afterHeader P fs Filename).RecInfo
              ++ collisionsColumns,
            leftAdjust := true } := by
        simp only [collisionsStart]
        rw [putCollisionsHeader_eq _ rfl]
      obtain ⟨rows, hb, hcase⟩ := packetLoop_inv
        (fun s : CollisionsState => ∃ rows,
          s.Info.buf = (fileHeaderBlock P (self.afterHeader P fs Filename).RecInfo
            ++ collisionsColumns) ++ rows ∧
          ((rows = "" ∧ s.Info.format = (false, 6)) ∨
            (rows ≠ "" ∧ s.Info.format = (true, 0))))
        (fun s hi => hi)
        (fun s t hi hp => collisionsPacket_rows P Category1 Category2 _ s t hi hp)
        _ (collisionsStart P fs self Filename) t
        ⟨"", by rw [hI]; simp only [String.append_empty], Or.inl ⟨rfl, by rw [hI]; rfl⟩⟩ h
      rw [h]
      simp only [Except.toOption, Option.map_some', putTrailer_buf, hb, hf]
      rcases hcase with ⟨hr, hfmt⟩ | ⟨hr, hfmt⟩
      · left
        have h1 : t.Info.fixed = false := congrArg Prod.fst hfmt
        have h2 : t.Info.precision = 6 := congrArg Prod.snd hfmt
        rw [h1, h2, hr, String.append_empty]
      · right
        have h1 : t.Info.fixed = true := congrArg Prod.fst hfmt
        have h2 : t.Info.precision = 0 := congrArg Prod.snd hfmt
        exact ⟨rows, hr, by rw [h1, h2]⟩
  · rw [QueryBlocked_valid P A fs self Filename MinTime MinDistance hv]
    rcases packetLoop_outcome (blockedPacket_local P A MinTime MinDistance)
      (blockedPacket_ubOnly P A MinTime MinDistance)
      (blockedStart P fs self Filename) with h | ⟨t, h⟩
    · left; rw [h]; rfl
    · right
      have hf : t.self.Frame = lastFrameRead P
          (packetTrace (blockedPacket P A MinTime MinDistance)
            (loopFuel (blockedStart P fs self Filename)) (blockedStart P fs self Filename))
          self.Frame := by
        have := packetLoop_frame P (blockedPacket_frame P A MinTime MinDistance) _ _ _ h
        rw [← afterHeader_Frame P fs self Filename]
        exact this
      have hI : (blockedStart P fs self Filename).Info =
          { OStream.init with
            buf := fileHeaderBlock P (self.afterHeader P fs Filename).RecInfo
              ++ blockedColumns } := by
        simp only [blockedStart]
        rw [putBlockedHeader_eq _ rfl]
      have hinv := packetLoop_inv
        (fun s : BlockedState => s.Info = (blockedStart P fs self Filename).Info
          ∧ rowsSorted s.Results)
        (fun s hi => hi)
        (blockedPacket_rows P A MinTime MinDistance _) _ _ t
        ⟨rfl, List.Pairwise.nil, fun a ha => by cases ha⟩ h
      rw [h]
      refine ⟨fileHeaderBlock P (self.afterHeader P fs Filename).RecInfo ++ blockedColumns
        ++ String.join ((blockedFlush P MinTime t.Actors t.Results).map (fun r => r.2)), ?_⟩
      simp only [Except.toOption, Option.map_some', putTrailer_buf, putResults_eq, hinv.1, hI,
        hf, OStream.init]

/-- C19, the code at a failing input.  Scenario S2 of the specification opens and has a
valid magic, and the last `FrameStart` packet `QueryCollisions` reads from it has Id 3 and
the elapsed time 0.1, so the trailer of the claim is "Frames: 3" and
"Duration: 0.1 seconds".  `QueryCollisions` with the filter ('a', 'a') prints one row and
then writes "Duration: 0 seconds": the row sets `std::fixed` and `std::setprecision(0)` on
`Info` and the trailer is written to the same stream.  With the filter ('w', 'w') no row
is printed and the trailer is the claimed one, as it is in the reports of `QueryInfo` and
`QueryBlocked` on the same file. -/
theorem scenario_S2_trailer_has_no_decimals :
    validRecording referencePlatform (singleFile "Saved/s.log" scenarioS2)
      CarlaRecorderQuery.zero "s" ∧
    lastFrameRead referencePlatform
        (packetTrace (collisionsPacket referencePlatform 'a' 'a')
          (loopFuel (collisionsStart referencePlatform (singleFile "Saved/s.log" scenarioS2)
            CarlaRecorderQuery.zero "s"))
          (collisionsStart referencePlatform (singleFile "Saved/s.log" scenarioS2)
            CarlaRecorderQuery.zero "s"))
        CarlaRecorderQuery.zero.Frame
      = { Id := 3, Elapsed := double_0_10, DurationThis := double_0_05 } ∧
    trailerText referencePlatform false 6
        { Id := 3, Elapsed := double_0_10, DurationThis := double_0_05 }
      = "\nFrames: 3\nDuration: 0.1 seconds\n" ∧
    (QueryCollisions referencePlatform (singleFile "Saved/s.log" scenarioS2)
        CarlaRecorderQuery.zero "s" 'a' 'a').toOption.map (fun r => r.1) =
      some ("Version: 9\nMap: Town03\nDate: 01/01/70 00:00:00\n\n" ++ collisionsColumns
        ++ "       0   o o       7                                          8                                    \n"
        ++ "\nFrames: 3\nDuration: 0 seconds\n") ∧
    (QueryCollisions referencePlatform (singleFile "Saved/s.log" scenarioS2)
        CarlaRecorderQuery.zero "s" 'w' 'w').toOption.map (fun r => r.1) =
      some ("Version: 9\nMap: Town03\nDate: 01/01/70 00:00:00\n\n" ++ collisionsColumns
        ++ "\nFrames: 3\nDuration: 0.1 seconds\n") ∧
    (QueryInfo referencePlatform PhysicsCodec.absent (singleFile "Saved/s.log" scenarioS2)
        CarlaRecorderQuery.zero "s" false).toOption.map (fun r => r.1) =
      some ("Version: 9\nMap: Town03\nDate: 01/01/70 00:00:00\n\n"
        ++ "Frame 1 at 0 seconds\n"
        ++ " Collision id 1 between 7 (hero)  with 8\n"
        ++ "Frame 2 at 0.05 seconds\n"
        ++ " Collision id 1 between 7 (hero)  with 8\n"
        ++ "\nFrames: 3\nDuration: 0.1 seconds\n") ∧
    (QueryBlocked referencePlatform referenceArith (singleFile "Saved/s.log" scenarioS2)
        CarlaRecorderQuery.zero "s" double_5 double_0_10).toOption.map (fun r => r.1) =
      some ("Version: 9\nMap: Town03\nDate: 01/01/70 00:00:00\n\n" ++ blockedColumns
        ++ "\nFrames: 3\nDuration: 0.1 seconds\n") := by
  refine ⟨⟨by decide, by decide, by decide!⟩, by decide!, by decide!, by decide!, by decide!,
    by decide!, by decide!⟩

end CarlaRecorder
